import Mathlib

/-!
# Verification of the VEPU580 H.264 encoder HAL

Shallow embedding of `mpp/hal/rkenc/h264e/hal_h264e_vepu580.c`.

Conventions of the embedding:

* `RK_S32` values are integers.  Every arithmetic result of the source that can
  leave the 32-bit signed range is reduced with `s32` (wrap-around modulo 2^32,
  the behaviour of the targets the driver is built for).
* C integer division truncates toward zero and is written `cdiv`; it is used
  directly where the divisor is a non-zero constant.  A division by a value
  computed at run time is `cdiv_checked` (signed) or `udiv_checked`
  (unsigned); it has no result for the divisor 0, and a function that executes
  such a division then has no result either (`none`).
* A register field holds the value the source assigns to it.  The bit-field
  widths are declared in `hal_h264e_vepu580_reg.h`, which is not part of the
  sources at hand, so no truncation to a field width is modelled.
* Calls into collaborators (buffer allocator, buffer pool, device) are recorded,
  in program order, in a list of `HalCall`; collaborators whose results the
  source uses are the fields of `HalEnv`.
-/

namespace Vepu580

/-! ## Machine arithmetic and the helper macros of `mpp_common.h` -/

/-- Reduction of an integer to the `RK_S32` range `[-2^31, 2^31)`. -/
def s32 (x : Int) : Int := (x + 2147483648) % 4294967296 - 2147483648

/-- C integer division, truncating toward zero. -/
def cdiv (a b : Int) : Int := Int.tdiv a b

/-- Modelled from the spec: the constant `SZ_4K` of `mpp_common.h` (the header is
not among the sources); the line-length threshold 4096. -/
def SZ_4K : Int := 4096

/-- Modelled from the spec: the constant `SZ_8K` of `mpp_common.h` (the header is
not among the sources); the 8 KiB granularity. -/
def SZ_8K : Int := 8192

/-- Modelled from the spec: the macro `MPP_ALIGN(x, a)` of `mpp_common.h` (the
header is not among the sources); it rounds `x` up to the next multiple of the
power of two `a`.  The macro computes `x + a - 1` in `RK_S32` and clears the low
bits, which on integers in complement representation is the floor to a multiple
of `a`. -/
def MPP_ALIGN (x a : Int) : Int := s32 (x + a - 1) / a * a

/-- Modelled from the spec: the macro `MPP_MAX(a, b)` of `mpp_common.h` (the
header is not among the sources); the larger of two values. -/
def MPP_MAX (a b : Int) : Int := if a > b then a else b

/-- Reduction of an integer to the `RK_U32` range `[0, 2^32)`. -/
def u32 (x : Int) : Int := x % 4294967296

/-- C remainder, which has the sign of the dividend. -/
def cmod (a b : Int) : Int := Int.tmod a b

/-- The return code `MPP_OK` of `rk_type.h`. -/
def MPP_OK : Int := 0

/-! ## Configuration -/

/-- The part of `MppEncPrepCfg` read by the embedded functions; `change` is
the `RK_U32` mask of changed items. -/
structure MppEncPrepCfg where
  change : Nat
  width : Int
  height : Int
  format : Int
  hor_stride : Int
  mirroring : Int
  rotation : Int
  deriving DecidableEq, Repr

/-- The part of `MppEncCpbInfo` read by the embedded functions. -/
structure MppEncCpbInfo where
  dpb_size : Int
  deriving DecidableEq, Repr

/-- A reference configuration (an opaque handle in the source) with the CPB
information it resolves to. -/
structure MppEncRefCfg where
  cpb_info : MppEncCpbInfo
  deriving DecidableEq, Repr

/-- Accessor of the CPB information of a reference configuration. -/
def mpp_enc_ref_cfg_get_cpb_info (ref_cfg : MppEncRefCfg) : MppEncCpbInfo :=
  ref_cfg.cpb_info

/-- The part of `MppEncHwCfg` read by the embedded functions. -/
structure MppEncHwCfg where
  qp_delta_row_i : Int
  qp_delta_row : Int
  deriving DecidableEq, Repr

/-- The slice split configuration `MppEncSliceSplit`. -/
structure MppEncSliceSplit where
  change : Int
  split_mode : Int
  split_arg : Int
  deriving DecidableEq, Repr

/-- The split mode `MPP_ENC_SPLIT_NONE` of `rk_venc_cmd.h`. -/
def MPP_ENC_SPLIT_NONE : Int := 0

/-- The split mode `MPP_ENC_SPLIT_BY_BYTE` of `rk_venc_cmd.h`. -/
def MPP_ENC_SPLIT_BY_BYTE : Int := 1

/-- The split mode `MPP_ENC_SPLIT_BY_CTU` of `rk_venc_cmd.h`. -/
def MPP_ENC_SPLIT_BY_CTU : Int := 2

/-- The part of `MppEncCfgSet` read by the embedded functions; `ref_cfg` is
`none` for a NULL handle. -/
structure MppEncCfgSet where
  prep : MppEncPrepCfg
  hw : MppEncHwCfg
  split : MppEncSliceSplit
  ref_cfg : Option MppEncRefCfg
  deriving DecidableEq, Repr

/-- One region of interest of `MppEncROICfg`. -/
structure MppEncROIRegion where
  x : Int
  y : Int
  w : Int
  h : Int
  intra : Int
  quality : Int
  qp_area_idx : Int
  area_map_en : Int
  abs_qp_en : Int
  deriving DecidableEq, Repr

/-- The region-of-interest configuration `MppEncROICfg`: the region count and
the region array (`none` for a NULL array). -/
structure MppEncROICfg where
  number : Int
  regions : Option (List MppEncROIRegion)
  deriving DecidableEq, Repr

/-- An overlay payload handed to the overlay writer. -/
structure MppEncOSDData where
  words : List Int
  deriving DecidableEq, Repr

/-- The part of `Vepu541OsdCfg` kept in the context: the two overlay payloads. -/
structure Vepu541OsdCfg where
  osd_data : Option MppEncOSDData
  osd_data2 : Option MppEncOSDData
  deriving DecidableEq, Repr

/-! ## Buffers and collaborator calls -/

/-- A buffer obtained from the allocator, with the byte size it was requested
with and its hardware handle. -/
structure MppBuffer where
  size : Int
  fd : Int
  deriving DecidableEq, Repr

/-- A buffer group handle. -/
structure MppBufferGroup where
  internal : Bool
  deriving DecidableEq, Repr

/-- Outcome of the allocation primitives during one call: whether
`mpp_buffer_group_get_internal` and `mpp_buffer_get` succeed, and the hardware
handle given to a new buffer. -/
structure MppBufferEnv where
  group_get_ok : Bool
  buffer_get_ok : Bool
  buffer_fd : Int
  deriving DecidableEq, Repr

/-- Modelled from the spec: the accessor `mpp_buffer_get_fd` of the buffer
library (not among the sources): the hardware handle of a buffer; a NULL buffer
has no handle, which is reported as -1. -/
def mpp_buffer_get_fd (buf : Option MppBuffer) : Int :=
  match buf with
  | some b => b.fd
  | none => -1

/-- Modelled from the spec: the accessor `mpp_buffer_get_size` of the buffer
library (not among the sources): the byte size of a buffer, 0 for a NULL
buffer. -/
def mpp_buffer_get_size (buf : Option MppBuffer) : Int :=
  match buf with
  | some b => b.size
  | none => 0

/-- A slot of the reconstruction pool (`HalBuf`): its reference count and its
buffers (pixel buffer first, thumbnail buffer second). -/
structure HalBuf where
  cnt : Int
  buf : List (Option MppBuffer)
  deriving DecidableEq, Repr

/-- The members of the register image `HalVepu580RegSet` that are handed to
the device by address. -/
inductive Vepu580Block where
  | reg_ctl
  | reg_base
  | reg_rc_klut
  | reg_s3
  | reg_rdo
  | reg_osd
  | reg_st
  deriving DecidableEq, Repr

/-- The block offsets of `hal_h264e_vepu580_reg.h`.  The header is not among
the sources, so an offset is kept as the name of its macro. -/
inductive Vepu580Offset where
  | VEPU580_CONTROL_CFG_OFFSET
  | VEPU580_BASE_CFG_OFFSET
  | VEPU580_RC_KLUT_CFG_OFFSET
  | VEPU580_SECTION_3_OFFSET
  | VEPU580_RDO_CFG_OFFSET
  | VEPU580_OSD_OFFSET
  | VEPU580_STATUS_OFFSET
  deriving DecidableEq, Repr

/-- Calls issued to the collaborators, in program order.  The last four are the
requests `MPP_DEV_REG_WR`, `MPP_DEV_REG_RD`, `MPP_DEV_CMD_SEND` and
`MPP_DEV_CMD_POLL` of `mpp_dev_ioctl`; a write or read request names the block
of the register image and its offset (the size is the size of the block). -/
inductive HalCall where
  | mpp_buffer_group_get_internal
  | mpp_buffer_put (buf : MppBuffer)
  | mpp_buffer_group_clear
  | mpp_buffer_group_put
  | mpp_buffer_get (size : Int)
  | mpp_assert_failed
  | hal_bufs_setup (max_cnt : Int) (size_cnt : Int) (sizes : List Int)
  | hal_bufs_get_buf (buf_idx : Int)
  | mpp_dev_reg_offset (reg_idx : Int) (offset : Int)
  | vepu541_set_roi (buf : Option MppBuffer) (roi : MppEncROICfg) (w : Int) (h : Int)
  | vepu580_set_osd (osd_cfg : Vepu541OsdCfg)
  | mpp_dev_reg_wr (reg : Vepu580Block) (offset : Vepu580Offset)
  | mpp_dev_reg_rd (reg : Vepu580Block) (offset : Vepu580Offset)
  | mpp_dev_cmd_send
  | mpp_dev_cmd_poll
  deriving DecidableEq, Repr

/-! ## Syntax structures -/

/-- The fields of `H264eSps` read by the embedded functions. -/
structure H264eSps where
  profile_idc : Int
  level_idc : Int
  log2_max_frame_num_minus4 : Int
  direct8x8_inference : Int
  log2_max_poc_lsb_minus4 : Int
  pic_width_in_mbs : Int
  pic_height_in_mbs : Int
  deriving DecidableEq, Repr

/-- The fields of `H264ePps` read by the embedded functions. -/
structure H264ePps where
  entropy_coding_mode : Int
  transform_8x8_mode : Int
  constrained_intra_pred : Int
  num_ref_idx_l0_default_active : Int
  num_ref_idx_l1_default_active : Int
  pic_init_qp : Int
  chroma_qp_index_offset : Int
  second_chroma_qp_index_offset : Int
  weighted_pred : Int
  deblocking_filter_control : Int
  pic_scaling_matrix_present : Int
  deriving DecidableEq, Repr

/-- A reference picture list modification operation (`H264eRplmo`). -/
structure H264eRplmo where
  modification_of_pic_nums_idc : Int
  abs_diff_pic_num_minus1 : Int
  long_term_pic_idx : Int
  deriving DecidableEq, Repr

/-- A memory management control operation (`H264eMmco`). -/
structure H264eMmco where
  mmco : Int
  difference_of_pic_nums_minus1 : Int
  long_term_pic_num : Int
  long_term_frame_idx : Int
  max_long_term_frame_idx_plus1 : Int
  deriving DecidableEq, Repr

/-- Modelled from the spec: the reorder queue `H264eReorderInfo`, declared in
`h264e_slice.h` (not among the sources): the written operations and a read
cursor. -/
structure H264eReorderInfo where
  ops : List H264eRplmo
  rd_cnt : Nat
  deriving DecidableEq, Repr

/-- Modelled from the spec: the marking queue `H264eMarkingInfo`, declared in
`h264e_slice.h` (not among the sources): the written operations and a read
cursor. -/
structure H264eMarkingInfo where
  ops : List H264eMmco
  rd_cnt : Nat
  deriving DecidableEq, Repr

/-- Modelled from the spec: `h264e_reorder_rd_rewind` of `h264e_slice.c` (not
among the sources); rewinds the read cursor to the start. -/
def h264e_reorder_rd_rewind (info : H264eReorderInfo) : H264eReorderInfo :=
  { info with rd_cnt := 0 }

/-- Modelled from the spec: `h264e_reorder_rd_op` of `h264e_slice.c` (not among
the sources); pops the operation under the read cursor, or fails when the
cursor is at the end. -/
def h264e_reorder_rd_op (info : H264eReorderInfo) : Option H264eRplmo × H264eReorderInfo :=
  match info.ops[info.rd_cnt]? with
  | some op => (some op, { info with rd_cnt := info.rd_cnt + 1 })
  | none => (none, info)

/-- Modelled from the spec: `h264e_marking_rd_rewind` of `h264e_slice.c` (not
among the sources); rewinds the read cursor to the start. -/
def h264e_marking_rd_rewind (info : H264eMarkingInfo) : H264eMarkingInfo :=
  { info with rd_cnt := 0 }

/-- Modelled from the spec: `h264e_marking_is_empty` of `h264e_slice.c` (not
among the sources); whether the read cursor has no operation left. -/
def h264e_marking_is_empty (info : H264eMarkingInfo) : Bool :=
  decide (info.ops.length ≤ info.rd_cnt)

/-- Modelled from the spec: `h264e_marking_rd_op` of `h264e_slice.c` (not among
the sources); pops the operation under the read cursor, or fails when the
cursor is at the end. -/
def h264e_marking_rd_op (info : H264eMarkingInfo) : Option H264eMmco × H264eMarkingInfo :=
  match info.ops[info.rd_cnt]? with
  | some op => (some op, { info with rd_cnt := info.rd_cnt + 1 })
  | none => (none, info)

/-- The slice type code `H264_I_SLICE` of `h264_syntax.h` (the H.264
`slice_type` numbering: P = 0, B = 1, I = 2). -/
def H264_I_SLICE : Int := 2

/-- The profile code `H264_PROFILE_BASELINE` of `h264_syntax.h`. -/
def H264_PROFILE_BASELINE : Int := 66

/-- The profile code `H264_PROFILE_MAIN` of `h264_syntax.h`. -/
def H264_PROFILE_MAIN : Int := 77

/-- The level code `H264_LEVEL_1_0` of `h264_syntax.h`. -/
def H264_LEVEL_1_0 : Int := 10

/-- The level code `H264_LEVEL_1_b` of `h264_syntax.h`. -/
def H264_LEVEL_1_b : Int := 99

/-- The level code `H264_LEVEL_1_1` of `h264_syntax.h`. -/
def H264_LEVEL_1_1 : Int := 11

/-- The level code `H264_LEVEL_1_2` of `h264_syntax.h`. -/
def H264_LEVEL_1_2 : Int := 12

/-- The level code `H264_LEVEL_1_3` of `h264_syntax.h`. -/
def H264_LEVEL_1_3 : Int := 13

/-- The level code `H264_LEVEL_2_0` of `h264_syntax.h`. -/
def H264_LEVEL_2_0 : Int := 20

/-- The level code `H264_LEVEL_3_0` of `h264_syntax.h`. -/
def H264_LEVEL_3_0 : Int := 30

/-- The fields of `H264eSlice` read by the embedded functions. -/
structure H264eSlice where
  nal_reference_idc : Int
  nalu_type : Int
  slice_type : Int
  pic_parameter_set_id : Int
  num_ref_idx_override : Int
  cabac_init_idc : Int
  frame_num : Int
  idr_pic_id : Int
  pic_order_cnt_lsb : Int
  disable_deblocking_filter_idc : Int
  slice_alpha_c0_offset_div2 : Int
  no_output_of_prior_pics : Int
  long_term_reference_flag : Int
  reorder : H264eReorderInfo
  marking : H264eMarkingInfo
  deriving DecidableEq, Repr

/-- The fields of `H264eFrmInfo` read by the embedded functions. -/
structure H264eFrmInfo where
  seq_idx : Int
  curr_idx : Int
  refr_idx : Int
  deriving DecidableEq, Repr

/-! ## Frame, packet and task -/

/-- The rate-control record of a task (`EncRcTaskInfo`): the targets read by the
register synthesis and the results written by `hal_h264e_vepu580_ret_task`,
all `RK_S32`. -/
structure EncRcTaskInfo where
  bit_target : Int
  quality_target : Int
  quality_min : Int
  quality_max : Int
  bit_real : Int
  quality_real : Int
  madi : Int
  madp : Int
  iblk4_prop : Int
  deriving DecidableEq, Repr

/-- The part of `EncFrmStatus` read by the embedded functions. -/
structure EncFrmStatus where
  reencode : Int
  deriving DecidableEq, Repr

/-- The rate-control task `EncRcTask`. -/
structure EncRcTask where
  frm : EncFrmStatus
  info : EncRcTaskInfo
  deriving DecidableEq, Repr

/-- The entries of the frame meta data read by `hal_h264e_vepu580_get_task`:
the pointers stored under `KEY_ROI_DATA`, `KEY_OSD_DATA` and `KEY_OSD_DATA2`,
`none` for a key that is not set. -/
structure MppMeta where
  roi_data : Option MppEncROICfg
  osd_data : Option MppEncOSDData
  osd_data2 : Option MppEncOSDData
  deriving DecidableEq, Repr

/-- The properties of the input frame read through the `mpp_frame_get_*`
accessors. -/
structure MppFrame where
  fmt : Int
  hor_stride : Int
  ver_stride : Int
  offset_x : Int
  offset_y : Int
  fbc_offset : Int
  buffer : Option MppBuffer
  meta : Option MppMeta
  deriving DecidableEq, Repr

/-- The output packet: the length already in use. -/
structure MppPacket where
  length : Int
  deriving DecidableEq, Repr

/-- The prefix NAL syntax `H264ePrefixNal`.  No embedded function reads its
fields, so it is kept as an opaque handle. -/
structure H264ePrefixNal where
  handle : Int
  deriving DecidableEq, Repr

/-- A syntax descriptor `H264eSyntaxDesc`: the tag `type` and the payload `p`
it points to.  The payload of a recognised tag has the structure the tag
announces; `other k` is a descriptor with the unrecognised tag `6 + k`, whose
payload is never read.  The tags are the values of the enumeration
`H264eSyntaxType` of `h264e_syntax.h`, which are not negative. -/
inductive H264eSyntaxDesc where
  | cfg (p : MppEncCfgSet)
  | sps (p : H264eSps)
  | pps (p : H264ePps)
  | slice (p : H264eSlice)
  | frame (p : H264eFrmInfo)
  | prefix_nal (p : H264ePrefixNal)
  | other (k : Nat)
  deriving DecidableEq, Repr

/-- Modelled from the spec: the tag `H264E_SYN_CFG` of `h264e_syntax.h` (the
header is not among the sources). -/
def H264E_SYN_CFG : Nat := 0

/-- Modelled from the spec: the tag `H264E_SYN_SPS` of `h264e_syntax.h`. -/
def H264E_SYN_SPS : Nat := 1

/-- Modelled from the spec: the tag `H264E_SYN_PPS` of `h264e_syntax.h`. -/
def H264E_SYN_PPS : Nat := 2

/-- Modelled from the spec: the tag `H264E_SYN_SLICE` of `h264e_syntax.h`. -/
def H264E_SYN_SLICE : Nat := 3

/-- Modelled from the spec: the tag `H264E_SYN_FRAME` of `h264e_syntax.h`. -/
def H264E_SYN_FRAME : Nat := 4

/-- Modelled from the spec: the tag `H264E_SYN_PREFIX` of `h264e_syntax.h`. -/
def H264E_SYN_PREFIX : Nat := 5

/-- The tag `desc->type` of a descriptor. -/
def H264eSyntaxDesc.type (desc : H264eSyntaxDesc) : Nat :=
  match desc with
  | .cfg _ => H264E_SYN_CFG
  | .sps _ => H264E_SYN_SPS
  | .pps _ => H264E_SYN_PPS
  | .slice _ => H264E_SYN_SLICE
  | .frame _ => H264E_SYN_FRAME
  | .prefix_nal _ => H264E_SYN_PREFIX
  | .other k => 6 + k

/-- Modelled from the spec: the macro `SYN_TYPE_FLAG(type)` of `h264e_syntax.h`
(the header is not among the sources), `1 << type`, as an `RK_U32` value. -/
def SYN_TYPE_FLAG (type : Nat) : Nat := (1 <<< type) % 4294967296

/-- The syntax package `MppSyntax` of a task: the descriptor count `number` and
the descriptor array `data`. -/
structure MppSyntax where
  number : Int
  data : List H264eSyntaxDesc
  deriving DecidableEq, Repr

/-- The result record `hal_ret` of a task: the record count and the record
`data` points to (`none` for a NULL pointer). -/
structure HalTaskRet where
  data : Option EncRcTaskInfo
  number : Int
  deriving DecidableEq, Repr

/-- The part of `HalEncTask` used by the embedded functions; `syn` is the
member `syntax`, and `length` and `hw_length` are `RK_U32`. -/
structure HalEncTask where
  syn : MppSyntax
  frame : MppFrame
  packet : MppPacket
  output : Option MppBuffer
  mv_info : Option MppBuffer
  rc_task : EncRcTask
  hal_ret : HalTaskRet
  length : Int
  hw_length : Int
  deriving DecidableEq, Repr

/-- The format description `VepuFmtCfg` filled by `vepu541_set_fmt`. -/
structure VepuFmtCfg where
  format : Int
  alpha_swap : Int
  rbuv_swap : Int
  src_range : Int
  src_endian : Int
  weight : List Int
  offset : List Int
  deriving DecidableEq, Repr

/-- The hardware format code `VEPU541_FMT_BGRA8888` of `vepu541_common.h`. -/
def VEPU541_FMT_BGRA8888 : Int := 0

/-- The hardware format code `VEPU541_FMT_BGR888` of `vepu541_common.h`. -/
def VEPU541_FMT_BGR888 : Int := 1

/-- The hardware format code `VEPU541_FMT_BGR565` of `vepu541_common.h`. -/
def VEPU541_FMT_BGR565 : Int := 2

/-- The hardware format code `VEPU541_FMT_NONE` of `vepu541_common.h`. -/
def VEPU541_FMT_NONE : Int := 3

/-- The hardware format code `VEPU541_FMT_YUV422SP` of `vepu541_common.h`. -/
def VEPU541_FMT_YUV422SP : Int := 4

/-- The hardware format code `VEPU541_FMT_YUV422P` of `vepu541_common.h`. -/
def VEPU541_FMT_YUV422P : Int := 5

/-- The hardware format code `VEPU541_FMT_YUV420SP` of `vepu541_common.h`. -/
def VEPU541_FMT_YUV420SP : Int := 6

/-- The hardware format code `VEPU541_FMT_YUV420P` of `vepu541_common.h`. -/
def VEPU541_FMT_YUV420P : Int := 7

/-- The hardware format code `VEPU541_FMT_YUYV422` of `vepu541_common.h`. -/
def VEPU541_FMT_YUYV422 : Int := 8

/-- The hardware format code `VEPU541_FMT_UYVY422` of `vepu541_common.h`. -/
def VEPU541_FMT_UYVY422 : Int := 9

/-! ## Register image -/

structure Ctl_enc_strt where
  lkt_num : Int
  vepu_cmd : Int
  deriving DecidableEq

structure Ctl_func_en where
  cke : Int
  resetn_hw_en : Int
  enc_done_tmvp_en : Int
  deriving DecidableEq

structure Ctl_enc_clr where
  safe_clr : Int
  force_clr : Int
  deriving DecidableEq

structure Ctl_int_en where
  enc_done_en : Int
  lkt_node_done_en : Int
  sclr_done_en : Int
  slc_done_en : Int
  bsf_oflw_en : Int
  brsp_otsd_en : Int
  wbus_err_en : Int
  rbus_err_en : Int
  wdg_en : Int
  deriving DecidableEq

structure Ctl_int_msk where
  enc_done_msk : Int
  lkt_node_done_msk : Int
  sclr_done_msk : Int
  slc_done_msk : Int
  bsf_oflw_msk : Int
  brsp_otsd_msk : Int
  wbus_err_msk : Int
  rbus_err_msk : Int
  wdg_msk : Int
  deriving DecidableEq

structure Ctl_int_sta where
  enc_done_sta : Int
  lkt_node_done_sta : Int
  sclr_done_sta : Int
  slc_done_sta : Int
  bsf_oflw_sta : Int
  brsp_otsd_sta : Int
  wbus_err_sta : Int
  rbus_err_sta : Int
  wdg_sta : Int
  deriving DecidableEq

structure Ctl_enc_wdg where
  vs_load_thd : Int
  rfp_load_thd : Int
  deriving DecidableEq

structure Ctl_dtrns_map where
  cmvw_bus_ordr : Int
  dspw_bus_ordr : Int
  rfpw_bus_ordr : Int
  src_bus_edin : Int
  meiw_bus_edin : Int
  bsw_bus_edin : Int
  lktr_bus_edin : Int
  roir_bus_edin : Int
  lktw_bus_edin : Int
  afbc_bsize : Int
  deriving DecidableEq

structure Ctl_dtrns_cfg where
  axi_brsp_cke : Int
  dspr_otsd : Int
  deriving DecidableEq

/-- The registers of the control block (`reg_ctl`) written or read by the
embedded functions. -/
structure Vepu580ControlCfg where
  enc_strt : Ctl_enc_strt
  func_en : Ctl_func_en
  enc_clr : Ctl_enc_clr
  int_en : Ctl_int_en
  int_msk : Ctl_int_msk
  int_sta : Ctl_int_sta
  enc_wdg : Ctl_enc_wdg
  dtrns_map : Ctl_dtrns_map
  dtrns_cfg : Ctl_dtrns_cfg
  deriving DecidableEq

structure Reg_enc_pic where
  enc_stnd : Int
  cur_frm_ref : Int
  bs_scp : Int
  pic_qp : Int
  roi_en : Int
  slen_fifo : Int
  deriving DecidableEq

structure Reg_enc_rsl where
  pic_wd8_m1 : Int
  pic_hd8_m1 : Int
  deriving DecidableEq

structure Reg_src_fill where
  pic_wfill : Int
  pic_hfill : Int
  deriving DecidableEq

structure Reg_src_fmt where
  src_cfmt : Int
  alpha_swap : Int
  rbuv_swap : Int
  src_range : Int
  out_fmt : Int
  deriving DecidableEq

structure Reg_src_udfy where
  csc_wgt_b2y : Int
  csc_wgt_g2y : Int
  csc_wgt_r2y : Int
  deriving DecidableEq

structure Reg_src_udfu where
  csc_wgt_b2u : Int
  csc_wgt_g2u : Int
  csc_wgt_r2u : Int
  deriving DecidableEq

structure Reg_src_udfv where
  csc_wgt_b2v : Int
  csc_wgt_g2v : Int
  csc_wgt_r2v : Int
  deriving DecidableEq

structure Reg_src_udfo where
  csc_ofst_y : Int
  csc_ofst_u : Int
  csc_ofst_v : Int
  deriving DecidableEq

structure Reg_src_proc where
  afbcd_en : Int
  src_mirr : Int
  src_rot : Int
  txa_en : Int
  deriving DecidableEq

structure Reg_src_strd0 where
  src_strd0 : Int
  deriving DecidableEq

structure Reg_src_strd1 where
  src_strd1 : Int
  deriving DecidableEq

structure Reg_sli_cfg where
  sli_crs_en : Int
  deriving DecidableEq

structure Reg_pic_ofst where
  pic_ofst_y : Int
  pic_ofst_x : Int
  deriving DecidableEq

structure Reg_synt_nal where
  nal_ref_idc : Int
  nal_unit_type : Int
  deriving DecidableEq

structure Reg_synt_sps where
  max_fnum : Int
  drct_8x8 : Int
  mpoc_lm4 : Int
  deriving DecidableEq

structure Reg_synt_pps where
  etpy_mode : Int
  trns_8x8 : Int
  csip_flag : Int
  num_ref0_idx : Int
  num_ref1_idx : Int
  pic_init_qp : Int
  cb_ofst : Int
  cr_ofst : Int
  wght_pred : Int
  dbf_cp_flg : Int
  deriving DecidableEq

structure Reg_synt_sli0 where
  sli_type : Int
  pps_id : Int
  drct_smvp : Int
  num_ref_ovrd : Int
  cbc_init_idc : Int
  frm_num : Int
  deriving DecidableEq

structure Reg_synt_sli1 where
  idr_pid : Int
  poc_lsb : Int
  deriving DecidableEq

structure Reg_synt_sli2 where
  dis_dblk_idc : Int
  sli_alph_ofst : Int
  ref_list0_rodr : Int
  rodr_pic_idx : Int
  rodr_pic_num : Int
  deriving DecidableEq

structure Reg_synt_refm0 where
  nopp_flg : Int
  ltrf_flg : Int
  arpm_flg : Int
  mmco4_pre : Int
  mmco_type0 : Int
  mmco_parm0 : Int
  mmco_type1 : Int
  mmco_type2 : Int
  deriving DecidableEq

structure Reg_synt_refm1 where
  mmco_parm1 : Int
  mmco_parm2 : Int
  deriving DecidableEq

structure Reg_synt_refm2 where
  long_term_frame_idx0 : Int
  long_term_frame_idx1 : Int
  long_term_frame_idx2 : Int
  deriving DecidableEq

structure Reg_iprd_csts where
  vthd_y : Int
  vthd_c : Int
  deriving DecidableEq

structure Reg_rdo_cfg where
  rect_size : Int
  inter_4x4 : Int
  vlc_lmt : Int
  chrm_spcl : Int
  rdo_mask : Int
  ccwa_e : Int
  scl_lst_sel : Int
  atr_e : Int
  atf_intra_e : Int
  deriving DecidableEq

structure Reg_rc_cfg where
  rc_en : Int
  aq_en : Int
  aq_mode : Int
  rc_ctu_num : Int
  deriving DecidableEq

structure Reg_rc_qp where
  rc_qp_range : Int
  rc_max_qp : Int
  rc_min_qp : Int
  deriving DecidableEq

structure Reg_rc_tgt where
  ctu_ebit : Int
  deriving DecidableEq

structure Reg_sli_splt where
  sli_splt : Int
  sli_splt_mode : Int
  sli_splt_cpst : Int
  sli_max_num_m1 : Int
  sli_flsh : Int
  deriving DecidableEq

structure Reg_sli_cnum where
  sli_splt_cnum_m1 : Int
  deriving DecidableEq

structure Reg_sli_byte where
  sli_splt_byte : Int
  deriving DecidableEq

structure Reg_gmv where
  gmv_x : Int
  gmv_y : Int
  deriving DecidableEq

structure Reg_me_rnge where
  cme_srch_h : Int
  cme_srch_v : Int
  rme_srch_h : Int
  rme_srch_v : Int
  dlt_frm_num : Int
  deriving DecidableEq

structure Reg_me_cfg where
  pmv_mdst_h : Int
  pmv_mdst_v : Int
  mv_limit : Int
  pmv_num : Int
  rme_dis : Int
  fme_dis : Int
  lvl4_ovrd_en : Int
  deriving DecidableEq

structure Reg_me_cach where
  cme_linebuf_w : Int
  cme_rama_h : Int
  cme_rama_max : Int
  deriving DecidableEq

/-- The registers of the base block (`reg_base`) written by the embedded
functions. -/
structure Vepu580BaseCfg where
  enc_pic : Reg_enc_pic
  enc_rsl : Reg_enc_rsl
  src_fill : Reg_src_fill
  src_fmt : Reg_src_fmt
  src_udfy : Reg_src_udfy
  src_udfu : Reg_src_udfu
  src_udfv : Reg_src_udfv
  src_udfo : Reg_src_udfo
  src_proc : Reg_src_proc
  src_strd0 : Reg_src_strd0
  src_strd1 : Reg_src_strd1
  sli_cfg : Reg_sli_cfg
  pic_ofst : Reg_pic_ofst
  synt_nal : Reg_synt_nal
  synt_sps : Reg_synt_sps
  synt_pps : Reg_synt_pps
  synt_sli0 : Reg_synt_sli0
  synt_sli1 : Reg_synt_sli1
  synt_sli2 : Reg_synt_sli2
  synt_refm0 : Reg_synt_refm0
  synt_refm1 : Reg_synt_refm1
  synt_refm2 : Reg_synt_refm2
  iprd_csts : Reg_iprd_csts
  rdo_cfg : Reg_rdo_cfg
  rc_cfg : Reg_rc_cfg
  rc_qp : Reg_rc_qp
  rc_tgt : Reg_rc_tgt
  sli_splt : Reg_sli_splt
  sli_cnum : Reg_sli_cnum
  sli_byte : Reg_sli_byte
  gmv : Reg_gmv
  me_rnge : Reg_me_rnge
  me_cfg : Reg_me_cfg
  me_cach : Reg_me_cach
  adr_src0 : Int
  adr_src1 : Int
  adr_src2 : Int
  bsbb_addr : Int
  bsbr_addr : Int
  adr_bsbs : Int
  bsbt_addr : Int
  roi_addr : Int
  rfpw_h_addr : Int
  rfpw_b_addr : Int
  dspw_addr : Int
  rfpr_h_addr : Int
  rfpr_b_addr : Int
  dspr_addr : Int
  ebuft_addr : Int
  ebufb_addr : Int
  meiw_addr : Int
  deriving DecidableEq

structure Klut_klut_ofst where
  chrm_klut_ofst : Int
  deriving DecidableEq

structure Klut_rc_adj0 where
  qp_adj0 : Int
  qp_adj1 : Int
  qp_adj2 : Int
  qp_adj3 : Int
  qp_adj4 : Int
  deriving DecidableEq

structure Klut_rc_adj1 where
  qp_adj5 : Int
  qp_adj6 : Int
  qp_adj7 : Int
  qp_adj8 : Int
  deriving DecidableEq

structure Klut_roi_qthd0 where
  qpmin_area0 : Int
  qpmax_area0 : Int
  qpmin_area1 : Int
  qpmax_area1 : Int
  qpmin_area2 : Int
  deriving DecidableEq

structure Klut_roi_qthd1 where
  qpmax_area2 : Int
  qpmin_area3 : Int
  qpmax_area3 : Int
  qpmin_area4 : Int
  qpmax_area4 : Int
  deriving DecidableEq

structure Klut_roi_qthd2 where
  qpmin_area5 : Int
  qpmax_area5 : Int
  qpmin_area6 : Int
  qpmax_area6 : Int
  qpmin_area7 : Int
  deriving DecidableEq

structure Klut_roi_qthd3 where
  qpmax_area7 : Int
  qpmap_mode : Int
  deriving DecidableEq

structure Klut_md_sad_thd where
  md_sad_thd0 : Int
  md_sad_thd1 : Int
  md_sad_thd2 : Int
  deriving DecidableEq

structure Klut_madi_thd where
  madi_thd0 : Int
  madi_thd1 : Int
  madi_thd2 : Int
  deriving DecidableEq

structure Klut_madi_cfg where
  madi_mode : Int
  madi_thd : Int
  deriving DecidableEq

/-- The registers of the rate-control and lookup-table block (`reg_rc_klut`)
written by the embedded functions; `klut_wgt` is the table of 24 words that
starts at `klut_wgt0`. -/
structure Vepu580RcKlutCfg where
  klut_ofst : Klut_klut_ofst
  rc_adj0 : Klut_rc_adj0
  rc_adj1 : Klut_rc_adj1
  roi_qthd0 : Klut_roi_qthd0
  roi_qthd1 : Klut_roi_qthd1
  roi_qthd2 : Klut_roi_qthd2
  roi_qthd3 : Klut_roi_qthd3
  md_sad_thd : Klut_md_sad_thd
  madi_thd : Klut_madi_thd
  madi_cfg : Klut_madi_cfg
  klut_wgt : List Int
  rc_dthd_0_8 : List Int
  deriving DecidableEq

structure S3_lvl32_intra_CST_THD0 where
  lvl4_intra_cst_thd0 : Int
  lvl4_intra_cst_thd1 : Int
  deriving DecidableEq

structure S3_lvl32_intra_CST_THD1 where
  lvl4_intra_cst_thd2 : Int
  lvl4_intra_cst_thd3 : Int
  deriving DecidableEq

structure S3_lvl16_intra_CST_THD0 where
  lvl8_intra_chrm_cst_thd0 : Int
  lvl8_intra_chrm_cst_thd1 : Int
  deriving DecidableEq

structure S3_lvl16_intra_CST_THD1 where
  lvl8_intra_chrm_cst_thd2 : Int
  lvl8_intra_chrm_cst_thd3 : Int
  deriving DecidableEq

structure S3_lvl8_intra_CST_THD0 where
  lvl8_intra_cst_thd0 : Int
  lvl8_intra_cst_thd1 : Int
  deriving DecidableEq

structure S3_lvl8_intra_CST_THD1 where
  lvl8_intra_cst_thd2 : Int
  lvl8_intra_cst_thd3 : Int
  deriving DecidableEq

structure S3_lvl16_intra_UL_CST_THD where
  lvl16_intra_ul_cst_thld : Int
  deriving DecidableEq

structure S3_lvl32_intra_CST_WGT0 where
  lvl8_intra_cst_wgt0 : Int
  lvl8_intra_cst_wgt1 : Int
  lvl8_intra_cst_wgt2 : Int
  lvl8_intra_cst_wgt3 : Int
  deriving DecidableEq

structure S3_lvl32_intra_CST_WGT1 where
  lvl4_intra_cst_wgt0 : Int
  lvl4_intra_cst_wgt1 : Int
  lvl4_intra_cst_wgt2 : Int
  lvl4_intra_cst_wgt3 : Int
  deriving DecidableEq

structure S3_lvl16_intra_CST_WGT0 where
  lvl16_intra_cst_wgt0 : Int
  lvl16_intra_cst_wgt1 : Int
  lvl16_intra_cst_wgt2 : Int
  lvl16_intra_cst_wgt3 : Int
  deriving DecidableEq

structure S3_lvl16_intra_CST_WGT1 where
  lvl8_intra_chrm_cst_wgt0 : Int
  lvl8_intra_chrm_cst_wgt1 : Int
  lvl8_intra_chrm_cst_wgt2 : Int
  lvl8_intra_chrm_cst_wgt3 : Int
  deriving DecidableEq

structure S3_RDO_QUANT where
  quant_f_bias_I : Int
  quant_f_bias_P : Int
  deriving DecidableEq

structure S3_ATR_THD0 where
  atr_thd0 : Int
  atr_thd1 : Int
  deriving DecidableEq

structure S3_ATR_THD1 where
  atr_thd2 : Int
  atr_thdqp : Int
  deriving DecidableEq

structure S3_Lvl16_ATR_WGT where
  lvl16_atr_wgt0 : Int
  lvl16_atr_wgt1 : Int
  lvl16_atr_wgt2 : Int
  deriving DecidableEq

structure S3_Lvl8_ATR_WGT where
  lvl8_atr_wgt0 : Int
  lvl8_atr_wgt1 : Int
  lvl8_atr_wgt2 : Int
  deriving DecidableEq

structure S3_Lvl4_ATR_WGT where
  lvl4_atr_wgt0 : Int
  lvl4_atr_wgt1 : Int
  lvl4_atr_wgt2 : Int
  deriving DecidableEq

structure S3_cime_sqi_cfg where
  cime_sad_mod_sel : Int
  cime_sad_use_big_block : Int
  cime_pmv_set_zero : Int
  cime_pmv_num : Int
  deriving DecidableEq

structure S3_cime_sqi_thd where
  cime_mvd_th0 : Int
  cime_mvd_th1 : Int
  cime_mvd_th2 : Int
  deriving DecidableEq

structure S3_cime_sqi_multi0 where
  cime_multi0 : Int
  cime_multi1 : Int
  deriving DecidableEq

structure S3_cime_sqi_multi1 where
  cime_multi2 : Int
  cime_multi3 : Int
  deriving DecidableEq

structure S3_rime_sqi_thd where
  cime_sad_th0 : Int
  rime_mvd_th0 : Int
  rime_mvd_th1 : Int
  deriving DecidableEq

structure S3_rime_sqi_multi where
  rime_multi0 : Int
  rime_multi1 : Int
  rime_multi2 : Int
  deriving DecidableEq

structure S3_fme_sqi_thd0 where
  cime_sad_pu16_th : Int
  deriving DecidableEq

structure S3_fme_sqi_thd1 where
  move_lambda : Int
  deriving DecidableEq

/-- The registers of the extended tuning block (`reg_s3`) written by the
embedded functions. -/
structure Vepu580Section3 where
  lvl32_intra_CST_THD0 : S3_lvl32_intra_CST_THD0
  lvl32_intra_CST_THD1 : S3_lvl32_intra_CST_THD1
  lvl16_intra_CST_THD0 : S3_lvl16_intra_CST_THD0
  lvl16_intra_CST_THD1 : S3_lvl16_intra_CST_THD1
  lvl8_intra_CST_THD0 : S3_lvl8_intra_CST_THD0
  lvl8_intra_CST_THD1 : S3_lvl8_intra_CST_THD1
  lvl16_intra_UL_CST_THD : S3_lvl16_intra_UL_CST_THD
  lvl32_intra_CST_WGT0 : S3_lvl32_intra_CST_WGT0
  lvl32_intra_CST_WGT1 : S3_lvl32_intra_CST_WGT1
  lvl16_intra_CST_WGT0 : S3_lvl16_intra_CST_WGT0
  lvl16_intra_CST_WGT1 : S3_lvl16_intra_CST_WGT1
  RDO_QUANT : S3_RDO_QUANT
  ATR_THD0 : S3_ATR_THD0
  ATR_THD1 : S3_ATR_THD1
  Lvl16_ATR_WGT : S3_Lvl16_ATR_WGT
  Lvl8_ATR_WGT : S3_Lvl8_ATR_WGT
  Lvl4_ATR_WGT : S3_Lvl4_ATR_WGT
  cime_sqi_cfg : S3_cime_sqi_cfg
  cime_sqi_thd : S3_cime_sqi_thd
  cime_sqi_multi0 : S3_cime_sqi_multi0
  cime_sqi_multi1 : S3_cime_sqi_multi1
  rime_sqi_thd : S3_rime_sqi_thd
  rime_sqi_multi : S3_rime_sqi_multi
  fme_sqi_thd0 : S3_fme_sqi_thd0
  fme_sqi_thd1 : S3_fme_sqi_thd1
  rdo_wgta_qp_grpa_0_51 : List Int
  iprd_wgt_qp_hevc_0_51 : List Int
  deriving DecidableEq

structure Rdo_rdo_sqi_cfg where
  atf_pskip_en : Int
  deriving DecidableEq

structure Rdo_rdo_intra_cime_thd0 where
  atf_rdo_intra_cime_thd0 : Int
  atf_rdo_intra_cime_thd1 : Int
  deriving DecidableEq

structure Rdo_rdo_intra_cime_thd1 where
  atf_rdo_intra_cime_thd2 : Int
  deriving DecidableEq

structure Rdo_rdo_intra_var_thd0 where
  atf_rdo_intra_var_thd00 : Int
  atf_rdo_intra_var_thd01 : Int
  deriving DecidableEq

structure Rdo_rdo_intra_var_thd1 where
  atf_rdo_intra_var_thd10 : Int
  atf_rdo_intra_var_thd11 : Int
  deriving DecidableEq

structure Rdo_rdo_intra_var_thd2 where
  atf_rdo_intra_var_thd20 : Int
  atf_rdo_intra_var_thd21 : Int
  deriving DecidableEq

structure Rdo_rdo_intra_var_thd3 where
  atf_rdo_intra_var_thd30 : Int
  atf_rdo_intra_var_thd31 : Int
  deriving DecidableEq

structure Rdo_rdo_intra_atf_wgt0 where
  atf_rdo_intra_wgt00 : Int
  atf_rdo_intra_wgt01 : Int
  atf_rdo_intra_wgt02 : Int
  deriving DecidableEq

structure Rdo_rdo_intra_atf_wgt1 where
  atf_rdo_intra_wgt10 : Int
  atf_rdo_intra_wgt11 : Int
  atf_rdo_intra_wgt12 : Int
  deriving DecidableEq

structure Rdo_rdo_intra_atf_wgt2 where
  atf_rdo_intra_wgt20 : Int
  atf_rdo_intra_wgt21 : Int
  atf_rdo_intra_wgt22 : Int
  deriving DecidableEq

structure Rdo_rdo_intra_atf_wgt3 where
  atf_rdo_intra_wgt30 : Int
  atf_rdo_intra_wgt31 : Int
  atf_rdo_intra_wgt32 : Int
  deriving DecidableEq

structure Rdo_rdo_skip_cime_thd0 where
  atf_rdo_skip_cime_thd0 : Int
  atf_rdo_skip_cime_thd1 : Int
  deriving DecidableEq

structure Rdo_rdo_skip_cime_thd1 where
  atf_rdo_skip_cime_thd2 : Int
  atf_rdo_skip_cime_thd3 : Int
  deriving DecidableEq

structure Rdo_rdo_skip_var_thd0 where
  atf_rdo_skip_var_thd10 : Int
  atf_rdo_skip_var_thd11 : Int
  deriving DecidableEq

structure Rdo_rdo_skip_var_thd1 where
  atf_rdo_skip_var_thd20 : Int
  atf_rdo_skip_var_thd21 : Int
  deriving DecidableEq

structure Rdo_rdo_skip_var_thd2 where
  atf_rdo_skip_var_thd30 : Int
  atf_rdo_skip_var_thd31 : Int
  deriving DecidableEq

structure Rdo_rdo_skip_var_thd3 where
  atf_rdo_skip_var_thd40 : Int
  atf_rdo_skip_var_thd41 : Int
  deriving DecidableEq

structure Rdo_rdo_skip_atf_wgt0 where
  atf_rdo_skip_atf_wgt00 : Int
  atf_rdo_skip_atf_wgt10 : Int
  atf_rdo_skip_atf_wgt11 : Int
  atf_rdo_skip_atf_wgt12 : Int
  deriving DecidableEq

structure Rdo_rdo_skip_atf_wgt1 where
  atf_rdo_skip_atf_wgt20 : Int
  atf_rdo_skip_atf_wgt21 : Int
  atf_rdo_skip_atf_wgt22 : Int
  deriving DecidableEq

structure Rdo_rdo_skip_atf_wgt2 where
  atf_rdo_skip_atf_wgt30 : Int
  atf_rdo_skip_atf_wgt31 : Int
  atf_rdo_skip_atf_wgt32 : Int
  deriving DecidableEq

structure Rdo_rdo_skip_atf_wgt3 where
  atf_rdo_skip_atf_wgt40 : Int
  atf_rdo_skip_atf_wgt41 : Int
  atf_rdo_skip_atf_wgt42 : Int
  deriving DecidableEq

/-- The registers of the RDO tuning block (`reg_rdo`) written by the embedded
functions. -/
structure Vepu580RdoCfg where
  rdo_sqi_cfg : Rdo_rdo_sqi_cfg
  rdo_intra_cime_thd0 : Rdo_rdo_intra_cime_thd0
  rdo_intra_cime_thd1 : Rdo_rdo_intra_cime_thd1
  rdo_intra_var_thd0 : Rdo_rdo_intra_var_thd0
  rdo_intra_var_thd1 : Rdo_rdo_intra_var_thd1
  rdo_intra_var_thd2 : Rdo_rdo_intra_var_thd2
  rdo_intra_var_thd3 : Rdo_rdo_intra_var_thd3
  rdo_intra_atf_wgt0 : Rdo_rdo_intra_atf_wgt0
  rdo_intra_atf_wgt1 : Rdo_rdo_intra_atf_wgt1
  rdo_intra_atf_wgt2 : Rdo_rdo_intra_atf_wgt2
  rdo_intra_atf_wgt3 : Rdo_rdo_intra_atf_wgt3
  rdo_skip_cime_thd0 : Rdo_rdo_skip_cime_thd0
  rdo_skip_cime_thd1 : Rdo_rdo_skip_cime_thd1
  rdo_skip_var_thd0 : Rdo_rdo_skip_var_thd0
  rdo_skip_var_thd1 : Rdo_rdo_skip_var_thd1
  rdo_skip_var_thd2 : Rdo_rdo_skip_var_thd2
  rdo_skip_var_thd3 : Rdo_rdo_skip_var_thd3
  rdo_skip_atf_wgt0 : Rdo_rdo_skip_atf_wgt0
  rdo_skip_atf_wgt1 : Rdo_rdo_skip_atf_wgt1
  rdo_skip_atf_wgt2 : Rdo_rdo_skip_atf_wgt2
  rdo_skip_atf_wgt3 : Rdo_rdo_skip_atf_wgt3
  deriving DecidableEq


/-- The zeroed `reg_ctl` block. -/
def zero_reg_ctl : Vepu580ControlCfg :=
  { enc_strt := { lkt_num := 0, vepu_cmd := 0 }
    func_en := { cke := 0, resetn_hw_en := 0, enc_done_tmvp_en := 0 }
    enc_clr := { safe_clr := 0, force_clr := 0 }
    int_en :=
        { enc_done_en := 0, lkt_node_done_en := 0, sclr_done_en := 0, slc_done_en := 0,
          bsf_oflw_en := 0, brsp_otsd_en := 0, wbus_err_en := 0, rbus_err_en := 0, wdg_en := 0 }
    int_msk :=
        { enc_done_msk := 0, lkt_node_done_msk := 0, sclr_done_msk := 0, slc_done_msk := 0,
          bsf_oflw_msk := 0, brsp_otsd_msk := 0, wbus_err_msk := 0, rbus_err_msk := 0,
          wdg_msk := 0 }
    int_sta :=
        { enc_done_sta := 0, lkt_node_done_sta := 0, sclr_done_sta := 0, slc_done_sta := 0,
          bsf_oflw_sta := 0, brsp_otsd_sta := 0, wbus_err_sta := 0, rbus_err_sta := 0,
          wdg_sta := 0 }
    enc_wdg := { vs_load_thd := 0, rfp_load_thd := 0 }
    dtrns_map :=
        { cmvw_bus_ordr := 0, dspw_bus_ordr := 0, rfpw_bus_ordr := 0, src_bus_edin := 0,
          meiw_bus_edin := 0, bsw_bus_edin := 0, lktr_bus_edin := 0, roir_bus_edin := 0,
          lktw_bus_edin := 0, afbc_bsize := 0 }
    dtrns_cfg := { axi_brsp_cke := 0, dspr_otsd := 0 } }

/-- The zeroed `reg_base` block. -/
def zero_reg_base : Vepu580BaseCfg :=
  { enc_pic :=
        { enc_stnd := 0, cur_frm_ref := 0, bs_scp := 0, pic_qp := 0, roi_en := 0, slen_fifo := 0 }
    enc_rsl := { pic_wd8_m1 := 0, pic_hd8_m1 := 0 }
    src_fill := { pic_wfill := 0, pic_hfill := 0 }
    src_fmt := { src_cfmt := 0, alpha_swap := 0, rbuv_swap := 0, src_range := 0, out_fmt := 0 }
    src_udfy := { csc_wgt_b2y := 0, csc_wgt_g2y := 0, csc_wgt_r2y := 0 }
    src_udfu := { csc_wgt_b2u := 0, csc_wgt_g2u := 0, csc_wgt_r2u := 0 }
    src_udfv := { csc_wgt_b2v := 0, csc_wgt_g2v := 0, csc_wgt_r2v := 0 }
    src_udfo := { csc_ofst_y := 0, csc_ofst_u := 0, csc_ofst_v := 0 }
    src_proc := { afbcd_en := 0, src_mirr := 0, src_rot := 0, txa_en := 0 }
    src_strd0 := { src_strd0 := 0 }
    src_strd1 := { src_strd1 := 0 }
    sli_cfg := { sli_crs_en := 0 }
    pic_ofst := { pic_ofst_y := 0, pic_ofst_x := 0 }
    synt_nal := { nal_ref_idc := 0, nal_unit_type := 0 }
    synt_sps := { max_fnum := 0, drct_8x8 := 0, mpoc_lm4 := 0 }
    synt_pps :=
        { etpy_mode := 0, trns_8x8 := 0, csip_flag := 0, num_ref0_idx := 0, num_ref1_idx := 0,
          pic_init_qp := 0, cb_ofst := 0, cr_ofst := 0, wght_pred := 0, dbf_cp_flg := 0 }
    synt_sli0 :=
        { sli_type := 0, pps_id := 0, drct_smvp := 0, num_ref_ovrd := 0, cbc_init_idc := 0,
          frm_num := 0 }
    synt_sli1 := { idr_pid := 0, poc_lsb := 0 }
    synt_sli2 :=
        { dis_dblk_idc := 0, sli_alph_ofst := 0, ref_list0_rodr := 0, rodr_pic_idx := 0,
          rodr_pic_num := 0 }
    synt_refm0 :=
        { nopp_flg := 0, ltrf_flg := 0, arpm_flg := 0, mmco4_pre := 0, mmco_type0 := 0,
          mmco_parm0 := 0, mmco_type1 := 0, mmco_type2 := 0 }
    synt_refm1 := { mmco_parm1 := 0, mmco_parm2 := 0 }
    synt_refm2 :=
        { long_term_frame_idx0 := 0, long_term_frame_idx1 := 0, long_term_frame_idx2 := 0 }
    iprd_csts := { vthd_y := 0, vthd_c := 0 }
    rdo_cfg :=
        { rect_size := 0, inter_4x4 := 0, vlc_lmt := 0, chrm_spcl := 0, rdo_mask := 0, ccwa_e := 0,
          scl_lst_sel := 0, atr_e := 0, atf_intra_e := 0 }
    rc_cfg := { rc_en := 0, aq_en := 0, aq_mode := 0, rc_ctu_num := 0 }
    rc_qp := { rc_qp_range := 0, rc_max_qp := 0, rc_min_qp := 0 }
    rc_tgt := { ctu_ebit := 0 }
    sli_splt :=
        { sli_splt := 0, sli_splt_mode := 0, sli_splt_cpst := 0, sli_max_num_m1 := 0,
          sli_flsh := 0 }
    sli_cnum := { sli_splt_cnum_m1 := 0 }
    sli_byte := { sli_splt_byte := 0 }
    gmv := { gmv_x := 0, gmv_y := 0 }
    me_rnge :=
        { cme_srch_h := 0, cme_srch_v := 0, rme_srch_h := 0, rme_srch_v := 0, dlt_frm_num := 0 }
    me_cfg :=
        { pmv_mdst_h := 0, pmv_mdst_v := 0, mv_limit := 0, pmv_num := 0, rme_dis := 0,
          fme_dis := 0, lvl4_ovrd_en := 0 }
    me_cach := { cme_linebuf_w := 0, cme_rama_h := 0, cme_rama_max := 0 }
    adr_src0 := 0
    adr_src1 := 0
    adr_src2 := 0
    bsbb_addr := 0
    bsbr_addr := 0
    adr_bsbs := 0
    bsbt_addr := 0
    roi_addr := 0
    rfpw_h_addr := 0
    rfpw_b_addr := 0
    dspw_addr := 0
    rfpr_h_addr := 0
    rfpr_b_addr := 0
    dspr_addr := 0
    ebuft_addr := 0
    ebufb_addr := 0
    meiw_addr := 0 }

/-- The zeroed `reg_rc_klut` block. -/
def zero_reg_rc_klut : Vepu580RcKlutCfg :=
  { klut_ofst := { chrm_klut_ofst := 0 }
    rc_adj0 := { qp_adj0 := 0, qp_adj1 := 0, qp_adj2 := 0, qp_adj3 := 0, qp_adj4 := 0 }
    rc_adj1 := { qp_adj5 := 0, qp_adj6 := 0, qp_adj7 := 0, qp_adj8 := 0 }
    roi_qthd0 :=
        { qpmin_area0 := 0, qpmax_area0 := 0, qpmin_area1 := 0, qpmax_area1 := 0, qpmin_area2 := 0 }
    roi_qthd1 :=
        { qpmax_area2 := 0, qpmin_area3 := 0, qpmax_area3 := 0, qpmin_area4 := 0, qpmax_area4 := 0 }
    roi_qthd2 :=
        { qpmin_area5 := 0, qpmax_area5 := 0, qpmin_area6 := 0, qpmax_area6 := 0, qpmin_area7 := 0 }
    roi_qthd3 := { qpmax_area7 := 0, qpmap_mode := 0 }
    md_sad_thd := { md_sad_thd0 := 0, md_sad_thd1 := 0, md_sad_thd2 := 0 }
    madi_thd := { madi_thd0 := 0, madi_thd1 := 0, madi_thd2 := 0 }
    madi_cfg := { madi_mode := 0, madi_thd := 0 }
    klut_wgt := List.replicate 24 0
    rc_dthd_0_8 := List.replicate 9 0 }

/-- The zeroed `reg_s3` block. -/
def zero_reg_s3 : Vepu580Section3 :=
  { lvl32_intra_CST_THD0 := { lvl4_intra_cst_thd0 := 0, lvl4_intra_cst_thd1 := 0 }
    lvl32_intra_CST_THD1 := { lvl4_intra_cst_thd2 := 0, lvl4_intra_cst_thd3 := 0 }
    lvl16_intra_CST_THD0 := { lvl8_intra_chrm_cst_thd0 := 0, lvl8_intra_chrm_cst_thd1 := 0 }
    lvl16_intra_CST_THD1 := { lvl8_intra_chrm_cst_thd2 := 0, lvl8_intra_chrm_cst_thd3 := 0 }
    lvl8_intra_CST_THD0 := { lvl8_intra_cst_thd0 := 0, lvl8_intra_cst_thd1 := 0 }
    lvl8_intra_CST_THD1 := { lvl8_intra_cst_thd2 := 0, lvl8_intra_cst_thd3 := 0 }
    lvl16_intra_UL_CST_THD := { lvl16_intra_ul_cst_thld := 0 }
    lvl32_intra_CST_WGT0 :=
        { lvl8_intra_cst_wgt0 := 0, lvl8_intra_cst_wgt1 := 0, lvl8_intra_cst_wgt2 := 0,
          lvl8_intra_cst_wgt3 := 0 }
    lvl32_intra_CST_WGT1 :=
        { lvl4_intra_cst_wgt0 := 0, lvl4_intra_cst_wgt1 := 0, lvl4_intra_cst_wgt2 := 0,
          lvl4_intra_cst_wgt3 := 0 }
    lvl16_intra_CST_WGT0 :=
        { lvl16_intra_cst_wgt0 := 0, lvl16_intra_cst_wgt1 := 0, lvl16_intra_cst_wgt2 := 0,
          lvl16_intra_cst_wgt3 := 0 }
    lvl16_intra_CST_WGT1 :=
        { lvl8_intra_chrm_cst_wgt0 := 0, lvl8_intra_chrm_cst_wgt1 := 0,
          lvl8_intra_chrm_cst_wgt2 := 0, lvl8_intra_chrm_cst_wgt3 := 0 }
    RDO_QUANT := { quant_f_bias_I := 0, quant_f_bias_P := 0 }
    ATR_THD0 := { atr_thd0 := 0, atr_thd1 := 0 }
    ATR_THD1 := { atr_thd2 := 0, atr_thdqp := 0 }
    Lvl16_ATR_WGT := { lvl16_atr_wgt0 := 0, lvl16_atr_wgt1 := 0, lvl16_atr_wgt2 := 0 }
    Lvl8_ATR_WGT := { lvl8_atr_wgt0 := 0, lvl8_atr_wgt1 := 0, lvl8_atr_wgt2 := 0 }
    Lvl4_ATR_WGT := { lvl4_atr_wgt0 := 0, lvl4_atr_wgt1 := 0, lvl4_atr_wgt2 := 0 }
    cime_sqi_cfg :=
        { cime_sad_mod_sel := 0, cime_sad_use_big_block := 0, cime_pmv_set_zero := 0,
          cime_pmv_num := 0 }
    cime_sqi_thd := { cime_mvd_th0 := 0, cime_mvd_th1 := 0, cime_mvd_th2 := 0 }
    cime_sqi_multi0 := { cime_multi0 := 0, cime_multi1 := 0 }
    cime_sqi_multi1 := { cime_multi2 := 0, cime_multi3 := 0 }
    rime_sqi_thd := { cime_sad_th0 := 0, rime_mvd_th0 := 0, rime_mvd_th1 := 0 }
    rime_sqi_multi := { rime_multi0 := 0, rime_multi1 := 0, rime_multi2 := 0 }
    fme_sqi_thd0 := { cime_sad_pu16_th := 0 }
    fme_sqi_thd1 := { move_lambda := 0 }
    rdo_wgta_qp_grpa_0_51 := List.replicate 52 0
    iprd_wgt_qp_hevc_0_51 := List.replicate 52 0 }

/-- The zeroed `reg_rdo` block. -/
def zero_reg_rdo : Vepu580RdoCfg :=
  { rdo_sqi_cfg := { atf_pskip_en := 0 }
    rdo_intra_cime_thd0 := { atf_rdo_intra_cime_thd0 := 0, atf_rdo_intra_cime_thd1 := 0 }
    rdo_intra_cime_thd1 := { atf_rdo_intra_cime_thd2 := 0 }
    rdo_intra_var_thd0 := { atf_rdo_intra_var_thd00 := 0, atf_rdo_intra_var_thd01 := 0 }
    rdo_intra_var_thd1 := { atf_rdo_intra_var_thd10 := 0, atf_rdo_intra_var_thd11 := 0 }
    rdo_intra_var_thd2 := { atf_rdo_intra_var_thd20 := 0, atf_rdo_intra_var_thd21 := 0 }
    rdo_intra_var_thd3 := { atf_rdo_intra_var_thd30 := 0, atf_rdo_intra_var_thd31 := 0 }
    rdo_intra_atf_wgt0 :=
        { atf_rdo_intra_wgt00 := 0, atf_rdo_intra_wgt01 := 0, atf_rdo_intra_wgt02 := 0 }
    rdo_intra_atf_wgt1 :=
        { atf_rdo_intra_wgt10 := 0, atf_rdo_intra_wgt11 := 0, atf_rdo_intra_wgt12 := 0 }
    rdo_intra_atf_wgt2 :=
        { atf_rdo_intra_wgt20 := 0, atf_rdo_intra_wgt21 := 0, atf_rdo_intra_wgt22 := 0 }
    rdo_intra_atf_wgt3 :=
        { atf_rdo_intra_wgt30 := 0, atf_rdo_intra_wgt31 := 0, atf_rdo_intra_wgt32 := 0 }
    rdo_skip_cime_thd0 := { atf_rdo_skip_cime_thd0 := 0, atf_rdo_skip_cime_thd1 := 0 }
    rdo_skip_cime_thd1 := { atf_rdo_skip_cime_thd2 := 0, atf_rdo_skip_cime_thd3 := 0 }
    rdo_skip_var_thd0 := { atf_rdo_skip_var_thd10 := 0, atf_rdo_skip_var_thd11 := 0 }
    rdo_skip_var_thd1 := { atf_rdo_skip_var_thd20 := 0, atf_rdo_skip_var_thd21 := 0 }
    rdo_skip_var_thd2 := { atf_rdo_skip_var_thd30 := 0, atf_rdo_skip_var_thd31 := 0 }
    rdo_skip_var_thd3 := { atf_rdo_skip_var_thd40 := 0, atf_rdo_skip_var_thd41 := 0 }
    rdo_skip_atf_wgt0 :=
        { atf_rdo_skip_atf_wgt00 := 0, atf_rdo_skip_atf_wgt10 := 0, atf_rdo_skip_atf_wgt11 := 0,
          atf_rdo_skip_atf_wgt12 := 0 }
    rdo_skip_atf_wgt1 :=
        { atf_rdo_skip_atf_wgt20 := 0, atf_rdo_skip_atf_wgt21 := 0, atf_rdo_skip_atf_wgt22 := 0 }
    rdo_skip_atf_wgt2 :=
        { atf_rdo_skip_atf_wgt30 := 0, atf_rdo_skip_atf_wgt31 := 0, atf_rdo_skip_atf_wgt32 := 0 }
    rdo_skip_atf_wgt3 :=
        { atf_rdo_skip_atf_wgt40 := 0, atf_rdo_skip_atf_wgt41 := 0, atf_rdo_skip_atf_wgt42 := 0 } }

/-- The overlay register block `reg_osd`; it is written only by the overlay
writer `vepu580_set_osd`, which is not among the sources, so its content is
kept as the words that writer produced (none for the zeroed block). -/
structure Vepu580OsdCfg where
  words : List Int
  deriving DecidableEq

/-- The block count register `st_bnum_cme` of the status block. -/
structure St_bnum_cme where
  num_ctu : Int
  deriving DecidableEq

/-- The block count register `st_bnum_b16` of the status block. -/
structure St_bnum_b16 where
  num_b16 : Int
  deriving DecidableEq

/-- The intra 4x4 count register `st_pnum_i4` of the status block. -/
structure St_pnum_i4 where
  pnum_i4 : Int
  deriving DecidableEq

/-- The intra 8x8 count register `st_pnum_i8` of the status block. -/
structure St_pnum_i8 where
  pnum_i8 : Int
  deriving DecidableEq

/-- The intra 16x16 count register `st_pnum_i16` of the status block. -/
structure St_pnum_i16 where
  pnum_i16 : Int
  deriving DecidableEq

/-- The registers of the status block (`reg_st`) read by the embedded functions,
filled by the device.  Modelled from the spec: the register `madp`, the MADP
statistic, which no function of the source reads. -/
structure Vepu580Status where
  bs_lgth_l32 : Int
  qp_sum : Int
  madp : Int
  madi : Int
  st_bnum_cme : St_bnum_cme
  st_bnum_b16 : St_bnum_b16
  st_pnum_i4 : St_pnum_i4
  st_pnum_i8 : St_pnum_i8
  st_pnum_i16 : St_pnum_i16
  deriving DecidableEq

/-- The zeroed `reg_st` block. -/
def zero_reg_st : Vepu580Status :=
  { bs_lgth_l32 := 0
    qp_sum := 0
    madp := 0
    madi := 0
    st_bnum_cme := { num_ctu := 0 }
    st_bnum_b16 := { num_b16 := 0 }
    st_pnum_i4 := { pnum_i4 := 0 }
    st_pnum_i8 := { pnum_i8 := 0 }
    st_pnum_i16 := { pnum_i16 := 0 } }

/-- The register image `HalVepu580RegSet`. -/
structure HalVepu580RegSet where
  reg_ctl : Vepu580ControlCfg
  reg_base : Vepu580BaseCfg
  reg_rc_klut : Vepu580RcKlutCfg
  reg_s3 : Vepu580Section3
  reg_rdo : Vepu580RdoCfg
  reg_osd : Vepu580OsdCfg
  reg_st : Vepu580Status
  deriving DecidableEq

/-- A zeroed register image, as left by the `memset` at the start of
`hal_h264e_vepu580_gen_regs`. -/
def zero_regs : HalVepu580RegSet :=
  { reg_ctl := zero_reg_ctl
    reg_base := zero_reg_base
    reg_rc_klut := zero_reg_rc_klut
    reg_s3 := zero_reg_s3
    reg_rdo := zero_reg_rdo
    reg_osd := { words := [] }
    reg_st := zero_reg_st }

/-! ## Context -/

/-- The part of `HalH264eVepu580Ctx` used by the embedded functions.  The
structures the source reaches through pointers (configuration, syntax, ROI
data) are held by value; `prefix_nal` is the member `prefix`; the
reconstruction pool `hw_recn` and the device are collaborators, see `HalEnv`. -/
structure HalH264eVepu580Ctx where
  cfg : MppEncCfgSet
  frame_cnt : Int
  pixel_buf_fbc_hdr_size : Int
  pixel_buf_fbc_bdy_size : Int
  pixel_buf_size : Int
  thumb_buf_size : Int
  max_buf_cnt : Int
  ext_line_buf_grp : Option MppBufferGroup
  ext_line_buf : Option MppBuffer
  ext_line_buf_size : Int
  sps : H264eSps
  pps : H264ePps
  slice : H264eSlice
  frms : H264eFrmInfo
  prefix_nal : H264ePrefixNal
  hal_rc_cfg : EncRcTaskInfo
  roi_data : Option MppEncROICfg
  roi_grp : Option MppBufferGroup
  roi_buf : Option MppBuffer
  roi_buf_size : Int
  osd_cfg : Vepu541OsdCfg
  regs_set : HalVepu580RegSet
  deriving DecidableEq

/-- The collaborators of the register synthesis that are not among the
sources: the allocator, the format mapping `vepu541_set_fmt` (return code and
filled description), the frame format predicates `MPP_FRAME_FMT_IS_FBC` and
`MPP_FRAME_FMT_IS_YUV`, the pool lookup `hal_bufs_get_buf`, the ROI buffer size
`vepu541_get_roi_buf_size`, and the overlay writer `vepu580_set_osd` (the
overlay block it leaves and the calls it issues). -/
structure HalEnv where
  alloc : MppBufferEnv
  vepu541_set_fmt : Int → Int × VepuFmtCfg
  fmt_is_fbc : Int → Bool
  fmt_is_yuv : Int → Bool
  hal_bufs_get_buf : Int → Option HalBuf
  vepu541_get_roi_buf_size : Int → Int → Int
  vepu580_set_osd : Vepu541OsdCfg → Vepu580OsdCfg → Vepu580OsdCfg × List HalCall

/-! ## `setup_hal_bufs` -/

/-- Result of `mpp_buffer_group_get_internal`: a fresh internal group, or NULL
when the allocator fails. -/
def mpp_buffer_group_get_internal (env : MppBufferEnv) : Option MppBufferGroup :=
  if env.group_get_ok then some { internal := true } else none

/-- Result of `mpp_buffer_get`: a buffer of the requested size, or NULL when the
allocator fails. -/
def mpp_buffer_get (env : MppBufferEnv) (size : Int) : Option MppBuffer :=
  if env.buffer_get_ok then some { size := size, fd := env.buffer_fd } else none

/-- The auxiliary line buffer block of `setup_hal_bufs` (source lines 233-263),
for the aligned width computed by the caller. -/
def setup_hal_bufs_ext_line (env : MppBufferEnv) (aligned_w : Int)
    (ctx : HalH264eVepu580Ctx) : HalH264eVepu580Ctx × List HalCall :=
  if aligned_w > SZ_4K then
    let ext_line_buf_size :=
      MPP_ALIGN (s32 (s32 (cdiv (s32 (aligned_w - SZ_4K)) 64 * 30) * 16)) 256
    let s1 : HalH264eVepu580Ctx × List HalCall :=
      if ctx.ext_line_buf_grp = none then
        ({ ctx with ext_line_buf_grp := mpp_buffer_group_get_internal env },
          [HalCall.mpp_buffer_group_get_internal])
      else if ext_line_buf_size ≠ ctx.ext_line_buf_size then
        match ctx.ext_line_buf with
        | some buf =>
          ({ ctx with ext_line_buf := none },
            [HalCall.mpp_buffer_put buf, HalCall.mpp_buffer_group_clear])
        | none => (ctx, [HalCall.mpp_buffer_group_clear])
      else (ctx, [])
    let s2 : HalH264eVepu580Ctx × List HalCall :=
      if s1.1.ext_line_buf_grp = none then (s1.1, s1.2 ++ [HalCall.mpp_assert_failed])
      else s1
    let s3 : HalH264eVepu580Ctx × List HalCall :=
      if s2.1.ext_line_buf = none then
        ({ s2.1 with ext_line_buf := mpp_buffer_get env ext_line_buf_size },
          s2.2 ++ [HalCall.mpp_buffer_get ext_line_buf_size])
      else s2
    ({ s3.1 with ext_line_buf_size := ext_line_buf_size }, s3.2)
  else
    let s1 : HalH264eVepu580Ctx × List HalCall :=
      match ctx.ext_line_buf with
      | some buf => ({ ctx with ext_line_buf := none }, [HalCall.mpp_buffer_put buf])
      | none => (ctx, [])
    let s2 : HalH264eVepu580Ctx × List HalCall :=
      match s1.1.ext_line_buf_grp with
      | some _ =>
        ({ s1.1 with ext_line_buf_grp := none },
          s1.2 ++ [HalCall.mpp_buffer_group_clear, HalCall.mpp_buffer_group_put])
      | none => s1
    ({ s2.1 with ext_line_buf_size := 0 }, s2.2)

/-- The function `setup_hal_bufs` of the source: the new context and the calls
issued to the collaborators. -/
def setup_hal_bufs (env : MppBufferEnv) (ctx : HalH264eVepu580Ctx) :
    HalH264eVepu580Ctx × List HalCall :=
  let cfg := ctx.cfg
  let prep := cfg.prep
  let alignment : Int := 64
  let aligned_w := MPP_ALIGN prep.width alignment
  let aligned_h := MPP_ALIGN prep.height alignment
  let pixel_buf_fbc_hdr_size := MPP_ALIGN (cdiv (s32 (aligned_w * aligned_h)) 64) SZ_8K
  let pixel_buf_fbc_bdy_size := cdiv (s32 (s32 (aligned_w * aligned_h) * 3)) 2
  let pixel_buf_size := s32 (pixel_buf_fbc_hdr_size + pixel_buf_fbc_bdy_size)
  let thumb_buf_size :=
    MPP_ALIGN (s32 (cdiv (s32 (cdiv aligned_w 64 * aligned_h)) 64 * 256)) SZ_8K
  let old_max_cnt := ctx.max_buf_cnt
  let new_max_cnt : Int := 2
  let ref_cfg := cfg.ref_cfg
  let new_max_cnt : Int :=
    match ref_cfg with
    | some ref_cfg =>
      let info := mpp_enc_ref_cfg_get_cpb_info ref_cfg
      if new_max_cnt < MPP_MAX new_max_cnt (s32 (info.dpb_size + 1)) then
        MPP_MAX new_max_cnt (s32 (info.dpb_size + 1))
      else new_max_cnt
    | none => new_max_cnt
  let s := setup_hal_bufs_ext_line env aligned_w ctx
  if s.1.pixel_buf_fbc_hdr_size ≠ pixel_buf_fbc_hdr_size ∨
      s.1.pixel_buf_fbc_bdy_size ≠ pixel_buf_fbc_bdy_size ∨
      s.1.pixel_buf_size ≠ pixel_buf_size ∨
      s.1.thumb_buf_size ≠ thumb_buf_size ∨
      new_max_cnt > old_max_cnt then
    let sizes : List Int := [pixel_buf_size, thumb_buf_size]
    let new_max_cnt := MPP_MAX new_max_cnt old_max_cnt
    ({ s.1 with
        pixel_buf_fbc_hdr_size := pixel_buf_fbc_hdr_size
        pixel_buf_fbc_bdy_size := pixel_buf_fbc_bdy_size
        pixel_buf_size := pixel_buf_size
        thumb_buf_size := thumb_buf_size
        max_buf_cnt := new_max_cnt },
      s.2 ++ [HalCall.hal_bufs_setup new_max_cnt 2 sizes])
  else s

/-- A sequence of `setup_hal_bufs` calls: before each call the encoder
configuration is replaced by the one given for that call. -/
def setup_hal_bufs_seq :
    List (MppBufferEnv × MppEncCfgSet) → HalH264eVepu580Ctx → HalH264eVepu580Ctx
  | [], ctx => ctx
  | (env, cfg) :: rest, ctx =>
    setup_hal_bufs_seq rest (setup_hal_bufs env { ctx with cfg := cfg }).1

/-- The slot count required by a configuration: `max(2, dpb_size + 1)` when a
reference configuration is set, and 2 otherwise. -/
def required_buf_cnt (cfg : MppEncCfgSet) : Int :=
  match cfg.ref_cfg with
  | some ref_cfg => max 2 (s32 ((mpp_enc_ref_cfg_get_cpb_info ref_cfg).dpb_size + 1))
  | none => 2

/-- The four buffer sizes computed by `setup_hal_bufs` from the picture geometry
(source lines 216-222): header, body, pixel and thumbnail size. -/
structure HalBufSizes where
  pixel_buf_fbc_hdr_size : Int
  pixel_buf_fbc_bdy_size : Int
  pixel_buf_size : Int
  thumb_buf_size : Int
  deriving DecidableEq, Repr

/-- The size computation of `setup_hal_bufs` (source lines 216-222). -/
def computed_sizes (prep : MppEncPrepCfg) : HalBufSizes :=
  let alignment : Int := 64
  let aligned_w := MPP_ALIGN prep.width alignment
  let aligned_h := MPP_ALIGN prep.height alignment
  let pixel_buf_fbc_hdr_size := MPP_ALIGN (cdiv (s32 (aligned_w * aligned_h)) 64) SZ_8K
  let pixel_buf_fbc_bdy_size := cdiv (s32 (s32 (aligned_w * aligned_h) * 3)) 2
  let pixel_buf_size := s32 (pixel_buf_fbc_hdr_size + pixel_buf_fbc_bdy_size)
  let thumb_buf_size :=
    MPP_ALIGN (s32 (cdiv (s32 (cdiv aligned_w 64 * aligned_h)) 64 * 256)) SZ_8K
  { pixel_buf_fbc_hdr_size := pixel_buf_fbc_hdr_size
    pixel_buf_fbc_bdy_size := pixel_buf_fbc_bdy_size
    pixel_buf_size := pixel_buf_size
    thumb_buf_size := thumb_buf_size }

/-- The line-buffer size computed by `setup_hal_bufs` for an aligned width above
4096 (source line 234). -/
def computed_ext_line_buf_size (aligned_w : Int) : Int :=
  MPP_ALIGN (s32 (s32 (cdiv (s32 (aligned_w - SZ_4K)) 64 * 30) * 16)) 256

/-- The `hal_bufs_setup` calls of a call log. -/
def hal_bufs_setup_calls (log : List HalCall) : List HalCall :=
  log.filter fun c =>
    match c with
    | HalCall.hal_bufs_setup _ _ _ => true
    | _ => false

/-- Spec wording "x rounded up to a multiple of a". -/
def round_up (x a : Int) : Int := (x + a - 1) / a * a

/-- A zero-initialised context with the given configuration: no buffers, empty
syntax, zeroed register image. -/
def zero_ctx (cfg : MppEncCfgSet) : HalH264eVepu580Ctx :=
  { cfg := cfg
    frame_cnt := 0
    pixel_buf_fbc_hdr_size := 0
    pixel_buf_fbc_bdy_size := 0
    pixel_buf_size := 0
    thumb_buf_size := 0
    max_buf_cnt := 0
    ext_line_buf_grp := none
    ext_line_buf := none
    ext_line_buf_size := 0
    sps :=
      { profile_idc := 0, level_idc := 0, log2_max_frame_num_minus4 := 0,
        direct8x8_inference := 0, log2_max_poc_lsb_minus4 := 0, pic_width_in_mbs := 0,
        pic_height_in_mbs := 0 }
    pps :=
      { entropy_coding_mode := 0, transform_8x8_mode := 0, constrained_intra_pred := 0,
        num_ref_idx_l0_default_active := 0, num_ref_idx_l1_default_active := 0,
        pic_init_qp := 0, chroma_qp_index_offset := 0, second_chroma_qp_index_offset := 0,
        weighted_pred := 0, deblocking_filter_control := 0, pic_scaling_matrix_present := 0 }
    slice :=
      { nal_reference_idc := 0, nalu_type := 0, slice_type := 0, pic_parameter_set_id := 0,
        num_ref_idx_override := 0, cabac_init_idc := 0, frame_num := 0, idr_pic_id := 0,
        pic_order_cnt_lsb := 0, disable_deblocking_filter_idc := 0,
        slice_alpha_c0_offset_div2 := 0, no_output_of_prior_pics := 0,
        long_term_reference_flag := 0, reorder := { ops := [], rd_cnt := 0 },
        marking := { ops := [], rd_cnt := 0 } }
    frms := { seq_idx := 0, curr_idx := 0, refr_idx := 0 }
    prefix_nal := { handle := 0 }
    hal_rc_cfg :=
      { bit_target := 0, quality_target := 0, quality_min := 0, quality_max := 0, bit_real := 0,
        quality_real := 0, madi := 0, madp := 0, iblk4_prop := 0 }
    roi_data := none
    roi_grp := none
    roi_buf := none
    roi_buf_size := 0
    osd_cfg := { osd_data := none, osd_data2 := none }
    regs_set := zero_regs }

/-- A configuration with the given picture size and optional DPB size; no
stride or transform is set, the hardware defaults of
`hal_h264e_vepu580_init` are in place and slices are not split. -/
def mk_cfg (width height : Int) (dpb : Option Int) : MppEncCfgSet :=
  { prep :=
      { change := 0, width := width, height := height, format := 0, hor_stride := 0,
        mirroring := 0, rotation := 0 }
    hw := { qp_delta_row_i := 0, qp_delta_row := 1 }
    split := { change := 0, split_mode := 0, split_arg := 0 }
    ref_cfg := dpb.map fun d => { cpb_info := { dpb_size := d } } }

/-- An allocator on which every allocation succeeds; new buffers get the
handle 7. -/
def alloc_ok : MppBufferEnv := { group_get_ok := true, buffer_get_ok := true, buffer_fd := 7 }

/-! ## `setup_vepu580_codec` -/

/-- The opcode switch of the first marking slot (source lines 636-665): the
values of `type`, `param_0` and `param_1` after the switch. -/
def mmco_decode_slot0 (mmco : H264eMmco) : Int × Int × Int :=
  let param_0 : Int := 0
  let param_1 : Int := 0
  let type := mmco.mmco
  if type = 1 then (type, mmco.difference_of_pic_nums_minus1, param_1)
  else if type = 2 then (type, mmco.long_term_pic_num, param_1)
  else if type = 3 then (type, mmco.difference_of_pic_nums_minus1, mmco.long_term_frame_idx)
  else if type = 4 then (type, mmco.max_long_term_frame_idx_plus1, param_1)
  else if type = 5 then (type, param_0, param_1)
  else if type = 6 then (type, mmco.long_term_frame_idx, param_1)
  else (0, param_0, param_1)

/-- The opcode switch of the second marking slot (source lines 674-701). -/
def mmco_decode_slot1 (mmco : H264eMmco) : Int × Int × Int :=
  let type := mmco.mmco
  let param_0 : Int := 0
  let param_1 : Int := 0
  if type = 1 then (type, mmco.difference_of_pic_nums_minus1, param_1)
  else if type = 2 then (type, mmco.long_term_pic_num, param_1)
  else if type = 3 then (type, mmco.difference_of_pic_nums_minus1, mmco.long_term_frame_idx)
  else if type = 4 then (type, mmco.max_long_term_frame_idx_plus1, param_1)
  else if type = 5 then (type, param_0, param_1)
  else if type = 6 then (type, mmco.long_term_frame_idx, param_1)
  else (0, param_0, param_1)

/-- The opcode switch of the third marking slot (source lines 710-737). -/
def mmco_decode_slot2 (mmco : H264eMmco) : Int × Int × Int :=
  let type := mmco.mmco
  let param_0 : Int := 0
  let param_1 : Int := 0
  if type = 1 then (type, mmco.difference_of_pic_nums_minus1, param_1)
  else if type = 2 then (type, mmco.long_term_pic_num, param_1)
  else if type = 3 then (type, mmco.difference_of_pic_nums_minus1, mmco.long_term_frame_idx)
  else if type = 4 then (type, mmco.max_long_term_frame_idx_plus1, param_1)
  else if type = 5 then (type, param_0, param_1)
  else if type = 6 then (type, mmco.long_term_frame_idx, param_1)
  else (0, param_0, param_1)

/-- Content of the local `H264eMmco mmco` before the first read.  The source
leaves it uninitialised; every read of the queue in the marking block is
guarded by `h264e_marking_is_empty`, so this content is never decoded. -/
def mmco_uninit : H264eMmco :=
  { mmco := 0, difference_of_pic_nums_minus1 := 0, long_term_pic_num := 0,
    long_term_frame_idx := 0, max_long_term_frame_idx_plus1 := 0 }

/-- The marking block of `setup_vepu580_codec` for a non-I slice (source lines
629-743): the `do { ... } while (0)` with its two early exits. -/
def setup_vepu580_codec_mmco (regs : HalVepu580RegSet) (marking : H264eMarkingInfo) :
    HalVepu580RegSet × H264eMarkingInfo :=
  if !h264e_marking_is_empty marking then
    let regs := { regs with reg_base.synt_refm0.arpm_flg := 1 }
    let rd := h264e_marking_rd_op marking
    let mmco := rd.1.getD mmco_uninit
    let marking := rd.2
    let d := mmco_decode_slot0 mmco
    let regs := { regs with
      reg_base.synt_refm0.mmco_type0 := d.1
      reg_base.synt_refm0.mmco_parm0 := d.2.1
      reg_base.synt_refm2.long_term_frame_idx0 := d.2.2 }
    if h264e_marking_is_empty marking then (regs, marking)
    else
      let rd := h264e_marking_rd_op marking
      let mmco := rd.1.getD mmco
      let marking := rd.2
      let d := mmco_decode_slot1 mmco
      let regs := { regs with
        reg_base.synt_refm0.mmco_type1 := d.1
        reg_base.synt_refm1.mmco_parm1 := d.2.1
        reg_base.synt_refm2.long_term_frame_idx1 := d.2.2 }
      if h264e_marking_is_empty marking then (regs, marking)
      else
        let rd := h264e_marking_rd_op marking
        let mmco := rd.1.getD mmco
        let marking := rd.2
        let d := mmco_decode_slot2 mmco
        let regs := { regs with
          reg_base.synt_refm0.mmco_type2 := d.1
          reg_base.synt_refm1.mmco_parm2 := d.2.1
          reg_base.synt_refm2.long_term_frame_idx2 := d.2.2 }
        (regs, marking)
  else (regs, marking)

/-- The function `setup_vepu580_codec` of the source: the new register image and
the slice with the read cursors of its reorder and marking queues advanced. -/
def setup_vepu580_codec (regs : HalVepu580RegSet) (sps : H264eSps) (pps : H264ePps)
    (slice : H264eSlice) : HalVepu580RegSet × H264eSlice :=
  let regs := { regs with
    reg_base.enc_pic.enc_stnd := 0
    reg_base.enc_pic.cur_frm_ref := if slice.nal_reference_idc > 0 then 1 else 0
    reg_base.enc_pic.bs_scp := 1 }
  let regs := { regs with
    reg_base.synt_nal.nal_ref_idc := slice.nal_reference_idc
    reg_base.synt_nal.nal_unit_type := slice.nalu_type }
  let regs := { regs with
    reg_base.synt_sps.max_fnum := sps.log2_max_frame_num_minus4
    reg_base.synt_sps.drct_8x8 := sps.direct8x8_inference
    reg_base.synt_sps.mpoc_lm4 := sps.log2_max_poc_lsb_minus4 }
  let regs := { regs with
    reg_base.synt_pps.etpy_mode := pps.entropy_coding_mode
    reg_base.synt_pps.trns_8x8 := pps.transform_8x8_mode
    reg_base.synt_pps.csip_flag := pps.constrained_intra_pred
    reg_base.synt_pps.num_ref0_idx := s32 (pps.num_ref_idx_l0_default_active - 1)
    reg_base.synt_pps.num_ref1_idx := s32 (pps.num_ref_idx_l1_default_active - 1)
    reg_base.synt_pps.pic_init_qp := pps.pic_init_qp
    reg_base.synt_pps.cb_ofst := pps.chroma_qp_index_offset
    reg_base.synt_pps.cr_ofst := pps.second_chroma_qp_index_offset
    reg_base.synt_pps.wght_pred := pps.weighted_pred
    reg_base.synt_pps.dbf_cp_flg := pps.deblocking_filter_control }
  let regs := { regs with
    reg_base.synt_sli0.sli_type := if slice.slice_type = H264_I_SLICE then 2 else 0
    reg_base.synt_sli0.pps_id := slice.pic_parameter_set_id
    reg_base.synt_sli0.drct_smvp := 0
    reg_base.synt_sli0.num_ref_ovrd := slice.num_ref_idx_override
    reg_base.synt_sli0.cbc_init_idc := slice.cabac_init_idc
    reg_base.synt_sli0.frm_num := slice.frame_num }
  let regs := { regs with
    reg_base.synt_sli1.idr_pid :=
      if slice.slice_type = H264_I_SLICE then slice.idr_pic_id else 4294967295
    reg_base.synt_sli1.poc_lsb := slice.pic_order_cnt_lsb }
  let regs := { regs with
    reg_base.synt_sli2.dis_dblk_idc := slice.disable_deblocking_filter_idc
    reg_base.synt_sli2.sli_alph_ofst := slice.slice_alpha_c0_offset_div2 }
  let reorder := h264e_reorder_rd_rewind slice.reorder
  /- reorder process -/
  let rd := h264e_reorder_rd_op reorder
  let reorder := rd.2
  let regs :=
    match rd.1 with
    | some rplmo =>
      let regs := { regs with
        reg_base.synt_sli2.ref_list0_rodr := 1
        reg_base.synt_sli2.rodr_pic_idx := rplmo.modification_of_pic_nums_idc }
      if rplmo.modification_of_pic_nums_idc = 0 ∨ rplmo.modification_of_pic_nums_idc = 1 then
        { regs with reg_base.synt_sli2.rodr_pic_num := rplmo.abs_diff_pic_num_minus1 }
      else if rplmo.modification_of_pic_nums_idc = 2 then
        { regs with reg_base.synt_sli2.rodr_pic_num := rplmo.long_term_pic_idx }
      else regs
    | none =>
      { regs with
        reg_base.synt_sli2.ref_list0_rodr := 0
        reg_base.synt_sli2.rodr_pic_idx := 0
        reg_base.synt_sli2.rodr_pic_num := 0 }
  /- clear all mmco arg first -/
  let regs := { regs with
    reg_base.synt_refm0.nopp_flg := 0
    reg_base.synt_refm0.ltrf_flg := 0
    reg_base.synt_refm0.arpm_flg := 0
    reg_base.synt_refm0.mmco4_pre := 0
    reg_base.synt_refm0.mmco_type0 := 0
    reg_base.synt_refm0.mmco_parm0 := 0
    reg_base.synt_refm0.mmco_type1 := 0
    reg_base.synt_refm1.mmco_parm1 := 0
    reg_base.synt_refm0.mmco_type2 := 0
    reg_base.synt_refm1.mmco_parm2 := 0
    reg_base.synt_refm2.long_term_frame_idx0 := 0
    reg_base.synt_refm2.long_term_frame_idx1 := 0
    reg_base.synt_refm2.long_term_frame_idx2 := 0 }
  let marking := h264e_marking_rd_rewind slice.marking
  /- only update used parameter -/
  if slice.slice_type = H264_I_SLICE then
    let regs := { regs with
      reg_base.synt_refm0.nopp_flg := slice.no_output_of_prior_pics
      reg_base.synt_refm0.ltrf_flg := slice.long_term_reference_flag }
    (regs, { slice with reorder := reorder, marking := marking })
  else
    let r := setup_vepu580_codec_mmco regs marking
    (r.1, { slice with reorder := reorder, marking := r.2 })

/-- The mapping M of a marking operation to its register triple
(type, parameter, long-term frame index), as tabulated per opcode. -/
def mmco_map (e : H264eMmco) : Int × Int × Int :=
  if e.mmco = 1 then (1, e.difference_of_pic_nums_minus1, 0)
  else if e.mmco = 2 then (2, e.long_term_pic_num, 0)
  else if e.mmco = 3 then (3, e.difference_of_pic_nums_minus1, e.long_term_frame_idx)
  else if e.mmco = 4 then (4, e.max_long_term_frame_idx_plus1, 0)
  else if e.mmco = 5 then (5, 0, 0)
  else if e.mmco = 6 then (6, e.long_term_frame_idx, 0)
  else (0, 0, 0)

/-- The register triple of marking slot `k` (0, 1 or 2). -/
def mmco_slot (regs : HalVepu580RegSet) (k : Nat) : Int × Int × Int :=
  match k with
  | 0 => (regs.reg_base.synt_refm0.mmco_type0, regs.reg_base.synt_refm0.mmco_parm0,
      regs.reg_base.synt_refm2.long_term_frame_idx0)
  | 1 => (regs.reg_base.synt_refm0.mmco_type1, regs.reg_base.synt_refm1.mmco_parm1,
      regs.reg_base.synt_refm2.long_term_frame_idx1)
  | _ => (regs.reg_base.synt_refm0.mmco_type2, regs.reg_base.synt_refm1.mmco_parm2,
      regs.reg_base.synt_refm2.long_term_frame_idx2)

/-- The reorder fields written by `setup_vepu580_codec` for a popped operation
(source lines 582-604). -/
def reorder_fields (old : Reg_synt_sli2) (slice : H264eSlice) (rd : Option H264eRplmo) :
    Reg_synt_sli2 :=
  match rd with
  | some rplmo =>
    { dis_dblk_idc := slice.disable_deblocking_filter_idc
      sli_alph_ofst := slice.slice_alpha_c0_offset_div2
      ref_list0_rodr := 1
      rodr_pic_idx := rplmo.modification_of_pic_nums_idc
      rodr_pic_num :=
        if rplmo.modification_of_pic_nums_idc = 0 ∨ rplmo.modification_of_pic_nums_idc = 1 then
          rplmo.abs_diff_pic_num_minus1
        else if rplmo.modification_of_pic_nums_idc = 2 then rplmo.long_term_pic_idx
        else old.rodr_pic_num }
  | none =>
    { dis_dblk_idc := slice.disable_deblocking_filter_idc
      sli_alph_ofst := slice.slice_alpha_c0_offset_div2
      ref_list0_rodr := 0
      rodr_pic_idx := 0
      rodr_pic_num := 0 }

/-! ## Register synthesis -/

/-- The function `setup_vepu580_normal` of the source: the static control
configuration. -/
def setup_vepu580_normal (regs : HalVepu580RegSet) : HalVepu580RegSet :=
  { regs with
    reg_ctl.enc_strt.lkt_num := 0
    reg_ctl.enc_strt.vepu_cmd := 1
    reg_ctl.func_en.cke := 1
    reg_ctl.func_en.resetn_hw_en := 0
    reg_ctl.func_en.enc_done_tmvp_en := 1
    reg_ctl.enc_clr.safe_clr := 0
    reg_ctl.enc_clr.force_clr := 0
    reg_ctl.int_en.enc_done_en := 1
    reg_ctl.int_en.lkt_node_done_en := 1
    reg_ctl.int_en.sclr_done_en := 1
    reg_ctl.int_en.slc_done_en := 1
    reg_ctl.int_en.bsf_oflw_en := 1
    reg_ctl.int_en.brsp_otsd_en := 1
    reg_ctl.int_en.wbus_err_en := 1
    reg_ctl.int_en.rbus_err_en := 1
    reg_ctl.int_en.wdg_en := 0
    reg_ctl.int_msk.enc_done_msk := 0
    reg_ctl.int_msk.lkt_node_done_msk := 0
    reg_ctl.int_msk.sclr_done_msk := 0
    reg_ctl.int_msk.slc_done_msk := 0
    reg_ctl.int_msk.bsf_oflw_msk := 0
    reg_ctl.int_msk.brsp_otsd_msk := 0
    reg_ctl.int_msk.wbus_err_msk := 0
    reg_ctl.int_msk.rbus_err_msk := 0
    reg_ctl.int_msk.wdg_msk := 0
    reg_ctl.enc_wdg.vs_load_thd := 0
    reg_ctl.enc_wdg.rfp_load_thd := 0
    reg_ctl.dtrns_map.cmvw_bus_ordr := 0
    reg_ctl.dtrns_map.dspw_bus_ordr := 0
    reg_ctl.dtrns_map.rfpw_bus_ordr := 0
    reg_ctl.dtrns_map.src_bus_edin := 0
    reg_ctl.dtrns_map.meiw_bus_edin := 0
    reg_ctl.dtrns_map.bsw_bus_edin := 7
    reg_ctl.dtrns_map.lktr_bus_edin := 0
    reg_ctl.dtrns_map.roir_bus_edin := 0
    reg_ctl.dtrns_map.lktw_bus_edin := 0
    reg_ctl.dtrns_map.afbc_bsize := 1
    reg_ctl.dtrns_cfg.axi_brsp_cke := 0
    reg_ctl.dtrns_cfg.dspr_otsd := 1 }

/-- The function `setup_vepu580_prep` of the source: the return code of the
format mapping and the register image, which is left untouched when the format
is not supported. -/
def setup_vepu580_prep (env : HalEnv) (regs : HalVepu580RegSet) (prep : MppEncPrepCfg) :
    Int × HalVepu580RegSet :=
  let fmt := prep.format
  let cfg := (env.vepu541_set_fmt fmt).2
  let ret := (env.vepu541_set_fmt fmt).1
  let hw_fmt := u32 cfg.format
  /- do nothing when color format is not supported -/
  if ret ≠ 0 then (ret, regs)
  else
    let regs := { regs with
      reg_base.enc_rsl.pic_wd8_m1 := s32 (cdiv (MPP_ALIGN prep.width 16) 8 - 1)
      reg_base.src_fill.pic_wfill := prep.width % 16
      reg_base.enc_rsl.pic_hd8_m1 := s32 (cdiv (MPP_ALIGN prep.height 16) 8 - 1)
      reg_base.src_fill.pic_hfill := prep.height % 16 }
    let regs := { regs with reg_ctl.dtrns_map.src_bus_edin := cfg.src_endian }
    let regs := { regs with
      reg_base.src_fmt.src_cfmt := hw_fmt
      reg_base.src_fmt.alpha_swap := cfg.alpha_swap
      reg_base.src_fmt.rbuv_swap := cfg.rbuv_swap
      reg_base.src_fmt.src_range := cfg.src_range
      reg_base.src_fmt.out_fmt := 1 }
    let y_stride := if prep.hor_stride ≠ 0 then prep.hor_stride else prep.width
    let c_stride :=
      if hw_fmt = VEPU541_FMT_YUV422SP ∨ hw_fmt = VEPU541_FMT_YUV420SP then y_stride
      else cdiv y_stride 2
    let regs :=
      if hw_fmt < VEPU541_FMT_NONE then
        { regs with
          reg_base.src_udfy.csc_wgt_b2y := 25
          reg_base.src_udfy.csc_wgt_g2y := 129
          reg_base.src_udfy.csc_wgt_r2y := 66
          reg_base.src_udfu.csc_wgt_b2u := 112
          reg_base.src_udfu.csc_wgt_g2u := (-74)
          reg_base.src_udfu.csc_wgt_r2u := (-38)
          reg_base.src_udfv.csc_wgt_b2v := (-18)
          reg_base.src_udfv.csc_wgt_g2v := (-94)
          reg_base.src_udfv.csc_wgt_r2v := 112
          reg_base.src_udfo.csc_ofst_y := 15
          reg_base.src_udfo.csc_ofst_u := 128
          reg_base.src_udfo.csc_ofst_v := 128 }
      else
        { regs with
          reg_base.src_udfy.csc_wgt_b2y := cfg.weight.getD 0 0
          reg_base.src_udfy.csc_wgt_g2y := cfg.weight.getD 1 0
          reg_base.src_udfy.csc_wgt_r2y := cfg.weight.getD 2 0
          reg_base.src_udfu.csc_wgt_b2u := cfg.weight.getD 3 0
          reg_base.src_udfu.csc_wgt_g2u := cfg.weight.getD 4 0
          reg_base.src_udfu.csc_wgt_r2u := cfg.weight.getD 5 0
          reg_base.src_udfv.csc_wgt_b2v := cfg.weight.getD 6 0
          reg_base.src_udfv.csc_wgt_g2v := cfg.weight.getD 7 0
          reg_base.src_udfv.csc_wgt_r2v := cfg.weight.getD 8 0
          reg_base.src_udfo.csc_ofst_y := cfg.offset.getD 0 0
          reg_base.src_udfo.csc_ofst_u := cfg.offset.getD 1 0
          reg_base.src_udfo.csc_ofst_v := cfg.offset.getD 2 0 }
    let regs := { regs with
      reg_base.src_proc.afbcd_en := if env.fmt_is_fbc fmt then 1 else 0
      reg_base.src_strd0.src_strd0 := y_stride
      reg_base.src_strd1.src_strd1 := c_stride }
    let regs := { regs with
      reg_base.src_proc.src_mirr := if prep.mirroring > 0 then 1 else 0
      reg_base.src_proc.src_rot := prep.rotation
      reg_base.src_proc.txa_en := 0 }
    let regs := { regs with reg_base.sli_cfg.sli_crs_en := 1 }
    let regs := { regs with
      reg_base.pic_ofst.pic_ofst_y := 0
      reg_base.pic_ofst.pic_ofst_x := 0 }
    (ret, regs)

/-- The table `h264e_klut_weight` of the source. -/
def h264e_klut_weight : List Int :=
  [0x0a000010, 0x00064000, 0x14000020, 0x000c8000, 0x28000040, 0x00194000, 0x50800080,
    0x0032c000, 0xa1000100, 0x00658000, 0x42800200, 0x00cb0001, 0x85000400, 0x01964002,
    0x0a000800, 0x032c8005, 0x14001000, 0x0659400a, 0x28802000, 0x0cb2c014, 0x51004000,
    0x1965c028, 0xa2808000, 0x32cbc050, 0x4500ffff, 0x659780a1, 0x8a81fffe, 0xCC000142,
    0xFF83FFFF, 0x000001FF]

/-- The number of words of `CHROMA_KLUT_TAB_SIZE`, 24 words of 4 bytes. -/
def CHROMA_KLUT_TAB_WORDS : Nat := 24

/-- The function `setup_vepu580_rdo_pred` of the source; the `memcpy` fills the
24 table words starting at `klut_wgt0` from the weight table, from entry 0 for
an I slice and from entry 4 otherwise. -/
def setup_vepu580_rdo_pred (regs : HalVepu580RegSet) (sps : H264eSps) (pps : H264ePps)
    (slice : H264eSlice) : HalVepu580RegSet :=
  let regs :=
    if slice.slice_type = H264_I_SLICE then
      { regs with
        reg_rc_klut.klut_ofst.chrm_klut_ofst := 0
        reg_rc_klut.klut_wgt := (h264e_klut_weight.drop 0).take CHROMA_KLUT_TAB_WORDS }
    else
      { regs with
        reg_rc_klut.klut_ofst.chrm_klut_ofst := 3
        reg_rc_klut.klut_wgt := (h264e_klut_weight.drop 4).take CHROMA_KLUT_TAB_WORDS }
  let regs := { regs with
    reg_base.iprd_csts.vthd_y := 9
    reg_base.iprd_csts.vthd_c := 63 }
  { regs with
    reg_base.rdo_cfg.rect_size :=
      if sps.profile_idc = H264_PROFILE_BASELINE ∧ sps.level_idc ≤ H264_LEVEL_3_0 then 1 else 0
    reg_base.rdo_cfg.inter_4x4 := 0
    reg_base.rdo_cfg.vlc_lmt :=
      if sps.profile_idc < H264_PROFILE_MAIN ∧ pps.entropy_coding_mode = 0 then 1 else 0
    reg_base.rdo_cfg.chrm_spcl := 1
    reg_base.rdo_cfg.rdo_mask := 24
    reg_base.rdo_cfg.ccwa_e := 1
    reg_base.rdo_cfg.scl_lst_sel := pps.pic_scaling_matrix_present
    reg_base.rdo_cfg.atr_e := 1
    reg_base.rdo_cfg.atf_intra_e := 1 }

/-- The function `setup_vepu580_rdo_cfg` of the source, on the RDO block. -/
def setup_vepu580_rdo_cfg (regs : Vepu580RdoCfg) : Vepu580RdoCfg :=
  { regs with
    rdo_sqi_cfg.atf_pskip_en := 1
    rdo_intra_cime_thd0.atf_rdo_intra_cime_thd0 := 20
    rdo_intra_cime_thd0.atf_rdo_intra_cime_thd1 := 40
    rdo_intra_cime_thd1.atf_rdo_intra_cime_thd2 := 72
    rdo_intra_var_thd0.atf_rdo_intra_var_thd00 := 25
    rdo_intra_var_thd0.atf_rdo_intra_var_thd01 := 64
    rdo_intra_var_thd1.atf_rdo_intra_var_thd10 := 25
    rdo_intra_var_thd1.atf_rdo_intra_var_thd11 := 64
    rdo_intra_var_thd2.atf_rdo_intra_var_thd20 := 70
    rdo_intra_var_thd2.atf_rdo_intra_var_thd21 := 100
    rdo_intra_var_thd3.atf_rdo_intra_var_thd30 := 70
    rdo_intra_var_thd3.atf_rdo_intra_var_thd31 := 100
    rdo_intra_atf_wgt0.atf_rdo_intra_wgt00 := 28
    rdo_intra_atf_wgt0.atf_rdo_intra_wgt01 := 27
    rdo_intra_atf_wgt0.atf_rdo_intra_wgt02 := 26
    rdo_intra_atf_wgt1.atf_rdo_intra_wgt10 := 26
    rdo_intra_atf_wgt1.atf_rdo_intra_wgt11 := 25
    rdo_intra_atf_wgt1.atf_rdo_intra_wgt12 := 24
    rdo_intra_atf_wgt2.atf_rdo_intra_wgt20 := 22
    rdo_intra_atf_wgt2.atf_rdo_intra_wgt21 := 20
    rdo_intra_atf_wgt2.atf_rdo_intra_wgt22 := 19
    rdo_intra_atf_wgt3.atf_rdo_intra_wgt30 := 16
    rdo_intra_atf_wgt3.atf_rdo_intra_wgt31 := 16
    rdo_intra_atf_wgt3.atf_rdo_intra_wgt32 := 16
    rdo_skip_cime_thd0.atf_rdo_skip_cime_thd0 := 10
    rdo_skip_cime_thd0.atf_rdo_skip_cime_thd1 := 10
    rdo_skip_cime_thd1.atf_rdo_skip_cime_thd2 := 15
    rdo_skip_cime_thd1.atf_rdo_skip_cime_thd3 := 25
    rdo_skip_var_thd0.atf_rdo_skip_var_thd10 := 25
    rdo_skip_var_thd0.atf_rdo_skip_var_thd11 := 40
    rdo_skip_var_thd1.atf_rdo_skip_var_thd20 := 25
    rdo_skip_var_thd1.atf_rdo_skip_var_thd21 := 40
    rdo_skip_var_thd2.atf_rdo_skip_var_thd30 := 70
    rdo_skip_var_thd2.atf_rdo_skip_var_thd31 := 100
    rdo_skip_var_thd3.atf_rdo_skip_var_thd40 := 70
    rdo_skip_var_thd3.atf_rdo_skip_var_thd41 := 100
    rdo_skip_atf_wgt0.atf_rdo_skip_atf_wgt00 := 18
    rdo_skip_atf_wgt0.atf_rdo_skip_atf_wgt10 := 13
    rdo_skip_atf_wgt0.atf_rdo_skip_atf_wgt11 := 14
    rdo_skip_atf_wgt0.atf_rdo_skip_atf_wgt12 := 14
    rdo_skip_atf_wgt1.atf_rdo_skip_atf_wgt20 := 14
    rdo_skip_atf_wgt1.atf_rdo_skip_atf_wgt21 := 15
    rdo_skip_atf_wgt1.atf_rdo_skip_atf_wgt22 := 15
    rdo_skip_atf_wgt2.atf_rdo_skip_atf_wgt30 := 15
    rdo_skip_atf_wgt2.atf_rdo_skip_atf_wgt31 := 15
    rdo_skip_atf_wgt2.atf_rdo_skip_atf_wgt32 := 16
    rdo_skip_atf_wgt3.atf_rdo_skip_atf_wgt40 := 16
    rdo_skip_atf_wgt3.atf_rdo_skip_atf_wgt41 := 16
    rdo_skip_atf_wgt3.atf_rdo_skip_atf_wgt42 := 16 }

/-- The ceiling test value `0x100000` of `setup_vepu580_rc_base`. -/
def CTU_EBIT_LIMIT : Int := 0x100000

/-- The value `0x50000` that `setup_vepu580_rc_base` substitutes. -/
def CTU_EBIT_SUBST : Int := 0x50000

/-- The division `a / b` of the C language on `RK_S32` operands with a divisor
that is not a constant: no result when the divisor is 0, and otherwise the
quotient rounded toward zero, as an `RK_S32` (the only quotient out of range is
that of -2^31 by -1, which wraps like the other operations). -/
def cdiv_checked (a b : Int) : Option Int :=
  if b = 0 then none else some (s32 (cdiv a b))

/-- The local `mb_target_bits_mul_16` of `setup_vepu580_rc_base` after the
test of source lines 867-869, or `none` when the division of source line 859
has the divisor 0. -/
def rc_mb_target_bits_mul_16 (bit_target mb_w mb_h : Int) : Option Int :=
  match cdiv_checked (s32 (bit_target * 16)) (s32 (mb_w * mb_h)) with
  | none => none
  | some mb_target_bits_mul_16 =>
    some (if mb_target_bits_mul_16 ≥ CTU_EBIT_LIMIT then CTU_EBIT_SUBST
      else mb_target_bits_mul_16)

/-- The statements of `setup_vepu580_rc_base` from source line 871 on, for the
value of the local `mb_target_bits_mul_16` left by source lines 859-869, with
the QP locals of source lines 855-858.  The nine assignments to
`rc_dthd_0_8[0 .. 8]` are written as the resulting array. -/
def setup_vepu580_rc_base_stores (regs : HalVepu580RegSet) (sps : H264eSps)
    (slice : H264eSlice) (hw : MppEncHwCfg) (rc_task : EncRcTask)
    (mb_target_bits_mul_16 : Int) : HalVepu580RegSet :=
  let rc_info := rc_task.info
  let mb_w := sps.pic_width_in_mbs
  let qp_target := u32 rc_info.quality_target
  let qp_min := u32 rc_info.quality_min
  let qp_max := u32 rc_info.quality_max
  let qpmap_mode : Int := 1
  let mb_target_bits := s32 (mb_target_bits_mul_16 * mb_w) / 16
  let negative_bits_thd := s32 (0 - cdiv mb_target_bits 4)
  let positive_bits_thd := cdiv mb_target_bits 4
  let regs := { regs with reg_base.enc_pic.pic_qp := qp_target }
  let regs := { regs with
    reg_base.rc_cfg.rc_en := 1
    reg_base.rc_cfg.aq_en := 1
    reg_base.rc_cfg.aq_mode := 0
    reg_base.rc_cfg.rc_ctu_num := mb_w }
  let regs := { regs with
    reg_base.rc_qp.rc_qp_range :=
      if slice.slice_type = H264_I_SLICE then hw.qp_delta_row_i else hw.qp_delta_row
    reg_base.rc_qp.rc_max_qp := qp_max
    reg_base.rc_qp.rc_min_qp := qp_min }
  let regs := { regs with reg_base.rc_tgt.ctu_ebit := mb_target_bits_mul_16 }
  let regs := { regs with
    reg_rc_klut.rc_adj0.qp_adj0 := (-1)
    reg_rc_klut.rc_adj0.qp_adj1 := 0
    reg_rc_klut.rc_adj0.qp_adj2 := 0
    reg_rc_klut.rc_adj0.qp_adj3 := 0
    reg_rc_klut.rc_adj0.qp_adj4 := 0
    reg_rc_klut.rc_adj1.qp_adj5 := 0
    reg_rc_klut.rc_adj1.qp_adj6 := 0
    reg_rc_klut.rc_adj1.qp_adj7 := 0
    reg_rc_klut.rc_adj1.qp_adj8 := 1 }
  let regs := { regs with
    reg_rc_klut.rc_dthd_0_8 :=
      [negative_bits_thd, positive_bits_thd, positive_bits_thd, positive_bits_thd,
        positive_bits_thd, positive_bits_thd, positive_bits_thd, positive_bits_thd,
        positive_bits_thd] }
  let regs := { regs with
    reg_rc_klut.roi_qthd0.qpmin_area0 := qp_min
    reg_rc_klut.roi_qthd0.qpmax_area0 := qp_max
    reg_rc_klut.roi_qthd0.qpmin_area1 := qp_min
    reg_rc_klut.roi_qthd0.qpmax_area1 := qp_max
    reg_rc_klut.roi_qthd0.qpmin_area2 := qp_min
    reg_rc_klut.roi_qthd1.qpmax_area2 := qp_max
    reg_rc_klut.roi_qthd1.qpmin_area3 := qp_min
    reg_rc_klut.roi_qthd1.qpmax_area3 := qp_max
    reg_rc_klut.roi_qthd1.qpmin_area4 := qp_min
    reg_rc_klut.roi_qthd1.qpmax_area4 := qp_max
    reg_rc_klut.roi_qthd2.qpmin_area5 := qp_min
    reg_rc_klut.roi_qthd2.qpmax_area5 := qp_max
    reg_rc_klut.roi_qthd2.qpmin_area6 := qp_min
    reg_rc_klut.roi_qthd2.qpmax_area6 := qp_max
    reg_rc_klut.roi_qthd2.qpmin_area7 := qp_min
    reg_rc_klut.roi_qthd3.qpmax_area7 := qp_max
    reg_rc_klut.roi_qthd3.qpmap_mode := qpmap_mode }
  { regs with
    reg_rc_klut.md_sad_thd.md_sad_thd0 := 25
    reg_rc_klut.md_sad_thd.md_sad_thd1 := 25
    reg_rc_klut.md_sad_thd.md_sad_thd2 := 25
    reg_rc_klut.madi_thd.madi_thd0 := 25
    reg_rc_klut.madi_thd.madi_thd1 := 25
    reg_rc_klut.madi_thd.madi_thd2 := 25 }


/-- The function `setup_vepu580_rc_base` of the source: the division of source
line 859 and the test of lines 867-869, then the stores of
`setup_vepu580_rc_base_stores`; `none` when the division has the divisor 0,
which the source reaches before its first store. -/
def setup_vepu580_rc_base (regs : HalVepu580RegSet) (sps : H264eSps) (slice : H264eSlice)
    (hw : MppEncHwCfg) (rc_task : EncRcTask) : Option HalVepu580RegSet :=
  let rc_info := rc_task.info
  let mb_w := sps.pic_width_in_mbs
  let mb_h := sps.pic_height_in_mbs
  match rc_mb_target_bits_mul_16 rc_info.bit_target mb_w mb_h with
  | none => none
  | some mb_target_bits_mul_16 =>
    some (setup_vepu580_rc_base_stores regs sps slice hw rc_task mb_target_bits_mul_16)

/-- The function `setup_vepu580_io_buf` of the source: the register image and
the four offset registrations. -/
def setup_vepu580_io_buf (env : HalEnv) (regs : HalVepu580RegSet) (task : HalEncTask) :
    HalVepu580RegSet × List HalCall :=
  let frm := task.frame
  let pkt := task.packet
  let buf_in := frm.buffer
  let buf_out := task.output
  let fmt := frm.fmt
  let hor_stride := frm.hor_stride
  let ver_stride := frm.ver_stride
  let fd_in := mpp_buffer_get_fd buf_in
  let off_in : Int × Int := (0, 0)
  let off_out := u32 pkt.length
  let siz_out := mpp_buffer_get_size buf_out
  let fd_out := mpp_buffer_get_fd buf_out
  let regs := { regs with
    reg_base.adr_src0 := fd_in
    reg_base.adr_src1 := fd_in
    reg_base.adr_src2 := fd_in }
  let regs := { regs with
    reg_base.bsbb_addr := fd_out
    reg_base.bsbr_addr := fd_out
    reg_base.adr_bsbs := fd_out
    reg_base.bsbt_addr := fd_out }
  let off_in : Int × Int :=
    if env.fmt_is_fbc fmt then (u32 frm.fbc_offset, 0)
    else if env.fmt_is_yuv fmt then
      let cfg := (env.vepu541_set_fmt fmt).2
      if cfg.format = VEPU541_FMT_BGRA8888 ∨ cfg.format = VEPU541_FMT_BGR888 ∨
          cfg.format = VEPU541_FMT_BGR565 then (0, 0)
      else if cfg.format = VEPU541_FMT_YUV420SP ∨ cfg.format = VEPU541_FMT_YUV422SP then
        (u32 (s32 (hor_stride * ver_stride)), u32 (s32 (hor_stride * ver_stride)))
      else if cfg.format = VEPU541_FMT_YUV422P then
        (u32 (s32 (hor_stride * ver_stride)), u32 (cdiv (s32 (hor_stride * ver_stride * 3)) 2))
      else if cfg.format = VEPU541_FMT_YUV420P then
        (u32 (s32 (hor_stride * ver_stride)), u32 (cdiv (s32 (hor_stride * ver_stride * 5)) 4))
      else if cfg.format = VEPU541_FMT_YUYV422 ∨ cfg.format = VEPU541_FMT_UYVY422 then (0, 0)
      else (0, 0)
    else off_in
  (regs,
    [HalCall.mpp_dev_reg_offset 161 off_in.1,
      HalCall.mpp_dev_reg_offset 162 off_in.2,
      HalCall.mpp_dev_reg_offset 172 (u32 siz_out),
      HalCall.mpp_dev_reg_offset 175 off_out])

/-- The buffer block of `setup_vepu580_roi` (source lines 1046-1063): the
context after the ROI buffer has been allocated or replaced, and the calls to
the allocator. -/
def setup_vepu580_roi_buf (env : MppBufferEnv) (roi_buf_size : Int)
    (ctx : HalH264eVepu580Ctx) : HalH264eVepu580Ctx × List HalCall :=
  if ctx.roi_buf = none ∨ roi_buf_size ≠ ctx.roi_buf_size then
    let s1 : HalH264eVepu580Ctx × List HalCall :=
      if ctx.roi_grp = none then
        ({ ctx with roi_grp := mpp_buffer_group_get_internal env },
          [HalCall.mpp_buffer_group_get_internal])
      else if roi_buf_size ≠ ctx.roi_buf_size then
        match ctx.roi_buf with
        | some buf =>
          ({ ctx with roi_buf := none },
            [HalCall.mpp_buffer_put buf, HalCall.mpp_buffer_group_clear])
        | none => (ctx, [HalCall.mpp_buffer_group_clear])
      else (ctx, [])
    let s2 : HalH264eVepu580Ctx × List HalCall :=
      if s1.1.roi_grp = none then (s1.1, s1.2 ++ [HalCall.mpp_assert_failed]) else s1
    let s3 : HalH264eVepu580Ctx × List HalCall :=
      if s2.1.roi_buf = none then
        ({ s2.1 with roi_buf := mpp_buffer_get env roi_buf_size },
          s2.2 ++ [HalCall.mpp_buffer_get roi_buf_size])
      else s2
    ({ s3.1 with roi_buf_size := roi_buf_size }, s3.2)
  else (ctx, [])

/-- The function `setup_vepu580_roi` of the source: the register image, the
context and the calls issued.  The serialisation of the regions into the buffer
is the recorded call `vepu541_set_roi`. -/
def setup_vepu580_roi (env : HalEnv) (regs : HalVepu580RegSet) (ctx : HalH264eVepu580Ctx) :
    HalVepu580RegSet × HalH264eVepu580Ctx × List HalCall :=
  let w := u32 (s32 (ctx.sps.pic_width_in_mbs * 16))
  let h := u32 (s32 (ctx.sps.pic_height_in_mbs * 16))
  /- roi setup -/
  match ctx.roi_data with
  | some roi =>
    if roi.number ≠ 0 ∧ roi.regions ≠ none then
      let roi_buf_size := env.vepu541_get_roi_buf_size w h
      let s := setup_vepu580_roi_buf env.alloc roi_buf_size ctx
      let log := if s.1.roi_buf = none then s.2 ++ [HalCall.mpp_assert_failed] else s.2
      let fd := mpp_buffer_get_fd s.1.roi_buf
      let buf := s.1.roi_buf
      let regs := { regs with
        reg_base.enc_pic.roi_en := 1
        reg_base.roi_addr := fd }
      (regs, s.1, log ++ [HalCall.vepu541_set_roi buf roi w h])
    else
      ({ regs with
        reg_base.enc_pic.roi_en := 0
        reg_base.roi_addr := 0 }, ctx, [])
  | none =>
    ({ regs with
      reg_base.enc_pic.roi_en := 0
      reg_base.roi_addr := 0 }, ctx, [])

/-- The assertion failures of the two `mpp_assert` on the buffers of a pool
slot. -/
def recn_refr_asserts (buf_pixel buf_thumb : Option MppBuffer) : List HalCall :=
  (if buf_pixel = none then [HalCall.mpp_assert_failed] else []) ++
    (if buf_thumb = none then [HalCall.mpp_assert_failed] else [])

/-- The function `setup_vepu580_recn_refr` of the source: the register image
and the calls issued (the two pool lookups first). -/
def setup_vepu580_recn_refr (env : HalEnv) (regs : HalVepu580RegSet) (frms : H264eFrmInfo)
    (fbc_hdr_size : Int) : HalVepu580RegSet × List HalCall :=
  let curr := env.hal_bufs_get_buf frms.curr_idx
  let refr := env.hal_bufs_get_buf frms.refr_idx
  let log := [HalCall.hal_bufs_get_buf frms.curr_idx, HalCall.hal_bufs_get_buf frms.refr_idx]
  let s : HalVepu580RegSet × List HalCall :=
    match curr with
    | some curr =>
      if curr.cnt ≠ 0 then
        let buf_pixel := curr.buf.getD 0 none
        let buf_thumb := curr.buf.getD 1 none
        let fd := mpp_buffer_get_fd buf_pixel
        ({ regs with
            reg_base.rfpw_h_addr := fd
            reg_base.rfpw_b_addr := fd
            reg_base.dspw_addr := mpp_buffer_get_fd buf_thumb },
          log ++ recn_refr_asserts buf_pixel buf_thumb ++
            [HalCall.mpp_dev_reg_offset 164 (u32 fbc_hdr_size)])
      else (regs, log)
    | none => (regs, log)
  match refr with
  | some refr =>
    if refr.cnt ≠ 0 then
      let buf_pixel := refr.buf.getD 0 none
      let buf_thumb := refr.buf.getD 1 none
      let fd := mpp_buffer_get_fd buf_pixel
      ({ s.1 with
          reg_base.rfpr_h_addr := fd
          reg_base.rfpr_b_addr := fd
          reg_base.dspr_addr := mpp_buffer_get_fd buf_thumb },
        s.2 ++ recn_refr_asserts buf_pixel buf_thumb ++
          [HalCall.mpp_dev_reg_offset 166 (u32 fbc_hdr_size)])
    else s
  | none => s

/-- The function `setup_vepu580_split` of the source: the register image and
the split configuration with its change flag reset.  An unrecognised mode is
only logged. -/
def setup_vepu580_split (regs : HalVepu580RegSet) (cfg : MppEncSliceSplit) :
    HalVepu580RegSet × MppEncSliceSplit :=
  let regs :=
    if cfg.split_mode = MPP_ENC_SPLIT_NONE then
      { regs with
        reg_base.sli_splt.sli_splt := 0
        reg_base.sli_splt.sli_splt_mode := 0
        reg_base.sli_splt.sli_splt_cpst := 0
        reg_base.sli_splt.sli_max_num_m1 := 0
        reg_base.sli_splt.sli_flsh := 0
        reg_base.sli_cnum.sli_splt_cnum_m1 := 0
        reg_base.sli_byte.sli_splt_byte := 0
        reg_base.enc_pic.slen_fifo := 0 }
    else if cfg.split_mode = MPP_ENC_SPLIT_BY_BYTE then
      { regs with
        reg_base.sli_splt.sli_splt := 1
        reg_base.sli_splt.sli_splt_mode := 0
        reg_base.sli_splt.sli_splt_cpst := 0
        reg_base.sli_splt.sli_max_num_m1 := 500
        reg_base.sli_splt.sli_flsh := 1
        reg_base.sli_cnum.sli_splt_cnum_m1 := 0
        reg_base.sli_byte.sli_splt_byte := cfg.split_arg
        reg_base.enc_pic.slen_fifo := 0 }
    else if cfg.split_mode = MPP_ENC_SPLIT_BY_CTU then
      { regs with
        reg_base.sli_splt.sli_splt := 1
        reg_base.sli_splt.sli_splt_mode := 1
        reg_base.sli_splt.sli_splt_cpst := 0
        reg_base.sli_splt.sli_max_num_m1 := 500
        reg_base.sli_splt.sli_flsh := 1
        reg_base.sli_cnum.sli_splt_cnum_m1 := u32 (cfg.split_arg - 1)
        reg_base.sli_byte.sli_splt_byte := 0
        reg_base.enc_pic.slen_fifo := 0 }
    else regs
  (regs, { cfg with change := 0 })

/-- The function `setup_vepu580_force_slice_split` of the source. -/
def setup_vepu580_force_slice_split (regs : HalVepu580RegSet) (width : Int) :
    HalVepu580RegSet :=
  let mb_w := MPP_ALIGN width 16 / 16
  { regs with
    reg_base.sli_splt.sli_splt := 1
    reg_base.sli_splt.sli_splt_mode := 1
    reg_base.sli_splt.sli_splt_cpst := 0
    reg_base.sli_splt.sli_max_num_m1 := 500
    reg_base.sli_splt.sli_flsh := 1
    reg_base.sli_cnum.sli_splt_cnum_m1 := s32 (mb_w - 1)
    reg_base.sli_byte.sli_splt_byte := 0
    reg_base.enc_pic.slen_fifo := 0
    reg_base.sli_cfg.sli_crs_en := 0 }

/-- Modelled from the spec: the helper `mpp_clip` of `mpp_common.h` (not among
the sources); clips a value to the bounds given. -/
def mpp_clip (a amin amax : Int) : Int :=
  if a < amin then amin else if a > amax then amax else a

/-- The footprint expression of the cache-height loop of `calc_cime_parameter`
(source lines 1253 and 1268), in `RK_U32` arithmetic. -/
def cime_cacha_footprint (cime_cacha_h ctu_4_h linebuf_w ramb_h cur_srch_16_w : Int) : Int :=
  u32 ((cime_cacha_h - ctu_4_h) * linebuf_w * 4 + ramb_h * 4 * cur_srch_16_w)

/-- The `while` loop of `calc_cime_parameter` (source lines 1252-1261) on the
pair (`cime_cacha_h`, `ramb_h`), run for at most `fuel` iterations. -/
def cime_cacha_loop (fuel : Nat) (cime_cacha_max ctu_4_h cur_srch_max linebuf_w
    cur_srch_16_w : Int) (cime_cacha_h ramb_h : Int) : Int × Int :=
  match fuel with
  | 0 => (cime_cacha_h, ramb_h)
  | fuel + 1 =>
    if cime_cacha_h < cur_srch_max ∧
        cime_cacha_max >
          cime_cacha_footprint cime_cacha_h ctu_4_h linebuf_w ramb_h cur_srch_16_w then
      cime_cacha_loop fuel cime_cacha_max ctu_4_h cur_srch_max linebuf_w cur_srch_16_w
        (u32 (cime_cacha_h + ctu_4_h))
        (if ramb_h > u32 (2 * ctu_4_h) then u32 (ramb_h - ctu_4_h) else ctu_4_h)
    else (cime_cacha_h, ramb_h)

/-- The function `calc_cime_parameter` of the source.  The loop is given
`cur_srch_max` iterations of fuel; it increases `cime_cacha_h` from 1 by one per
iteration while it is below `cur_srch_max`. -/
def calc_cime_parameter (regs : HalVepu580RegSet) (sps : H264eSps) : HalVepu580RegSet :=
  let x_gmv := regs.reg_base.gmv.gmv_x
  let y_gmv := regs.reg_base.gmv.gmv_y
  let srch_w := s32 (regs.reg_base.me_rnge.cme_srch_h * 4)
  let srch_h := s32 (regs.reg_base.me_rnge.cme_srch_v * 4)
  let pic_wd64 := cdiv (s32 ((sps.pic_width_in_mbs + 1) * 8 + 63)) 64
  /- calc cime_linebuf_w -/
  let frm_sta :=
    if s32 (x_gmv - srch_w) < 0 then cdiv (s32 (x_gmv - srch_w - 15)) 16
    else cdiv (s32 (x_gmv - srch_w)) 16
  let frm_sta := mpp_clip frm_sta 0 (s32 (pic_wd64 - 1))
  let frm_end :=
    if s32 (x_gmv + srch_w) < 0 then s32 (pic_wd64 - 1 + cdiv (s32 (x_gmv + srch_w)) 16)
    else s32 (pic_wd64 - 1 + cdiv (s32 (x_gmv + srch_w + 15)) 16)
  let frm_end := mpp_clip frm_end 0 (s32 (pic_wd64 - 1))
  let pic_w := s32 ((frm_end - frm_sta + 1) * 64)
  let regs := { regs with
    reg_base.me_cach.cme_linebuf_w := cdiv (if pic_w ≠ 0 then pic_w else 64) 64 }
  let linebuf_w := regs.reg_base.me_cach.cme_linebuf_w
  /- calc cime_cacha_h and cime_cacha_max -/
  let cime_cacha_max : Int := 2464
  let ctu_4_h : Int := 1
  let cime_cacha_h := ctu_4_h
  let d16 := s32 (cmod x_gmv 16 - cmod srch_w 16)
  let cur_srch_16_w :=
    if d16 < 0 then u32 (cdiv (s32 (16 + cmod d16 16 + srch_w * 2 + 15)) 16 + 1)
    else u32 (cdiv (s32 (cmod d16 16 + srch_w * 2 + 15)) 16 + 1)
  let d4 := s32 (cmod y_gmv 4 - cmod srch_h 4)
  let cur_srch_4_h :=
    if d4 < 0 then u32 (cdiv (s32 (4 + cmod d4 4 + srch_h * 2 + 3)) 4 + ctu_4_h)
    else u32 (cdiv (s32 (cmod d4 4 + srch_h * 2 + 3)) 4 + ctu_4_h)
  let cur_srch_max := cur_srch_4_h
  let cur_srch_16_w := if u32 linebuf_w < cur_srch_16_w then u32 linebuf_w else cur_srch_16_w
  let ramb_h := cur_srch_4_h
  let l := cime_cacha_loop cur_srch_max.toNat cime_cacha_max ctu_4_h cur_srch_max linebuf_w
    cur_srch_16_w cime_cacha_h ramb_h
  let cime_cacha_h := l.1
  let ramb_h := l.2
  let cime_cacha_h := if cur_srch_4_h = ctu_4_h then u32 (cime_cacha_h + ctu_4_h) else cime_cacha_h
  let ramb_h := if cur_srch_4_h = ctu_4_h then 0 else ramb_h
  let cime_cacha_h :=
    if cime_cacha_max <
        cime_cacha_footprint cime_cacha_h ctu_4_h linebuf_w ramb_h cur_srch_16_w then
      u32 (cime_cacha_h - ctu_4_h)
    else cime_cacha_h
  let regs := { regs with reg_base.me_cach.cme_rama_h := cime_cacha_h }
  /- cime_cacha_max -/
  let ram_col_h := u32 (cime_cacha_h - ctu_4_h) / ctu_4_h
  { regs with reg_base.me_cach.cme_rama_max := u32 (ram_col_h * linebuf_w + cur_srch_16_w) }

/-- The function `setup_vepu580_me` of the source. -/
def setup_vepu580_me (regs : HalVepu580RegSet) (sps : H264eSps) (slice : H264eSlice) :
    HalVepu580RegSet :=
  let level_idc := sps.level_idc
  let cime_w : Int := 176
  let cime_h : Int := 112
  let cime_blk_w_max : Int := 44
  /- Step 1. limit the mv range by level_idc -/
  let cime_blk_h_max : Int :=
    if level_idc = H264_LEVEL_1_0 ∨ level_idc = H264_LEVEL_1_b then 12
    else if level_idc = H264_LEVEL_1_1 ∨ level_idc = H264_LEVEL_1_2 ∨
        level_idc = H264_LEVEL_1_3 ∨ level_idc = H264_LEVEL_2_0 then 28
    else 28
  let cime_blk_w_max := if cime_w < cime_blk_w_max * 4 then cdiv cime_w 4 else cime_blk_w_max
  let cime_blk_h_max := if cime_h < cime_blk_h_max * 4 then cdiv cime_h 4 else cime_blk_h_max
  /- Step 2. limit the mv range by image size -/
  let cime_blk_w_max :=
    if cdiv cime_blk_w_max 4 * 2 > cdiv (s32 (sps.pic_width_in_mbs * 2 + 1)) 2 then
      s32 (cdiv (cdiv (s32 (sps.pic_width_in_mbs * 2 + 1)) 2) 2 * 4)
    else cime_blk_w_max
  let cime_blk_h_max :=
    if cdiv cime_blk_h_max 4 >
        s32 (cdiv (MPP_ALIGN (s32 (sps.pic_height_in_mbs * 16)) 64) 128 * 4) then
      s32 (cdiv (MPP_ALIGN (s32 (sps.pic_height_in_mbs * 16)) 64) 128 * 16)
    else cime_blk_h_max
  let regs := { regs with
    reg_base.me_rnge.cme_srch_h := cdiv cime_blk_w_max 4
    reg_base.me_rnge.cme_srch_v := cdiv cime_blk_h_max 4
    reg_base.me_rnge.rme_srch_h := 7
    reg_base.me_rnge.rme_srch_v := 5
    reg_base.me_rnge.dlt_frm_num := 0 }
  let regs :=
    if slice.slice_type = H264_I_SLICE then
      { regs with
        reg_base.me_cfg.pmv_mdst_h := 0
        reg_base.me_cfg.pmv_mdst_v := 0 }
    else
      { regs with
        reg_base.me_cfg.pmv_mdst_h := 5
        reg_base.me_cfg.pmv_mdst_v := 5 }
  let regs := { regs with
    reg_base.me_cfg.mv_limit :=
      if sps.level_idc > 20 then 2 else if sps.level_idc ≥ 11 then 1 else 0
    reg_base.me_cfg.pmv_num := 2
    reg_base.me_cfg.rme_dis := 0
    reg_base.me_cfg.fme_dis := 0
    reg_base.me_cfg.lvl4_ovrd_en := 0 }
  calc_cime_parameter regs sps

/-- The table `h264e_lambda_default` of the source. -/
def h264e_lambda_default : List Int :=
  [0x00000003, 0x00000005, 0x00000006, 0x00000007, 0x00000009, 0x0000000b, 0x0000000e,
    0x00000012, 0x00000016, 0x0000001c, 0x00000024, 0x0000002d, 0x00000039, 0x00000048,
    0x0000005b, 0x00000073, 0x00000091, 0x000000b6, 0x000000e6, 0x00000122, 0x0000016d,
    0x000001cc, 0x00000244, 0x000002db, 0x00000399, 0x00000489, 0x000005b6, 0x00000733,
    0x00000912, 0x00000b6d, 0x00000e66, 0x00001224, 0x000016db, 0x00001ccc, 0x00002449,
    0x00002db7, 0x00003999, 0x00004892, 0x00005b6f, 0x00007333, 0x00009124, 0x0000b6de,
    0x0000e666, 0x00012249, 0x00016dbc, 0x0001cccc, 0x00024492, 0x0002db79, 0x00039999,
    0x00048924, 0x0005b6f2, 0x00073333, 0x00091249, 0x000b6de5, 0x000e6666, 0x00122492,
    0x0016dbcb, 0x001ccccc]

/-- The number of words of `H264E_LAMBDA_TAB_SIZE`, 52 words of 4 bytes. -/
def H264E_LAMBDA_TAB_WORDS : Nat := 52

/-- The function `setup_vepu580_l2` of the source.  The two assignments to
`iprd_wgt_qp_hevc_0_51[0]` and `[51]` are covered by the `memset` of the whole
table that follows them; the register dump is diagnostic output only. -/
def setup_vepu580_l2 (regs : HalVepu580RegSet) (slice : H264eSlice) : HalVepu580RegSet :=
  let regs := { regs with
    reg_s3.rdo_wgta_qp_grpa_0_51 := (h264e_lambda_default.drop 6).take H264E_LAMBDA_TAB_WORDS
    reg_s3.iprd_wgt_qp_hevc_0_51 := List.replicate H264E_LAMBDA_TAB_WORDS 0 }
  let regs := { regs with
    reg_rc_klut.madi_cfg.madi_mode := 0
    reg_rc_klut.madi_cfg.madi_thd := 25
    reg_s3.lvl32_intra_CST_THD0.lvl4_intra_cst_thd0 := 1
    reg_s3.lvl32_intra_CST_THD0.lvl4_intra_cst_thd1 := 4
    reg_s3.lvl32_intra_CST_THD1.lvl4_intra_cst_thd2 := 9
    reg_s3.lvl32_intra_CST_THD1.lvl4_intra_cst_thd3 := 36
    reg_s3.lvl16_intra_CST_THD0.lvl8_intra_chrm_cst_thd0 := 1
    reg_s3.lvl16_intra_CST_THD0.lvl8_intra_chrm_cst_thd1 := 4
    reg_s3.lvl16_intra_CST_THD1.lvl8_intra_chrm_cst_thd2 := 9
    reg_s3.lvl16_intra_CST_THD1.lvl8_intra_chrm_cst_thd3 := 36
    reg_s3.lvl8_intra_CST_THD0.lvl8_intra_cst_thd0 := 1
    reg_s3.lvl8_intra_CST_THD0.lvl8_intra_cst_thd1 := 4
    reg_s3.lvl8_intra_CST_THD1.lvl8_intra_cst_thd2 := 9
    reg_s3.lvl8_intra_CST_THD1.lvl8_intra_cst_thd3 := 36
    reg_s3.lvl16_intra_UL_CST_THD.lvl16_intra_ul_cst_thld := 0
    reg_s3.lvl32_intra_CST_WGT0.lvl8_intra_cst_wgt0 := 48
    reg_s3.lvl32_intra_CST_WGT0.lvl8_intra_cst_wgt1 := 60
    reg_s3.lvl32_intra_CST_WGT0.lvl8_intra_cst_wgt2 := 40
    reg_s3.lvl32_intra_CST_WGT0.lvl8_intra_cst_wgt3 := 48
    reg_s3.lvl32_intra_CST_WGT1.lvl4_intra_cst_wgt0 := 48
    reg_s3.lvl32_intra_CST_WGT1.lvl4_intra_cst_wgt1 := 60
    reg_s3.lvl32_intra_CST_WGT1.lvl4_intra_cst_wgt2 := 40
    reg_s3.lvl32_intra_CST_WGT1.lvl4_intra_cst_wgt3 := 48
    reg_s3.lvl16_intra_CST_WGT0.lvl16_intra_cst_wgt0 := 48
    reg_s3.lvl16_intra_CST_WGT0.lvl16_intra_cst_wgt1 := 60
    reg_s3.lvl16_intra_CST_WGT0.lvl16_intra_cst_wgt2 := 40
    reg_s3.lvl16_intra_CST_WGT0.lvl16_intra_cst_wgt3 := 48
    reg_s3.lvl16_intra_CST_WGT1.lvl8_intra_chrm_cst_wgt0 := 36
    reg_s3.lvl16_intra_CST_WGT1.lvl8_intra_chrm_cst_wgt1 := 42
    reg_s3.lvl16_intra_CST_WGT1.lvl8_intra_chrm_cst_wgt2 := 28
    reg_s3.lvl16_intra_CST_WGT1.lvl8_intra_chrm_cst_wgt3 := 32
    reg_s3.RDO_QUANT.quant_f_bias_I := 683
    reg_s3.RDO_QUANT.quant_f_bias_P := 341 }
  let regs :=
    if slice.slice_type = H264_I_SLICE then
      { regs with
        reg_s3.ATR_THD0.atr_thd0 := 1
        reg_s3.ATR_THD0.atr_thd1 := 4
        reg_s3.ATR_THD1.atr_thd2 := 36 }
    else
      { regs with
        reg_s3.ATR_THD0.atr_thd0 := 1
        reg_s3.ATR_THD0.atr_thd1 := 4
        reg_s3.ATR_THD1.atr_thd2 := 49 }
  let regs := { regs with reg_s3.ATR_THD1.atr_thdqp := 32 }
  let regs :=
    if slice.slice_type = H264_I_SLICE then
      { regs with
        reg_s3.Lvl16_ATR_WGT.lvl16_atr_wgt0 := 16
        reg_s3.Lvl16_ATR_WGT.lvl16_atr_wgt1 := 16
        reg_s3.Lvl16_ATR_WGT.lvl16_atr_wgt2 := 16
        reg_s3.Lvl8_ATR_WGT.lvl8_atr_wgt0 := 32
        reg_s3.Lvl8_ATR_WGT.lvl8_atr_wgt1 := 32
        reg_s3.Lvl8_ATR_WGT.lvl8_atr_wgt2 := 32
        reg_s3.Lvl4_ATR_WGT.lvl4_atr_wgt0 := 20
        reg_s3.Lvl4_ATR_WGT.lvl4_atr_wgt1 := 18
        reg_s3.Lvl4_ATR_WGT.lvl4_atr_wgt2 := 16 }
    else
      { regs with
        reg_s3.Lvl16_ATR_WGT.lvl16_atr_wgt0 := 16
        reg_s3.Lvl16_ATR_WGT.lvl16_atr_wgt1 := 17
        reg_s3.Lvl16_ATR_WGT.lvl16_atr_wgt2 := 17
        reg_s3.Lvl8_ATR_WGT.lvl8_atr_wgt0 := 31
        reg_s3.Lvl8_ATR_WGT.lvl8_atr_wgt1 := 31
        reg_s3.Lvl8_ATR_WGT.lvl8_atr_wgt2 := 31
        reg_s3.Lvl4_ATR_WGT.lvl4_atr_wgt0 := 21
        reg_s3.Lvl4_ATR_WGT.lvl4_atr_wgt1 := 19
        reg_s3.Lvl4_ATR_WGT.lvl4_atr_wgt2 := 17 }
  { regs with
    reg_s3.cime_sqi_cfg.cime_sad_mod_sel := 0
    reg_s3.cime_sqi_cfg.cime_sad_use_big_block := 1
    reg_s3.cime_sqi_cfg.cime_pmv_set_zero := 1
    reg_s3.cime_sqi_cfg.cime_pmv_num := 3
    reg_s3.cime_sqi_thd.cime_mvd_th0 := 32
    reg_s3.cime_sqi_thd.cime_mvd_th1 := 80
    reg_s3.cime_sqi_thd.cime_mvd_th2 := 128
    reg_s3.cime_sqi_multi0.cime_multi0 := 16
    reg_s3.cime_sqi_multi0.cime_multi1 := 32
    reg_s3.cime_sqi_multi1.cime_multi2 := 96
    reg_s3.cime_sqi_multi1.cime_multi3 := 96
    reg_s3.rime_sqi_thd.cime_sad_th0 := 50
    reg_s3.rime_sqi_thd.rime_mvd_th0 := 3
    reg_s3.rime_sqi_thd.rime_mvd_th1 := 8
    reg_s3.rime_sqi_multi.rime_multi0 := 16
    reg_s3.rime_sqi_multi.rime_multi1 := 16
    reg_s3.rime_sqi_multi.rime_multi2 := 128
    reg_s3.fme_sqi_thd0.cime_sad_pu16_th := 30
    reg_s3.fme_sqi_thd1.move_lambda := 1 }

/-- The function `setup_vepu580_ext_line_buf` of the source: the register image
and the offset registration.  Without a line buffer the source assigns
`ebufb_addr` twice and leaves `ebuft_addr` as it is. -/
def setup_vepu580_ext_line_buf (regs : HalVepu580RegSet) (ctx : HalH264eVepu580Ctx) :
    HalVepu580RegSet × List HalCall :=
  match ctx.ext_line_buf with
  | some buf =>
    let fd := mpp_buffer_get_fd (some buf)
    ({ regs with
        reg_base.ebuft_addr := fd
        reg_base.ebufb_addr := fd },
      [HalCall.mpp_dev_reg_offset 183 (u32 ctx.ext_line_buf_size)])
  | none =>
    let regs := { regs with reg_base.ebufb_addr := 0 }
    ({ regs with reg_base.ebufb_addr := 0 }, [])

/-- The function `hal_h264e_vepu580_gen_regs` of the source: the return code,
the context (register image, read cursors of the slice, ROI buffer, split change
flag, frame counter) and the calls issued to the collaborators; `none` when
`setup_vepu580_rc_base` has no result (division by zero).  The register dump is
diagnostic output only. -/
def hal_h264e_vepu580_gen_regs (env : HalEnv) (ctx : HalH264eVepu580Ctx) (task : HalEncTask) :
    Option (Int × HalH264eVepu580Ctx × List HalCall) :=
  let cfg := ctx.cfg
  let prep := cfg.prep
  let sps := ctx.sps
  let pps := ctx.pps
  let slice := ctx.slice
  /- register setup -/
  let regs := zero_regs
  let regs := setup_vepu580_normal regs
  let p := setup_vepu580_prep env regs ctx.cfg.prep
  if p.1 ≠ 0 then some (p.1, { ctx with regs_set := p.2 }, [])
  else
    let c := setup_vepu580_codec p.2 sps pps slice
    let slice := c.2
    let regs := setup_vepu580_rdo_pred c.1 sps pps slice
    let regs := { regs with reg_rdo := setup_vepu580_rdo_cfg regs.reg_rdo }
    match setup_vepu580_rc_base regs sps slice cfg.hw task.rc_task with
    | none => none
    | some regs =>
      let io := setup_vepu580_io_buf env regs task
      let r := setup_vepu580_roi env io.1 { ctx with slice := slice }
      let rr := setup_vepu580_recn_refr env r.1 ctx.frms ctx.pixel_buf_fbc_hdr_size
      let regs := { rr.1 with
        reg_base.meiw_addr :=
          match task.mv_info with
          | some buf => mpp_buffer_get_fd (some buf)
          | none => 0 }
      let regs := { regs with
        reg_base.pic_ofst.pic_ofst_y := task.frame.offset_y
        reg_base.pic_ofst.pic_ofst_x := task.frame.offset_x }
      let sp := setup_vepu580_split regs cfg.split
      let regs :=
        if prep.width > 1920 then setup_vepu580_force_slice_split sp.1 prep.width else sp.1
      let regs := setup_vepu580_me regs sps slice
      let osd := env.vepu580_set_osd ctx.osd_cfg regs.reg_osd
      let regs := { regs with reg_osd := osd.1 }
      let regs := setup_vepu580_l2 regs slice
      let e := setup_vepu580_ext_line_buf regs r.2.1
      some (MPP_OK,
        { r.2.1 with
          cfg := { cfg with split := sp.2 }
          regs_set := e.1
          frame_cnt := s32 (ctx.frame_cnt + 1) },
        io.2 ++ r.2.2 ++ rr.2 ++ [HalCall.vepu580_set_osd ctx.osd_cfg] ++ osd.2 ++ e.2)

/-! ## Preparation and task intake -/

/-- Modelled from the spec: the flag `MPP_ENC_PREP_CFG_CHANGE_INPUT` of
`rk_venc_cmd.h` (the header is not among the sources), `1 << 0`. -/
def MPP_ENC_PREP_CFG_CHANGE_INPUT : Nat := 1

/-- Modelled from the spec: the flag `MPP_ENC_PREP_CFG_CHANGE_FORMAT` of
`rk_venc_cmd.h` (the header is not among the sources), `1 << 2`. -/
def MPP_ENC_PREP_CFG_CHANGE_FORMAT : Nat := 4

/-- The loop of `hal_h264e_vepu580_prepare` (source lines 303-304): one pool
request for every `i` with `0 <= i < max_buf_cnt`, in increasing order. -/
def prepare_get_bufs (max_buf_cnt : Int) : List HalCall :=
  (List.range max_buf_cnt.toNat).map fun (i : Nat) => HalCall.hal_bufs_get_buf (Int.ofNat i)

/-- The function `hal_h264e_vepu580_prepare` of the source: the return code, the
context and the calls issued to the collaborators. -/
def hal_h264e_vepu580_prepare (env : MppBufferEnv) (ctx : HalH264eVepu580Ctx) :
    Int × HalH264eVepu580Ctx × List HalCall :=
  let prep := ctx.cfg.prep
  if prep.change &&& (MPP_ENC_PREP_CFG_CHANGE_INPUT ||| MPP_ENC_PREP_CFG_CHANGE_FORMAT) ≠ 0 then
    /- pre-alloc required buffers to reduce first frame delay -/
    let s := setup_hal_bufs env ctx
    let gets := prepare_get_bufs s.1.max_buf_cnt
    (MPP_OK, { s.1 with cfg.prep.change := 0 }, s.2 ++ gets)
  else (MPP_OK, ctx, [])

/-- One iteration of the loop of `update_vepu580_syntax` (source lines 323-353):
the context and the mask after the descriptor `desc`. -/
def update_vepu580_syntax_desc (s : HalH264eVepu580Ctx × Nat) (desc : H264eSyntaxDesc) :
    HalH264eVepu580Ctx × Nat :=
  let ctx :=
    match desc with
    | .cfg p => { s.1 with cfg := p }
    | .sps p => { s.1 with sps := p }
    | .pps p => { s.1 with pps := p }
    | .slice p => { s.1 with slice := p }
    | .frame p => { s.1 with frms := p }
    | .prefix_nal p => { s.1 with prefix_nal := p }
    | .other _ => s.1
  (ctx, s.2 ||| SYN_TYPE_FLAG desc.type)

/-- The function `update_vepu580_syntax` of the source: the context and the
returned mask `updated`.  The loop visits the first `number` descriptors. -/
def update_vepu580_syntax (ctx : HalH264eVepu580Ctx) (syn : MppSyntax) :
    HalH264eVepu580Ctx × Nat :=
  (syn.data.take syn.number.toNat).foldl update_vepu580_syntax_desc (ctx, 0)

/-- Modelled from the spec: `mpp_meta_get_ptr` of the meta data library (not
among the sources); stores the pointer found under the key, and leaves the
destination as it is when the key is not set. -/
def mpp_meta_get_ptr {α : Type} (entry : Option α) (dst : Option α) : Option α :=
  match entry with
  | some p => some p
  | none => dst

/-- The meta data block of `hal_h264e_vepu580_get_task` (source lines 369-375):
the context after the ROI and overlay pointers of the frame have been taken. -/
def get_task_meta (ctx : HalH264eVepu580Ctx) (task : HalEncTask) : HalH264eVepu580Ctx :=
  let frm_status := task.rc_task.frm
  if frm_status.reencode = 0 then
    match task.frame.meta with
    | some meta =>
      { ctx with
        roi_data := mpp_meta_get_ptr meta.roi_data ctx.roi_data
        osd_cfg :=
          { osd_data := mpp_meta_get_ptr meta.osd_data ctx.osd_cfg.osd_data
            osd_data2 := mpp_meta_get_ptr meta.osd_data2 ctx.osd_cfg.osd_data2 } }
    | none => ctx
  else ctx

/-- The function `hal_h264e_vepu580_get_task` of the source: the return code,
the context and the calls issued to the collaborators. -/
def hal_h264e_vepu580_get_task (env : MppBufferEnv) (ctx : HalH264eVepu580Ctx)
    (task : HalEncTask) : Int × HalH264eVepu580Ctx × List HalCall :=
  let u := update_vepu580_syntax ctx task.syn
  let updated := u.2
  let s : HalH264eVepu580Ctx × List HalCall :=
    if updated &&& SYN_TYPE_FLAG H264E_SYN_CFG ≠ 0 then setup_hal_bufs env u.1 else (u.1, [])
  (MPP_OK, get_task_meta s.1 task, s.2)

/-! ## Hardware run: start, wait and result -/

/-- Modelled from the spec: the return code `MPP_ERR_VPUHW` of `mpp_err.h` (the
header is not among the sources). -/
def MPP_ERR_VPUHW : Int := -1009

/-- The function `hal_h264e_vepu580_start` of the source: the return code and
the requests issued to the device, where `dev` gives the return code of
`mpp_dev_ioctl` for a request.  The `do { ... } while (0)` block is left at the
first request that fails.  The task is not used, and the context only gives the
addresses of the blocks. -/
def hal_h264e_vepu580_start (dev : HalCall → Int) (_ctx : HalH264eVepu580Ctx)
    (_task : HalEncTask) : Int × List HalCall :=
  let wr_ctl := HalCall.mpp_dev_reg_wr .reg_ctl .VEPU580_CONTROL_CFG_OFFSET
  let ret := dev wr_ctl
  if ret ≠ 0 then (ret, [wr_ctl])
  else
    let wr_base := HalCall.mpp_dev_reg_wr .reg_base .VEPU580_BASE_CFG_OFFSET
    let ret := dev wr_base
    if ret ≠ 0 then (ret, [wr_ctl, wr_base])
    else
      let wr_rc_klut := HalCall.mpp_dev_reg_wr .reg_rc_klut .VEPU580_RC_KLUT_CFG_OFFSET
      let ret := dev wr_rc_klut
      if ret ≠ 0 then (ret, [wr_ctl, wr_base, wr_rc_klut])
      else
        let wr_s3 := HalCall.mpp_dev_reg_wr .reg_s3 .VEPU580_SECTION_3_OFFSET
        let ret := dev wr_s3
        if ret ≠ 0 then (ret, [wr_ctl, wr_base, wr_rc_klut, wr_s3])
        else
          let wr_rdo := HalCall.mpp_dev_reg_wr .reg_rdo .VEPU580_RDO_CFG_OFFSET
          let ret := dev wr_rdo
          if ret ≠ 0 then (ret, [wr_ctl, wr_base, wr_rc_klut, wr_s3, wr_rdo])
          else
            let wr_osd := HalCall.mpp_dev_reg_wr .reg_osd .VEPU580_OSD_OFFSET
            let ret := dev wr_osd
            if ret ≠ 0 then (ret, [wr_ctl, wr_base, wr_rc_klut, wr_s3, wr_rdo, wr_osd])
            else
              let rd_st := HalCall.mpp_dev_reg_rd .reg_st .VEPU580_STATUS_OFFSET
              let ret := dev rd_st
              if ret ≠ 0 then
                (ret, [wr_ctl, wr_base, wr_rc_klut, wr_s3, wr_rdo, wr_osd, rd_st])
              else
                /- send request to hardware -/
                let ret := dev HalCall.mpp_dev_cmd_send
                (ret,
                  [wr_ctl, wr_base, wr_rc_klut, wr_s3, wr_rdo, wr_osd, rd_st,
                    HalCall.mpp_dev_cmd_send])

/-- The errors reported (with `mpp_err_f`) by `hal_h264e_vepu580_status_check`. -/
inductive Vepu580StatusError where
  | bit_stream_overflow
  | bus_write_full
  | bus_write_error
  | bus_read_error
  | wdg_timeout
  deriving DecidableEq, Repr

/-- The function `hal_h264e_vepu580_status_check` of the source: the return
code and the errors it reports, in program order.  The four `done` bits only
give debug output. -/
def hal_h264e_vepu580_status_check (ctx : HalH264eVepu580Ctx) :
    Int × List Vepu580StatusError :=
  let int_sta := ctx.regs_set.reg_ctl.int_sta
  (MPP_OK,
    (if int_sta.bsf_oflw_sta ≠ 0 then [Vepu580StatusError.bit_stream_overflow] else []) ++
    (if int_sta.brsp_otsd_sta ≠ 0 then [Vepu580StatusError.bus_write_full] else []) ++
    (if int_sta.wbus_err_sta ≠ 0 then [Vepu580StatusError.bus_write_error] else []) ++
    (if int_sta.rbus_err_sta ≠ 0 then [Vepu580StatusError.bus_read_error] else []) ++
    (if int_sta.wdg_sta ≠ 0 then [Vepu580StatusError.wdg_timeout] else []))

/-- The function `hal_h264e_vepu580_wait` of the source: the return code, the
task, the request issued to the device and the errors reported by the status
check.  The status block is the content of `ctx.regs_set.reg_st` when the poll
returns. -/
def hal_h264e_vepu580_wait (dev : HalCall → Int) (ctx : HalH264eVepu580Ctx)
    (task : HalEncTask) : Int × HalEncTask × List HalCall × List Vepu580StatusError :=
  let ret := dev HalCall.mpp_dev_cmd_poll
  if ret ≠ 0 then (MPP_ERR_VPUHW, task, [HalCall.mpp_dev_cmd_poll], [])
  else
    let chk := hal_h264e_vepu580_status_check ctx
    (ret,
      { task with hw_length := u32 (task.hw_length + ctx.regs_set.reg_st.bs_lgth_l32) },
      [HalCall.mpp_dev_cmd_poll], chk.2)

/-- The division `a / b` of the C language on `RK_U32` operands with a divisor
that is not a constant: the quotient, and no result when the divisor is 0. -/
def udiv_checked (a b : Int) : Option Int :=
  if b = 0 then none else some (a / b)

/-- The function `hal_h264e_vepu580_ret_task` of the source: the return code,
the context and the task, or `none` when one of its divisions has the divisor
0.  Every division of the source is a `udiv_checked`; the conditional
expressions of `madi` and `madp` divide in their second arm only.  The locals
`mb_w`, `mb_h` and `mbs` are `RK_U32`, the divisions are unsigned, and the
results are stored in `RK_S32` fields. -/
def hal_h264e_vepu580_ret_task (ctx : HalH264eVepu580Ctx) (task : HalEncTask) :
    Option (Int × HalH264eVepu580Ctx × HalEncTask) :=
  let rc_info := task.rc_task.info
  let mb_w := u32 ctx.sps.pic_width_in_mbs
  let mb_h := u32 ctx.sps.pic_height_in_mbs
  let mbs := u32 (mb_w * mb_h)
  let reg_st := ctx.regs_set.reg_st
  /- update total hardware length -/
  let length := u32 (task.length + task.hw_length)
  /- setup bit length for rate control -/
  let rc_info := { rc_info with bit_real := s32 (u32 (task.hw_length * 8)) }
  match udiv_checked reg_st.qp_sum mbs with
  | none => none
  | some quality_real =>
    let rc_info := { rc_info with quality_real := s32 quality_real }
    match (if reg_st.st_bnum_b16.num_b16 = 0 then some 0
        else udiv_checked reg_st.madi reg_st.st_bnum_b16.num_b16) with
    | none => none
    | some madi =>
      let rc_info := { rc_info with madi := s32 madi }
      match (if reg_st.st_bnum_cme.num_ctu = 0 then some 0
          else udiv_checked reg_st.madi reg_st.st_bnum_cme.num_ctu) with
      | none => none
      | some madp =>
        let rc_info := { rc_info with madp := s32 madp }
        match udiv_checked
            (u32 ((reg_st.st_pnum_i4.pnum_i4 + reg_st.st_pnum_i8.pnum_i8 +
              reg_st.st_pnum_i16.pnum_i16) * 256)) mbs with
        | none => none
        | some iblk4_prop =>
          let rc_info := { rc_info with iblk4_prop := s32 iblk4_prop }
          let hal_rc_cfg := { ctx.hal_rc_cfg with
            bit_real := rc_info.bit_real
            quality_real := rc_info.quality_real
            iblk4_prop := rc_info.iblk4_prop }
          let ctx := { ctx with hal_rc_cfg := hal_rc_cfg }
          some (MPP_OK, ctx,
            { task with
              length := length
              rc_task := { task.rc_task with info := rc_info }
              hal_ret := { data := some ctx.hal_rc_cfg, number := 1 } })

/-! ## Locals of `calc_cime_parameter` -/

/-- The block "calc cime_linebuf_w" of `calc_cime_parameter` (source lines
1207-1224): the value assigned to `me_cach.cme_linebuf_w`, from the global
motion vector, the horizontal search width and the picture width in 64-pixel
columns. -/
def cime_linebuf_w (x_gmv srch_w pic_wd64 : Int) : Int :=
  let frm_sta :=
    if s32 (x_gmv - srch_w) < 0 then cdiv (s32 (x_gmv - srch_w - 15)) 16
    else cdiv (s32 (x_gmv - srch_w)) 16
  let frm_sta := mpp_clip frm_sta 0 (s32 (pic_wd64 - 1))
  let frm_end :=
    if s32 (x_gmv + srch_w) < 0 then s32 (pic_wd64 - 1 + cdiv (s32 (x_gmv + srch_w)) 16)
    else s32 (pic_wd64 - 1 + cdiv (s32 (x_gmv + srch_w + 15)) 16)
  let frm_end := mpp_clip frm_end 0 (s32 (pic_wd64 - 1))
  let pic_w := s32 ((frm_end - frm_sta + 1) * 64)
  cdiv (if pic_w ≠ 0 then pic_w else 64) 64

/-- The first value of the local `cur_srch_16_w` of `calc_cime_parameter`
(source lines 1233-1237). -/
def cime_cur_srch_16_w (x_gmv srch_w : Int) : Int :=
  let d16 := s32 (cmod x_gmv 16 - cmod srch_w 16)
  if d16 < 0 then u32 (cdiv (s32 (16 + cmod d16 16 + srch_w * 2 + 15)) 16 + 1)
  else u32 (cdiv (s32 (cmod d16 16 + srch_w * 2 + 15)) 16 + 1)

/-- The local `cur_srch_4_h` of `calc_cime_parameter` (source lines
1239-1243), with `ctu_4_h = 1`. -/
def cime_cur_srch_4_h (y_gmv srch_h : Int) : Int :=
  let ctu_4_h : Int := 1
  let d4 := s32 (cmod y_gmv 4 - cmod srch_h 4)
  if d4 < 0 then u32 (cdiv (s32 (4 + cmod d4 4 + srch_h * 2 + 3)) 4 + ctu_4_h)
  else u32 (cdiv (s32 (cmod d4 4 + srch_h * 2 + 3)) 4 + ctu_4_h)

/-- The locals of `calc_cime_parameter` at its end: the line-buffer width
written, `cur_srch_16_w` after its limitation to the line-buffer width,
`cur_srch_4_h`, and the final `cime_cacha_h` and `ramb_h`. -/
structure CimeLocals where
  linebuf_w : Int
  cur_srch_16_w : Int
  cur_srch_4_h : Int
  cime_cacha_h : Int
  ramb_h : Int
  deriving DecidableEq, Repr

/-- The function `calc_cime_parameter` of the source, returning its locals
instead of the register image (same statements as `calc_cime_parameter`, with
the three blocks above named). -/
def calc_cime_locals (regs : HalVepu580RegSet) (sps : H264eSps) : CimeLocals :=
  let x_gmv := regs.reg_base.gmv.gmv_x
  let y_gmv := regs.reg_base.gmv.gmv_y
  let srch_w := s32 (regs.reg_base.me_rnge.cme_srch_h * 4)
  let srch_h := s32 (regs.reg_base.me_rnge.cme_srch_v * 4)
  let pic_wd64 := cdiv (s32 ((sps.pic_width_in_mbs + 1) * 8 + 63)) 64
  let linebuf_w := cime_linebuf_w x_gmv srch_w pic_wd64
  let cime_cacha_max : Int := 2464
  let ctu_4_h : Int := 1
  let cime_cacha_h := ctu_4_h
  let cur_srch_16_w := cime_cur_srch_16_w x_gmv srch_w
  let cur_srch_4_h := cime_cur_srch_4_h y_gmv srch_h
  let cur_srch_max := cur_srch_4_h
  let cur_srch_16_w := if u32 linebuf_w < cur_srch_16_w then u32 linebuf_w else cur_srch_16_w
  let ramb_h := cur_srch_4_h
  let l := cime_cacha_loop cur_srch_max.toNat cime_cacha_max ctu_4_h cur_srch_max linebuf_w
    cur_srch_16_w cime_cacha_h ramb_h
  let cime_cacha_h := l.1
  let ramb_h := l.2
  let cime_cacha_h := if cur_srch_4_h = ctu_4_h then u32 (cime_cacha_h + ctu_4_h) else cime_cacha_h
  let ramb_h := if cur_srch_4_h = ctu_4_h then 0 else ramb_h
  let cime_cacha_h :=
    if cime_cacha_max <
        cime_cacha_footprint cime_cacha_h ctu_4_h linebuf_w ramb_h cur_srch_16_w then
      u32 (cime_cacha_h - ctu_4_h)
    else cime_cacha_h
  { linebuf_w := linebuf_w
    cur_srch_16_w := cur_srch_16_w
    cur_srch_4_h := cur_srch_4_h
    cime_cacha_h := cime_cacha_h
    ramb_h := ramb_h }

/-! ## Sample inputs -/

/-- A sample sequence parameter set: high profile, level 4.0, 120x68
macroblocks. -/
def sample_sps : H264eSps :=
  { profile_idc := 100, level_idc := 40, log2_max_frame_num_minus4 := 12,
    direct8x8_inference := 1, log2_max_poc_lsb_minus4 := 12, pic_width_in_mbs := 120,
    pic_height_in_mbs := 68 }

/-- A sample picture parameter set. -/
def sample_pps : H264ePps :=
  { entropy_coding_mode := 1, transform_8x8_mode := 1, constrained_intra_pred := 0,
    num_ref_idx_l0_default_active := 1, num_ref_idx_l1_default_active := 1, pic_init_qp := 26,
    chroma_qp_index_offset := 0, second_chroma_qp_index_offset := 0, weighted_pred := 0,
    deblocking_filter_control := 1, pic_scaling_matrix_present := 0 }

/-- A sample slice of the given type with the given reorder and marking
operations; both read cursors stand at the end, as left by a previous read. -/
def sample_slice (slice_type : Int) (rplmos : List H264eRplmo) (mmcos : List H264eMmco) :
    H264eSlice :=
  { nal_reference_idc := 1, nalu_type := 1, slice_type := slice_type, pic_parameter_set_id := 0,
    num_ref_idx_override := 0, cabac_init_idc := 0, frame_num := 3, idr_pic_id := 0,
    pic_order_cnt_lsb := 6, disable_deblocking_filter_idc := 0, slice_alpha_c0_offset_div2 := 0,
    no_output_of_prior_pics := 1, long_term_reference_flag := 1,
    reorder := { ops := rplmos, rd_cnt := rplmos.length },
    marking := { ops := mmcos, rd_cnt := mmcos.length } }

/-- A marking operation with the given opcode and distinguishable parameters:
`difference_of_pic_nums_minus1 = 11`, `long_term_pic_num = 12`,
`long_term_frame_idx = 13`, `max_long_term_frame_idx_plus1 = 14`. -/
def sample_mmco (opcode : Int) : H264eMmco :=
  { mmco := opcode, difference_of_pic_nums_minus1 := 11, long_term_pic_num := 12,
    long_term_frame_idx := 13, max_long_term_frame_idx_plus1 := 14 }

/-- A reorder operation with the given idc and distinguishable parameters:
`abs_diff_pic_num_minus1 = 21`, `long_term_pic_idx = 22`. -/
def sample_rplmo (idc : Int) : H264eRplmo :=
  { modification_of_pic_nums_idc := idc, abs_diff_pic_num_minus1 := 21, long_term_pic_idx := 22 }

/-- The context reached from a zeroed context by one `setup_hal_bufs` call for a
1920x1080 picture with a DPB of 4, after which the reference configuration is
replaced by one with a DPB of 1. -/
def ctx_dpb_shrunk : HalH264eVepu580Ctx :=
  { (setup_hal_bufs alloc_ok (zero_ctx (mk_cfg 1920 1080 (some 4)))).1 with
    cfg := mk_cfg 1920 1080 (some 1) }

/-- A sample format description: semi-planar 4:2:0 with no colour conversion. -/
def sample_fmt_cfg (format : Int) : VepuFmtCfg :=
  { format := format, alpha_swap := 0, rbuv_swap := 0, src_range := 0, src_endian := 0,
    weight := [0, 0, 0, 0, 0, 0, 0, 0, 0], offset := [0, 0, 0] }

/-- A sample pool slot with a pixel buffer (handle 31) and a thumbnail buffer
(handle 32) and the given reference count. -/
def sample_hal_buf (cnt : Int) : HalBuf :=
  { cnt := cnt, buf := [some { size := 3166208, fd := 31 }, some { size := 131072, fd := 32 }] }

/-- Sample collaborators: every allocation succeeds; the frame formats 0 .. 9
map to the hardware format of the same code (3 is not supported), every other
format is rejected with the code -1; formats 0 .. 9 except 0, 1, 2 count as YUV
and none as FBC; pool slot 0 is in use and every other slot is absent; the ROI
buffer takes 16 bytes for each 16x16 block; the overlay writer leaves the
overlay block as it is and issues no call. -/
def sample_env : HalEnv :=
  { alloc := alloc_ok
    vepu541_set_fmt := fun fmt =>
      if 0 ≤ fmt ∧ fmt ≤ 9 ∧ fmt ≠ 3 then (0, sample_fmt_cfg fmt) else (-1, sample_fmt_cfg 3)
    fmt_is_fbc := fun _ => false
    fmt_is_yuv := fun fmt => decide (4 ≤ fmt ∧ fmt ≤ 9)
    hal_bufs_get_buf := fun idx => if idx = 0 then some (sample_hal_buf 1) else none
    vepu541_get_roi_buf_size := fun w h => w / 16 * (h / 16) * 16
    vepu580_set_osd := fun _ regs => (regs, []) }

/-- A sample frame of the given format with strides 1920 and 1088. -/
def sample_frame (fmt : Int) : MppFrame :=
  { fmt := fmt, hor_stride := 1920, ver_stride := 1088, offset_x := 0, offset_y := 0,
    fbc_offset := 0, buffer := some { size := 3133440, fd := 21 }, meta := none }

/-- A sample task: a frame of the given format, an output buffer of 1 MiB with
100 bytes in use, no motion-vector buffer, and the given bit target with QP
26 in [10, 51]. -/
def sample_task (fmt bit_target : Int) : HalEncTask :=
  { syn := { number := 0, data := [] }
    frame := sample_frame fmt
    packet := { length := 100 }
    output := some { size := 1048576, fd := 22 }
    mv_info := none
    rc_task :=
      { frm := { reencode := 0 }
        info :=
          { bit_target := bit_target, quality_target := 26, quality_min := 10,
            quality_max := 51, bit_real := 0, quality_real := 0, madi := 0, madp := 0,
            iblk4_prop := 0 } }
    hal_ret := { data := none, number := 0 }
    length := 0
    hw_length := 0 }

/-- A sample context for a picture of the given width and 1080 lines in the
given frame format, with the given split configuration, the sample syntax of a
P slice and no ROI data. -/
def sample_ctx (width fmt : Int) (split : MppEncSliceSplit) : HalH264eVepu580Ctx :=
  { zero_ctx (mk_cfg width 1080 none) with
    cfg :=
      { prep :=
          { change := 0, width := width, height := 1080, format := fmt, hor_stride := 0,
            mirroring := 0, rotation := 0 }
        hw := { qp_delta_row_i := 0, qp_delta_row := 1 }
        split := split
        ref_cfg := none }
    sps := sample_sps
    pps := sample_pps
    slice := sample_slice 0 [] []
    frame_cnt := 5 }

/-- A sample ROI configuration with one region. -/
def sample_roi : MppEncROICfg :=
  { number := 1
    regions :=
      some
        [{ x := 0, y := 0, w := 64, h := 64, intra := 0, quality := -4, qp_area_idx := 0,
           area_map_en := 1, abs_qp_en := 0 }] }

/-- A sample context for a 1920x1080 picture with the given ROI configuration,
ROI buffer group, ROI buffer and recorded ROI buffer size. -/
def sample_roi_ctx (roi_data : Option MppEncROICfg) (roi_grp : Option MppBufferGroup)
    (roi_buf : Option MppBuffer) (roi_buf_size : Int) : HalH264eVepu580Ctx :=
  { sample_ctx 1920 6 { change := 0, split_mode := 0, split_arg := 0 } with
    roi_data := roi_data
    roi_grp := roi_grp
    roi_buf := roi_buf
    roi_buf_size := roi_buf_size }

/-- A device on which every request succeeds. -/
def dev_ok : HalCall → Int := fun _ => 0

/-- A device on which the write of the RC lookup table block fails with the
code -6 and every other request succeeds. -/
def dev_rc_klut_fails : HalCall → Int := fun c =>
  if c = HalCall.mpp_dev_reg_wr .reg_rc_klut .VEPU580_RC_KLUT_CFG_OFFSET then -6 else 0

/-- A sample status block: 25000 bytes of stream, QP sum 212160 (QP 26 on 8160
macroblocks), MADP statistic `madp`, MADI statistic `madi`, 510 CTUs, 8160
blocks of 16x16, and 1000, 300 and 740 intra blocks of size 4, 8 and 16. -/
def sample_status (madi madp : Int) : Vepu580Status :=
  { bs_lgth_l32 := 25000
    qp_sum := 212160
    madp := madp
    madi := madi
    st_bnum_cme := { num_ctu := 510 }
    st_bnum_b16 := { num_b16 := 8160 }
    st_pnum_i4 := { pnum_i4 := 1000 }
    st_pnum_i8 := { pnum_i8 := 300 }
    st_pnum_i16 := { pnum_i16 := 740 } }

/-- A sample context after a hardware run: the 1920x1080 sample context with
the given status block in its register image. -/
def sample_run_ctx (st : Vepu580Status) : HalH264eVepu580Ctx :=
  { sample_ctx 1920 6 { change := 0, split_mode := 0, split_arg := 0 } with
    regs_set := { zero_regs with reg_st := st } }

/-- A sample task after the wait: the sample task with 25000 bytes of measured
hardware length and 100 bytes of total length. -/
def sample_run_task : HalEncTask :=
  { sample_task 6 4000000 with length := 100, hw_length := 25000 }

/-! # Theorems -/

/-! ## Frame lemmas for the line-buffer block -/

theorem ext_line_frame (env : MppBufferEnv) (aw : Int) (ctx : HalH264eVepu580Ctx) :
    (setup_hal_bufs_ext_line env aw ctx).1.cfg = ctx.cfg ∧
    (setup_hal_bufs_ext_line env aw ctx).1.pixel_buf_fbc_hdr_size = ctx.pixel_buf_fbc_hdr_size ∧
    (setup_hal_bufs_ext_line env aw ctx).1.pixel_buf_fbc_bdy_size = ctx.pixel_buf_fbc_bdy_size ∧
    (setup_hal_bufs_ext_line env aw ctx).1.pixel_buf_size = ctx.pixel_buf_size ∧
    (setup_hal_bufs_ext_line env aw ctx).1.thumb_buf_size = ctx.thumb_buf_size ∧
    (setup_hal_bufs_ext_line env aw ctx).1.max_buf_cnt = ctx.max_buf_cnt := by
  unfold setup_hal_bufs_ext_line
  cases hg : ctx.ext_line_buf_grp <;> cases hb : ctx.ext_line_buf <;>
    by_cases hw : aw > SZ_4K <;> simp [hw, hg, hb] <;>
    split_ifs <;> simp [hg, hb]

theorem new_max_cnt_eq (cfg : MppEncCfgSet) :
    (match cfg.ref_cfg with
      | some ref_cfg =>
        if (2 : Int) < MPP_MAX 2 (s32 ((mpp_enc_ref_cfg_get_cpb_info ref_cfg).dpb_size + 1)) then
          MPP_MAX 2 (s32 ((mpp_enc_ref_cfg_get_cpb_info ref_cfg).dpb_size + 1))
        else 2
      | none => 2) = required_buf_cnt cfg := by
  unfold required_buf_cnt MPP_MAX
  cases cfg.ref_cfg with
  | none => rfl
  | some r =>
    simp only []
    split_ifs <;> omega

theorem setup_hal_bufs_max_eq (env : MppBufferEnv) (ctx : HalH264eVepu580Ctx) :
    (setup_hal_bufs env ctx).1.max_buf_cnt = max ctx.max_buf_cnt (required_buf_cnt ctx.cfg) := by
  have hf := ext_line_frame env (MPP_ALIGN ctx.cfg.prep.width 64) ctx
  have hr := new_max_cnt_eq ctx.cfg
  unfold setup_hal_bufs
  simp only [hr, hf]
  split_ifs with h
  · simp only [MPP_MAX]
    split_ifs <;> omega
  · simp only [hf]
    have : ¬ (required_buf_cnt ctx.cfg > ctx.max_buf_cnt) := fun hh => h (by simp [hh])
    omega

theorem s32_of_range (x : Int) (h0 : -2147483648 ≤ x) (h1 : x < 2147483648) : s32 x = x := by
  unfold s32; omega

theorem cdiv_of_nonneg (a b : Int) (ha : 0 ≤ a) (hb : 0 ≤ b) : cdiv a b = a / b := by
  unfold cdiv; exact Int.tdiv_eq_ediv ha hb

/-- The size fields stored by `setup_hal_bufs` are the values computed from the
geometry by the source expressions, whatever the previous context was. -/
theorem stored_sizes_machine (env : MppBufferEnv) (ctx : HalH264eVepu580Ctx) :
    let aligned_w := MPP_ALIGN ctx.cfg.prep.width 64
    let aligned_h := MPP_ALIGN ctx.cfg.prep.height 64
    let hdr := MPP_ALIGN (cdiv (s32 (aligned_w * aligned_h)) 64) SZ_8K
    let bdy := cdiv (s32 (s32 (aligned_w * aligned_h) * 3)) 2
    (setup_hal_bufs env ctx).1.pixel_buf_fbc_hdr_size = hdr ∧
    (setup_hal_bufs env ctx).1.pixel_buf_fbc_bdy_size = bdy ∧
    (setup_hal_bufs env ctx).1.pixel_buf_size = s32 (hdr + bdy) ∧
    (setup_hal_bufs env ctx).1.thumb_buf_size =
      MPP_ALIGN (s32 (cdiv (s32 (cdiv aligned_w 64 * aligned_h)) 64 * 256)) SZ_8K := by
  intro aligned_w aligned_h hdr bdy
  have hf := ext_line_frame env (MPP_ALIGN ctx.cfg.prep.width 64) ctx
  unfold setup_hal_bufs
  simp only [hf]
  split_ifs with h
  · exact ⟨rfl, rfl, rfl, rfl⟩
  · simp only [hf]
    simp only [not_or, not_not, ne_eq] at h
    exact ⟨h.1, h.2.1, h.2.2.1, h.2.2.2.1⟩

theorem round_up_spec (x a : Int) (ha : 0 < a) :
    a ∣ round_up x a ∧ x ≤ round_up x a ∧ round_up x a < x + a := by
  unfold round_up
  refine ⟨Dvd.intro_left _ rfl, ?_, ?_⟩
  · have := Int.emod_add_ediv (x + a - 1) a
    have := Int.emod_lt_of_pos (x + a - 1) ha
    have := Int.emod_nonneg (x + a - 1) (ne_of_gt ha)
    nlinarith
  · have := Int.emod_add_ediv (x + a - 1) a
    have := Int.emod_nonneg (x + a - 1) (ne_of_gt ha)
    nlinarith

theorem sizes_exact (w h : Int) (hw : 0 < w) (hh : 0 < h)
    (hfit : round_up w 64 * round_up h 64 * 3 < 2147483648) :
    let aligned_w := MPP_ALIGN w 64
    let aligned_h := MPP_ALIGN h 64
    let hdr := MPP_ALIGN (cdiv (s32 (aligned_w * aligned_h)) 64) SZ_8K
    let bdy := cdiv (s32 (s32 (aligned_w * aligned_h) * 3)) 2
    let aw := round_up w 64
    let ah := round_up h 64
    hdr = round_up (aw * ah / 64) 8192 ∧
    bdy = aw * ah * 3 / 2 ∧
    s32 (hdr + bdy) = round_up (aw * ah / 64) 8192 + aw * ah * 3 / 2 ∧
    MPP_ALIGN (s32 (cdiv (s32 (cdiv aligned_w 64 * aligned_h)) 64 * 256)) SZ_8K =
      round_up (aw / 64 * (ah / 64) * 256) 8192 := by
  intro aligned_w aligned_h hdr bdy aw ah
  obtain ⟨a, ha⟩ : ∃ a, a = (w + 64 - 1) / 64 := ⟨_, rfl⟩
  obtain ⟨b, hb⟩ : ∃ b, b = (h + 64 - 1) / 64 := ⟨_, rfl⟩
  have ha1 : 1 ≤ a := by omega
  have hb1 : 1 ≤ b := by omega
  have haw : aw = a * 64 := by simp only [aw, round_up, ha]
  have hah : ah = b * 64 := by simp only [ah, round_up, hb]
  have hfit2 : a * 64 * (b * 64) * 3 < 2147483648 := by rw [← haw, ← hah]; exact hfit
  obtain ⟨p, hp⟩ : ∃ p, p = a * b := ⟨_, rfl⟩
  have hp1 : a ≤ p := by rw [hp]; nlinarith
  have hp2 : b ≤ p := by rw [hp]; nlinarith
  have hp3 : p * 12288 < 2147483648 := by rw [hp]; nlinarith
  have hAw : aligned_w = a * 64 := by
    simp only [aligned_w, MPP_ALIGN]
    rw [s32_of_range _ (by omega) (by omega), ha]
  have hAh : aligned_h = b * 64 := by
    simp only [aligned_h, MPP_ALIGN]
    rw [s32_of_range _ (by omega) (by omega), hb]
  have hprod : aligned_w * aligned_h = p * 4096 := by rw [hAw, hAh, hp]; ring
  have hprod2 : aw * ah = p * 4096 := by rw [haw, hah, hp]; ring
  have hprod3 : a * aligned_h = p * 64 := by rw [hAh, hp]; ring
  have hdiv1 : aligned_w / 64 = a := by rw [hAw]; omega
  have hdiv2 : aw / 64 * (ah / 64) = p := by
    rw [haw, hah, hp, Int.mul_ediv_cancel _ (by norm_num), Int.mul_ediv_cancel _ (by norm_num)]
  have e1 : s32 (p * 4096) = p * 4096 := s32_of_range _ (by omega) (by omega)
  have e2 : s32 (p * 4096 * 3) = p * 4096 * 3 := s32_of_range _ (by omega) (by omega)
  have e3 : s32 (p * 64) = p * 64 := s32_of_range _ (by omega) (by omega)
  have e4 : s32 (p * 256) = p * 256 := s32_of_range _ (by omega) (by omega)
  have e5 : s32 (p * 64 + 8192 - 1) = p * 64 + 8192 - 1 := s32_of_range _ (by omega) (by omega)
  have e6 : s32 (p * 256 + 8192 - 1) = p * 256 + 8192 - 1 := s32_of_range _ (by omega) (by omega)
  have d1 : cdiv (p * 4096) 64 = p * 64 := by
    rw [cdiv_of_nonneg _ _ (by omega) (by omega)]; omega
  have d2 : cdiv (p * 4096 * 3) 2 = p * 4096 * 3 / 2 := cdiv_of_nonneg _ _ (by omega) (by omega)
  have d3 : cdiv (p * 64) 64 = p := by
    rw [cdiv_of_nonneg _ _ (by omega) (by omega)]; omega
  have d4 : cdiv aligned_w 64 = a := by
    rw [cdiv_of_nonneg _ _ (by omega) (by omega)]; exact hdiv1
  have d5 : p * 4096 / 64 = p * 64 := by omega
  have hhdr : hdr = round_up (aw * ah / 64) 8192 := by
    simp only [hdr, MPP_ALIGN, SZ_8K, round_up, hprod, hprod2, e1, d1, e5, d5]
  have hbdy : bdy = aw * ah * 3 / 2 := by
    simp only [bdy, hprod, hprod2, e1, e2, d2]
  refine ⟨hhdr, hbdy, ?_, ?_⟩
  · rw [hhdr, hbdy, hprod2]
    simp only [round_up, d5]
    exact s32_of_range _ (by omega) (by omega)
  · simp only [MPP_ALIGN, SZ_8K, round_up, hdiv2, d4, hprod3, e3, d3, e4, e6]

theorem stored_sizes_computed (env : MppBufferEnv) (ctx : HalH264eVepu580Ctx) :
    (setup_hal_bufs env ctx).1.pixel_buf_fbc_hdr_size =
      (computed_sizes ctx.cfg.prep).pixel_buf_fbc_hdr_size ∧
    (setup_hal_bufs env ctx).1.pixel_buf_fbc_bdy_size =
      (computed_sizes ctx.cfg.prep).pixel_buf_fbc_bdy_size ∧
    (setup_hal_bufs env ctx).1.pixel_buf_size = (computed_sizes ctx.cfg.prep).pixel_buf_size ∧
    (setup_hal_bufs env ctx).1.thumb_buf_size = (computed_sizes ctx.cfg.prep).thumb_buf_size :=
  stored_sizes_machine env ctx

theorem setup_hal_bufs_seq_append (pre post : List (MppBufferEnv × MppEncCfgSet))
    (ctx : HalH264eVepu580Ctx) :
    setup_hal_bufs_seq (pre ++ post) ctx = setup_hal_bufs_seq post (setup_hal_bufs_seq pre ctx) := by
  induction pre generalizing ctx with
  | nil => rfl
  | cons s pre ih =>
    obtain ⟨env, cfg⟩ := s
    simp only [List.cons_append, setup_hal_bufs_seq]
    exact ih _

theorem setup_hal_bufs_seq_mono (steps : List (MppBufferEnv × MppEncCfgSet))
    (ctx : HalH264eVepu580Ctx) :
    ctx.max_buf_cnt ≤ (setup_hal_bufs_seq steps ctx).max_buf_cnt := by
  induction steps generalizing ctx with
  | nil => exact le_refl _
  | cons s steps ih =>
    obtain ⟨env, cfg⟩ := s
    simp only [setup_hal_bufs_seq]
    refine le_trans ?_ (ih _)
    rw [setup_hal_bufs_max_eq]
    exact le_max_left _ _

/-- C1: after `setup_hal_bufs` the stored slot count is the larger of the old
count and the requirement R (R = max(2, dpb_size + 1) with a reference
configuration, 2 without); over every sequence of calls the count never
decreases, and after each call it is at least the requirement of that call. -/
theorem setup_hal_bufs_max_buf_cnt :
    (∀ (env : MppBufferEnv) (ctx : HalH264eVepu580Ctx),
      (setup_hal_bufs env ctx).1.max_buf_cnt =
        max ctx.max_buf_cnt (required_buf_cnt ctx.cfg)) ∧
    (∀ (pre post : List (MppBufferEnv × MppEncCfgSet)) (ctx : HalH264eVepu580Ctx),
      (setup_hal_bufs_seq pre ctx).max_buf_cnt ≤
        (setup_hal_bufs_seq (pre ++ post) ctx).max_buf_cnt) ∧
    (∀ (pre : List (MppBufferEnv × MppEncCfgSet)) (env : MppBufferEnv) (cfg : MppEncCfgSet)
        (ctx : HalH264eVepu580Ctx),
      required_buf_cnt cfg ≤ (setup_hal_bufs_seq (pre ++ [(env, cfg)]) ctx).max_buf_cnt) ∧
    (∀ cfg : MppEncCfgSet, cfg.ref_cfg = none → required_buf_cnt cfg = 2) ∧
    (∀ (cfg : MppEncCfgSet) (r : MppEncRefCfg), cfg.ref_cfg = some r →
      r.cpb_info.dpb_size + 1 < 2147483648 → -2147483648 ≤ r.cpb_info.dpb_size + 1 →
      required_buf_cnt cfg = max 2 (r.cpb_info.dpb_size + 1)) := by
  refine ⟨setup_hal_bufs_max_eq, ?_, ?_, ?_, ?_⟩
  · intro pre post ctx
    rw [setup_hal_bufs_seq_append]
    exact setup_hal_bufs_seq_mono _ _
  · intro pre env cfg ctx
    rw [setup_hal_bufs_seq_append]
    simp only [setup_hal_bufs_seq]
    rw [setup_hal_bufs_max_eq]
    exact le_max_right _ _
  · intro cfg h
    simp only [required_buf_cnt, h]
  · intro cfg r h h1 h2
    simp only [required_buf_cnt, h, mpp_enc_ref_cfg_get_cpb_info]
    rw [s32_of_range _ h2 h1]

/-- C2: whatever the previous context was, the sizes stored by `setup_hal_bufs`
are the values computed from the current geometry (`computed_sizes`); for a
picture of positive width and height whose body size fits the `RK_S32` fields
these are, with aw and ah the width and height rounded up to a multiple of 64:
header = aw*ah/64 rounded up to a multiple of 8192, body = aw*ah*3/2,
pixel = header + body and thumbnail = (aw/64)*(ah/64)*256 rounded up to a
multiple of 8192. -/
theorem setup_hal_bufs_sizes (env : MppBufferEnv) (ctx : HalH264eVepu580Ctx) :
    ((setup_hal_bufs env ctx).1.pixel_buf_fbc_hdr_size =
        (computed_sizes ctx.cfg.prep).pixel_buf_fbc_hdr_size ∧
      (setup_hal_bufs env ctx).1.pixel_buf_fbc_bdy_size =
        (computed_sizes ctx.cfg.prep).pixel_buf_fbc_bdy_size ∧
      (setup_hal_bufs env ctx).1.pixel_buf_size = (computed_sizes ctx.cfg.prep).pixel_buf_size ∧
      (setup_hal_bufs env ctx).1.thumb_buf_size = (computed_sizes ctx.cfg.prep).thumb_buf_size) ∧
    (0 < ctx.cfg.prep.width → 0 < ctx.cfg.prep.height →
      round_up ctx.cfg.prep.width 64 * round_up ctx.cfg.prep.height 64 * 3 < 2147483648 →
      (setup_hal_bufs env ctx).1.pixel_buf_fbc_hdr_size =
        round_up (round_up ctx.cfg.prep.width 64 * round_up ctx.cfg.prep.height 64 / 64) 8192 ∧
      (setup_hal_bufs env ctx).1.pixel_buf_fbc_bdy_size =
        round_up ctx.cfg.prep.width 64 * round_up ctx.cfg.prep.height 64 * 3 / 2 ∧
      (setup_hal_bufs env ctx).1.pixel_buf_size =
        round_up (round_up ctx.cfg.prep.width 64 * round_up ctx.cfg.prep.height 64 / 64) 8192 +
          round_up ctx.cfg.prep.width 64 * round_up ctx.cfg.prep.height 64 * 3 / 2 ∧
      (setup_hal_bufs env ctx).1.thumb_buf_size =
        round_up
          (round_up ctx.cfg.prep.width 64 / 64 * (round_up ctx.cfg.prep.height 64 / 64) * 256)
          8192) := by
  refine ⟨stored_sizes_computed env ctx, ?_⟩
  intro hw hh hfit
  have hm := stored_sizes_machine env ctx
  have he := sizes_exact ctx.cfg.prep.width ctx.cfg.prep.height hw hh hfit
  simp only [] at hm he
  exact ⟨hm.1.trans he.1, hm.2.1.trans he.2.1, hm.2.2.1.trans he.2.2.1,
    hm.2.2.2.trans he.2.2.2⟩

/-- Witness of C2: a 1920x1080 picture gives header 32768, body 3133440, pixel
3166208 and thumbnail 131072. -/
theorem setup_hal_bufs_sizes_1080p :
    ((0 : Int) < 1920 ∧ (0 : Int) < 1080 ∧ round_up 1920 64 * round_up 1080 64 * 3 < 2147483648) ∧
    (setup_hal_bufs alloc_ok (zero_ctx (mk_cfg 1920 1080 none))).1.pixel_buf_fbc_hdr_size = 32768 ∧
    (setup_hal_bufs alloc_ok (zero_ctx (mk_cfg 1920 1080 none))).1.pixel_buf_fbc_bdy_size
      = 3133440 ∧
    (setup_hal_bufs alloc_ok (zero_ctx (mk_cfg 1920 1080 none))).1.pixel_buf_size = 3166208 ∧
    (setup_hal_bufs alloc_ok (zero_ctx (mk_cfg 1920 1080 none))).1.thumb_buf_size = 131072 := by
  have h := (setup_hal_bufs_sizes alloc_ok (zero_ctx (mk_cfg 1920 1080 none))).2
    (by decide) (by decide) (by decide)
  exact ⟨by decide, h.1.trans (by decide), h.2.1.trans (by decide), h.2.2.1.trans (by decide),
    h.2.2.2.trans (by decide)⟩

theorem ext_line_no_setup (env : MppBufferEnv) (aw : Int) (ctx : HalH264eVepu580Ctx) :
    hal_bufs_setup_calls (setup_hal_bufs_ext_line env aw ctx).2 = [] := by
  unfold setup_hal_bufs_ext_line hal_bufs_setup_calls
  cases hg : ctx.ext_line_buf_grp <;> cases hb : ctx.ext_line_buf <;>
    by_cases hw : aw > SZ_4K <;> simp [hw, hg, hb] <;>
    split_ifs <;> simp [hg, hb, List.filter]

theorem setup_hal_bufs_calls (env : MppBufferEnv) (ctx : HalH264eVepu580Ctx) :
    hal_bufs_setup_calls (setup_hal_bufs env ctx).2 =
      if ctx.pixel_buf_fbc_hdr_size ≠ (computed_sizes ctx.cfg.prep).pixel_buf_fbc_hdr_size ∨
          ctx.pixel_buf_fbc_bdy_size ≠ (computed_sizes ctx.cfg.prep).pixel_buf_fbc_bdy_size ∨
          ctx.pixel_buf_size ≠ (computed_sizes ctx.cfg.prep).pixel_buf_size ∨
          ctx.thumb_buf_size ≠ (computed_sizes ctx.cfg.prep).thumb_buf_size ∨
          ctx.max_buf_cnt < required_buf_cnt ctx.cfg then
        [HalCall.hal_bufs_setup (max ctx.max_buf_cnt (required_buf_cnt ctx.cfg)) 2
          [(computed_sizes ctx.cfg.prep).pixel_buf_size,
            (computed_sizes ctx.cfg.prep).thumb_buf_size]]
      else [] := by
  have hf := ext_line_frame env (MPP_ALIGN ctx.cfg.prep.width 64) ctx
  have hn := ext_line_no_setup env (MPP_ALIGN ctx.cfg.prep.width 64) ctx
  have hr := new_max_cnt_eq ctx.cfg
  unfold setup_hal_bufs
  simp only [hr, hf, computed_sizes, gt_iff_lt]
  split_ifs with h
  · have hmax : MPP_MAX (required_buf_cnt ctx.cfg) ctx.max_buf_cnt =
        max ctx.max_buf_cnt (required_buf_cnt ctx.cfg) := by
      unfold MPP_MAX; split_ifs <;> omega
    simp only [hal_bufs_setup_calls, List.filter_append] at hn ⊢
    rw [hn, hmax]
    rfl
  · exact hn

/-- Counterexample to C3: from a zeroed context one call for a 1920x1080 picture
with a DPB of 4 stores 5 slots; after the DPB shrinks to 1 the required count 2
differs from the stored count 5, yet the next call with unchanged sizes does
not call `hal_bufs_setup`. -/
theorem setup_hal_bufs_smaller_count_no_setup :
    required_buf_cnt ctx_dpb_shrunk.cfg = 2 ∧ ctx_dpb_shrunk.max_buf_cnt = 5 ∧
    required_buf_cnt ctx_dpb_shrunk.cfg ≠ ctx_dpb_shrunk.max_buf_cnt ∧
    hal_bufs_setup_calls (setup_hal_bufs alloc_ok ctx_dpb_shrunk).2 = [] := by
  decide

/-- C3 (amended): `setup_hal_bufs` calls `hal_bufs_setup` exactly once, with slot
count max(old count, required count) and the two new sizes (pixel, thumbnail),
whenever a computed size differs from the stored one or the required count
exceeds the stored count; otherwise it does not call `hal_bufs_setup`. -/
theorem setup_hal_bufs_reconfigures (env : MppBufferEnv) (ctx : HalH264eVepu580Ctx) :
    ((ctx.pixel_buf_fbc_hdr_size ≠ (computed_sizes ctx.cfg.prep).pixel_buf_fbc_hdr_size ∨
        ctx.pixel_buf_fbc_bdy_size ≠ (computed_sizes ctx.cfg.prep).pixel_buf_fbc_bdy_size ∨
        ctx.pixel_buf_size ≠ (computed_sizes ctx.cfg.prep).pixel_buf_size ∨
        ctx.thumb_buf_size ≠ (computed_sizes ctx.cfg.prep).thumb_buf_size ∨
        ctx.max_buf_cnt < required_buf_cnt ctx.cfg) →
      hal_bufs_setup_calls (setup_hal_bufs env ctx).2 =
        [HalCall.hal_bufs_setup (max ctx.max_buf_cnt (required_buf_cnt ctx.cfg)) 2
          [(computed_sizes ctx.cfg.prep).pixel_buf_size,
            (computed_sizes ctx.cfg.prep).thumb_buf_size]]) ∧
    ((ctx.pixel_buf_fbc_hdr_size = (computed_sizes ctx.cfg.prep).pixel_buf_fbc_hdr_size ∧
        ctx.pixel_buf_fbc_bdy_size = (computed_sizes ctx.cfg.prep).pixel_buf_fbc_bdy_size ∧
        ctx.pixel_buf_size = (computed_sizes ctx.cfg.prep).pixel_buf_size ∧
        ctx.thumb_buf_size = (computed_sizes ctx.cfg.prep).thumb_buf_size ∧
        required_buf_cnt ctx.cfg ≤ ctx.max_buf_cnt) →
      hal_bufs_setup_calls (setup_hal_bufs env ctx).2 = []) := by
  rw [setup_hal_bufs_calls]
  constructor
  · intro h
    rw [if_pos h]
  · intro h
    rw [if_neg]
    rintro (h1 | h1 | h1 | h1 | h1)
    · exact h1 h.1
    · exact h1 h.2.1
    · exact h1 h.2.2.1
    · exact h1 h.2.2.2.1
    · omega

/-- Witness of C3 (amended): a zeroed context configured for 1920x1080 with a
DPB of 4 reconfigures the pool once with 5 slots and sizes 3166208 and 131072;
the context with the DPB shrunk to 1 and unchanged sizes does not. -/
theorem setup_hal_bufs_reconfigures_samples :
    hal_bufs_setup_calls (setup_hal_bufs alloc_ok (zero_ctx (mk_cfg 1920 1080 (some 4)))).2 =
      [HalCall.hal_bufs_setup 5 2 [3166208, 131072]] ∧
    hal_bufs_setup_calls (setup_hal_bufs alloc_ok ctx_dpb_shrunk).2 = [] :=
  ⟨((setup_hal_bufs_reconfigures alloc_ok (zero_ctx (mk_cfg 1920 1080 (some 4)))).1
      (by decide)).trans (by decide),
    (setup_hal_bufs_reconfigures alloc_ok ctx_dpb_shrunk).2 (by decide)⟩

theorem setup_hal_bufs_ext_fields (env : MppBufferEnv) (ctx : HalH264eVepu580Ctx) :
    (setup_hal_bufs env ctx).1.ext_line_buf =
      (setup_hal_bufs_ext_line env (MPP_ALIGN ctx.cfg.prep.width 64) ctx).1.ext_line_buf ∧
    (setup_hal_bufs env ctx).1.ext_line_buf_grp =
      (setup_hal_bufs_ext_line env (MPP_ALIGN ctx.cfg.prep.width 64) ctx).1.ext_line_buf_grp ∧
    (setup_hal_bufs env ctx).1.ext_line_buf_size =
      (setup_hal_bufs_ext_line env (MPP_ALIGN ctx.cfg.prep.width 64) ctx).1.ext_line_buf_size := by
  unfold setup_hal_bufs
  simp only []
  split_ifs <;> exact ⟨rfl, rfl, rfl⟩

theorem ext_line_small (env : MppBufferEnv) (aw : Int) (ctx : HalH264eVepu580Ctx)
    (h : aw ≤ SZ_4K) :
    (setup_hal_bufs_ext_line env aw ctx).1.ext_line_buf = none ∧
    (setup_hal_bufs_ext_line env aw ctx).1.ext_line_buf_grp = none ∧
    (setup_hal_bufs_ext_line env aw ctx).1.ext_line_buf_size = 0 := by
  unfold setup_hal_bufs_ext_line
  rw [if_neg (by omega)]
  cases hg : ctx.ext_line_buf_grp <;> cases hb : ctx.ext_line_buf <;> simp [hg, hb]

theorem ext_line_large (env : MppBufferEnv) (aw : Int) (ctx : HalH264eVepu580Ctx)
    (h : aw > SZ_4K) :
    (setup_hal_bufs_ext_line env aw ctx).1.ext_line_buf_size = computed_ext_line_buf_size aw ∧
    (env.group_get_ok = true → env.buffer_get_ok = true →
      (setup_hal_bufs_ext_line env aw ctx).1.ext_line_buf.isSome = true ∧
      (setup_hal_bufs_ext_line env aw ctx).1.ext_line_buf_grp.isSome = true) := by
  unfold setup_hal_bufs_ext_line computed_ext_line_buf_size
  rw [if_pos h]
  refine ⟨rfl, ?_⟩
  intro hgo hbo
  cases hg : ctx.ext_line_buf_grp <;> cases hb : ctx.ext_line_buf <;>
    by_cases hne : MPP_ALIGN (s32 (s32 (cdiv (s32 (aw - SZ_4K)) 64 * 30) * 16)) 256 =
      ctx.ext_line_buf_size <;>
    simp [hg, hb, hgo, hbo, hne, mpp_buffer_get, mpp_buffer_group_get_internal]

theorem ext_line_size_exact (aw : Int) (h64 : 64 ∣ aw) (h : aw > 4096)
    (hfit : (aw - 4096) / 64 * 30 * 16 + 255 < 2147483648) :
    computed_ext_line_buf_size aw = round_up ((aw - 4096) / 64 * 30 * 16) 256 ∧
    0 < computed_ext_line_buf_size aw := by
  obtain ⟨k, hk⟩ := h64
  obtain ⟨q, hq⟩ : ∃ q, q = (aw - 4096) / 64 := ⟨_, rfl⟩
  have hq1 : 1 ≤ q := by omega
  rw [← hq] at hfit
  have e1 : s32 (aw - 4096) = aw - 4096 := s32_of_range _ (by omega) (by omega)
  have d1 : cdiv (aw - 4096) 64 = q := by
    rw [cdiv_of_nonneg _ _ (by omega) (by omega), hq]
  have e2 : s32 (q * 30) = q * 30 := s32_of_range _ (by omega) (by omega)
  have e3 : s32 (q * 30 * 16) = q * 30 * 16 := s32_of_range _ (by omega) (by omega)
  have e4 : s32 (q * 30 * 16 + 256 - 1) = q * 30 * 16 + 256 - 1 :=
    s32_of_range _ (by omega) (by omega)
  have hval : computed_ext_line_buf_size aw = round_up ((aw - 4096) / 64 * 30 * 16) 256 := by
    simp only [computed_ext_line_buf_size, MPP_ALIGN, SZ_4K, round_up, e1, d1, e2, e3, e4, ← hq]
  refine ⟨hval, ?_⟩
  rw [hval, ← hq]
  unfold round_up
  omega

/-- C4: with aw the aligned width computed by `setup_hal_bufs` (the width
rounded up to a multiple of 64): if aw <= 4096 then afterwards no line buffer and
no line-buffer group is held and `ext_line_buf_size` is 0; if aw > 4096 then the
recorded size is a function of aw alone and a multiple of 256, a line buffer
(and its group) is held when the allocations succeed, and, the size expression
fitting `RK_S32`, the size is ((aw - 4096)/64 * 30 * 16) rounded up to a multiple
of 256 and strictly positive. -/
theorem setup_hal_bufs_ext_line_buf (env : MppBufferEnv) (ctx : HalH264eVepu580Ctx) :
    (0 ≤ ctx.cfg.prep.width → ctx.cfg.prep.width + 63 < 2147483648 →
      MPP_ALIGN ctx.cfg.prep.width 64 = round_up ctx.cfg.prep.width 64) ∧
    (MPP_ALIGN ctx.cfg.prep.width 64 ≤ 4096 →
      (setup_hal_bufs env ctx).1.ext_line_buf = none ∧
      (setup_hal_bufs env ctx).1.ext_line_buf_grp = none ∧
      (setup_hal_bufs env ctx).1.ext_line_buf_size = 0) ∧
    (MPP_ALIGN ctx.cfg.prep.width 64 > 4096 →
      (setup_hal_bufs env ctx).1.ext_line_buf_size =
        computed_ext_line_buf_size (MPP_ALIGN ctx.cfg.prep.width 64) ∧
      256 ∣ (setup_hal_bufs env ctx).1.ext_line_buf_size ∧
      (env.group_get_ok = true → env.buffer_get_ok = true →
        (setup_hal_bufs env ctx).1.ext_line_buf.isSome = true ∧
        (setup_hal_bufs env ctx).1.ext_line_buf_grp.isSome = true) ∧
      ((MPP_ALIGN ctx.cfg.prep.width 64 - 4096) / 64 * 30 * 16 + 255 < 2147483648 →
        (setup_hal_bufs env ctx).1.ext_line_buf_size =
          round_up ((MPP_ALIGN ctx.cfg.prep.width 64 - 4096) / 64 * 30 * 16) 256 ∧
        0 < (setup_hal_bufs env ctx).1.ext_line_buf_size)) := by
  obtain ⟨hb, hg, hs⟩ := setup_hal_bufs_ext_fields env ctx
  rw [hb, hg, hs]
  refine ⟨?_, ?_, ?_⟩
  · intro h0 h1
    unfold MPP_ALIGN round_up
    rw [s32_of_range _ (by omega) (by omega)]
  · intro h
    exact ext_line_small env _ ctx h
  · intro h
    obtain ⟨h1, h2⟩ := ext_line_large env _ ctx h
    refine ⟨h1, ?_, h2, ?_⟩
    · rw [h1]
      exact Dvd.intro_left _ rfl
    · intro hfit
      rw [h1]
      exact ext_line_size_exact _ (Dvd.intro_left _ rfl) h hfit

/-- Witness of C4: a 1920x1080 picture holds no line buffer; a 7680x4320 picture
holds one of 26880 bytes, which is ((7680 - 4096)/64 * 30 * 16) rounded up to a
multiple of 256. -/
theorem setup_hal_bufs_ext_line_buf_samples :
    (setup_hal_bufs alloc_ok (zero_ctx (mk_cfg 1920 1080 none))).1.ext_line_buf = none ∧
    (setup_hal_bufs alloc_ok (zero_ctx (mk_cfg 7680 4320 none))).1.ext_line_buf.isSome = true ∧
    (setup_hal_bufs alloc_ok (zero_ctx (mk_cfg 7680 4320 none))).1.ext_line_buf_size = 26880 :=
  ⟨((setup_hal_bufs_ext_line_buf alloc_ok (zero_ctx (mk_cfg 1920 1080 none))).2.1
      (by decide)).1,
    (((setup_hal_bufs_ext_line_buf alloc_ok (zero_ctx (mk_cfg 7680 4320 none))).2.2
      (by decide)).2.2.1 rfl rfl).1,
    ((((setup_hal_bufs_ext_line_buf alloc_ok (zero_ctx (mk_cfg 7680 4320 none))).2.2
      (by decide)).2.2.2 (by decide)).1).trans (by decide)⟩

/-- Counterexample to C5: for a 3840x2160 picture, allocations succeeding, no
line buffer is held after `setup_hal_bufs` and the recorded size is 0, not
greater than 0. -/
theorem no_ext_line_buf_at_2160p :
    (setup_hal_bufs alloc_ok (zero_ctx (mk_cfg 3840 2160 none))).1.ext_line_buf = none ∧
    (setup_hal_bufs alloc_ok (zero_ctx (mk_cfg 3840 2160 none))).1.ext_line_buf_size = 0 ∧
    ¬ ((setup_hal_bufs alloc_ok (zero_ctx (mk_cfg 3840 2160 none))).1.ext_line_buf.isSome = true ∧
      0 < (setup_hal_bufs alloc_ok (zero_ctx (mk_cfg 3840 2160 none))).1.ext_line_buf_size) := by
  decide

/-- C5 (amended): for a 3840x2160 picture, after `setup_hal_bufs` no line buffer
and no line-buffer group is held and `ext_line_buf_size` is 0, since the aligned
width 3840 does not exceed 4096. -/
theorem setup_hal_bufs_2160p (env : MppBufferEnv) (ctx : HalH264eVepu580Ctx)
    (hw : ctx.cfg.prep.width = 3840) (_hh : ctx.cfg.prep.height = 2160) :
    MPP_ALIGN ctx.cfg.prep.width 64 = 3840 ∧
    (setup_hal_bufs env ctx).1.ext_line_buf = none ∧
    (setup_hal_bufs env ctx).1.ext_line_buf_grp = none ∧
    (setup_hal_bufs env ctx).1.ext_line_buf_size = 0 := by
  have haw : MPP_ALIGN ctx.cfg.prep.width 64 = 3840 := by rw [hw]; decide
  obtain ⟨hb, hg, hs⟩ := setup_hal_bufs_ext_fields env ctx
  rw [hb, hg, hs]
  exact ⟨haw, ext_line_small env _ ctx (by rw [haw]; decide)⟩

/-- Witness of C5 (amended): a context that holds a line buffer from an earlier
7680x4320 configuration releases it when configured for 3840x2160. -/
theorem setup_hal_bufs_2160p_after_8k :
    ((3840 : Int) = 3840 ∧ (2160 : Int) = 2160) ∧
    (setup_hal_bufs alloc_ok (zero_ctx (mk_cfg 7680 4320 none))).1.ext_line_buf.isSome = true ∧
    (setup_hal_bufs alloc_ok
      { (setup_hal_bufs alloc_ok (zero_ctx (mk_cfg 7680 4320 none))).1 with
        cfg := mk_cfg 3840 2160 none }).1.ext_line_buf = none ∧
    (setup_hal_bufs alloc_ok
      { (setup_hal_bufs alloc_ok (zero_ctx (mk_cfg 7680 4320 none))).1 with
        cfg := mk_cfg 3840 2160 none }).1.ext_line_buf_size = 0 :=
  ⟨⟨rfl, rfl⟩, by decide,
    (setup_hal_bufs_2160p alloc_ok
      { (setup_hal_bufs alloc_ok (zero_ctx (mk_cfg 7680 4320 none))).1 with
        cfg := mk_cfg 3840 2160 none } rfl rfl).2.1,
    (setup_hal_bufs_2160p alloc_ok
      { (setup_hal_bufs alloc_ok (zero_ctx (mk_cfg 7680 4320 none))).1 with
        cfg := mk_cfg 3840 2160 none } rfl rfl).2.2.2⟩

/-! ## Marking and reorder queues -/

theorem mmco_decoders_eq (e : H264eMmco) :
    mmco_decode_slot0 e = mmco_map e ∧ mmco_decode_slot1 e = mmco_map e ∧
    mmco_decode_slot2 e = mmco_map e := by
  unfold mmco_decode_slot0 mmco_decode_slot1 mmco_decode_slot2 mmco_map
  simp only []
  refine ⟨?_, ?_, ?_⟩ <;> split_ifs <;> simp_all

theorem codec_mmco_cursor (regs : HalVepu580RegSet) (ops : List H264eMmco) :
    (setup_vepu580_codec_mmco regs { ops := ops, rd_cnt := 0 }).2 =
      { ops := ops, rd_cnt := min ops.length 3 } := by
  unfold setup_vepu580_codec_mmco
  rcases ops with _ | ⟨a, _ | ⟨b, _ | ⟨c, rest⟩⟩⟩ <;>
    simp [h264e_marking_is_empty, h264e_marking_rd_op]

theorem codec_mmco_slots (regs : HalVepu580RegSet) (ops : List H264eMmco)
    (h0 : mmco_slot regs 0 = (0, 0, 0)) (h1 : mmco_slot regs 1 = (0, 0, 0))
    (h2 : mmco_slot regs 2 = (0, 0, 0)) (k : Nat) (hk : k < 3) :
    mmco_slot (setup_vepu580_codec_mmco regs { ops := ops, rd_cnt := 0 }).1 k =
      match ops[k]? with
      | some e => mmco_map e
      | none => (0, 0, 0) := by
  unfold setup_vepu580_codec_mmco
  simp only [mmco_slot, Prod.mk.injEq] at h0 h1 h2
  have hk3 : k = 0 ∨ k = 1 ∨ k = 2 := by omega
  rcases hk3 with rfl | rfl | rfl <;>
  rcases ops with _ | ⟨a, _ | ⟨b, _ | ⟨c, rest⟩⟩⟩ <;>
    simp [h264e_marking_is_empty, h264e_marking_rd_op, mmco_slot, h0, h1, h2,
      (mmco_decoders_eq _).1, (mmco_decoders_eq _).2.1, (mmco_decoders_eq _).2.2]

theorem codec_mmco_arpm (regs : HalVepu580RegSet) (ops : List H264eMmco)
    (h : regs.reg_base.synt_refm0.arpm_flg = 0) :
    (setup_vepu580_codec_mmco regs { ops := ops, rd_cnt := 0 }).1.reg_base.synt_refm0.arpm_flg =
      if 0 < ops.length then 1 else 0 := by
  unfold setup_vepu580_codec_mmco
  rcases ops with _ | ⟨a, _ | ⟨b, _ | ⟨c, rest⟩⟩⟩ <;>
    simp [h264e_marking_is_empty, h264e_marking_rd_op, h]

/-- C6: for a non-I slice whose marking queue holds n entries,
`setup_vepu580_codec` rewinds the marking read cursor and pops exactly
min(n, 3) entries (never more than 3), the cursor is empty afterwards whenever
n <= 3, and `arpm_flg` is 1 when n > 0 and 0 otherwise. -/
theorem setup_vepu580_codec_marking_pops (regs : HalVepu580RegSet) (sps : H264eSps)
    (pps : H264ePps) (slice : H264eSlice) (h : slice.slice_type ≠ H264_I_SLICE) :
    (setup_vepu580_codec regs sps pps slice).2.marking.ops = slice.marking.ops ∧
    (setup_vepu580_codec regs sps pps slice).2.marking.rd_cnt = min slice.marking.ops.length 3 ∧
    (setup_vepu580_codec regs sps pps slice).2.marking.rd_cnt ≤ 3 ∧
    (slice.marking.ops.length ≤ 3 →
      h264e_marking_is_empty (setup_vepu580_codec regs sps pps slice).2.marking = true) ∧
    ((setup_vepu580_codec regs sps pps slice).1.reg_base.synt_refm0.arpm_flg = 1 ↔
      0 < slice.marking.ops.length) ∧
    (setup_vepu580_codec regs sps pps slice).1.reg_base.synt_refm0.arpm_flg =
      (if 0 < slice.marking.ops.length then 1 else 0) := by
  simp only [setup_vepu580_codec, if_neg h, h264e_marking_rd_rewind]
  rw [codec_mmco_cursor, codec_mmco_arpm _ _ rfl]
  refine ⟨rfl, rfl, ?_, ?_, ?_, rfl⟩
  · simp only []; omega
  · intro hn
    simp only [h264e_marking_is_empty, decide_eq_true_eq]
    omega
  · split_ifs <;> simp_all

/-- Witness of C6: a P slice with four marking entries has three of them
popped and `arpm_flg` set; the read cursor is then not empty. -/
theorem setup_vepu580_codec_marking_pops_four :
    (sample_slice 0 [] [sample_mmco 1, sample_mmco 2, sample_mmco 3, sample_mmco 4]).slice_type ≠
      H264_I_SLICE ∧
    (setup_vepu580_codec zero_regs sample_sps sample_pps
      (sample_slice 0 [] [sample_mmco 1, sample_mmco 2, sample_mmco 3, sample_mmco 4])).2.marking.rd_cnt
        = 3 ∧
    (setup_vepu580_codec zero_regs sample_sps sample_pps
      (sample_slice 0 [] [sample_mmco 1, sample_mmco 2, sample_mmco 3, sample_mmco 4])).1.reg_base.synt_refm0.arpm_flg
        = 1 :=
  ⟨by decide,
    (setup_vepu580_codec_marking_pops zero_regs sample_sps sample_pps
      (sample_slice 0 [] [sample_mmco 1, sample_mmco 2, sample_mmco 3, sample_mmco 4])
      (by decide)).2.1,
    (setup_vepu580_codec_marking_pops zero_regs sample_sps sample_pps
      (sample_slice 0 [] [sample_mmco 1, sample_mmco 2, sample_mmco 3, sample_mmco 4])
      (by decide)).2.2.2.2.2⟩

/-- C7: for a non-I slice with marking entries e_0 .. e_{n-1}, every slot
k < 3 written by `setup_vepu580_codec` holds M(e_k) when k < n and (0, 0, 0)
when k >= n, where M is `mmco_map` (an unrecognised opcode maps to (0, 0, 0));
the three unrolled slot decoders of the source all compute M. -/
theorem setup_vepu580_codec_marking_slots (regs : HalVepu580RegSet) (sps : H264eSps)
    (pps : H264ePps) (slice : H264eSlice) (h : slice.slice_type ≠ H264_I_SLICE) :
    (∀ k : Nat, k < 3 →
      mmco_slot (setup_vepu580_codec regs sps pps slice).1 k =
        match slice.marking.ops[k]? with
        | some e => mmco_map e
        | none => (0, 0, 0)) ∧
    (∀ e : H264eMmco, mmco_decode_slot0 e = mmco_map e ∧ mmco_decode_slot1 e = mmco_map e ∧
      mmco_decode_slot2 e = mmco_map e) := by
  refine ⟨?_, mmco_decoders_eq⟩
  intro k hk
  simp only [setup_vepu580_codec, if_neg h, h264e_marking_rd_rewind]
  refine codec_mmco_slots _ _ ?_ ?_ ?_ k hk <;> rfl

/-- Witness of C7: opcodes [2, 1] give slot 0 = (2, long_term_pic_num), slot 1 =
(1, difference_of_pic_nums_minus1) and slot 2 all zero. -/
theorem setup_vepu580_codec_marking_slots_2_1 :
    (sample_slice 0 [] [sample_mmco 2, sample_mmco 1]).slice_type ≠ H264_I_SLICE ∧
    mmco_slot (setup_vepu580_codec zero_regs sample_sps sample_pps
      (sample_slice 0 [] [sample_mmco 2, sample_mmco 1])).1 0 =
        (2, (sample_mmco 2).long_term_pic_num, 0) ∧
    mmco_slot (setup_vepu580_codec zero_regs sample_sps sample_pps
      (sample_slice 0 [] [sample_mmco 2, sample_mmco 1])).1 1 =
        (1, (sample_mmco 1).difference_of_pic_nums_minus1, 0) ∧
    mmco_slot (setup_vepu580_codec zero_regs sample_sps sample_pps
      (sample_slice 0 [] [sample_mmco 2, sample_mmco 1])).1 2 = (0, 0, 0) :=
  ⟨by decide,
    (setup_vepu580_codec_marking_slots zero_regs sample_sps sample_pps
      (sample_slice 0 [] [sample_mmco 2, sample_mmco 1]) (by decide)).1 0 (by decide),
    (setup_vepu580_codec_marking_slots zero_regs sample_sps sample_pps
      (sample_slice 0 [] [sample_mmco 2, sample_mmco 1]) (by decide)).1 1 (by decide),
    (setup_vepu580_codec_marking_slots zero_regs sample_sps sample_pps
      (sample_slice 0 [] [sample_mmco 2, sample_mmco 1]) (by decide)).1 2 (by decide)⟩

/-- C8: for an I slice, whatever the marking queue holds, `setup_vepu580_codec`
sets `nopp_flg = no_output_of_prior_pics` and
`ltrf_flg = long_term_reference_flag`, leaves `arpm_flg`, `mmco4_pre` and the
three marking slots (type, parameter, long-term frame index) at 0, and pops no
marking entry: the read cursor stays rewound. -/
theorem setup_vepu580_codec_marking_I_slice (regs : HalVepu580RegSet) (sps : H264eSps)
    (pps : H264ePps) (slice : H264eSlice) (h : slice.slice_type = H264_I_SLICE) :
    (setup_vepu580_codec regs sps pps slice).1.reg_base.synt_refm0.nopp_flg =
      slice.no_output_of_prior_pics ∧
    (setup_vepu580_codec regs sps pps slice).1.reg_base.synt_refm0.ltrf_flg =
      slice.long_term_reference_flag ∧
    (setup_vepu580_codec regs sps pps slice).1.reg_base.synt_refm0.arpm_flg = 0 ∧
    (setup_vepu580_codec regs sps pps slice).1.reg_base.synt_refm0.mmco4_pre = 0 ∧
    (∀ k : Nat, mmco_slot (setup_vepu580_codec regs sps pps slice).1 k = (0, 0, 0)) ∧
    (setup_vepu580_codec regs sps pps slice).2.marking.ops = slice.marking.ops ∧
    (setup_vepu580_codec regs sps pps slice).2.marking.rd_cnt = 0 := by
  refine ⟨?_, ?_, ?_, ?_, ?_, ?_, ?_⟩
  · simp [setup_vepu580_codec, h]
  · simp [setup_vepu580_codec, h]
  · simp [setup_vepu580_codec, h]
  · simp [setup_vepu580_codec, h]
  · intro k
    rcases k with _ | _ | k <;> simp [setup_vepu580_codec, h, mmco_slot]
  · simp [setup_vepu580_codec, h, h264e_marking_rd_rewind]
  · simp [setup_vepu580_codec, h, h264e_marking_rd_rewind]

/-- Witness of C8: an I slice with two marking entries sets only the two flags
and pops nothing. -/
theorem setup_vepu580_codec_marking_I_slice_sample :
    (sample_slice 2 [] [sample_mmco 2, sample_mmco 1]).slice_type = H264_I_SLICE ∧
    (setup_vepu580_codec zero_regs sample_sps sample_pps
      (sample_slice 2 [] [sample_mmco 2, sample_mmco 1])).1.reg_base.synt_refm0 =
        { nopp_flg := 1, ltrf_flg := 1, arpm_flg := 0, mmco4_pre := 0, mmco_type0 := 0,
          mmco_parm0 := 0, mmco_type1 := 0, mmco_type2 := 0 } ∧
    (setup_vepu580_codec zero_regs sample_sps sample_pps
      (sample_slice 2 [] [sample_mmco 2, sample_mmco 1])).2.marking.rd_cnt = 0 :=
  ⟨by decide, by decide,
    (setup_vepu580_codec_marking_I_slice zero_regs sample_sps sample_pps
      (sample_slice 2 [] [sample_mmco 2, sample_mmco 1]) (by decide)).2.2.2.2.2.2⟩

theorem codec_mmco_frame (regs : HalVepu580RegSet) (marking : H264eMarkingInfo) :
    (setup_vepu580_codec_mmco regs marking).1.reg_base.synt_sli2 = regs.reg_base.synt_sli2 := by
  unfold setup_vepu580_codec_mmco
  simp only []
  split_ifs <;> rfl

theorem codec_reorder_cursor (regs : HalVepu580RegSet) (sps : H264eSps) (pps : H264ePps)
    (slice : H264eSlice) :
    (setup_vepu580_codec regs sps pps slice).2.reorder =
      (h264e_reorder_rd_op (h264e_reorder_rd_rewind slice.reorder)).2 := by
  by_cases hI : slice.slice_type = H264_I_SLICE <;> simp [setup_vepu580_codec, hI]

theorem codec_sli2 (regs : HalVepu580RegSet) (sps : H264eSps) (pps : H264ePps)
    (slice : H264eSlice) :
    (setup_vepu580_codec regs sps pps slice).1.reg_base.synt_sli2 =
      reorder_fields regs.reg_base.synt_sli2 slice
        (h264e_reorder_rd_op (h264e_reorder_rd_rewind slice.reorder)).1 := by
  by_cases hI : slice.slice_type = H264_I_SLICE <;>
  rcases hrd : (h264e_reorder_rd_op (h264e_reorder_rd_rewind slice.reorder)).1 with _ | op
  · simp [setup_vepu580_codec, hrd, hI, reorder_fields]
  · by_cases h01 : op.modification_of_pic_nums_idc = 0 ∨ op.modification_of_pic_nums_idc = 1 <;>
    by_cases h2 : op.modification_of_pic_nums_idc = 2 <;>
    simp [setup_vepu580_codec, hrd, hI, reorder_fields, h01, h2]
  · simp [setup_vepu580_codec, hrd, hI, reorder_fields, codec_mmco_frame]
  · by_cases h01 : op.modification_of_pic_nums_idc = 0 ∨ op.modification_of_pic_nums_idc = 1 <;>
    by_cases h2 : op.modification_of_pic_nums_idc = 2 <;>
    simp [setup_vepu580_codec, hrd, hI, reorder_fields, codec_mmco_frame, h01, h2]

/-- C9: for every slice `setup_vepu580_codec` rewinds the reorder read cursor
and pops at most one instruction.  With an instruction present,
`ref_list0_rodr = 1`, `rodr_pic_idx` is its `modification_of_pic_nums_idc`, and
`rodr_pic_num` is `abs_diff_pic_num_minus1` for idc 0 or 1 and
`long_term_pic_idx` for idc 2.  With none present the three fields are 0. -/
theorem setup_vepu580_codec_reorder (regs : HalVepu580RegSet) (sps : H264eSps)
    (pps : H264ePps) (slice : H264eSlice) :
    (setup_vepu580_codec regs sps pps slice).2.reorder.ops = slice.reorder.ops ∧
    (setup_vepu580_codec regs sps pps slice).2.reorder.rd_cnt = min slice.reorder.ops.length 1 ∧
    (∀ op : H264eRplmo, slice.reorder.ops.head? = some op →
      (setup_vepu580_codec regs sps pps slice).1.reg_base.synt_sli2.ref_list0_rodr = 1 ∧
      (setup_vepu580_codec regs sps pps slice).1.reg_base.synt_sli2.rodr_pic_idx =
        op.modification_of_pic_nums_idc ∧
      (op.modification_of_pic_nums_idc = 0 ∨ op.modification_of_pic_nums_idc = 1 →
        (setup_vepu580_codec regs sps pps slice).1.reg_base.synt_sli2.rodr_pic_num =
          op.abs_diff_pic_num_minus1) ∧
      (op.modification_of_pic_nums_idc = 2 →
        (setup_vepu580_codec regs sps pps slice).1.reg_base.synt_sli2.rodr_pic_num =
          op.long_term_pic_idx)) ∧
    (slice.reorder.ops = [] →
      (setup_vepu580_codec regs sps pps slice).1.reg_base.synt_sli2.ref_list0_rodr = 0 ∧
      (setup_vepu580_codec regs sps pps slice).1.reg_base.synt_sli2.rodr_pic_idx = 0 ∧
      (setup_vepu580_codec regs sps pps slice).1.reg_base.synt_sli2.rodr_pic_num = 0) := by
  have hr := codec_reorder_cursor regs sps pps slice
  have hs := codec_sli2 regs sps pps slice
  rcases hops : slice.reorder.ops with _ | ⟨op0, rest⟩
  · rw [hr, hs]
    simp [h264e_reorder_rd_rewind, h264e_reorder_rd_op, hops, reorder_fields]
  · rw [hr, hs]
    by_cases h01 : op0.modification_of_pic_nums_idc = 0 ∨ op0.modification_of_pic_nums_idc = 1 <;>
    by_cases h2 : op0.modification_of_pic_nums_idc = 2 <;>
    simp [h264e_reorder_rd_rewind, h264e_reorder_rd_op, hops, h01, h2, reorder_fields]
/-- Witness of C9: with the operations [idc 2, idc 0] queued exactly one is
popped and the fields are 1, 2 and its `long_term_pic_idx`; with an empty queue
the fields are 0. -/
theorem setup_vepu580_codec_reorder_samples :
    (setup_vepu580_codec zero_regs sample_sps sample_pps
      (sample_slice 0 [sample_rplmo 2, sample_rplmo 0] [])).2.reorder.rd_cnt = 1 ∧
    (setup_vepu580_codec zero_regs sample_sps sample_pps
      (sample_slice 0 [sample_rplmo 2, sample_rplmo 0] [])).1.reg_base.synt_sli2.ref_list0_rodr
        = 1 ∧
    (setup_vepu580_codec zero_regs sample_sps sample_pps
      (sample_slice 0 [sample_rplmo 2, sample_rplmo 0] [])).1.reg_base.synt_sli2.rodr_pic_num
        = (sample_rplmo 2).long_term_pic_idx ∧
    (setup_vepu580_codec zero_regs sample_sps sample_pps
      (sample_slice 0 [] [])).1.reg_base.synt_sli2.ref_list0_rodr = 0 :=
  ⟨(setup_vepu580_codec_reorder zero_regs sample_sps sample_pps
      (sample_slice 0 [sample_rplmo 2, sample_rplmo 0] [])).2.1,
    ((setup_vepu580_codec_reorder zero_regs sample_sps sample_pps
      (sample_slice 0 [sample_rplmo 2, sample_rplmo 0] [])).2.2.1 (sample_rplmo 2) rfl).1,
    ((setup_vepu580_codec_reorder zero_regs sample_sps sample_pps
      (sample_slice 0 [sample_rplmo 2, sample_rplmo 0] [])).2.2.1 (sample_rplmo 2) rfl).2.2.2 rfl,
    ((setup_vepu580_codec_reorder zero_regs sample_sps sample_pps
      (sample_slice 0 [] [])).2.2.2 rfl).1⟩

theorem u32_of_range (x : Int) (h0 : 0 ≤ x) (h1 : x < 4294967296) : u32 x = x := by
  unfold u32; omega

theorem s32_range (x : Int) : -2147483648 ≤ s32 x ∧ s32 x < 2147483648 := by
  unfold s32; omega

theorem rc_divisor_ne_zero (w h : Int) (hw0 : 0 < w) (hh0 : 0 < h) (hp : w * h < 2147483648) :
    s32 (w * h) ≠ 0 := by
  have hpos : 0 < w * h := Int.mul_pos hw0 hh0
  rw [s32_of_range _ (by omega) hp]
  omega

theorem rc_base_some (regs : HalVepu580RegSet) (sps : H264eSps) (slice : H264eSlice)
    (hw : MppEncHwCfg) (rc_task : EncRcTask)
    (hd : s32 (sps.pic_width_in_mbs * sps.pic_height_in_mbs) ≠ 0) :
    setup_vepu580_rc_base regs sps slice hw rc_task =
      some (setup_vepu580_rc_base_stores regs sps slice hw rc_task
        (if s32 (cdiv (s32 (rc_task.info.bit_target * 16))
            (s32 (sps.pic_width_in_mbs * sps.pic_height_in_mbs))) ≥ CTU_EBIT_LIMIT then
          CTU_EBIT_SUBST
        else s32 (cdiv (s32 (rc_task.info.bit_target * 16))
          (s32 (sps.pic_width_in_mbs * sps.pic_height_in_mbs))))) := by
  simp only [setup_vepu580_rc_base, rc_mb_target_bits_mul_16, cdiv_checked, if_neg hd]

theorem rc_base_none (regs : HalVepu580RegSet) (sps : H264eSps) (slice : H264eSlice)
    (hw : MppEncHwCfg) (rc_task : EncRcTask)
    (hd : s32 (sps.pic_width_in_mbs * sps.pic_height_in_mbs) = 0) :
    setup_vepu580_rc_base regs sps slice hw rc_task = none := by
  simp only [setup_vepu580_rc_base, rc_mb_target_bits_mul_16, cdiv_checked, if_pos hd]

theorem rc_base_none_iff (regs : HalVepu580RegSet) (sps : H264eSps) (slice : H264eSlice)
    (hw : MppEncHwCfg) (rc_task : EncRcTask) :
    setup_vepu580_rc_base regs sps slice hw rc_task = none ↔
      s32 (sps.pic_width_in_mbs * sps.pic_height_in_mbs) = 0 := by
  constructor
  · intro h
    by_contra hd
    rw [rc_base_some regs sps slice hw rc_task hd] at h
    exact Option.noConfusion h
  · exact rc_base_none regs sps slice hw rc_task

theorem rc_stores_ctu_ebit (regs : HalVepu580RegSet) (sps : H264eSps) (slice : H264eSlice)
    (hw : MppEncHwCfg) (rc_task : EncRcTask) (v : Int) :
    (setup_vepu580_rc_base_stores regs sps slice hw rc_task v).reg_base.rc_tgt.ctu_ebit = v :=
  rfl

/-- Counterexample to C11: for a 128x128 picture (8x8 macroblocks) and a bit
target of 1,600,000 bits, which satisfy the conditions of the claim, the value
written to `ctu_ebit` is 400000, larger than the substituted value 0x50000 =
327680. -/
theorem rc_ctu_ebit_above_0x50000 :
    ((0 : Int) ≤ 1600000 ∧ (1600000 : Int) * 16 < 2147483648 ∧ (0 : Int) < 8) ∧
    (setup_vepu580_rc_base zero_regs
      { sample_sps with pic_width_in_mbs := 8, pic_height_in_mbs := 8 }
      (sample_slice 0 [] []) { qp_delta_row_i := 0, qp_delta_row := 1 }
      (sample_task 6 1600000).rc_task).map (fun r => r.reg_base.rc_tgt.ctu_ebit) =
      some 400000 ∧
    ¬ ((400000 : Int) ≤ 0x50000) := by
  decide

/-- C11 (amended): for all rate-control inputs of the claim (`bit_target >= 0`
with `bit_target * 16` below 2^31, `pic_width_in_mbs > 0`,
`pic_height_in_mbs > 0`) whose macroblock count `mb_w * mb_h` is below 2^31,
`setup_vepu580_rc_base` has a result and the value it writes to
`rc_tgt.ctu_ebit` is below the test value 0x100000 and not negative: a scaled
target `bit_target * 16 / (mb_w * mb_h)` at or above 0x100000 is replaced by
0x50000 and a smaller one is written unchanged, so the value written exceeds
0x50000 exactly when the scaled target lies between 0x50001 and 0xFFFFF. -/
theorem rc_ctu_ebit_below_limit (regs : HalVepu580RegSet) (sps : H264eSps)
    (slice : H264eSlice) (hw : MppEncHwCfg) (rc_task : EncRcTask)
    (hb : 0 ≤ rc_task.info.bit_target) (hb16 : rc_task.info.bit_target * 16 < 2147483648)
    (hw0 : 0 < sps.pic_width_in_mbs) (hh0 : 0 < sps.pic_height_in_mbs)
    (hp : sps.pic_width_in_mbs * sps.pic_height_in_mbs < 2147483648) :
    ∃ r, setup_vepu580_rc_base regs sps slice hw rc_task = some r ∧
      r.reg_base.rc_tgt.ctu_ebit < 0x100000 ∧
      0 ≤ r.reg_base.rc_tgt.ctu_ebit ∧
      r.reg_base.rc_tgt.ctu_ebit =
        (if rc_task.info.bit_target * 16 / (sps.pic_width_in_mbs * sps.pic_height_in_mbs)
            ≥ 0x100000 then 0x50000
          else rc_task.info.bit_target * 16 /
            (sps.pic_width_in_mbs * sps.pic_height_in_mbs)) ∧
      (0x50000 < r.reg_base.rc_tgt.ctu_ebit ↔
        0x50000 < rc_task.info.bit_target * 16 /
            (sps.pic_width_in_mbs * sps.pic_height_in_mbs) ∧
          rc_task.info.bit_target * 16 / (sps.pic_width_in_mbs * sps.pic_height_in_mbs)
            < 0x100000) := by
  have hpos : 0 < sps.pic_width_in_mbs * sps.pic_height_in_mbs := Int.mul_pos hw0 hh0
  have hd := rc_divisor_ne_zero _ _ hw0 hh0 hp
  have hq : 0 ≤ rc_task.info.bit_target * 16 /
      (sps.pic_width_in_mbs * sps.pic_height_in_mbs) :=
    Int.ediv_nonneg (by omega) (by omega)
  have hq1 : rc_task.info.bit_target * 16 / (sps.pic_width_in_mbs * sps.pic_height_in_mbs) ≤
      rc_task.info.bit_target * 16 :=
    Int.ediv_le_self _ (by omega)
  have hraw : s32 (cdiv (s32 (rc_task.info.bit_target * 16))
      (s32 (sps.pic_width_in_mbs * sps.pic_height_in_mbs))) =
      rc_task.info.bit_target * 16 / (sps.pic_width_in_mbs * sps.pic_height_in_mbs) := by
    rw [s32_of_range _ (by omega) hb16, s32_of_range _ (by omega) hp,
      cdiv_of_nonneg _ _ (by omega) (by omega), s32_of_range _ (by omega) (by omega)]
  refine ⟨_, rc_base_some regs sps slice hw rc_task hd, ?_⟩
  rw [rc_stores_ctu_ebit, hraw]
  unfold CTU_EBIT_LIMIT CTU_EBIT_SUBST
  refine ⟨?_, ?_, rfl, ?_⟩
  · split_ifs <;> omega
  · split_ifs <;> omega
  · split_ifs <;> omega

/-- Witness of C11 (amended): for the 1920x1080 scenario (bit target 4,000,000,
120x68 macroblocks) the function has a result and the value written is the
unclamped 7843. -/
theorem rc_ctu_ebit_samples :
    ∃ r, setup_vepu580_rc_base zero_regs sample_sps (sample_slice 0 [] [])
        { qp_delta_row_i := 0, qp_delta_row := 1 } (sample_task 6 4000000).rc_task = some r ∧
      r.reg_base.rc_tgt.ctu_ebit = 7843 :=
  (rc_ctu_ebit_below_limit zero_regs sample_sps (sample_slice 0 [] [])
    { qp_delta_row_i := 0, qp_delta_row := 1 } (sample_task 6 4000000).rc_task (by decide)
    (by decide) (by decide) (by decide) (by decide)).imp
    (fun _ h => ⟨h.1, h.2.2.2.1.trans (by decide)⟩)

theorem cdiv_4_range (t : Int) (h0 : -2147483648 ≤ t) (h1 : t < 2147483648) :
    -536870912 ≤ cdiv t 4 ∧ cdiv t 4 ≤ 536870912 := by
  unfold cdiv
  have h := Int.tdiv_eq_ediv (a := t) (b := 4)
  by_cases ht : 0 ≤ t
  · rw [h ht (by decide)]; omega
  · have hn : t = -(-t) := by omega
    rw [hn, Int.neg_tdiv, Int.tdiv_eq_ediv (by omega) (by decide)]
    omega

/-- C12: for every rate-control input on which the division of source line 859
has a non-zero divisor (in particular for positive macroblock dimensions whose
product is below 2^31), `setup_vepu580_rc_base` has a result, and in it the
budget thresholds come from the unscaled per-row target
T = (ctu_ebit * mb_w) >> 4: `rc_dthd_0_8[0] = -(T/4)` and `rc_dthd_0_8[k] = T/4`
for every k in 1..8, so the first threshold is the negation of each of the
others; when `ctu_ebit * mb_w` fits `RK_S32`, T is `ctu_ebit * mb_w / 16`. -/
theorem rc_thresholds (regs : HalVepu580RegSet) (sps : H264eSps) (slice : H264eSlice)
    (hw : MppEncHwCfg) (rc_task : EncRcTask)
    (hd : s32 (sps.pic_width_in_mbs * sps.pic_height_in_mbs) ≠ 0) :
    ∃ r, setup_vepu580_rc_base regs sps slice hw rc_task = some r ∧
      r.reg_rc_klut.rc_dthd_0_8[0]? =
        some (-(cdiv (s32 (r.reg_base.rc_tgt.ctu_ebit * sps.pic_width_in_mbs) / 16) 4)) ∧
      (∀ k : Nat, 1 ≤ k → k ≤ 8 →
        r.reg_rc_klut.rc_dthd_0_8[k]? =
          some (cdiv (s32 (r.reg_base.rc_tgt.ctu_ebit * sps.pic_width_in_mbs) / 16) 4)) ∧
      r.reg_rc_klut.rc_dthd_0_8.length = 9 ∧
      (-2147483648 ≤ r.reg_base.rc_tgt.ctu_ebit * sps.pic_width_in_mbs →
        r.reg_base.rc_tgt.ctu_ebit * sps.pic_width_in_mbs < 2147483648 →
        s32 (r.reg_base.rc_tgt.ctu_ebit * sps.pic_width_in_mbs) / 16 =
          r.reg_base.rc_tgt.ctu_ebit * sps.pic_width_in_mbs / 16) := by
  refine ⟨_, rc_base_some regs sps slice hw rc_task hd, ?_⟩
  obtain ⟨v, hv⟩ : ∃ v, v = (if s32 (cdiv (s32 (rc_task.info.bit_target * 16))
      (s32 (sps.pic_width_in_mbs * sps.pic_height_in_mbs))) ≥ CTU_EBIT_LIMIT then
        CTU_EBIT_SUBST
      else s32 (cdiv (s32 (rc_task.info.bit_target * 16))
        (s32 (sps.pic_width_in_mbs * sps.pic_height_in_mbs)))) := ⟨_, rfl⟩
  rw [← hv, rc_stores_ctu_ebit]
  obtain ⟨t, ht⟩ : ∃ t, t = s32 (v * sps.pic_width_in_mbs) / 16 := ⟨_, rfl⟩
  have hr := s32_range (v * sps.pic_width_in_mbs)
  have hc := cdiv_4_range t (by omega) (by omega)
  have hneg : s32 (0 - cdiv t 4) = -(cdiv t 4) := by
    rw [s32_of_range _ (by omega) (by omega)]; omega
  have hlist : (setup_vepu580_rc_base_stores regs sps slice hw rc_task v).reg_rc_klut.rc_dthd_0_8 =
      [-(cdiv t 4), cdiv t 4, cdiv t 4, cdiv t 4, cdiv t 4, cdiv t 4, cdiv t 4, cdiv t 4,
        cdiv t 4] := by
    rw [← hneg, ht]
    rfl
  rw [hlist, ← ht]
  refine ⟨rfl, ?_, rfl, ?_⟩
  · intro k h1 h8
    have hk : k = 1 ∨ k = 2 ∨ k = 3 ∨ k = 4 ∨ k = 5 ∨ k = 6 ∨ k = 7 ∨ k = 8 := by omega
    rcases hk with rfl | rfl | rfl | rfl | rfl | rfl | rfl | rfl <;> rfl
  · intro h0 h1
    rw [ht, s32_of_range _ h0 h1]

/-- Witness of C12: a bit target of 4,000,000 with 120x68 macroblocks gives a
result with `ctu_ebit = 7843` (unclamped), T = 58822 and the thresholds -14705
and +14705. -/
theorem rc_thresholds_1080p :
    (s32 (7843 * 120) / 16 = 58822 ∧
      (setup_vepu580_rc_base zero_regs sample_sps (sample_slice 0 [] [])
        { qp_delta_row_i := 0, qp_delta_row := 1 }
        (sample_task 6 4000000).rc_task).map (fun r => r.reg_base.rc_tgt.ctu_ebit) =
        some 7843 ∧
      (setup_vepu580_rc_base zero_regs sample_sps (sample_slice 0 [] [])
        { qp_delta_row_i := 0, qp_delta_row := 1 }
        (sample_task 6 4000000).rc_task).map (fun r => r.reg_rc_klut.rc_dthd_0_8) =
        some [-14705, 14705, 14705, 14705, 14705, 14705, 14705, 14705, 14705]) ∧
    ∃ r, setup_vepu580_rc_base zero_regs sample_sps (sample_slice 0 [] [])
        { qp_delta_row_i := 0, qp_delta_row := 1 } (sample_task 6 4000000).rc_task = some r ∧
      r.reg_rc_klut.rc_dthd_0_8[0]? =
        some (-(cdiv (s32 (r.reg_base.rc_tgt.ctu_ebit * sample_sps.pic_width_in_mbs) / 16) 4)) ∧
      r.reg_rc_klut.rc_dthd_0_8[8]? =
        some (cdiv (s32 (r.reg_base.rc_tgt.ctu_ebit * sample_sps.pic_width_in_mbs) / 16) 4) :=
  ⟨by decide,
    (rc_thresholds zero_regs sample_sps (sample_slice 0 [] [])
      { qp_delta_row_i := 0, qp_delta_row := 1 } (sample_task 6 4000000).rc_task
      (by decide)).imp
      (fun _ h => ⟨h.1, h.2.1, h.2.2.1 8 (by decide) (by decide)⟩)⟩

/-- C13: for every rate-control input on which the division of source line 859
has a non-zero divisor, `setup_vepu580_rc_base` has a result, and in it the
active QP bounds are applied uniformly to all region classes: for every area i
in 0..7, `qpmin_area_i` is `quality_min` and `qpmax_area_i` is `quality_max` (as
`RK_U32` values), and `rc_min_qp`, `rc_max_qp` and `pic_qp` are `quality_min`,
`quality_max` and `quality_target`; a value in the `RK_U32` range is written
unchanged. -/
theorem rc_qp_bounds (regs : HalVepu580RegSet) (sps : H264eSps) (slice : H264eSlice)
    (hw : MppEncHwCfg) (rc_task : EncRcTask)
    (hd : s32 (sps.pic_width_in_mbs * sps.pic_height_in_mbs) ≠ 0) :
    ∃ r, setup_vepu580_rc_base regs sps slice hw rc_task = some r ∧
      (r.reg_rc_klut.roi_qthd0.qpmin_area0 = u32 rc_task.info.quality_min ∧
        r.reg_rc_klut.roi_qthd0.qpmin_area1 = u32 rc_task.info.quality_min ∧
        r.reg_rc_klut.roi_qthd0.qpmin_area2 = u32 rc_task.info.quality_min ∧
        r.reg_rc_klut.roi_qthd1.qpmin_area3 = u32 rc_task.info.quality_min ∧
        r.reg_rc_klut.roi_qthd1.qpmin_area4 = u32 rc_task.info.quality_min ∧
        r.reg_rc_klut.roi_qthd2.qpmin_area5 = u32 rc_task.info.quality_min ∧
        r.reg_rc_klut.roi_qthd2.qpmin_area6 = u32 rc_task.info.quality_min ∧
        r.reg_rc_klut.roi_qthd2.qpmin_area7 = u32 rc_task.info.quality_min) ∧
      (r.reg_rc_klut.roi_qthd0.qpmax_area0 = u32 rc_task.info.quality_max ∧
        r.reg_rc_klut.roi_qthd0.qpmax_area1 = u32 rc_task.info.quality_max ∧
        r.reg_rc_klut.roi_qthd1.qpmax_area2 = u32 rc_task.info.quality_max ∧
        r.reg_rc_klut.roi_qthd1.qpmax_area3 = u32 rc_task.info.quality_max ∧
        r.reg_rc_klut.roi_qthd1.qpmax_area4 = u32 rc_task.info.quality_max ∧
        r.reg_rc_klut.roi_qthd2.qpmax_area5 = u32 rc_task.info.quality_max ∧
        r.reg_rc_klut.roi_qthd2.qpmax_area6 = u32 rc_task.info.quality_max ∧
        r.reg_rc_klut.roi_qthd3.qpmax_area7 = u32 rc_task.info.quality_max) ∧
      (r.reg_base.rc_qp.rc_min_qp = u32 rc_task.info.quality_min ∧
        r.reg_base.rc_qp.rc_max_qp = u32 rc_task.info.quality_max ∧
        r.reg_base.enc_pic.pic_qp = u32 rc_task.info.quality_target) ∧
      (∀ q : Int, 0 ≤ q → q < 4294967296 → u32 q = q) :=
  ⟨_, rc_base_some regs sps slice hw rc_task hd,
    ⟨rfl, rfl, rfl, rfl, rfl, rfl, rfl, rfl⟩, ⟨rfl, rfl, rfl, rfl, rfl, rfl, rfl, rfl⟩,
    ⟨rfl, rfl, rfl⟩, u32_of_range⟩

/-- Witness of C13: with QP target 26 in [10, 51] the first and the last area
get the bounds 10 and 51, and `pic_qp` is 26. -/
theorem rc_qp_bounds_sample :
    ∃ r, setup_vepu580_rc_base zero_regs sample_sps (sample_slice 0 [] [])
        { qp_delta_row_i := 0, qp_delta_row := 1 } (sample_task 6 4000000).rc_task = some r ∧
      r.reg_rc_klut.roi_qthd0.qpmin_area0 = 10 ∧
      r.reg_rc_klut.roi_qthd3.qpmax_area7 = 51 ∧
      r.reg_base.enc_pic.pic_qp = 26 :=
  (rc_qp_bounds zero_regs sample_sps (sample_slice 0 [] [])
    { qp_delta_row_i := 0, qp_delta_row := 1 } (sample_task 6 4000000).rc_task
    (by decide)).imp
    (fun _ h => ⟨h.1, h.2.1.1.trans (by decide), h.2.2.1.2.2.2.2.2.2.2.trans (by decide),
      h.2.2.2.1.2.2.trans (by decide)⟩)

/-! ## Register synthesis: what each step leaves alone -/

theorem prep_ret (env : HalEnv) (regs : HalVepu580RegSet) (prep : MppEncPrepCfg) :
    (setup_vepu580_prep env regs prep).1 = (env.vepu541_set_fmt prep.format).1 := by
  unfold setup_vepu580_prep
  simp only []
  split_ifs <;> rfl

theorem prep_fail (env : HalEnv) (regs : HalVepu580RegSet) (prep : MppEncPrepCfg)
    (h : (env.vepu541_set_fmt prep.format).1 ≠ 0) :
    (setup_vepu580_prep env regs prep).2 = regs := by
  unfold setup_vepu580_prep
  simp only []
  rw [if_pos h]

theorem prep_sli_crs_en (env : HalEnv) (regs : HalVepu580RegSet) (prep : MppEncPrepCfg)
    (h : (env.vepu541_set_fmt prep.format).1 = 0) :
    (setup_vepu580_prep env regs prep).2.reg_base.sli_cfg.sli_crs_en = 1 := by
  unfold setup_vepu580_prep
  simp only []
  rw [if_neg (by simp [h])]

theorem codec_mmco_sli_cfg (regs : HalVepu580RegSet) (marking : H264eMarkingInfo) :
    (setup_vepu580_codec_mmco regs marking).1.reg_base.sli_cfg = regs.reg_base.sli_cfg := by
  unfold setup_vepu580_codec_mmco
  simp only []
  split_ifs <;> rfl

theorem codec_sli_cfg (regs : HalVepu580RegSet) (sps : H264eSps) (pps : H264ePps)
    (slice : H264eSlice) :
    (setup_vepu580_codec regs sps pps slice).1.reg_base.sli_cfg = regs.reg_base.sli_cfg := by
  by_cases hI : slice.slice_type = H264_I_SLICE <;>
  rcases hrd : (h264e_reorder_rd_op (h264e_reorder_rd_rewind slice.reorder)).1 with _ | op <;>
  simp only [setup_vepu580_codec, hI, hrd, if_true, if_false, codec_mmco_sli_cfg] <;>
  split_ifs <;> rfl

theorem rdo_pred_sli_cfg (regs : HalVepu580RegSet) (sps : H264eSps) (pps : H264ePps)
    (slice : H264eSlice) :
    (setup_vepu580_rdo_pred regs sps pps slice).reg_base.sli_cfg = regs.reg_base.sli_cfg := by
  unfold setup_vepu580_rdo_pred
  simp only []
  split_ifs <;> rfl

theorem rc_base_sli_cfg (regs : HalVepu580RegSet) (sps : H264eSps) (slice : H264eSlice)
    (hw : MppEncHwCfg) (rc_task : EncRcTask) (v : Int) :
    (setup_vepu580_rc_base_stores regs sps slice hw rc_task v).reg_base.sli_cfg =
      regs.reg_base.sli_cfg := rfl

theorem io_buf_sli_cfg (env : HalEnv) (regs : HalVepu580RegSet) (task : HalEncTask) :
    (setup_vepu580_io_buf env regs task).1.reg_base.sli_cfg = regs.reg_base.sli_cfg := rfl

theorem roi_sli_cfg (env : HalEnv) (regs : HalVepu580RegSet) (ctx : HalH264eVepu580Ctx) :
    (setup_vepu580_roi env regs ctx).1.reg_base.sli_cfg = regs.reg_base.sli_cfg := by
  unfold setup_vepu580_roi
  simp only []
  split
  · split_ifs <;> rfl
  · rfl

theorem recn_refr_sli_cfg (env : HalEnv) (regs : HalVepu580RegSet) (frms : H264eFrmInfo)
    (fbc_hdr_size : Int) :
    (setup_vepu580_recn_refr env regs frms fbc_hdr_size).1.reg_base.sli_cfg =
      regs.reg_base.sli_cfg := by
  unfold setup_vepu580_recn_refr
  simp only []
  cases env.hal_bufs_get_buf frms.curr_idx <;> cases env.hal_bufs_get_buf frms.refr_idx <;>
    simp only [] <;> split_ifs <;> rfl

theorem split_sli_cfg (regs : HalVepu580RegSet) (cfg : MppEncSliceSplit) :
    (setup_vepu580_split regs cfg).1.reg_base.sli_cfg = regs.reg_base.sli_cfg := by
  unfold setup_vepu580_split
  simp only []
  split_ifs <;> rfl

theorem calc_cime_frame (regs : HalVepu580RegSet) (sps : H264eSps) :
    (calc_cime_parameter regs sps).reg_base.sli_cfg = regs.reg_base.sli_cfg ∧
    (calc_cime_parameter regs sps).reg_base.sli_splt = regs.reg_base.sli_splt ∧
    (calc_cime_parameter regs sps).reg_base.sli_cnum = regs.reg_base.sli_cnum ∧
    (calc_cime_parameter regs sps).reg_base.sli_byte = regs.reg_base.sli_byte ∧
    (calc_cime_parameter regs sps).reg_base.enc_pic = regs.reg_base.enc_pic :=
  ⟨rfl, rfl, rfl, rfl, rfl⟩

theorem me_frame (regs : HalVepu580RegSet) (sps : H264eSps) (slice : H264eSlice) :
    (setup_vepu580_me regs sps slice).reg_base.sli_cfg = regs.reg_base.sli_cfg ∧
    (setup_vepu580_me regs sps slice).reg_base.sli_splt = regs.reg_base.sli_splt ∧
    (setup_vepu580_me regs sps slice).reg_base.sli_cnum = regs.reg_base.sli_cnum ∧
    (setup_vepu580_me regs sps slice).reg_base.sli_byte = regs.reg_base.sli_byte ∧
    (setup_vepu580_me regs sps slice).reg_base.enc_pic = regs.reg_base.enc_pic := by
  unfold setup_vepu580_me
  simp only [calc_cime_frame]
  split_ifs <;> exact ⟨rfl, rfl, rfl, rfl, rfl⟩

theorem l2_reg_base (regs : HalVepu580RegSet) (slice : H264eSlice) :
    (setup_vepu580_l2 regs slice).reg_base = regs.reg_base := by
  unfold setup_vepu580_l2
  simp only []
  split_ifs <;> rfl

theorem ext_line_buf_frame (regs : HalVepu580RegSet) (ctx : HalH264eVepu580Ctx) :
    (setup_vepu580_ext_line_buf regs ctx).1.reg_base.sli_cfg = regs.reg_base.sli_cfg ∧
    (setup_vepu580_ext_line_buf regs ctx).1.reg_base.sli_splt = regs.reg_base.sli_splt ∧
    (setup_vepu580_ext_line_buf regs ctx).1.reg_base.sli_cnum = regs.reg_base.sli_cnum ∧
    (setup_vepu580_ext_line_buf regs ctx).1.reg_base.sli_byte = regs.reg_base.sli_byte ∧
    (setup_vepu580_ext_line_buf regs ctx).1.reg_base.enc_pic = regs.reg_base.enc_pic := by
  unfold setup_vepu580_ext_line_buf
  cases ctx.ext_line_buf <;> exact ⟨rfl, rfl, rfl, rfl, rfl⟩

/-! ## `hal_h264e_vepu580_gen_regs` -/

theorem gen_regs_fail (env : HalEnv) (ctx : HalH264eVepu580Ctx) (task : HalEncTask)
    (h : (env.vepu541_set_fmt ctx.cfg.prep.format).1 ≠ 0) :
    hal_h264e_vepu580_gen_regs env ctx task =
      some ((env.vepu541_set_fmt ctx.cfg.prep.format).1,
        { ctx with regs_set := setup_vepu580_normal zero_regs }, []) := by
  unfold hal_h264e_vepu580_gen_regs
  simp only [prep_ret, if_pos h, prep_fail _ _ _ h]

theorem gen_regs_none (env : HalEnv) (ctx : HalH264eVepu580Ctx) (task : HalEncTask)
    (h : (env.vepu541_set_fmt ctx.cfg.prep.format).1 = 0)
    (hd : s32 (ctx.sps.pic_width_in_mbs * ctx.sps.pic_height_in_mbs) = 0) :
    hal_h264e_vepu580_gen_regs env ctx task = none := by
  have hp : ¬ (setup_vepu580_prep env (setup_vepu580_normal zero_regs) ctx.cfg.prep).1 ≠ 0 := by
    rw [prep_ret]; simp [h]
  simp only [hal_h264e_vepu580_gen_regs, if_neg hp, rc_base_none _ _ _ _ _ hd]

theorem gen_regs_ok (env : HalEnv) (ctx : HalH264eVepu580Ctx) (task : HalEncTask)
    (h : (env.vepu541_set_fmt ctx.cfg.prep.format).1 = 0)
    (hd : s32 (ctx.sps.pic_width_in_mbs * ctx.sps.pic_height_in_mbs) ≠ 0) :
    ∃ r, hal_h264e_vepu580_gen_regs env ctx task = some r ∧ r.1 = MPP_OK ∧
      r.2.1.frame_cnt = s32 (ctx.frame_cnt + 1) := by
  have hp : ¬ (setup_vepu580_prep env (setup_vepu580_normal zero_regs) ctx.cfg.prep).1 ≠ 0 := by
    rw [prep_ret]; simp [h]
  simp only [hal_h264e_vepu580_gen_regs, if_neg hp, rc_base_some _ _ _ _ _ hd]
  exact ⟨_, rfl, rfl, rfl⟩

theorem gen_regs_some_ne_zero (env : HalEnv) (ctx : HalH264eVepu580Ctx) (task : HalEncTask)
    (h : (env.vepu541_set_fmt ctx.cfg.prep.format).1 = 0)
    (r : Int × HalH264eVepu580Ctx × List HalCall)
    (hr : hal_h264e_vepu580_gen_regs env ctx task = some r) :
    s32 (ctx.sps.pic_width_in_mbs * ctx.sps.pic_height_in_mbs) ≠ 0 := by
  intro hd
  rw [gen_regs_none env ctx task h hd] at hr
  exact Option.noConfusion hr

theorem gen_regs_ret (env : HalEnv) (ctx : HalH264eVepu580Ctx) (task : HalEncTask)
    (r : Int × HalH264eVepu580Ctx × List HalCall)
    (hr : hal_h264e_vepu580_gen_regs env ctx task = some r) :
    r.1 = (env.vepu541_set_fmt ctx.cfg.prep.format).1 := by
  by_cases h : (env.vepu541_set_fmt ctx.cfg.prep.format).1 = 0
  · obtain ⟨r1, h1, h2, _⟩ := gen_regs_ok env ctx task h
      (gen_regs_some_ne_zero env ctx task h r hr)
    rw [hr] at h1
    rw [Option.some.inj h1, h2, h]
    rfl
  · rw [gen_regs_fail env ctx task h] at hr
    rw [← Option.some.inj hr]

theorem gen_regs_ok_split (env : HalEnv) (ctx : HalH264eVepu580Ctx) (task : HalEncTask)
    (h : (env.vepu541_set_fmt ctx.cfg.prep.format).1 = 0)
    (r : Int × HalH264eVepu580Ctx × List HalCall)
    (hr : hal_h264e_vepu580_gen_regs env ctx task = some r) :
    ∃ regs : HalVepu580RegSet, regs.reg_base.sli_cfg.sli_crs_en = 1 ∧
      r.2.1.regs_set.reg_base.sli_cfg =
        (if ctx.cfg.prep.width > 1920 then
          setup_vepu580_force_slice_split (setup_vepu580_split regs ctx.cfg.split).1
            ctx.cfg.prep.width
        else (setup_vepu580_split regs ctx.cfg.split).1).reg_base.sli_cfg ∧
      r.2.1.regs_set.reg_base.sli_splt =
        (if ctx.cfg.prep.width > 1920 then
          setup_vepu580_force_slice_split (setup_vepu580_split regs ctx.cfg.split).1
            ctx.cfg.prep.width
        else (setup_vepu580_split regs ctx.cfg.split).1).reg_base.sli_splt ∧
      r.2.1.regs_set.reg_base.sli_cnum =
        (if ctx.cfg.prep.width > 1920 then
          setup_vepu580_force_slice_split (setup_vepu580_split regs ctx.cfg.split).1
            ctx.cfg.prep.width
        else (setup_vepu580_split regs ctx.cfg.split).1).reg_base.sli_cnum ∧
      r.2.1.regs_set.reg_base.sli_byte =
        (if ctx.cfg.prep.width > 1920 then
          setup_vepu580_force_slice_split (setup_vepu580_split regs ctx.cfg.split).1
            ctx.cfg.prep.width
        else (setup_vepu580_split regs ctx.cfg.split).1).reg_base.sli_byte ∧
      r.2.1.regs_set.reg_base.enc_pic =
        (if ctx.cfg.prep.width > 1920 then
          setup_vepu580_force_slice_split (setup_vepu580_split regs ctx.cfg.split).1
            ctx.cfg.prep.width
        else (setup_vepu580_split regs ctx.cfg.split).1).reg_base.enc_pic ∧
      r.2.1.cfg.split =
        (setup_vepu580_split regs ctx.cfg.split).2 := by
  have hp : ¬ (setup_vepu580_prep env (setup_vepu580_normal zero_regs) ctx.cfg.prep).1 ≠ 0 := by
    rw [prep_ret]; simp [h]
  have hd := gen_regs_some_ne_zero env ctx task h r hr
  revert r
  simp only [hal_h264e_vepu580_gen_regs, if_neg hp, rc_base_some _ _ _ _ _ hd,
    Option.some.injEq, forall_eq']
  refine ⟨_, ?crs, ?a, ?b, ?c, ?d, ?e, rfl⟩
  case a =>
    rw [(ext_line_buf_frame _ _).1, l2_reg_base]
    exact (me_frame _ _ _).1
  case b =>
    rw [(ext_line_buf_frame _ _).2.1, l2_reg_base]
    exact (me_frame _ _ _).2.1
  case c =>
    rw [(ext_line_buf_frame _ _).2.2.1, l2_reg_base]
    exact (me_frame _ _ _).2.2.1
  case d =>
    rw [(ext_line_buf_frame _ _).2.2.2.1, l2_reg_base]
    exact (me_frame _ _ _).2.2.2.1
  case e =>
    rw [(ext_line_buf_frame _ _).2.2.2.2, l2_reg_base]
    exact (me_frame _ _ _).2.2.2.2
  case crs =>
    show (setup_vepu580_recn_refr env _ ctx.frms ctx.pixel_buf_fbc_hdr_size).1.reg_base.sli_cfg.sli_crs_en = 1
    rw [recn_refr_sli_cfg, roi_sli_cfg, io_buf_sli_cfg, rc_base_sli_cfg]
    show (setup_vepu580_rdo_pred _ ctx.sps ctx.pps _).reg_base.sli_cfg.sli_crs_en = 1
    rw [rdo_pred_sli_cfg, codec_sli_cfg]
    exact prep_sli_crs_en env _ _ h

/-- C14: for a configured picture width above 1920 and every requested split
mode and argument, the slice-split fields of the register image produced by a
successful `hal_h264e_vepu580_gen_regs` are those of the forced CTU-row split:
`sli_splt = 1`, `sli_splt_mode = 1`, `sli_splt_cpst = 0`, `sli_max_num_m1 = 500`,
`sli_flsh = 1`, `sli_splt_byte = 0`, `slen_fifo = 0`, `sli_crs_en = 0`, and
`sli_splt_cnum_m1` is the width aligned to 16, divided by 16, minus 1, which is
ceil(width/16) - 1 when `width + 15` fits `RK_S32`.  Such a successful result
exists whenever the format is supported and the macroblock count by which
`setup_vepu580_rc_base` divides is not 0. -/
theorem gen_regs_forced_split (env : HalEnv) (ctx : HalH264eVepu580Ctx) (task : HalEncTask)
    (hw : ctx.cfg.prep.width > 1920) :
    (∀ r, hal_h264e_vepu580_gen_regs env ctx task = some r → r.1 = MPP_OK →
      r.2.1.regs_set.reg_base.sli_splt.sli_splt = 1 ∧
      r.2.1.regs_set.reg_base.sli_splt.sli_splt_mode = 1 ∧
      r.2.1.regs_set.reg_base.sli_splt.sli_splt_cpst = 0 ∧
      r.2.1.regs_set.reg_base.sli_splt.sli_max_num_m1
        = 500 ∧
      r.2.1.regs_set.reg_base.sli_splt.sli_flsh = 1 ∧
      r.2.1.regs_set.reg_base.sli_cnum.sli_splt_cnum_m1 =
        s32 (MPP_ALIGN ctx.cfg.prep.width 16 / 16 - 1) ∧
      r.2.1.regs_set.reg_base.sli_byte.sli_splt_byte = 0 ∧
      r.2.1.regs_set.reg_base.enc_pic.slen_fifo = 0 ∧
      r.2.1.regs_set.reg_base.sli_cfg.sli_crs_en = 0 ∧
      (ctx.cfg.prep.width + 15 < 2147483648 →
        r.2.1.regs_set.reg_base.sli_cnum.sli_splt_cnum_m1 =
          (ctx.cfg.prep.width + 15) / 16 - 1 ∧
        ctx.cfg.prep.width ≤ 16 * ((ctx.cfg.prep.width + 15) / 16) ∧
        16 * ((ctx.cfg.prep.width + 15) / 16) < ctx.cfg.prep.width + 16)) ∧
    ((env.vepu541_set_fmt ctx.cfg.prep.format).1 = 0 →
      s32 (ctx.sps.pic_width_in_mbs * ctx.sps.pic_height_in_mbs) ≠ 0 →
      ∃ r, hal_h264e_vepu580_gen_regs env ctx task = some r ∧ r.1 = MPP_OK) := by
  refine ⟨?_, ?_⟩
  · intro r hr hok
    have h : (env.vepu541_set_fmt ctx.cfg.prep.format).1 = 0 := by
      rw [← gen_regs_ret env ctx task r hr, hok]; rfl
    obtain ⟨regs, -, h1, h2, h3, h4, h5, -⟩ := gen_regs_ok_split env ctx task h r hr
    rw [if_pos hw] at h1 h2 h3 h4 h5
    rw [h1, h2, h3, h4, h5]
    refine ⟨rfl, rfl, rfl, rfl, rfl, rfl, rfl, rfl, rfl, ?_⟩
    intro hfit
    have hcn : (setup_vepu580_force_slice_split (setup_vepu580_split regs ctx.cfg.split).1
        ctx.cfg.prep.width).reg_base.sli_cnum.sli_splt_cnum_m1 =
        s32 (MPP_ALIGN ctx.cfg.prep.width 16 / 16 - 1) := rfl
    rw [hcn]
    unfold MPP_ALIGN
    rw [s32_of_range (ctx.cfg.prep.width + 16 - 1) (by omega) (by omega),
      s32_of_range _ (by omega) (by omega)]
    omega
  · intro h hd
    obtain ⟨r, hr, hok, _⟩ := gen_regs_ok env ctx task h hd
    exact ⟨r, hr, hok⟩

/-- Witness of C14: a width of 3840 with a requested split by bytes gives a
successful result with the forced split and `sli_splt_cnum_m1 = 239`. -/
theorem gen_regs_forced_split_3840 :
    (3840 : Int) > 1920 ∧
    (hal_h264e_vepu580_gen_regs sample_env
      (sample_ctx 3840 6 { change := 1, split_mode := 1, split_arg := 1000 })
      (sample_task 6 4000000)).map
        (fun r => (r.1, r.2.1.regs_set.reg_base.sli_cnum.sli_splt_cnum_m1)) = some (0, 239) ∧
    ∃ r, hal_h264e_vepu580_gen_regs sample_env
        (sample_ctx 3840 6 { change := 1, split_mode := 1, split_arg := 1000 })
        (sample_task 6 4000000) = some r ∧ r.1 = MPP_OK ∧
      r.2.1.regs_set.reg_base.sli_splt.sli_splt_mode = 1 ∧
      r.2.1.regs_set.reg_base.sli_cnum.sli_splt_cnum_m1 = 239 := by
  refine ⟨by decide, by decide, ?_⟩
  obtain ⟨r, hr, hok⟩ := (gen_regs_forced_split sample_env
    (sample_ctx 3840 6 { change := 1, split_mode := 1, split_arg := 1000 })
    (sample_task 6 4000000) (by decide)).2 (by decide) (by decide)
  have hp := (gen_regs_forced_split sample_env
    (sample_ctx 3840 6 { change := 1, split_mode := 1, split_arg := 1000 })
    (sample_task 6 4000000) (by decide)).1 r hr hok
  exact ⟨r, hr, hok, hp.2.1, hp.2.2.2.2.2.1.trans (by decide)⟩

/-- C15: for a configured picture width of at most 1920 the forced split is not
applied and the register image produced by a successful
`hal_h264e_vepu580_gen_regs` reflects the configured policy.  NONE: `sli_splt = 0`
and every split field 0.  BY_BYTE: `sli_splt = 1`, `sli_splt_mode = 0`,
`sli_max_num_m1 = 500`, `sli_flsh = 1`, `sli_splt_byte = split_arg`,
`sli_splt_cnum_m1 = 0`.  BY_CTU: `sli_splt = 1`, `sli_splt_mode = 1`,
`sli_max_num_m1 = 500`, `sli_flsh = 1`, `sli_splt_byte = 0` and `sli_splt_cnum_m1`
is `split_arg - 1` in `RK_U32` arithmetic, which is `split_arg - 1` for
`split_arg >= 1`.  In every case `sli_crs_en = 1`, and the change flag of the
split configuration is reset to 0.  Such a successful result exists whenever
the format is supported and the macroblock count by which
`setup_vepu580_rc_base` divides is not 0. -/
theorem gen_regs_split_policy (env : HalEnv) (ctx : HalH264eVepu580Ctx) (task : HalEncTask)
    (hw : ctx.cfg.prep.width ≤ 1920) :
    (∀ r, hal_h264e_vepu580_gen_regs env ctx task = some r → r.1 = MPP_OK →
      (ctx.cfg.split.split_mode = MPP_ENC_SPLIT_NONE →
        r.2.1.regs_set.reg_base.sli_splt =
          { sli_splt := 0, sli_splt_mode := 0, sli_splt_cpst := 0, sli_max_num_m1 := 0,
            sli_flsh := 0 } ∧
        r.2.1.regs_set.reg_base.sli_cnum.sli_splt_cnum_m1
          = 0 ∧
        r.2.1.regs_set.reg_base.sli_byte.sli_splt_byte
          = 0 ∧
        r.2.1.regs_set.reg_base.enc_pic.slen_fifo = 0) ∧
      (ctx.cfg.split.split_mode = MPP_ENC_SPLIT_BY_BYTE →
        r.2.1.regs_set.reg_base.sli_splt =
          { sli_splt := 1, sli_splt_mode := 0, sli_splt_cpst := 0, sli_max_num_m1 := 500,
            sli_flsh := 1 } ∧
        r.2.1.regs_set.reg_base.sli_cnum.sli_splt_cnum_m1
          = 0 ∧
        r.2.1.regs_set.reg_base.sli_byte.sli_splt_byte
          = ctx.cfg.split.split_arg ∧
        r.2.1.regs_set.reg_base.enc_pic.slen_fifo = 0) ∧
      (ctx.cfg.split.split_mode = MPP_ENC_SPLIT_BY_CTU →
        r.2.1.regs_set.reg_base.sli_splt =
          { sli_splt := 1, sli_splt_mode := 1, sli_splt_cpst := 0, sli_max_num_m1 := 500,
            sli_flsh := 1 } ∧
        r.2.1.regs_set.reg_base.sli_cnum.sli_splt_cnum_m1
          = u32 (ctx.cfg.split.split_arg - 1) ∧
        (1 ≤ ctx.cfg.split.split_arg → ctx.cfg.split.split_arg ≤ 4294967296 →
          r.2.1.regs_set.reg_base.sli_cnum.sli_splt_cnum_m1
            = ctx.cfg.split.split_arg - 1) ∧
        r.2.1.regs_set.reg_base.sli_byte.sli_splt_byte
          = 0 ∧
        r.2.1.regs_set.reg_base.enc_pic.slen_fifo = 0) ∧
      r.2.1.regs_set.reg_base.sli_cfg.sli_crs_en = 1 ∧
      r.2.1.cfg.split.change = 0 ∧
      (∀ (regs : HalVepu580RegSet) (cfg : MppEncSliceSplit),
        (setup_vepu580_split regs cfg).2.change = 0)) ∧
    ((env.vepu541_set_fmt ctx.cfg.prep.format).1 = 0 →
      s32 (ctx.sps.pic_width_in_mbs * ctx.sps.pic_height_in_mbs) ≠ 0 →
      ∃ r, hal_h264e_vepu580_gen_regs env ctx task = some r ∧ r.1 = MPP_OK) := by
  refine ⟨?_, ?_⟩
  · intro r hr hok
    have h : (env.vepu541_set_fmt ctx.cfg.prep.format).1 = 0 := by
      rw [← gen_regs_ret env ctx task r hr, hok]; rfl
    obtain ⟨regs, hcrs, h1, h2, h3, h4, h5, h6⟩ := gen_regs_ok_split env ctx task h r hr
    have hnw : ¬ ctx.cfg.prep.width > 1920 := by omega
    rw [if_neg hnw] at h1 h2 h3 h4 h5
    rw [h1, h2, h3, h4, h5, h6, split_sli_cfg]
    refine ⟨?_, ?_, ?_, hcrs, rfl, fun _ _ => rfl⟩
    · intro hm
      refine ⟨?_, ?_, ?_, ?_⟩ <;> simp only [setup_vepu580_split, hm, if_true]
    · intro hm
      have hn : ¬ (MPP_ENC_SPLIT_BY_BYTE = MPP_ENC_SPLIT_NONE) := by decide
      refine ⟨?_, ?_, ?_, ?_⟩ <;> simp only [setup_vepu580_split, hm, hn, if_true, if_false]
    · intro hm
      have hn : ¬ (MPP_ENC_SPLIT_BY_CTU = MPP_ENC_SPLIT_NONE) := by decide
      have hb : ¬ (MPP_ENC_SPLIT_BY_CTU = MPP_ENC_SPLIT_BY_BYTE) := by decide
      refine ⟨?_, ?_, ?_, ?_, ?_⟩
      case refine_3 =>
        intro ha1 ha2
        simp only [setup_vepu580_split, hm, hn, hb, if_true, if_false]
        exact u32_of_range _ (by omega) (by omega)
      all_goals simp only [setup_vepu580_split, hm, hn, hb, if_true, if_false]
  · intro h hd
    obtain ⟨r, hr, hok, _⟩ := gen_regs_ok env ctx task h hd
    exact ⟨r, hr, hok⟩

/-- Witness of C15: at width 1920 a requested split by 1000 bytes gives a
successful result with `sli_splt_byte = 1000` and `sli_crs_en = 1`, and a
requested split by 30 CTUs gives `sli_splt_cnum_m1 = 29`. -/
theorem gen_regs_split_policy_1920 :
    (1920 : Int) ≤ 1920 ∧
    (∃ r, hal_h264e_vepu580_gen_regs sample_env
        (sample_ctx 1920 6 { change := 1, split_mode := 1, split_arg := 1000 })
        (sample_task 6 4000000) = some r ∧ r.1 = MPP_OK ∧
      r.2.1.regs_set.reg_base.sli_byte.sli_splt_byte = 1000 ∧
      r.2.1.regs_set.reg_base.sli_cfg.sli_crs_en = 1) ∧
    ∃ r, hal_h264e_vepu580_gen_regs sample_env
        (sample_ctx 1920 6 { change := 1, split_mode := 2, split_arg := 30 })
        (sample_task 6 4000000) = some r ∧ r.1 = MPP_OK ∧
      r.2.1.regs_set.reg_base.sli_cnum.sli_splt_cnum_m1 = 29 := by
  refine ⟨by decide, ?_, ?_⟩
  · obtain ⟨r, hr, hok⟩ := (gen_regs_split_policy sample_env
      (sample_ctx 1920 6 { change := 1, split_mode := 1, split_arg := 1000 })
      (sample_task 6 4000000) (by decide)).2 (by decide) (by decide)
    have hp := (gen_regs_split_policy sample_env
      (sample_ctx 1920 6 { change := 1, split_mode := 1, split_arg := 1000 })
      (sample_task 6 4000000) (by decide)).1 r hr hok
    exact ⟨r, hr, hok, (hp.2.1 rfl).2.2.1, hp.2.2.2.1⟩
  · obtain ⟨r, hr, hok⟩ := (gen_regs_split_policy sample_env
      (sample_ctx 1920 6 { change := 1, split_mode := 2, split_arg := 30 })
      (sample_task 6 4000000) (by decide)).2 (by decide) (by decide)
    have hp := (gen_regs_split_policy sample_env
      (sample_ctx 1920 6 { change := 1, split_mode := 2, split_arg := 30 })
      (sample_task 6 4000000) (by decide)).1 r hr hok
    exact ⟨r, hr, hok, ((hp.2.2.1 rfl).2.1).trans (by decide)⟩

/-- C17: for a frame that is not FBC, `setup_vepu580_io_buf` issues exactly four
offset registrations, in the order (161, first chroma offset), (162, second
chroma offset), (172, size of the output buffer), (175, length of the packet).
With `L = hor_stride * ver_stride` computed in `RK_S32`, the two offsets of a YUV
frame are (L, L) for the hardware formats YUV420SP and YUV422SP, (L, L*3/2) for
YUV422P, (L, L*5/4) for YUV420P and (0, 0) for every other hardware format
(packed YUV, RGB, none); they are (0, 0) for a frame that is not YUV.  Offsets
are stored as `RK_U32`; when `L*5` is non-negative and fits `RK_S32` they are the
exact values `L`, `L*3/2` and `L*5/4`. -/
theorem io_buf_offsets (env : HalEnv) (regs : HalVepu580RegSet) (task : HalEncTask)
    (hfbc : env.fmt_is_fbc task.frame.fmt = false) :
    ∃ o1 o2 : Int,
      (setup_vepu580_io_buf env regs task).2 =
        [HalCall.mpp_dev_reg_offset 161 o1, HalCall.mpp_dev_reg_offset 162 o2,
          HalCall.mpp_dev_reg_offset 172 (u32 (mpp_buffer_get_size task.output)),
          HalCall.mpp_dev_reg_offset 175 (u32 task.packet.length)] ∧
      (env.fmt_is_yuv task.frame.fmt = false → o1 = 0 ∧ o2 = 0) ∧
      (env.fmt_is_yuv task.frame.fmt = true →
        ((env.vepu541_set_fmt task.frame.fmt).2.format = VEPU541_FMT_YUV420SP ∨
            (env.vepu541_set_fmt task.frame.fmt).2.format = VEPU541_FMT_YUV422SP →
          o1 = u32 (s32 (task.frame.hor_stride * task.frame.ver_stride)) ∧
          o2 = u32 (s32 (task.frame.hor_stride * task.frame.ver_stride))) ∧
        ((env.vepu541_set_fmt task.frame.fmt).2.format = VEPU541_FMT_YUV422P →
          o1 = u32 (s32 (task.frame.hor_stride * task.frame.ver_stride)) ∧
          o2 = u32 (cdiv (s32 (task.frame.hor_stride * task.frame.ver_stride * 3)) 2)) ∧
        ((env.vepu541_set_fmt task.frame.fmt).2.format = VEPU541_FMT_YUV420P →
          o1 = u32 (s32 (task.frame.hor_stride * task.frame.ver_stride)) ∧
          o2 = u32 (cdiv (s32 (task.frame.hor_stride * task.frame.ver_stride * 5)) 4)) ∧
        ((env.vepu541_set_fmt task.frame.fmt).2.format ≠ VEPU541_FMT_YUV420SP →
          (env.vepu541_set_fmt task.frame.fmt).2.format ≠ VEPU541_FMT_YUV422SP →
          (env.vepu541_set_fmt task.frame.fmt).2.format ≠ VEPU541_FMT_YUV422P →
          (env.vepu541_set_fmt task.frame.fmt).2.format ≠ VEPU541_FMT_YUV420P →
          o1 = 0 ∧ o2 = 0)) ∧
      (0 ≤ task.frame.hor_stride * task.frame.ver_stride →
        task.frame.hor_stride * task.frame.ver_stride * 5 < 2147483648 →
        u32 (s32 (task.frame.hor_stride * task.frame.ver_stride)) =
          task.frame.hor_stride * task.frame.ver_stride ∧
        u32 (cdiv (s32 (task.frame.hor_stride * task.frame.ver_stride * 3)) 2) =
          task.frame.hor_stride * task.frame.ver_stride * 3 / 2 ∧
        u32 (cdiv (s32 (task.frame.hor_stride * task.frame.ver_stride * 5)) 4) =
          task.frame.hor_stride * task.frame.ver_stride * 5 / 4) ∧
      (0 ≤ mpp_buffer_get_size task.output → mpp_buffer_get_size task.output < 4294967296 →
        u32 (mpp_buffer_get_size task.output) = mpp_buffer_get_size task.output) ∧
      (0 ≤ task.packet.length → task.packet.length < 4294967296 →
        u32 task.packet.length = task.packet.length) := by
  refine ⟨_, _, rfl, ?_, ?_, ?_, ?_, ?_⟩
  · intro hy
    constructor <;> simp only [hfbc, hy, Bool.false_eq_true, if_false]
  · intro hy
    simp only [hfbc, hy, Bool.false_eq_true, if_false, if_true]
    generalize (env.vepu541_set_fmt task.frame.fmt).2.format = f
    refine ⟨?_, ?_, ?_, ?_⟩
    · intro hf
      have h0 : ¬ (f = VEPU541_FMT_BGRA8888 ∨ f = VEPU541_FMT_BGR888 ∨
          f = VEPU541_FMT_BGR565) := by
        simp only [VEPU541_FMT_YUV420SP, VEPU541_FMT_YUV422SP, VEPU541_FMT_BGRA8888,
          VEPU541_FMT_BGR888, VEPU541_FMT_BGR565] at hf ⊢
        omega
      rw [if_neg h0, if_pos hf]
      exact ⟨rfl, rfl⟩
    · intro hf
      subst hf
      exact ⟨rfl, rfl⟩
    · intro hf
      subst hf
      exact ⟨rfl, rfl⟩
    · intro h1 h2 h3 h4
      have h12 : ¬ (f = VEPU541_FMT_YUV420SP ∨ f = VEPU541_FMT_YUV422SP) := by
        rintro (h | h)
        · exact h1 h
        · exact h2 h
      rw [if_neg h12, if_neg h3, if_neg h4]
      split_ifs <;> exact ⟨rfl, rfl⟩
  · intro h0 h5
    have e1 : s32 (task.frame.hor_stride * task.frame.ver_stride) =
        task.frame.hor_stride * task.frame.ver_stride :=
      s32_of_range _ (by omega) (by omega)
    have e3 : s32 (task.frame.hor_stride * task.frame.ver_stride * 3) =
        task.frame.hor_stride * task.frame.ver_stride * 3 :=
      s32_of_range _ (by omega) (by omega)
    have e5 : s32 (task.frame.hor_stride * task.frame.ver_stride * 5) =
        task.frame.hor_stride * task.frame.ver_stride * 5 :=
      s32_of_range _ (by omega) (by omega)
    rw [e1, e3, e5, cdiv_of_nonneg _ _ (by omega) (by omega),
      cdiv_of_nonneg _ _ (by omega) (by omega)]
    refine ⟨u32_of_range _ (by omega) (by omega), u32_of_range _ (by omega) (by omega),
      u32_of_range _ (by omega) (by omega)⟩
  · intro h0 h1
    exact u32_of_range _ h0 h1
  · intro h0 h1
    exact u32_of_range _ h0 h1

/-- Witness of C17: a 1920x1088 frame gives the registrations (161, 2088960),
(162, 2088960), (172, 1048576), (175, 100) in semi-planar 4:2:0, the second
offset 2611200 in planar 4:2:0 and 3133440 in planar 4:2:2, and two zero offsets
in a packed format. -/
theorem io_buf_offsets_1920x1088 :
    sample_env.fmt_is_fbc (sample_task 6 4000000).frame.fmt = false ∧
    (setup_vepu580_io_buf sample_env zero_regs (sample_task 6 4000000)).2 =
      [HalCall.mpp_dev_reg_offset 161 2088960, HalCall.mpp_dev_reg_offset 162 2088960,
        HalCall.mpp_dev_reg_offset 172 1048576, HalCall.mpp_dev_reg_offset 175 100] ∧
    (setup_vepu580_io_buf sample_env zero_regs (sample_task 7 4000000)).2 =
      [HalCall.mpp_dev_reg_offset 161 2088960, HalCall.mpp_dev_reg_offset 162 2611200,
        HalCall.mpp_dev_reg_offset 172 1048576, HalCall.mpp_dev_reg_offset 175 100] ∧
    (setup_vepu580_io_buf sample_env zero_regs (sample_task 5 4000000)).2 =
      [HalCall.mpp_dev_reg_offset 161 2088960, HalCall.mpp_dev_reg_offset 162 3133440,
        HalCall.mpp_dev_reg_offset 172 1048576, HalCall.mpp_dev_reg_offset 175 100] ∧
    (setup_vepu580_io_buf sample_env zero_regs (sample_task 8 4000000)).2 =
      [HalCall.mpp_dev_reg_offset 161 0, HalCall.mpp_dev_reg_offset 162 0,
        HalCall.mpp_dev_reg_offset 172 1048576, HalCall.mpp_dev_reg_offset 175 100] ∧
    ∃ o1 o2 : Int,
      (setup_vepu580_io_buf sample_env zero_regs (sample_task 6 4000000)).2 =
        [HalCall.mpp_dev_reg_offset 161 o1, HalCall.mpp_dev_reg_offset 162 o2,
          HalCall.mpp_dev_reg_offset 172 1048576, HalCall.mpp_dev_reg_offset 175 100] ∧
      o1 = 2088960 ∧ o2 = 2088960 :=
  ⟨by decide, by decide, by decide, by decide, by decide,
    (io_buf_offsets sample_env zero_regs (sample_task 6 4000000) (by decide)).elim
      fun o1 h => h.elim fun o2 h2 =>
        ⟨o1, o2, h2.1, ((h2.2.2.1 (by decide)).1 (Or.inl (by decide))).1.trans (by decide),
          ((h2.2.2.1 (by decide)).1 (Or.inl (by decide))).2.trans (by decide)⟩⟩

/-- C18: in `setup_vepu580_recn_refr` each role is served on its own.  When the
slot of the current frame is absent or has count 0, `rfpw_h_addr`, `rfpw_b_addr`
and `dspw_addr` keep their values and no offset is registered at index 164; when
its count is not 0, `rfpw_h_addr` and `rfpw_b_addr` are the handle of its pixel
buffer, `dspw_addr` is the handle of its thumbnail buffer and the FBC header size
is the one offset registered at index 164.  The same holds for the slot of the
reference frame with `rfpr_h_addr`, `rfpr_b_addr`, `dspr_addr` and index 166.
The function returns nothing, so it cannot fail. -/
theorem recn_refr_roles (env : HalEnv) (regs : HalVepu580RegSet) (frms : H264eFrmInfo)
    (fbc_hdr_size : Int) :
    ((env.hal_bufs_get_buf frms.curr_idx = none ∨
        ∃ b, env.hal_bufs_get_buf frms.curr_idx = some b ∧ b.cnt = 0) →
      (setup_vepu580_recn_refr env regs frms fbc_hdr_size).1.reg_base.rfpw_h_addr =
        regs.reg_base.rfpw_h_addr ∧
      (setup_vepu580_recn_refr env regs frms fbc_hdr_size).1.reg_base.rfpw_b_addr =
        regs.reg_base.rfpw_b_addr ∧
      (setup_vepu580_recn_refr env regs frms fbc_hdr_size).1.reg_base.dspw_addr =
        regs.reg_base.dspw_addr ∧
      ∀ o, HalCall.mpp_dev_reg_offset 164 o ∉
        (setup_vepu580_recn_refr env regs frms fbc_hdr_size).2) ∧
    (∀ b, env.hal_bufs_get_buf frms.curr_idx = some b → b.cnt ≠ 0 →
      (setup_vepu580_recn_refr env regs frms fbc_hdr_size).1.reg_base.rfpw_h_addr =
        mpp_buffer_get_fd (b.buf.getD 0 none) ∧
      (setup_vepu580_recn_refr env regs frms fbc_hdr_size).1.reg_base.rfpw_b_addr =
        mpp_buffer_get_fd (b.buf.getD 0 none) ∧
      (setup_vepu580_recn_refr env regs frms fbc_hdr_size).1.reg_base.dspw_addr =
        mpp_buffer_get_fd (b.buf.getD 1 none) ∧
      ∀ o, HalCall.mpp_dev_reg_offset 164 o ∈
          (setup_vepu580_recn_refr env regs frms fbc_hdr_size).2 ↔ o = u32 fbc_hdr_size) ∧
    ((env.hal_bufs_get_buf frms.refr_idx = none ∨
        ∃ b, env.hal_bufs_get_buf frms.refr_idx = some b ∧ b.cnt = 0) →
      (setup_vepu580_recn_refr env regs frms fbc_hdr_size).1.reg_base.rfpr_h_addr =
        regs.reg_base.rfpr_h_addr ∧
      (setup_vepu580_recn_refr env regs frms fbc_hdr_size).1.reg_base.rfpr_b_addr =
        regs.reg_base.rfpr_b_addr ∧
      (setup_vepu580_recn_refr env regs frms fbc_hdr_size).1.reg_base.dspr_addr =
        regs.reg_base.dspr_addr ∧
      ∀ o, HalCall.mpp_dev_reg_offset 166 o ∉
        (setup_vepu580_recn_refr env regs frms fbc_hdr_size).2) ∧
    (∀ b, env.hal_bufs_get_buf frms.refr_idx = some b → b.cnt ≠ 0 →
      (setup_vepu580_recn_refr env regs frms fbc_hdr_size).1.reg_base.rfpr_h_addr =
        mpp_buffer_get_fd (b.buf.getD 0 none) ∧
      (setup_vepu580_recn_refr env regs frms fbc_hdr_size).1.reg_base.rfpr_b_addr =
        mpp_buffer_get_fd (b.buf.getD 0 none) ∧
      (setup_vepu580_recn_refr env regs frms fbc_hdr_size).1.reg_base.dspr_addr =
        mpp_buffer_get_fd (b.buf.getD 1 none) ∧
      ∀ o, HalCall.mpp_dev_reg_offset 166 o ∈
          (setup_vepu580_recn_refr env regs frms fbc_hdr_size).2 ↔ o = u32 fbc_hdr_size) ∧
    (0 ≤ fbc_hdr_size → fbc_hdr_size < 4294967296 → u32 fbc_hdr_size = fbc_hdr_size) := by
  refine ⟨?_, ?_, ?_, ?_, fun h0 h1 => u32_of_range _ h0 h1⟩
  · rintro (hc | ⟨b, hc, hz⟩) <;>
      rcases hr : env.hal_bufs_get_buf frms.refr_idx with _ | r <;>
      (try by_cases hrc : r.cnt = 0) <;>
      simp [setup_vepu580_recn_refr, recn_refr_asserts, *]
  · intro b hc hz
    rcases hr : env.hal_bufs_get_buf frms.refr_idx with _ | r <;>
      (try by_cases hrc : r.cnt = 0) <;>
      simp [setup_vepu580_recn_refr, recn_refr_asserts, *]
  · rintro (hr | ⟨b, hr, hz⟩) <;>
      rcases hc : env.hal_bufs_get_buf frms.curr_idx with _ | c <;>
      (try by_cases hcc : c.cnt = 0) <;>
      simp [setup_vepu580_recn_refr, recn_refr_asserts, *]
  · intro b hr hz
    rcases hc : env.hal_bufs_get_buf frms.curr_idx with _ | c <;>
      (try by_cases hcc : c.cnt = 0) <;>
      simp [setup_vepu580_recn_refr, recn_refr_asserts, *]

/-- Witness of C18: with the slot of the current frame in use and the slot of
the reference frame absent, the current role gets the handles 31 and 32 and the
offset 4096 at index 164, and the reference role is left alone. -/
theorem recn_refr_roles_sample :
    (setup_vepu580_recn_refr sample_env zero_regs
        { seq_idx := 0, curr_idx := 0, refr_idx := 1 } 4096).1.reg_base.rfpw_h_addr = 31 ∧
    (setup_vepu580_recn_refr sample_env zero_regs
        { seq_idx := 0, curr_idx := 0, refr_idx := 1 } 4096).1.reg_base.dspw_addr = 32 ∧
    (setup_vepu580_recn_refr sample_env zero_regs
        { seq_idx := 0, curr_idx := 0, refr_idx := 1 } 4096).1.reg_base.rfpr_h_addr = 0 ∧
    (setup_vepu580_recn_refr sample_env zero_regs
        { seq_idx := 0, curr_idx := 0, refr_idx := 1 } 4096).2 =
      [HalCall.hal_bufs_get_buf 0, HalCall.hal_bufs_get_buf 1,
        HalCall.mpp_dev_reg_offset 164 4096] ∧
    ∀ o, HalCall.mpp_dev_reg_offset 166 o ∉
      (setup_vepu580_recn_refr sample_env zero_regs
        { seq_idx := 0, curr_idx := 0, refr_idx := 1 } 4096).2 :=
  ⟨by decide, by decide, by decide, by decide,
    ((recn_refr_roles sample_env zero_regs { seq_idx := 0, curr_idx := 0, refr_idx := 1 }
      4096).2.2.1 (Or.inl (by decide))).2.2.2⟩

/-- C19: when the ROI configuration of the frame is absent, has zero regions or
has no region array, `setup_vepu580_roi` sets `roi_en = 0` and `roi_addr = 0`,
issues no call (no allocation, no release) and leaves the context, in
particular `roi_buf`, `roi_grp` and `roi_buf_size`, exactly as it was. -/
theorem roi_disabled_keeps_buffer (env : HalEnv) (regs : HalVepu580RegSet)
    (ctx : HalH264eVepu580Ctx)
    (h : ctx.roi_data = none ∨
      ∃ roi, ctx.roi_data = some roi ∧ (roi.number = 0 ∨ roi.regions = none)) :
    (setup_vepu580_roi env regs ctx).1.reg_base.enc_pic.roi_en = 0 ∧
    (setup_vepu580_roi env regs ctx).1.reg_base.roi_addr = 0 ∧
    (setup_vepu580_roi env regs ctx).2.2 = [] ∧
    (setup_vepu580_roi env regs ctx).2.1 = ctx ∧
    (setup_vepu580_roi env regs ctx).2.1.roi_buf = ctx.roi_buf ∧
    (setup_vepu580_roi env regs ctx).2.1.roi_grp = ctx.roi_grp ∧
    (setup_vepu580_roi env regs ctx).2.1.roi_buf_size = ctx.roi_buf_size := by
  have key : setup_vepu580_roi env regs ctx =
      ({ regs with reg_base.enc_pic.roi_en := 0, reg_base.roi_addr := 0 }, ctx, []) := by
    rcases h with h | ⟨roi, h, hz⟩
    · simp only [setup_vepu580_roi, h]
    · have hn : ¬ (roi.number ≠ 0 ∧ roi.regions ≠ none) := by
        rintro ⟨h1, h2⟩
        rcases hz with hz | hz
        · exact h1 hz
        · exact h2 hz
      simp only [setup_vepu580_roi, h, if_neg hn]
  rw [key]
  exact ⟨rfl, rfl, rfl, rfl, rfl, rfl, rfl⟩

/-- Witness of C19: with a ROI buffer of 130560 bytes held from an earlier frame,
a ROI configuration with zero regions disables the feature and keeps the
buffer. -/
theorem roi_disabled_keeps_buffer_sample :
    ((sample_roi_ctx (some { number := 0, regions := some [] }) (some { internal := true })
        (some { size := 130560, fd := 7 }) 130560).roi_data = none ∨
      ∃ roi, (sample_roi_ctx (some { number := 0, regions := some [] })
          (some { internal := true }) (some { size := 130560, fd := 7 }) 130560).roi_data =
            some roi ∧
        (roi.number = 0 ∨ roi.regions = none)) ∧
    (setup_vepu580_roi sample_env (setup_vepu580_normal zero_regs)
      (sample_roi_ctx (some { number := 0, regions := some [] }) (some { internal := true })
        (some { size := 130560, fd := 7 }) 130560)).1.reg_base.enc_pic.roi_en = 0 ∧
    (setup_vepu580_roi sample_env (setup_vepu580_normal zero_regs)
      (sample_roi_ctx (some { number := 0, regions := some [] }) (some { internal := true })
        (some { size := 130560, fd := 7 }) 130560)).2.2 = [] ∧
    (setup_vepu580_roi sample_env (setup_vepu580_normal zero_regs)
      (sample_roi_ctx (some { number := 0, regions := some [] }) (some { internal := true })
        (some { size := 130560, fd := 7 }) 130560)).2.1.roi_buf =
      some { size := 130560, fd := 7 } :=
  ⟨Or.inr ⟨_, rfl, Or.inl rfl⟩,
    (roi_disabled_keeps_buffer sample_env (setup_vepu580_normal zero_regs)
      (sample_roi_ctx (some { number := 0, regions := some [] }) (some { internal := true })
        (some { size := 130560, fd := 7 }) 130560) (Or.inr ⟨_, rfl, Or.inl rfl⟩)).1,
    (roi_disabled_keeps_buffer sample_env (setup_vepu580_normal zero_regs)
      (sample_roi_ctx (some { number := 0, regions := some [] }) (some { internal := true })
        (some { size := 130560, fd := 7 }) 130560) (Or.inr ⟨_, rfl, Or.inl rfl⟩)).2.2.1,
    (roi_disabled_keeps_buffer sample_env (setup_vepu580_normal zero_regs)
      (sample_roi_ctx (some { number := 0, regions := some [] }) (some { internal := true })
        (some { size := 130560, fd := 7 }) 130560)
      (Or.inr ⟨_, rfl, Or.inl rfl⟩)).2.2.2.2.1.trans (by decide)⟩

/-- Counterexample to C20 as stated for every context state: a context holds a
ROI buffer of 100 bytes but no ROI buffer group, and the required size is 130560.
With every allocation succeeding the only allocator call is the creation of the
group; the buffer of 100 bytes is kept and serialised into although
`roi_buf_size` becomes 130560. -/
theorem roi_buffer_kept_without_group :
    sample_env.alloc.group_get_ok = true ∧ sample_env.alloc.buffer_get_ok = true ∧
    sample_env.vepu541_get_roi_buf_size 1920 1088 = 130560 ∧
    (setup_vepu580_roi sample_env (setup_vepu580_normal zero_regs)
      (sample_roi_ctx (some sample_roi) none (some { size := 100, fd := 9 }) 100)).2.1.roi_buf =
      some { size := 100, fd := 9 } ∧
    (setup_vepu580_roi sample_env (setup_vepu580_normal zero_regs)
      (sample_roi_ctx (some sample_roi) none (some { size := 100, fd := 9 })
        100)).2.1.roi_buf_size = 130560 ∧
    (setup_vepu580_roi sample_env (setup_vepu580_normal zero_regs)
      (sample_roi_ctx (some sample_roi) none (some { size := 100, fd := 9 }) 100)).2.2 =
      [HalCall.mpp_buffer_group_get_internal,
        HalCall.vepu541_set_roi (some { size := 100, fd := 9 }) sample_roi 1920 1088] := by
  decide

/-- C20, amended: take a context in which a held ROI buffer has the size
`roi_buf_size` and comes with a ROI buffer group, and a ROI configuration with
regions; let `S` be the size required for the picture of `pic_width_in_mbs * 16`
by `pic_height_in_mbs * 16` samples.  A held buffer with `roi_buf_size = S` is
reused: the context is unchanged and the only call is the serialisation.  A
buffer is requested exactly when no buffer is held or `S` differs from
`roi_buf_size`, and the requested size is `S`.  In every case `roi_en = 1` and
`roi_buf_size = S` afterwards; when the buffer allocation succeeds a buffer of
size `S` is held, `roi_addr` is its handle and the last call serialises the region
list into it.  When the group creation succeeds the condition on the context
holds again afterwards. -/
theorem roi_buffer_sized (env : HalEnv) (regs : HalVepu580RegSet) (ctx : HalH264eVepu580Ctx)
    (roi : MppEncROICfg) (hroi : ctx.roi_data = some roi) (hnum : roi.number ≠ 0)
    (hreg : roi.regions ≠ none)
    (hinv : ∀ b, ctx.roi_buf = some b → b.size = ctx.roi_buf_size ∧ ctx.roi_grp ≠ none) :
    (∀ b, ctx.roi_buf = some b →
      env.vepu541_get_roi_buf_size (u32 (s32 (ctx.sps.pic_width_in_mbs * 16)))
        (u32 (s32 (ctx.sps.pic_height_in_mbs * 16))) = ctx.roi_buf_size →
      (setup_vepu580_roi env regs ctx).2.1 = ctx ∧
      (setup_vepu580_roi env regs ctx).2.2 =
        [HalCall.vepu541_set_roi (some b) roi (u32 (s32 (ctx.sps.pic_width_in_mbs * 16)))
          (u32 (s32 (ctx.sps.pic_height_in_mbs * 16)))]) ∧
    (∀ k, HalCall.mpp_buffer_get k ∈ (setup_vepu580_roi env regs ctx).2.2 ↔
      k = env.vepu541_get_roi_buf_size (u32 (s32 (ctx.sps.pic_width_in_mbs * 16)))
        (u32 (s32 (ctx.sps.pic_height_in_mbs * 16))) ∧
      (ctx.roi_buf = none ∨
        env.vepu541_get_roi_buf_size (u32 (s32 (ctx.sps.pic_width_in_mbs * 16)))
          (u32 (s32 (ctx.sps.pic_height_in_mbs * 16))) ≠ ctx.roi_buf_size)) ∧
    (setup_vepu580_roi env regs ctx).1.reg_base.enc_pic.roi_en = 1 ∧
    (setup_vepu580_roi env regs ctx).1.reg_base.roi_addr =
      mpp_buffer_get_fd (setup_vepu580_roi env regs ctx).2.1.roi_buf ∧
    (setup_vepu580_roi env regs ctx).2.1.roi_buf_size =
      env.vepu541_get_roi_buf_size (u32 (s32 (ctx.sps.pic_width_in_mbs * 16)))
        (u32 (s32 (ctx.sps.pic_height_in_mbs * 16))) ∧
    (env.alloc.buffer_get_ok = true →
      ∃ b, (setup_vepu580_roi env regs ctx).2.1.roi_buf = some b ∧
        b.size = env.vepu541_get_roi_buf_size (u32 (s32 (ctx.sps.pic_width_in_mbs * 16)))
          (u32 (s32 (ctx.sps.pic_height_in_mbs * 16))) ∧
        (setup_vepu580_roi env regs ctx).1.reg_base.roi_addr = b.fd ∧
        (setup_vepu580_roi env regs ctx).2.2.getLast? =
          some (HalCall.vepu541_set_roi (some b) roi
            (u32 (s32 (ctx.sps.pic_width_in_mbs * 16)))
            (u32 (s32 (ctx.sps.pic_height_in_mbs * 16))))) ∧
    (env.alloc.group_get_ok = true →
      ∀ b, (setup_vepu580_roi env regs ctx).2.1.roi_buf = some b →
        b.size = (setup_vepu580_roi env regs ctx).2.1.roi_buf_size ∧
        (setup_vepu580_roi env regs ctx).2.1.roi_grp ≠ none) ∧
    (0 ≤ ctx.sps.pic_width_in_mbs → ctx.sps.pic_width_in_mbs * 16 < 2147483648 →
      u32 (s32 (ctx.sps.pic_width_in_mbs * 16)) = ctx.sps.pic_width_in_mbs * 16) ∧
    (0 ≤ ctx.sps.pic_height_in_mbs → ctx.sps.pic_height_in_mbs * 16 < 2147483648 →
      u32 (s32 (ctx.sps.pic_height_in_mbs * 16)) = ctx.sps.pic_height_in_mbs * 16) := by
  have hc : roi.number ≠ 0 ∧ roi.regions ≠ none := ⟨hnum, hreg⟩
  generalize hS : env.vepu541_get_roi_buf_size (u32 (s32 (ctx.sps.pic_width_in_mbs * 16)))
    (u32 (s32 (ctx.sps.pic_height_in_mbs * 16))) = S
  have hrange : ∀ x : Int, 0 ≤ x → x * 16 < 2147483648 → u32 (s32 (x * 16)) = x * 16 := by
    intro x h0 h1
    rw [s32_of_range _ (by omega) (by omega)]
    exact u32_of_range _ (by omega) (by omega)
  refine ⟨?_, ?_, ?_, ?_, ?_, ?_, ?_, hrange _, hrange _⟩
  all_goals
    rcases hb : ctx.roi_buf with _ | b
    · rcases hg : ctx.roi_grp with _ | g <;> by_cases hs : S = ctx.roi_buf_size <;>
        rcases hbo : env.alloc.buffer_get_ok <;> rcases hgo : env.alloc.group_get_ok <;>
        simp [setup_vepu580_roi, setup_vepu580_roi_buf, mpp_buffer_get,
          mpp_buffer_group_get_internal, mpp_buffer_get_fd, hroi, hc, hS, hb, hg, hs, hbo, hgo]
    · obtain ⟨hsz, hgn⟩ := hinv b hb
      rcases hg : ctx.roi_grp with _ | g
      · exact absurd hg hgn
      · by_cases hs : S = ctx.roi_buf_size <;>
          rcases hbo : env.alloc.buffer_get_ok <;> rcases hgo : env.alloc.group_get_ok <;>
          simp [setup_vepu580_roi, setup_vepu580_roi_buf, mpp_buffer_get,
            mpp_buffer_group_get_internal, mpp_buffer_get_fd, hroi, hc, hS, hb, hg, hs, hbo,
            hgo, hsz]


/-- Witness of the amended C20: a context without ROI buffer and group satisfies
the condition; for the 1920x1088 picture the required size is 130560, the group
is created, a buffer of 130560 bytes is requested and held, `roi_en = 1`,
`roi_addr` is its handle 7 and the regions are serialised into it. -/
theorem roi_buffer_sized_fresh :
    ((sample_roi_ctx (some sample_roi) none none 0).roi_data = some sample_roi ∧
      sample_roi.number ≠ 0 ∧ sample_roi.regions ≠ none ∧
      ∀ b, (sample_roi_ctx (some sample_roi) none none 0).roi_buf = some b →
        b.size = (sample_roi_ctx (some sample_roi) none none 0).roi_buf_size ∧
        (sample_roi_ctx (some sample_roi) none none 0).roi_grp ≠ none) ∧
    (setup_vepu580_roi sample_env (setup_vepu580_normal zero_regs)
      (sample_roi_ctx (some sample_roi) none none 0)).1.reg_base.enc_pic.roi_en = 1 ∧
    (setup_vepu580_roi sample_env (setup_vepu580_normal zero_regs)
      (sample_roi_ctx (some sample_roi) none none 0)).2.1.roi_buf_size = 130560 ∧
    (setup_vepu580_roi sample_env (setup_vepu580_normal zero_regs)
      (sample_roi_ctx (some sample_roi) none none 0)).2.1.roi_buf =
      some { size := 130560, fd := 7 } ∧
    (setup_vepu580_roi sample_env (setup_vepu580_normal zero_regs)
      (sample_roi_ctx (some sample_roi) none none 0)).1.reg_base.roi_addr = 7 ∧
    (setup_vepu580_roi sample_env (setup_vepu580_normal zero_regs)
      (sample_roi_ctx (some sample_roi) none none 0)).2.2 =
      [HalCall.mpp_buffer_group_get_internal, HalCall.mpp_buffer_get 130560,
        HalCall.vepu541_set_roi (some { size := 130560, fd := 7 }) sample_roi 1920 1088] ∧
    (setup_vepu580_roi sample_env (setup_vepu580_normal zero_regs)
      (sample_roi_ctx (some sample_roi) (some { internal := true })
        (some { size := 130560, fd := 7 }) 130560)).2.2 =
      [HalCall.vepu541_set_roi (some { size := 130560, fd := 7 }) sample_roi 1920 1088] :=
  ⟨⟨rfl, by decide, by decide, fun _ h => nomatch h⟩,
    (roi_buffer_sized sample_env (setup_vepu580_normal zero_regs)
      (sample_roi_ctx (some sample_roi) none none 0) sample_roi rfl (by decide) (by decide)
      (fun _ h => nomatch h)).2.2.1,
    (roi_buffer_sized sample_env (setup_vepu580_normal zero_regs)
      (sample_roi_ctx (some sample_roi) none none 0) sample_roi rfl (by decide) (by decide)
      (fun _ h => nomatch h)).2.2.2.2.1.trans (by decide),
    by decide, by decide, by decide, by decide⟩

/-! ## Start of the hardware run -/

theorem start_all_ok (ctx : HalH264eVepu580Ctx) (task : HalEncTask) :
    hal_h264e_vepu580_start (fun _ => 0) ctx task =
      (0,
        [HalCall.mpp_dev_reg_wr .reg_ctl .VEPU580_CONTROL_CFG_OFFSET,
          HalCall.mpp_dev_reg_wr .reg_base .VEPU580_BASE_CFG_OFFSET,
          HalCall.mpp_dev_reg_wr .reg_rc_klut .VEPU580_RC_KLUT_CFG_OFFSET,
          HalCall.mpp_dev_reg_wr .reg_s3 .VEPU580_SECTION_3_OFFSET,
          HalCall.mpp_dev_reg_wr .reg_rdo .VEPU580_RDO_CFG_OFFSET,
          HalCall.mpp_dev_reg_wr .reg_osd .VEPU580_OSD_OFFSET,
          HalCall.mpp_dev_reg_rd .reg_st .VEPU580_STATUS_OFFSET,
          HalCall.mpp_dev_cmd_send]) := rfl

/-- Counterexample to C22: on a device on which every request succeeds the
fourth request of `hal_h264e_vepu580_start` writes the extended tuning block
`reg_s3` (section 3) and the fifth writes the RDO tuning block `reg_rdo`, not the
other way round. -/
theorem start_writes_section_3_before_rdo :
    (hal_h264e_vepu580_start dev_ok
      (sample_ctx 1920 6 { change := 0, split_mode := 0, split_arg := 0 })
      (sample_task 6 4000000)).1 = MPP_OK ∧
    (hal_h264e_vepu580_start dev_ok
      (sample_ctx 1920 6 { change := 0, split_mode := 0, split_arg := 0 })
      (sample_task 6 4000000)).2[3]? =
      some (HalCall.mpp_dev_reg_wr .reg_s3 .VEPU580_SECTION_3_OFFSET) ∧
    (hal_h264e_vepu580_start dev_ok
      (sample_ctx 1920 6 { change := 0, split_mode := 0, split_arg := 0 })
      (sample_task 6 4000000)).2[4]? =
      some (HalCall.mpp_dev_reg_wr .reg_rdo .VEPU580_RDO_CFG_OFFSET) := by
  decide

/-- C22, amended: when every device request succeeds,
`hal_h264e_vepu580_start` returns `MPP_OK` and issues exactly eight requests:
six block writes in the order control, base, RC lookup table, extended tuning
(section 3), RDO tuning, overlay, each with the offset of its block; then the
read registration of the status block; then the send request. -/
theorem start_call_sequence (dev : HalCall → Int) (ctx : HalH264eVepu580Ctx)
    (task : HalEncTask) (hdev : ∀ c, dev c = MPP_OK) :
    hal_h264e_vepu580_start dev ctx task =
      (MPP_OK,
        [HalCall.mpp_dev_reg_wr .reg_ctl .VEPU580_CONTROL_CFG_OFFSET,
          HalCall.mpp_dev_reg_wr .reg_base .VEPU580_BASE_CFG_OFFSET,
          HalCall.mpp_dev_reg_wr .reg_rc_klut .VEPU580_RC_KLUT_CFG_OFFSET,
          HalCall.mpp_dev_reg_wr .reg_s3 .VEPU580_SECTION_3_OFFSET,
          HalCall.mpp_dev_reg_wr .reg_rdo .VEPU580_RDO_CFG_OFFSET,
          HalCall.mpp_dev_reg_wr .reg_osd .VEPU580_OSD_OFFSET,
          HalCall.mpp_dev_reg_rd .reg_st .VEPU580_STATUS_OFFSET,
          HalCall.mpp_dev_cmd_send]) := by
  have hk : ¬ (MPP_OK ≠ 0) := by decide
  simp only [hal_h264e_vepu580_start, hdev, if_neg hk]

/-- Witness of the amended C22: the device on which every request succeeds. -/
theorem start_call_sequence_dev_ok :
    (∀ c, dev_ok c = MPP_OK) ∧
    hal_h264e_vepu580_start dev_ok
        (sample_ctx 1920 6 { change := 0, split_mode := 0, split_arg := 0 })
        (sample_task 6 4000000) =
      (MPP_OK,
        [HalCall.mpp_dev_reg_wr .reg_ctl .VEPU580_CONTROL_CFG_OFFSET,
          HalCall.mpp_dev_reg_wr .reg_base .VEPU580_BASE_CFG_OFFSET,
          HalCall.mpp_dev_reg_wr .reg_rc_klut .VEPU580_RC_KLUT_CFG_OFFSET,
          HalCall.mpp_dev_reg_wr .reg_s3 .VEPU580_SECTION_3_OFFSET,
          HalCall.mpp_dev_reg_wr .reg_rdo .VEPU580_RDO_CFG_OFFSET,
          HalCall.mpp_dev_reg_wr .reg_osd .VEPU580_OSD_OFFSET,
          HalCall.mpp_dev_reg_rd .reg_st .VEPU580_STATUS_OFFSET,
          HalCall.mpp_dev_cmd_send]) :=
  ⟨fun _ => rfl,
    start_call_sequence dev_ok
      (sample_ctx 1920 6 { change := 0, split_mode := 0, split_arg := 0 })
      (sample_task 6 4000000) (fun _ => rfl)⟩

/-- C23: for every pattern of return codes of the device,
`hal_h264e_vepu580_start` stops at the first request that fails.  The requests
it issues are an initial part of the eight requests of the full sequence, none
is issued twice, every issued request but the last succeeded, and the return
code is the code of the last issued request.  So a failure is returned as it
is and nothing follows it; the send request is issued exactly when the six
writes and the read registration succeeded; and the result is `MPP_OK` exactly
when all eight requests succeeded, in which case all eight were issued. -/
theorem start_stops_at_first_failure (dev : HalCall → Int) (ctx : HalH264eVepu580Ctx)
    (task : HalEncTask) :
    (hal_h264e_vepu580_start dev ctx task).2 <+:
      (hal_h264e_vepu580_start (fun _ => 0) ctx task).2 ∧
    (hal_h264e_vepu580_start dev ctx task).2.Nodup ∧
    (∀ c ∈ (hal_h264e_vepu580_start dev ctx task).2.dropLast, dev c = MPP_OK) ∧
    ((hal_h264e_vepu580_start dev ctx task).2.getLast?.map dev =
      some (hal_h264e_vepu580_start dev ctx task).1) ∧
    (HalCall.mpp_dev_cmd_send ∈ (hal_h264e_vepu580_start dev ctx task).2 ↔
      ∀ c ∈ (hal_h264e_vepu580_start (fun _ => 0) ctx task).2.dropLast, dev c = MPP_OK) ∧
    ((hal_h264e_vepu580_start dev ctx task).1 = MPP_OK ↔
      ∀ c ∈ (hal_h264e_vepu580_start (fun _ => 0) ctx task).2, dev c = MPP_OK) ∧
    ((hal_h264e_vepu580_start dev ctx task).1 = MPP_OK →
      (hal_h264e_vepu580_start dev ctx task).2 =
        (hal_h264e_vepu580_start (fun _ => 0) ctx task).2) ∧
    (hal_h264e_vepu580_start (fun _ => 0) ctx task).2.length = 8 := by
  rw [start_all_ok]
  simp only [hal_h264e_vepu580_start]
  split_ifs with h1 h2 h3 h4 h5 h6 h7 <;>
    simp_all [MPP_OK, List.prefix_iff_eq_take]

/-- Witness of C23: when the write of the RC lookup table block fails with the
code -6, that code is returned and exactly the three requests up to it are
issued. -/
theorem start_stops_at_first_failure_sample :
    hal_h264e_vepu580_start dev_rc_klut_fails
        (sample_ctx 1920 6 { change := 0, split_mode := 0, split_arg := 0 })
        (sample_task 6 4000000) =
      (-6,
        [HalCall.mpp_dev_reg_wr .reg_ctl .VEPU580_CONTROL_CFG_OFFSET,
          HalCall.mpp_dev_reg_wr .reg_base .VEPU580_BASE_CFG_OFFSET,
          HalCall.mpp_dev_reg_wr .reg_rc_klut .VEPU580_RC_KLUT_CFG_OFFSET]) ∧
    (hal_h264e_vepu580_start dev_rc_klut_fails
        (sample_ctx 1920 6 { change := 0, split_mode := 0, split_arg := 0 })
        (sample_task 6 4000000)).2.Nodup :=
  ⟨by decide,
    (start_stops_at_first_failure dev_rc_klut_fails
      (sample_ctx 1920 6 { change := 0, split_mode := 0, split_arg := 0 })
      (sample_task 6 4000000)).2.1⟩

/-! ## Result of the hardware run -/

theorem ret_task_some (ctx : HalH264eVepu580Ctx) (task : HalEncTask)
    (hmbs : u32 (u32 ctx.sps.pic_width_in_mbs * u32 ctx.sps.pic_height_in_mbs) ≠ 0) :
    hal_h264e_vepu580_ret_task ctx task =
      some (MPP_OK,
        { ctx with
          hal_rc_cfg :=
            { ctx.hal_rc_cfg with
              bit_real := s32 (u32 (task.hw_length * 8))
              quality_real :=
                s32 (ctx.regs_set.reg_st.qp_sum /
                  u32 (u32 ctx.sps.pic_width_in_mbs * u32 ctx.sps.pic_height_in_mbs))
              iblk4_prop :=
                s32 (u32 ((ctx.regs_set.reg_st.st_pnum_i4.pnum_i4 +
                    ctx.regs_set.reg_st.st_pnum_i8.pnum_i8 +
                    ctx.regs_set.reg_st.st_pnum_i16.pnum_i16) * 256) /
                  u32 (u32 ctx.sps.pic_width_in_mbs * u32 ctx.sps.pic_height_in_mbs)) } },
        { task with
          length := u32 (task.length + task.hw_length)
          rc_task :=
            { task.rc_task with
              info :=
                { task.rc_task.info with
                  bit_real := s32 (u32 (task.hw_length * 8))
                  quality_real :=
                    s32 (ctx.regs_set.reg_st.qp_sum /
                      u32 (u32 ctx.sps.pic_width_in_mbs * u32 ctx.sps.pic_height_in_mbs))
                  madi :=
                    if ctx.regs_set.reg_st.st_bnum_b16.num_b16 = 0 then 0
                    else s32 (ctx.regs_set.reg_st.madi /
                      ctx.regs_set.reg_st.st_bnum_b16.num_b16)
                  madp :=
                    if ctx.regs_set.reg_st.st_bnum_cme.num_ctu = 0 then 0
                    else s32 (ctx.regs_set.reg_st.madi /
                      ctx.regs_set.reg_st.st_bnum_cme.num_ctu)
                  iblk4_prop :=
                    s32 (u32 ((ctx.regs_set.reg_st.st_pnum_i4.pnum_i4 +
                        ctx.regs_set.reg_st.st_pnum_i8.pnum_i8 +
                        ctx.regs_set.reg_st.st_pnum_i16.pnum_i16) * 256) /
                      u32 (u32 ctx.sps.pic_width_in_mbs * u32 ctx.sps.pic_height_in_mbs)) } }
          hal_ret :=
            { data :=
                some
                  { ctx.hal_rc_cfg with
                    bit_real := s32 (u32 (task.hw_length * 8))
                    quality_real :=
                      s32 (ctx.regs_set.reg_st.qp_sum /
                        u32 (u32 ctx.sps.pic_width_in_mbs * u32 ctx.sps.pic_height_in_mbs))
                    iblk4_prop :=
                      s32 (u32 ((ctx.regs_set.reg_st.st_pnum_i4.pnum_i4 +
                          ctx.regs_set.reg_st.st_pnum_i8.pnum_i8 +
                          ctx.regs_set.reg_st.st_pnum_i16.pnum_i16) * 256) /
                        u32 (u32 ctx.sps.pic_width_in_mbs * u32 ctx.sps.pic_height_in_mbs)) }
              number := 1 } }) := by
  have z : s32 0 = 0 := by decide
  by_cases h1 : ctx.regs_set.reg_st.st_bnum_b16.num_b16 = 0 <;>
    by_cases h2 : ctx.regs_set.reg_st.st_bnum_cme.num_ctu = 0 <;>
    simp only [hal_h264e_vepu580_ret_task, udiv_checked, if_neg hmbs, h1, h2, if_true,
      if_false, z]

theorem ret_task_none (ctx : HalH264eVepu580Ctx) (task : HalEncTask)
    (hmbs : u32 (u32 ctx.sps.pic_width_in_mbs * u32 ctx.sps.pic_height_in_mbs) = 0) :
    hal_h264e_vepu580_ret_task ctx task = none := by
  simp only [hal_h264e_vepu580_ret_task, udiv_checked, if_pos hmbs]

theorem ret_task_mbs_ne_zero (ctx : HalH264eVepu580Ctx) (task : HalEncTask)
    (r : Int × HalH264eVepu580Ctx × HalEncTask)
    (h : hal_h264e_vepu580_ret_task ctx task = some r) :
    u32 (u32 ctx.sps.pic_width_in_mbs * u32 ctx.sps.pic_height_in_mbs) ≠ 0 := by
  intro h0
  rw [ret_task_none ctx task h0] at h
  exact Option.noConfusion h

/-- C24: for every status block and every picture whose macroblock count
`mbs = mb_w * mb_h` (in `RK_U32`) is not 0, `hal_h264e_vepu580_ret_task` returns
`MPP_OK`, adds `hw_length` to the length of the task, and sets
`bit_real = hw_length * 8`, `quality_real = qp_sum / mbs`, `madi = 0` when
`num_b16 = 0` and otherwise the MADI register divided by `num_b16`, and
`iblk4_prop = (pnum_i4 + pnum_i8 + pnum_i16) * 256 / mbs`, the product taken in
`RK_U32`.  For positive macroblock dimensions with `mb_w * mb_h` below 2^32,
`mbs` is `mb_w * mb_h`; the stored results are the exact quotients when the
inputs are not negative and the results fit `RK_S32`. -/
theorem ret_task_results (ctx : HalH264eVepu580Ctx) (task : HalEncTask)
    (hmbs : u32 (u32 ctx.sps.pic_width_in_mbs * u32 ctx.sps.pic_height_in_mbs) ≠ 0) :
    ∃ (ctx1 : HalH264eVepu580Ctx) (task1 : HalEncTask),
      hal_h264e_vepu580_ret_task ctx task = some (MPP_OK, ctx1, task1) ∧
      task1.length = u32 (task.length + task.hw_length) ∧
      task1.rc_task.info.bit_real = s32 (u32 (task.hw_length * 8)) ∧
      task1.rc_task.info.quality_real =
        s32 (ctx.regs_set.reg_st.qp_sum /
          u32 (u32 ctx.sps.pic_width_in_mbs * u32 ctx.sps.pic_height_in_mbs)) ∧
      task1.rc_task.info.madi =
        (if ctx.regs_set.reg_st.st_bnum_b16.num_b16 = 0 then 0
          else s32 (ctx.regs_set.reg_st.madi / ctx.regs_set.reg_st.st_bnum_b16.num_b16)) ∧
      task1.rc_task.info.iblk4_prop =
        s32 (u32 ((ctx.regs_set.reg_st.st_pnum_i4.pnum_i4 +
            ctx.regs_set.reg_st.st_pnum_i8.pnum_i8 +
            ctx.regs_set.reg_st.st_pnum_i16.pnum_i16) * 256) /
          u32 (u32 ctx.sps.pic_width_in_mbs * u32 ctx.sps.pic_height_in_mbs)) ∧
      (0 < ctx.sps.pic_width_in_mbs → 0 < ctx.sps.pic_height_in_mbs →
        ctx.sps.pic_width_in_mbs * ctx.sps.pic_height_in_mbs < 4294967296 →
        u32 (u32 ctx.sps.pic_width_in_mbs * u32 ctx.sps.pic_height_in_mbs) =
          ctx.sps.pic_width_in_mbs * ctx.sps.pic_height_in_mbs) ∧
      (0 ≤ task.length → 0 ≤ task.hw_length → task.length + task.hw_length < 4294967296 →
        task1.length = task.length + task.hw_length) ∧
      (0 ≤ task.hw_length → task.hw_length * 8 < 2147483648 →
        task1.rc_task.info.bit_real = task.hw_length * 8) ∧
      (0 ≤ ctx.regs_set.reg_st.qp_sum → ctx.regs_set.reg_st.qp_sum < 2147483648 →
        task1.rc_task.info.quality_real =
          ctx.regs_set.reg_st.qp_sum /
            u32 (u32 ctx.sps.pic_width_in_mbs * u32 ctx.sps.pic_height_in_mbs)) ∧
      (0 < ctx.regs_set.reg_st.st_bnum_b16.num_b16 → 0 ≤ ctx.regs_set.reg_st.madi →
        ctx.regs_set.reg_st.madi < 2147483648 →
        task1.rc_task.info.madi =
          ctx.regs_set.reg_st.madi / ctx.regs_set.reg_st.st_bnum_b16.num_b16) ∧
      (0 ≤ ctx.regs_set.reg_st.st_pnum_i4.pnum_i4 + ctx.regs_set.reg_st.st_pnum_i8.pnum_i8 +
          ctx.regs_set.reg_st.st_pnum_i16.pnum_i16 →
        (ctx.regs_set.reg_st.st_pnum_i4.pnum_i4 + ctx.regs_set.reg_st.st_pnum_i8.pnum_i8 +
          ctx.regs_set.reg_st.st_pnum_i16.pnum_i16) * 256 < 2147483648 →
        task1.rc_task.info.iblk4_prop =
          (ctx.regs_set.reg_st.st_pnum_i4.pnum_i4 + ctx.regs_set.reg_st.st_pnum_i8.pnum_i8 +
            ctx.regs_set.reg_st.st_pnum_i16.pnum_i16) * 256 /
            u32 (u32 ctx.sps.pic_width_in_mbs * u32 ctx.sps.pic_height_in_mbs)) := by
  have hm0 : 0 ≤ u32 (u32 ctx.sps.pic_width_in_mbs * u32 ctx.sps.pic_height_in_mbs) := by
    unfold u32; omega
  have hm1 : 1 ≤ u32 (u32 ctx.sps.pic_width_in_mbs * u32 ctx.sps.pic_height_in_mbs) := by
    omega
  have hq : ∀ a b : Int, 0 ≤ a → a < 2147483648 → 1 ≤ b → s32 (a / b) = a / b := by
    intro a b ha0 ha1 hb
    have h1 : 0 ≤ a / b := Int.ediv_nonneg ha0 (by omega)
    have h2 : a / b ≤ a := Int.ediv_le_self b ha0
    exact s32_of_range _ (by omega) (by omega)
  refine ⟨_, _, ret_task_some ctx task hmbs, rfl, rfl, rfl, rfl, rfl, ?_, ?_, ?_, ?_, ?_, ?_⟩
  · intro hw hh hp
    rw [u32_of_range ctx.sps.pic_width_in_mbs (by omega) (by nlinarith),
      u32_of_range ctx.sps.pic_height_in_mbs (by omega) (by nlinarith)]
    exact u32_of_range _ (by nlinarith) hp
  · intro h0 h1 h2
    exact u32_of_range _ (by omega) h2
  · intro h0 h1
    show s32 (u32 (task.hw_length * 8)) = task.hw_length * 8
    rw [u32_of_range _ (by omega) (by omega)]
    exact s32_of_range _ (by omega) (by omega)
  · intro h0 h1
    exact hq _ _ h0 h1 hm1
  · intro hb h0 h1
    show (if ctx.regs_set.reg_st.st_bnum_b16.num_b16 = 0 then 0
      else s32 (ctx.regs_set.reg_st.madi / ctx.regs_set.reg_st.st_bnum_b16.num_b16)) = _
    rw [if_neg (by omega)]
    exact hq _ _ h0 h1 (by omega)
  · intro h0 h1
    show s32 (u32 ((ctx.regs_set.reg_st.st_pnum_i4.pnum_i4 +
      ctx.regs_set.reg_st.st_pnum_i8.pnum_i8 + ctx.regs_set.reg_st.st_pnum_i16.pnum_i16) * 256) /
      u32 (u32 ctx.sps.pic_width_in_mbs * u32 ctx.sps.pic_height_in_mbs)) = _
    rw [u32_of_range _ (by omega) (by omega)]
    exact hq _ _ (by omega) h1 hm1

/-- Witness of C24: the sample status on the 120x68 macroblock picture gives
`bit_real = 200000`, `quality_real = 26`, `madi = 10`, `iblk4_prop = 64` and the
task length 25100. -/
theorem ret_task_results_sample :
    u32 (u32 (sample_run_ctx (sample_status 81600 45900)).sps.pic_width_in_mbs *
      u32 (sample_run_ctx (sample_status 81600 45900)).sps.pic_height_in_mbs) ≠ 0 ∧
    ∃ (ctx1 : HalH264eVepu580Ctx) (task1 : HalEncTask),
      hal_h264e_vepu580_ret_task (sample_run_ctx (sample_status 81600 45900)) sample_run_task =
        some (MPP_OK, ctx1, task1) ∧
      task1.length = 25100 ∧ task1.rc_task.info.bit_real = 200000 ∧
      task1.rc_task.info.quality_real = 26 ∧ task1.rc_task.info.madi = 10 ∧
      task1.rc_task.info.iblk4_prop = 64 :=
  ⟨by decide,
    (ret_task_results (sample_run_ctx (sample_status 81600 45900)) sample_run_task
      (by decide)).elim fun ctx1 h => h.elim fun task1 h1 =>
        ⟨ctx1, task1, h1.1, h1.2.1.trans (by decide), h1.2.2.1.trans (by decide),
          h1.2.2.2.1.trans (by decide), h1.2.2.2.2.1.trans (by decide),
          h1.2.2.2.2.2.1.trans (by decide)⟩⟩

/-- C25, behaviour of the code: the `madp` result of
`hal_h264e_vepu580_ret_task` is 0 when `num_ctu = 0` and otherwise the MADI
register (not the MADP register) divided by `num_ctu`; the MADP register has no
influence on any result.  With `num_ctu = 510` and the MADP register fixed at
45900 (45900 / 510 = 90), the MADI register 81600 gives `madp = 160` and the MADI
register 163200 gives `madp = 320`. -/
theorem ret_task_madp_from_madi :
    (∀ (ctx : HalH264eVepu580Ctx) (task : HalEncTask)
        (r : Int × HalH264eVepu580Ctx × HalEncTask),
      hal_h264e_vepu580_ret_task ctx task = some r →
      r.2.2.rc_task.info.madp =
        (if ctx.regs_set.reg_st.st_bnum_cme.num_ctu = 0 then 0
          else s32 (ctx.regs_set.reg_st.madi / ctx.regs_set.reg_st.st_bnum_cme.num_ctu))) ∧
    (∀ (ctx : HalH264eVepu580Ctx) (task : HalEncTask) (madp : Int),
      (hal_h264e_vepu580_ret_task { ctx with regs_set.reg_st.madp := madp } task).map
          (fun r => r.2.2) =
        (hal_h264e_vepu580_ret_task ctx task).map (fun r => r.2.2)) ∧
    (hal_h264e_vepu580_ret_task (sample_run_ctx (sample_status 81600 45900))
      sample_run_task).map (fun r => r.2.2.rc_task.info.madp) = some 160 ∧
    (hal_h264e_vepu580_ret_task (sample_run_ctx (sample_status 163200 45900))
      sample_run_task).map (fun r => r.2.2.rc_task.info.madp) = some 320 := by
  refine ⟨?_, ?_, by decide, by decide⟩
  · intro ctx task r h
    have hm := ret_task_mbs_ne_zero ctx task r h
    rw [ret_task_some ctx task hm] at h
    cases h
    rfl
  · intro ctx task madp
    by_cases hm : u32 (u32 ctx.sps.pic_width_in_mbs * u32 ctx.sps.pic_height_in_mbs) = 0
    · rw [ret_task_none ctx task hm,
        ret_task_none { ctx with regs_set.reg_st.madp := madp } task hm]
    · rw [ret_task_some ctx task hm,
        ret_task_some { ctx with regs_set.reg_st.madp := madp } task hm]
      rfl

/-- Counterexample to C26: after `hal_h264e_vepu580_ret_task` on the sample
status the task has `madi = 10` and `madp = 160`, while the record cached in the
context still has `madi = 0` and `madp = 0`. -/
theorem ret_task_madi_not_cached :
    (hal_h264e_vepu580_ret_task (sample_run_ctx (sample_status 81600 45900))
      sample_run_task).map
        (fun r => (r.2.2.rc_task.info.madi, r.2.1.hal_rc_cfg.madi,
          r.2.2.rc_task.info.madp, r.2.1.hal_rc_cfg.madp)) = some (10, 0, 160, 0) := by
  decide

/-- C26, amended: after `hal_h264e_vepu580_ret_task` the results `bit_real`,
`quality_real` and `iblk4_prop` are both attached to the rate-control record of
the task and cached in `ctx.hal_rc_cfg`; `madi` and `madp` are attached to the
task only, and the cached `madi` and `madp` (and every other member of the
context) keep their previous values.  `task.hal_ret` has `number = 1` and its
`data` is the cached record. -/
theorem ret_task_cache (ctx ctx1 : HalH264eVepu580Ctx) (task task1 : HalEncTask) (ret : Int)
    (h : hal_h264e_vepu580_ret_task ctx task = some (ret, ctx1, task1)) :
    ctx1.hal_rc_cfg.bit_real = task1.rc_task.info.bit_real ∧
    ctx1.hal_rc_cfg.quality_real = task1.rc_task.info.quality_real ∧
    ctx1.hal_rc_cfg.iblk4_prop = task1.rc_task.info.iblk4_prop ∧
    ctx1.hal_rc_cfg.madi = ctx.hal_rc_cfg.madi ∧
    ctx1.hal_rc_cfg.madp = ctx.hal_rc_cfg.madp ∧
    ctx1 =
      { ctx with
        hal_rc_cfg :=
          { ctx.hal_rc_cfg with
            bit_real := task1.rc_task.info.bit_real
            quality_real := task1.rc_task.info.quality_real
            iblk4_prop := task1.rc_task.info.iblk4_prop } } ∧
    task1.hal_ret.number = 1 ∧
    task1.hal_ret.data = some ctx1.hal_rc_cfg := by
  have hm := ret_task_mbs_ne_zero ctx task _ h
  rw [ret_task_some ctx task hm] at h
  simp only [Option.some.injEq, Prod.mk.injEq] at h
  obtain ⟨-, h1, h2⟩ := h
  subst h1 h2
  exact ⟨rfl, rfl, rfl, rfl, rfl, rfl, rfl, rfl⟩

/-- Witness of the amended C26: the sample status; the cache gets
`bit_real = 200000`, `quality_real = 26` and `iblk4_prop = 64`. -/
theorem ret_task_cache_sample :
    ∃ (ctx1 : HalH264eVepu580Ctx) (task1 : HalEncTask),
      hal_h264e_vepu580_ret_task (sample_run_ctx (sample_status 81600 45900)) sample_run_task =
        some (MPP_OK, ctx1, task1) ∧
      ctx1.hal_rc_cfg.bit_real = task1.rc_task.info.bit_real ∧
      task1.rc_task.info.bit_real = 200000 ∧
      ctx1.hal_rc_cfg.madi = 0 ∧
      task1.hal_ret.number = 1 :=
  ⟨_, _, ret_task_some (sample_run_ctx (sample_status 81600 45900)) sample_run_task (by decide),
    (ret_task_cache _ _ _ _ _
      (ret_task_some (sample_run_ctx (sample_status 81600 45900)) sample_run_task
        (by decide))).1,
    by decide, by decide, by decide⟩

/-! ## Wait for the hardware -/

/-- C27: `hal_h264e_vepu580_wait` issues the poll request only and returns
`MPP_OK` exactly when the poll succeeds, whatever the status bits of the
register image are; `hal_h264e_vepu580_status_check` returns `MPP_OK` for every
context.  After a successful poll `hw_length` is increased by `bs_lgth_l32` of
the status block (in `RK_U32`; exactly, when the sum fits) and nothing else of
the task changes; after a failed poll the result is `MPP_ERR_VPUHW`, which is
not `MPP_OK`, and the task is unchanged. -/
theorem wait_result (dev : HalCall → Int) (ctx : HalH264eVepu580Ctx) (task : HalEncTask) :
    ((hal_h264e_vepu580_wait dev ctx task).1 = MPP_OK ↔
      dev HalCall.mpp_dev_cmd_poll = MPP_OK) ∧
    (hal_h264e_vepu580_status_check ctx).1 = MPP_OK ∧
    (hal_h264e_vepu580_wait dev ctx task).2.2.1 = [HalCall.mpp_dev_cmd_poll] ∧
    (dev HalCall.mpp_dev_cmd_poll = MPP_OK →
      (hal_h264e_vepu580_wait dev ctx task).2.1 =
        { task with hw_length := u32 (task.hw_length + ctx.regs_set.reg_st.bs_lgth_l32) } ∧
      (hal_h264e_vepu580_wait dev ctx task).2.2.2 = (hal_h264e_vepu580_status_check ctx).2 ∧
      (0 ≤ task.hw_length → 0 ≤ ctx.regs_set.reg_st.bs_lgth_l32 →
        task.hw_length + ctx.regs_set.reg_st.bs_lgth_l32 < 4294967296 →
        (hal_h264e_vepu580_wait dev ctx task).2.1.hw_length =
          task.hw_length + ctx.regs_set.reg_st.bs_lgth_l32)) ∧
    (dev HalCall.mpp_dev_cmd_poll ≠ MPP_OK →
      (hal_h264e_vepu580_wait dev ctx task).1 = MPP_ERR_VPUHW ∧
      (hal_h264e_vepu580_wait dev ctx task).2.1 = task) ∧
    MPP_ERR_VPUHW ≠ MPP_OK := by
  have hv : MPP_ERR_VPUHW ≠ MPP_OK := by decide
  by_cases hp : dev HalCall.mpp_dev_cmd_poll = 0
  · have hn : ¬ dev HalCall.mpp_dev_cmd_poll ≠ 0 := fun h => h hp
    have e : hal_h264e_vepu580_wait dev ctx task =
        (dev HalCall.mpp_dev_cmd_poll,
          { task with hw_length := u32 (task.hw_length + ctx.regs_set.reg_st.bs_lgth_l32) },
          [HalCall.mpp_dev_cmd_poll], (hal_h264e_vepu580_status_check ctx).2) := by
      simp only [hal_h264e_vepu580_wait, if_neg hn]
    rw [e]
    refine ⟨⟨fun _ => hp, fun _ => hp⟩, rfl, rfl, ?_, ?_, hv⟩
    · intro _
      refine ⟨rfl, rfl, ?_⟩
      intro h0 h1 h2
      exact u32_of_range _ (by omega) h2
    · intro h
      exact absurd hp h
  · have e : hal_h264e_vepu580_wait dev ctx task =
        (MPP_ERR_VPUHW, task, [HalCall.mpp_dev_cmd_poll], []) := by
      simp only [hal_h264e_vepu580_wait, if_pos hp]
    rw [e]
    refine ⟨⟨fun h => absurd h hv, fun h => absurd h hp⟩, rfl, rfl, ?_, ?_, hv⟩
    · intro h
      exact absurd h hp
    · intro _
      exact ⟨rfl, rfl⟩

/-- Witness of C27: with the overflow, bus error and watchdog bits all set, a
successful poll gives `MPP_OK` and adds the 25000 bytes of the status block to
`hw_length`, and the status check reports four errors; a failing poll gives
`MPP_ERR_VPUHW` and leaves `hw_length` at 25000. -/
theorem wait_result_samples :
    hal_h264e_vepu580_wait dev_ok
        { sample_run_ctx (sample_status 81600 45900) with
          regs_set.reg_ctl.int_sta.bsf_oflw_sta := 1
          regs_set.reg_ctl.int_sta.wbus_err_sta := 1
          regs_set.reg_ctl.int_sta.rbus_err_sta := 1
          regs_set.reg_ctl.int_sta.wdg_sta := 1 }
        sample_run_task =
      (MPP_OK, { sample_run_task with hw_length := 50000 }, [HalCall.mpp_dev_cmd_poll],
        [Vepu580StatusError.bit_stream_overflow, Vepu580StatusError.bus_write_error,
          Vepu580StatusError.bus_read_error, Vepu580StatusError.wdg_timeout]) ∧
    (hal_h264e_vepu580_wait (fun _ => -1) (sample_run_ctx (sample_status 81600 45900))
      sample_run_task).1 = MPP_ERR_VPUHW ∧
    (hal_h264e_vepu580_wait (fun _ => -1) (sample_run_ctx (sample_status 81600 45900))
      sample_run_task).2.1.hw_length = 25000 :=
  ⟨by decide,
    ((wait_result (fun _ => -1) (sample_run_ctx (sample_status 81600 45900))
      sample_run_task).2.2.2.2.1 (by decide)).1,
    by decide⟩

/-! ## Preparation -/

theorem and_5_ne_zero (x : Nat) :
    x &&& 5 ≠ 0 ↔ (x.testBit 0 = true ∨ x.testBit 2 = true) := by
  constructor
  · intro h
    by_contra hc
    push_neg at hc
    apply h
    apply Nat.eq_of_testBit_eq
    intro i
    rw [Nat.testBit_and, Nat.zero_testBit]
    rcases i with _ | _ | _ | i
    · simp [hc.1]
    · have : Nat.testBit 5 1 = false := by decide
      simp [this]
    · simp [hc.2]
    · have : Nat.testBit 5 (i + 3) = false := by
        apply Nat.testBit_lt_two_pow
        have : 2 ^ 3 ≤ 2 ^ (i + 3) := Nat.pow_le_pow_right (by decide) (by omega)
        omega
      simp [this]
  · intro h hz
    have h0 : (x &&& 5).testBit 0 = false := by rw [hz]; exact Nat.zero_testBit 0
    have h2 : (x &&& 5).testBit 2 = false := by rw [hz]; exact Nat.zero_testBit 2
    rw [Nat.testBit_and] at h0 h2
    have a0 : Nat.testBit 5 0 = true := by decide
    have a2 : Nat.testBit 5 2 = true := by decide
    rw [a0, Bool.and_true] at h0
    rw [a2, Bool.and_true] at h2
    rcases h with h | h
    · rw [h0] at h; exact Bool.noConfusion h
    · rw [h2] at h; exact Bool.noConfusion h

theorem ext_line_no_get_buf (env : MppBufferEnv) (aw : Int) (ctx : HalH264eVepu580Ctx)
    (i : Int) : HalCall.hal_bufs_get_buf i ∉ (setup_hal_bufs_ext_line env aw ctx).2 := by
  unfold setup_hal_bufs_ext_line
  cases hg : ctx.ext_line_buf_grp <;> cases hb : ctx.ext_line_buf <;>
    by_cases hw : aw > SZ_4K <;> simp [hw, hg, hb] <;>
    split_ifs <;> simp [hg, hb]

theorem setup_hal_bufs_no_get_buf (env : MppBufferEnv) (ctx : HalH264eVepu580Ctx) (i : Int) :
    HalCall.hal_bufs_get_buf i ∉ (setup_hal_bufs env ctx).2 := by
  have hn := ext_line_no_get_buf env (MPP_ALIGN ctx.cfg.prep.width 64) ctx i
  unfold setup_hal_bufs
  simp only []
  split_ifs
  · simp only [List.mem_append, List.mem_singleton, not_or]
    exact ⟨hn, fun h => HalCall.noConfusion h⟩
  · exact hn

/-- C30: `hal_h264e_vepu580_prepare` returns `MPP_OK` in every case.  When bit 0
(input change) or bit 2 (format change) of the change mask of the preparation
configuration is set, it runs `setup_hal_bufs`, then requests the pool slots
`0 .. max_buf_cnt - 1` once each in increasing order, with the `max_buf_cnt`
left by `setup_hal_bufs` (which requests no slot itself), and clears the change
mask to 0.  When neither bit is set the context is unchanged and no call is
issued. -/
theorem prepare_preallocates (env : MppBufferEnv) (ctx : HalH264eVepu580Ctx) :
    (hal_h264e_vepu580_prepare env ctx).1 = MPP_OK ∧
    (ctx.cfg.prep.change.testBit 0 = true ∨ ctx.cfg.prep.change.testBit 2 = true →
      (hal_h264e_vepu580_prepare env ctx).2.1 =
        { (setup_hal_bufs env ctx).1 with cfg.prep.change := 0 } ∧
      (hal_h264e_vepu580_prepare env ctx).2.1.cfg.prep.change = 0 ∧
      (hal_h264e_vepu580_prepare env ctx).2.2 =
        (setup_hal_bufs env ctx).2 ++
          prepare_get_bufs (setup_hal_bufs env ctx).1.max_buf_cnt) ∧
    (¬ (ctx.cfg.prep.change.testBit 0 = true ∨ ctx.cfg.prep.change.testBit 2 = true) →
      (hal_h264e_vepu580_prepare env ctx).2.1 = ctx ∧
      (hal_h264e_vepu580_prepare env ctx).2.2 = []) ∧
    (∀ m : Int, (prepare_get_bufs m).length = m.toNat ∧
      ∀ i : Nat, i < m.toNat → (prepare_get_bufs m)[i]? = some (HalCall.hal_bufs_get_buf i)) ∧
    (∀ i : Int, HalCall.hal_bufs_get_buf i ∉ (setup_hal_bufs env ctx).2) ∧
    MPP_ENC_PREP_CFG_CHANGE_INPUT = 2 ^ 0 ∧ MPP_ENC_PREP_CFG_CHANGE_FORMAT = 2 ^ 2 := by
  have hbits := and_5_ne_zero ctx.cfg.prep.change
  have hmask : MPP_ENC_PREP_CFG_CHANGE_INPUT ||| MPP_ENC_PREP_CFG_CHANGE_FORMAT = 5 := by
    decide
  refine ⟨?_, ?_, ?_, ?_, setup_hal_bufs_no_get_buf env ctx, rfl, rfl⟩
  · unfold hal_h264e_vepu580_prepare
    simp only []
    split_ifs <;> rfl
  · intro h
    have hc := hbits.mpr h
    unfold hal_h264e_vepu580_prepare
    simp only [hmask, if_pos hc]
    exact ⟨trivial, trivial, trivial⟩
  · intro h
    have hc : ¬ (ctx.cfg.prep.change &&& 5 ≠ 0) := fun hc => h (hbits.mp hc)
    unfold hal_h264e_vepu580_prepare
    simp only [hmask, if_neg hc]
    exact ⟨trivial, trivial⟩
  · intro m
    unfold prepare_get_bufs
    refine ⟨by rw [List.length_map, List.length_range], ?_⟩
    intro i hi
    rw [List.getElem?_map, List.getElem?_range hi]
    rfl

/-- Witness of C30: for a 1920x1080 configuration with the input change bit
set, on a zero-initialised context, `setup_hal_bufs` leaves `max_buf_cnt = 2`
and the slots 0 and 1 are requested after the pool setup; with the mask 2, which
has neither bit, nothing happens. -/
theorem prepare_preallocates_samples :
    (hal_h264e_vepu580_prepare alloc_ok
      { zero_ctx (mk_cfg 1920 1080 none) with cfg.prep.change := 1 }).2.2 =
      [HalCall.hal_bufs_setup 2 2 [3166208, 131072], HalCall.hal_bufs_get_buf 0,
        HalCall.hal_bufs_get_buf 1] ∧
    (hal_h264e_vepu580_prepare alloc_ok
      { zero_ctx (mk_cfg 1920 1080 none) with cfg.prep.change := 1 }).2.1.cfg.prep.change = 0 ∧
    (hal_h264e_vepu580_prepare alloc_ok
      { zero_ctx (mk_cfg 1920 1080 none) with cfg.prep.change := 2 }).2.2 = [] ∧
    (hal_h264e_vepu580_prepare alloc_ok
      { zero_ctx (mk_cfg 1920 1080 none) with cfg.prep.change := 2 }).2.1 =
      { zero_ctx (mk_cfg 1920 1080 none) with cfg.prep.change := 2 } :=
  ⟨by decide,
    ((prepare_preallocates alloc_ok
      { zero_ctx (mk_cfg 1920 1080 none) with cfg.prep.change := 1 }).2.1
        (Or.inl (by decide))).2.1,
    by decide,
    ((prepare_preallocates alloc_ok
      { zero_ctx (mk_cfg 1920 1080 none) with cfg.prep.change := 2 }).2.2.1
        (by decide)).1⟩

/-! ## Syntax update -/

theorem syn_flag_bit (u t : Nat) (ht : t < 32) :
    (SYN_TYPE_FLAG u).testBit t = decide (u = t) := by
  unfold SYN_TYPE_FLAG
  have h : (4294967296 : Nat) = 2 ^ 32 := by norm_num
  rw [h, Nat.testBit_mod_two_pow, Nat.one_shiftLeft, Nat.testBit_two_pow]
  simp [ht]

theorem syn_fold_mask (l : List H264eSyntaxDesc) (s : HalH264eVepu580Ctx × Nat) (t : Nat)
    (ht : t < 32) :
    (l.foldl update_vepu580_syntax_desc s).2.testBit t = true ↔
      (s.2.testBit t = true ∨ ∃ d ∈ l, d.type = t) := by
  induction l generalizing s with
  | nil => simp
  | cons d l ih =>
    rw [List.foldl_cons, ih]
    have hs : (update_vepu580_syntax_desc s d).2 = s.2 ||| SYN_TYPE_FLAG d.type := rfl
    rw [hs, Nat.testBit_or, syn_flag_bit _ _ ht]
    simp only [Bool.or_eq_true, decide_eq_true_eq, List.mem_cons, exists_eq_or_imp]
    tauto

theorem syn_fold_cfg (l : List H264eSyntaxDesc) (s : HalH264eVepu580Ctx × Nat)
    (h : ∀ q, H264eSyntaxDesc.cfg q ∉ l) :
    (l.foldl update_vepu580_syntax_desc s).1.cfg = s.1.cfg := by
  induction l generalizing s with
  | nil => rfl
  | cons d l ih =>
    rw [List.foldl_cons, ih _ (fun q hq => h q (List.mem_cons_of_mem _ hq))]
    cases d with
    | cfg p => exact absurd (List.mem_cons_self _ _) (h p)
    | _ => rfl

theorem syn_fold_sps (l : List H264eSyntaxDesc) (s : HalH264eVepu580Ctx × Nat)
    (h : ∀ q, H264eSyntaxDesc.sps q ∉ l) :
    (l.foldl update_vepu580_syntax_desc s).1.sps = s.1.sps := by
  induction l generalizing s with
  | nil => rfl
  | cons d l ih =>
    rw [List.foldl_cons, ih _ (fun q hq => h q (List.mem_cons_of_mem _ hq))]
    cases d with
    | sps p => exact absurd (List.mem_cons_self _ _) (h p)
    | _ => rfl

theorem syn_fold_pps (l : List H264eSyntaxDesc) (s : HalH264eVepu580Ctx × Nat)
    (h : ∀ q, H264eSyntaxDesc.pps q ∉ l) :
    (l.foldl update_vepu580_syntax_desc s).1.pps = s.1.pps := by
  induction l generalizing s with
  | nil => rfl
  | cons d l ih =>
    rw [List.foldl_cons, ih _ (fun q hq => h q (List.mem_cons_of_mem _ hq))]
    cases d with
    | pps p => exact absurd (List.mem_cons_self _ _) (h p)
    | _ => rfl

theorem syn_fold_slice (l : List H264eSyntaxDesc) (s : HalH264eVepu580Ctx × Nat)
    (h : ∀ q, H264eSyntaxDesc.slice q ∉ l) :
    (l.foldl update_vepu580_syntax_desc s).1.slice = s.1.slice := by
  induction l generalizing s with
  | nil => rfl
  | cons d l ih =>
    rw [List.foldl_cons, ih _ (fun q hq => h q (List.mem_cons_of_mem _ hq))]
    cases d with
    | slice p => exact absurd (List.mem_cons_self _ _) (h p)
    | _ => rfl

theorem syn_fold_frms (l : List H264eSyntaxDesc) (s : HalH264eVepu580Ctx × Nat)
    (h : ∀ q, H264eSyntaxDesc.frame q ∉ l) :
    (l.foldl update_vepu580_syntax_desc s).1.frms = s.1.frms := by
  induction l generalizing s with
  | nil => rfl
  | cons d l ih =>
    rw [List.foldl_cons, ih _ (fun q hq => h q (List.mem_cons_of_mem _ hq))]
    cases d with
    | frame p => exact absurd (List.mem_cons_self _ _) (h p)
    | _ => rfl

theorem syn_fold_pfx (l : List H264eSyntaxDesc) (s : HalH264eVepu580Ctx × Nat)
    (h : ∀ q, H264eSyntaxDesc.prefix_nal q ∉ l) :
    (l.foldl update_vepu580_syntax_desc s).1.prefix_nal = s.1.prefix_nal := by
  induction l generalizing s with
  | nil => rfl
  | cons d l ih =>
    rw [List.foldl_cons, ih _ (fun q hq => h q (List.mem_cons_of_mem _ hq))]
    cases d with
    | prefix_nal p => exact absurd (List.mem_cons_self _ _) (h p)
    | _ => rfl

theorem syn_cfg_flag (x : Nat) :
    x &&& SYN_TYPE_FLAG H264E_SYN_CFG ≠ 0 ↔ x.testBit 0 = true := by
  have h1 : SYN_TYPE_FLAG H264E_SYN_CFG = 1 := by decide
  rw [h1, Nat.and_one_is_mod, Nat.testBit_zero, decide_eq_true_eq]
  omega

theorem syn_cfg_mem (l : List H264eSyntaxDesc) :
    (∃ d ∈ l, d.type = 0) ↔ ∃ p, H264eSyntaxDesc.cfg p ∈ l := by
  constructor
  · rintro ⟨d, hd, ht⟩
    cases d with
    | cfg p => exact ⟨p, hd⟩
    | other k =>
      simp only [H264eSyntaxDesc.type] at ht
      omega
    | _ =>
      simp only [H264eSyntaxDesc.type, H264E_SYN_SPS, H264E_SYN_PPS, H264E_SYN_SLICE,
        H264E_SYN_FRAME, H264E_SYN_PREFIX] at ht
      omega
  · rintro ⟨p, hp⟩
    exact ⟨_, hp, rfl⟩

/-- C28: `update_vepu580_syntax` folds the descriptors into the context from
left to right.  For each kind (CFG, SPS, PPS, SLICE, FRAME, PREFIX) the member of
the context of that kind is afterwards the payload of the last descriptor of that
kind, and is unchanged when there is none; a descriptor with another tag changes
no member of the context.  Bit `t` (`t < 32`) of the returned mask is set exactly
when a descriptor with tag `t` occurred.  `hal_h264e_vepu580_get_task` returns
`MPP_OK` always and runs `setup_hal_bufs` (on the updated context) exactly when a
CFG descriptor occurred.  The descriptors are the first `number` entries of the
descriptor array. -/
theorem update_syntax_fold (env : MppBufferEnv) (ctx : HalH264eVepu580Ctx)
    (task : HalEncTask) :
    update_vepu580_syntax ctx task.syn =
      (task.syn.data.take task.syn.number.toNat).foldl update_vepu580_syntax_desc (ctx, 0) ∧
    ((∀ pre post p, task.syn.data.take task.syn.number.toNat =
          pre ++ H264eSyntaxDesc.cfg p :: post → (∀ q, H264eSyntaxDesc.cfg q ∉ post) →
        ( update_vepu580_syntax ctx task.syn).1.cfg = p) ∧
      ((∀ q, H264eSyntaxDesc.cfg q ∉ task.syn.data.take task.syn.number.toNat) →
        ( update_vepu580_syntax ctx task.syn).1.cfg = ctx.cfg)) ∧
    ((∀ pre post p, task.syn.data.take task.syn.number.toNat =
          pre ++ H264eSyntaxDesc.sps p :: post → (∀ q, H264eSyntaxDesc.sps q ∉ post) →
        ( update_vepu580_syntax ctx task.syn).1.sps = p) ∧
      ((∀ q, H264eSyntaxDesc.sps q ∉ task.syn.data.take task.syn.number.toNat) →
        ( update_vepu580_syntax ctx task.syn).1.sps = ctx.sps)) ∧
    ((∀ pre post p, task.syn.data.take task.syn.number.toNat =
          pre ++ H264eSyntaxDesc.pps p :: post → (∀ q, H264eSyntaxDesc.pps q ∉ post) →
        ( update_vepu580_syntax ctx task.syn).1.pps = p) ∧
      ((∀ q, H264eSyntaxDesc.pps q ∉ task.syn.data.take task.syn.number.toNat) →
        ( update_vepu580_syntax ctx task.syn).1.pps = ctx.pps)) ∧
    ((∀ pre post p, task.syn.data.take task.syn.number.toNat =
          pre ++ H264eSyntaxDesc.slice p :: post → (∀ q, H264eSyntaxDesc.slice q ∉ post) →
        ( update_vepu580_syntax ctx task.syn).1.slice = p) ∧
      ((∀ q, H264eSyntaxDesc.slice q ∉ task.syn.data.take task.syn.number.toNat) →
        ( update_vepu580_syntax ctx task.syn).1.slice = ctx.slice)) ∧
    ((∀ pre post p, task.syn.data.take task.syn.number.toNat =
          pre ++ H264eSyntaxDesc.frame p :: post → (∀ q, H264eSyntaxDesc.frame q ∉ post) →
        ( update_vepu580_syntax ctx task.syn).1.frms = p) ∧
      ((∀ q, H264eSyntaxDesc.frame q ∉ task.syn.data.take task.syn.number.toNat) →
        ( update_vepu580_syntax ctx task.syn).1.frms = ctx.frms)) ∧
    ((∀ pre post p, task.syn.data.take task.syn.number.toNat =
          pre ++ H264eSyntaxDesc.prefix_nal p :: post →
        (∀ q, H264eSyntaxDesc.prefix_nal q ∉ post) →
        ( update_vepu580_syntax ctx task.syn).1.prefix_nal = p) ∧
      ((∀ q, H264eSyntaxDesc.prefix_nal q ∉ task.syn.data.take task.syn.number.toNat) →
        ( update_vepu580_syntax ctx task.syn).1.prefix_nal = ctx.prefix_nal)) ∧
    (∀ (s : HalH264eVepu580Ctx × Nat) (k : Nat),
      (update_vepu580_syntax_desc s (H264eSyntaxDesc.other k)).1 = s.1) ∧
    (∀ t, t < 32 →
      (( update_vepu580_syntax ctx task.syn).2.testBit t = true ↔
        ∃ d ∈ task.syn.data.take task.syn.number.toNat, d.type = t)) ∧
    (hal_h264e_vepu580_get_task env ctx task).1 = MPP_OK ∧
    ((∃ p, H264eSyntaxDesc.cfg p ∈ task.syn.data.take task.syn.number.toNat) →
      hal_h264e_vepu580_get_task env ctx task =
        (MPP_OK,
          get_task_meta (setup_hal_bufs env ( update_vepu580_syntax ctx task.syn).1).1 task,
          (setup_hal_bufs env ( update_vepu580_syntax ctx task.syn).1).2)) ∧
    ((¬ ∃ p, H264eSyntaxDesc.cfg p ∈ task.syn.data.take task.syn.number.toNat) →
      hal_h264e_vepu580_get_task env ctx task =
        (MPP_OK, get_task_meta ( update_vepu580_syntax ctx task.syn).1 task, [])) := by
  have hmask : ∀ t, t < 32 →
      (( update_vepu580_syntax ctx task.syn).2.testBit t = true ↔
        ∃ d ∈ task.syn.data.take task.syn.number.toNat, d.type = t) := by
    intro t ht
    unfold update_vepu580_syntax
    rw [syn_fold_mask _ _ _ ht]
    simp
  have hcfg : ( update_vepu580_syntax ctx task.syn).2 &&& SYN_TYPE_FLAG H264E_SYN_CFG ≠ 0 ↔
      ∃ p, H264eSyntaxDesc.cfg p ∈ task.syn.data.take task.syn.number.toNat := by
    rw [syn_cfg_flag, hmask 0 (by decide), syn_cfg_mem]
  refine ⟨rfl, ⟨?_, ?_⟩, ⟨?_, ?_⟩, ⟨?_, ?_⟩, ⟨?_, ?_⟩, ⟨?_, ?_⟩, ⟨?_, ?_⟩, fun _ _ => rfl,
    hmask, rfl, ?_, ?_⟩
  · intro pre post p he hq
    unfold update_vepu580_syntax
    rw [he, List.foldl_append, List.foldl_cons, syn_fold_cfg _ _ hq]
    rfl
  · intro hq
    exact syn_fold_cfg _ _ hq
  · intro pre post p he hq
    unfold update_vepu580_syntax
    rw [he, List.foldl_append, List.foldl_cons, syn_fold_sps _ _ hq]
    rfl
  · intro hq
    exact syn_fold_sps _ _ hq
  · intro pre post p he hq
    unfold update_vepu580_syntax
    rw [he, List.foldl_append, List.foldl_cons, syn_fold_pps _ _ hq]
    rfl
  · intro hq
    exact syn_fold_pps _ _ hq
  · intro pre post p he hq
    unfold update_vepu580_syntax
    rw [he, List.foldl_append, List.foldl_cons, syn_fold_slice _ _ hq]
    rfl
  · intro hq
    exact syn_fold_slice _ _ hq
  · intro pre post p he hq
    unfold update_vepu580_syntax
    rw [he, List.foldl_append, List.foldl_cons, syn_fold_frms _ _ hq]
    rfl
  · intro hq
    exact syn_fold_frms _ _ hq
  · intro pre post p he hq
    unfold update_vepu580_syntax
    rw [he, List.foldl_append, List.foldl_cons, syn_fold_pfx _ _ hq]
    rfl
  · intro hq
    exact syn_fold_pfx _ _ hq
  · intro h
    simp only [hal_h264e_vepu580_get_task, if_pos (hcfg.mpr h)]
  · intro h
    simp only [hal_h264e_vepu580_get_task, if_neg (fun hc => h (hcfg.mp hc))]

/-- Witness of C28: a package with two SPS descriptors, an unrecognised
descriptor and no CFG descriptor: the last SPS payload is taken, the
configuration is kept, the mask is `2 + 64`, and `get_task` issues no call.  A
package of `number = 1` with a CFG descriptor for 1920x1080 on a zero-initialised
context runs `setup_hal_bufs`, which sets up the pool. -/
theorem update_syntax_fold_samples :
    ( update_vepu580_syntax (sample_ctx 1920 6 { change := 0, split_mode := 0, split_arg := 0 })
      { number := 3
        data := [.sps { sample_sps with level_idc := 31 }, .other 0,
          .sps { sample_sps with level_idc := 41 }, .cfg (mk_cfg 640 480 none)] }).1.sps.level_idc
      = 41 ∧
    ( update_vepu580_syntax (sample_ctx 1920 6 { change := 0, split_mode := 0, split_arg := 0 })
      { number := 3
        data := [.sps { sample_sps with level_idc := 31 }, .other 0,
          .sps { sample_sps with level_idc := 41 }, .cfg (mk_cfg 640 480 none)] }).1.cfg =
      (sample_ctx 1920 6 { change := 0, split_mode := 0, split_arg := 0 }).cfg ∧
    ( update_vepu580_syntax (sample_ctx 1920 6 { change := 0, split_mode := 0, split_arg := 0 })
      { number := 3
        data := [.sps { sample_sps with level_idc := 31 }, .other 0,
          .sps { sample_sps with level_idc := 41 }, .cfg (mk_cfg 640 480 none)] }).2 = 66 ∧
    (hal_h264e_vepu580_get_task alloc_ok (zero_ctx (mk_cfg 0 0 none))
      { sample_task 6 4000000 with
        syn := { number := 1, data := [.cfg (mk_cfg 1920 1080 none)] } }).2.2 =
      [HalCall.hal_bufs_setup 2 2 [3166208, 131072]] ∧
    (hal_h264e_vepu580_get_task alloc_ok (zero_ctx (mk_cfg 0 0 none))
      { sample_task 6 4000000 with
        syn := { number := 1, data := [.cfg (mk_cfg 1920 1080 none)] } }).1 = MPP_OK :=
  ⟨by decide, by decide, by decide, by decide,
    (update_syntax_fold alloc_ok (zero_ctx (mk_cfg 0 0 none))
      { sample_task 6 4000000 with
        syn := { number := 1, data := [.cfg (mk_cfg 1920 1080 none)] } }).2.2.2.2.2.2.2.2.2.1⟩

/-! ## Independence of the register image from the previous image -/

theorem codec_cursor_indep (regs : HalVepu580RegSet) (sps : H264eSps) (pps : H264ePps)
    (slice : H264eSlice) (a b : Nat) :
    setup_vepu580_codec regs sps pps
        { slice with
          reorder := { slice.reorder with rd_cnt := a }
          marking := { slice.marking with rd_cnt := b } } =
      setup_vepu580_codec regs sps pps slice := by
  rfl

theorem codec_mmco_ops (regs : HalVepu580RegSet) (marking : H264eMarkingInfo) :
    (setup_vepu580_codec_mmco regs marking).2.ops = marking.ops := by
  unfold setup_vepu580_codec_mmco h264e_marking_rd_op
  simp only []
  split_ifs <;> (repeat' split) <;> rfl

theorem codec_out_slice (regs : HalVepu580RegSet) (sps : H264eSps) (pps : H264ePps)
    (slice : H264eSlice) :
    ∃ a b : Nat, (setup_vepu580_codec regs sps pps slice).2 =
      { slice with
        reorder := { slice.reorder with rd_cnt := a }
        marking := { slice.marking with rd_cnt := b } } := by
  have hR : (h264e_reorder_rd_op (h264e_reorder_rd_rewind slice.reorder)).2.ops =
      slice.reorder.ops := by
    unfold h264e_reorder_rd_op h264e_reorder_rd_rewind
    split <;> rfl
  have hR2 : (h264e_reorder_rd_op (h264e_reorder_rd_rewind slice.reorder)).2 =
      { slice.reorder with
        rd_cnt := (h264e_reorder_rd_op (h264e_reorder_rd_rewind slice.reorder)).2.rd_cnt } :=
    congrArg (fun o => H264eReorderInfo.mk o
      (h264e_reorder_rd_op (h264e_reorder_rd_rewind slice.reorder)).2.rd_cnt) hR
  by_cases hI : slice.slice_type = H264_I_SLICE
  · refine ⟨(h264e_reorder_rd_op (h264e_reorder_rd_rewind slice.reorder)).2.rd_cnt, 0, ?_⟩
    have e : (setup_vepu580_codec regs sps pps slice).2 =
        { slice with
          reorder := (h264e_reorder_rd_op (h264e_reorder_rd_rewind slice.reorder)).2
          marking := h264e_marking_rd_rewind slice.marking } := by
      simp only [setup_vepu580_codec, if_pos hI]
    rw [e, hR2]
    rfl
  · obtain ⟨m, hm⟩ : ∃ m : H264eMarkingInfo,
        (setup_vepu580_codec regs sps pps slice).2 =
          { slice with
            reorder := (h264e_reorder_rd_op (h264e_reorder_rd_rewind slice.reorder)).2
            marking := m } ∧ m.ops = slice.marking.ops := by
      refine ⟨(setup_vepu580_codec regs sps pps slice).2.marking, ?_, ?_⟩
      · simp only [setup_vepu580_codec, if_neg hI]
      · simp only [setup_vepu580_codec, if_neg hI]
        rw [codec_mmco_ops]
        rfl
    refine ⟨(h264e_reorder_rd_op (h264e_reorder_rd_rewind slice.reorder)).2.rd_cnt,
      m.rd_cnt, ?_⟩
    have hm2 : m = { slice.marking with rd_cnt := m.rd_cnt } :=
      congrArg (fun o => H264eMarkingInfo.mk o m.rd_cnt) hm.2
    rw [hm.1, hR2]
    rw [hm2]

theorem codec_idem (regs regs1 : HalVepu580RegSet) (sps : H264eSps) (pps : H264ePps)
    (slice : H264eSlice) :
    setup_vepu580_codec regs sps pps (setup_vepu580_codec regs1 sps pps slice).2 =
      setup_vepu580_codec regs sps pps slice := by
  obtain ⟨a, b, h⟩ := codec_out_slice regs1 sps pps slice
  rw [h]
  exact codec_cursor_indep regs sps pps slice a b

theorem gen_regs_congr (env : HalEnv) (ctxA ctxB : HalH264eVepu580Ctx) (task : HalEncTask)
    (hprep : ctxB.cfg.prep = ctxA.cfg.prep) (hhw : ctxB.cfg.hw = ctxA.cfg.hw)
    (hsplit : ∀ regs, (setup_vepu580_split regs ctxB.cfg.split).1 =
      (setup_vepu580_split regs ctxA.cfg.split).1)
    (hsps : ctxB.sps = ctxA.sps) (hpps : ctxB.pps = ctxA.pps)
    (hcodec : ∀ regs, setup_vepu580_codec regs ctxA.sps ctxA.pps ctxB.slice =
      setup_vepu580_codec regs ctxA.sps ctxA.pps ctxA.slice)
    (hfrms : ctxB.frms = ctxA.frms)
    (hhdr : ctxB.pixel_buf_fbc_hdr_size = ctxA.pixel_buf_fbc_hdr_size)
    (hosd : ctxB.osd_cfg = ctxA.osd_cfg)
    (hroi : ∀ regs sl, (setup_vepu580_roi env regs { ctxB with slice := sl }).1 =
      (setup_vepu580_roi env regs { ctxA with slice := sl }).1)
    (hel : ∀ regs regs1 sl,
      (setup_vepu580_ext_line_buf regs
        (setup_vepu580_roi env regs1 { ctxB with slice := sl }).2.1).1 =
      (setup_vepu580_ext_line_buf regs
        (setup_vepu580_roi env regs1 { ctxA with slice := sl }).2.1).1) :
    (hal_h264e_vepu580_gen_regs env ctxB task).map (fun r => r.2.1.regs_set) =
      (hal_h264e_vepu580_gen_regs env ctxA task).map (fun r => r.2.1.regs_set) := by
  by_cases hp : (setup_vepu580_prep env (setup_vepu580_normal zero_regs) ctxA.cfg.prep).1 ≠ 0
  · simp only [hal_h264e_vepu580_gen_regs, hprep, if_pos hp, Option.map_some']
  · have hpB : ¬ (setup_vepu580_prep env (setup_vepu580_normal zero_regs) ctxB.cfg.prep).1 ≠ 0 := by
      rw [hprep]
      exact hp
    by_cases hd : s32 (ctxA.sps.pic_width_in_mbs * ctxA.sps.pic_height_in_mbs) = 0
    · have hdB : s32 (ctxB.sps.pic_width_in_mbs * ctxB.sps.pic_height_in_mbs) = 0 := by
        rw [hsps]
        exact hd
      simp only [hal_h264e_vepu580_gen_regs, if_neg hp, if_neg hpB,
        rc_base_none _ _ _ _ _ hd, rc_base_none _ _ _ _ _ hdB, Option.map_none']
    · have hdB : s32 (ctxB.sps.pic_width_in_mbs * ctxB.sps.pic_height_in_mbs) ≠ 0 := by
        rw [hsps]
        exact hd
      simp only [hal_h264e_vepu580_gen_regs, if_neg hp, if_neg hpB,
        rc_base_some _ _ _ _ _ hd, rc_base_some _ _ _ _ _ hdB, Option.map_some']
      simp only [hroi, hel]
      simp only [hprep, hhw, hsplit, hsps, hpps, hcodec, hfrms, hhdr, hosd]

theorem roi_ctx_frame (env : HalEnv) (regs : HalVepu580RegSet) (ctx : HalH264eVepu580Ctx) :
    (setup_vepu580_roi env regs ctx).2.1.cfg = ctx.cfg ∧
    (setup_vepu580_roi env regs ctx).2.1.sps = ctx.sps ∧
    (setup_vepu580_roi env regs ctx).2.1.pps = ctx.pps ∧
    (setup_vepu580_roi env regs ctx).2.1.slice = ctx.slice ∧
    (setup_vepu580_roi env regs ctx).2.1.frms = ctx.frms ∧
    (setup_vepu580_roi env regs ctx).2.1.pixel_buf_fbc_hdr_size = ctx.pixel_buf_fbc_hdr_size ∧
    (setup_vepu580_roi env regs ctx).2.1.osd_cfg = ctx.osd_cfg ∧
    (setup_vepu580_roi env regs ctx).2.1.ext_line_buf = ctx.ext_line_buf ∧
    (setup_vepu580_roi env regs ctx).2.1.ext_line_buf_size = ctx.ext_line_buf_size ∧
    (setup_vepu580_roi env regs ctx).2.1.roi_data = ctx.roi_data := by
  rcases hd : ctx.roi_data with _ | roi
  · simp only [setup_vepu580_roi, hd]
    exact ⟨trivial, trivial, trivial, trivial, trivial, trivial, trivial, trivial, trivial,
      trivial⟩
  · by_cases hc : roi.number ≠ 0 ∧ roi.regions ≠ none
    · rcases hb : ctx.roi_buf with _ | b <;> rcases hg : ctx.roi_grp with _ | g <;>
        by_cases hs : env.vepu541_get_roi_buf_size (u32 (s32 (ctx.sps.pic_width_in_mbs * 16)))
          (u32 (s32 (ctx.sps.pic_height_in_mbs * 16))) = ctx.roi_buf_size <;>
        rcases hbo : env.alloc.buffer_get_ok <;> rcases hgo : env.alloc.group_get_ok <;>
        simp [setup_vepu580_roi, setup_vepu580_roi_buf, mpp_buffer_get,
          mpp_buffer_group_get_internal, hd, hc, hb, hg, hs, hbo, hgo]
    · simp only [setup_vepu580_roi, hd, if_neg hc]
      exact ⟨trivial, trivial, trivial, trivial, trivial, trivial, trivial, trivial, trivial,
      trivial⟩

theorem roi_second (env : HalEnv) (regs regs1 : HalVepu580RegSet)
    (ctx0 ctx ctx1 : HalH264eVepu580Ctx)
    (h1 : ctx.sps = ctx0.sps) (h2 : ctx.roi_data = ctx0.roi_data)
    (h3 : ctx.roi_grp = ctx0.roi_grp) (h4 : ctx.roi_buf = ctx0.roi_buf)
    (h5 : ctx.roi_buf_size = ctx0.roi_buf_size)
    (k1 : ctx1.sps = ctx0.sps) (k2 : ctx1.roi_data = ctx0.roi_data)
    (k3 : ctx1.roi_grp = (setup_vepu580_roi env regs1 ctx0).2.1.roi_grp)
    (k4 : ctx1.roi_buf = (setup_vepu580_roi env regs1 ctx0).2.1.roi_buf)
    (k5 : ctx1.roi_buf_size = (setup_vepu580_roi env regs1 ctx0).2.1.roi_buf_size) :
    (setup_vepu580_roi env regs ctx1).1 = (setup_vepu580_roi env regs ctx).1 := by
  rcases hd : ctx0.roi_data with _ | roi
  · simp only [setup_vepu580_roi, h2, k2, hd]
  · by_cases hc : roi.number ≠ 0 ∧ roi.regions ≠ none
    · rcases hb : ctx0.roi_buf with _ | b <;> rcases hg : ctx0.roi_grp with _ | g <;>
        by_cases hs : env.vepu541_get_roi_buf_size (u32 (s32 (ctx0.sps.pic_width_in_mbs * 16)))
          (u32 (s32 (ctx0.sps.pic_height_in_mbs * 16))) = ctx0.roi_buf_size <;>
        rcases hbo : env.alloc.buffer_get_ok <;> rcases hgo : env.alloc.group_get_ok <;>
        simp [setup_vepu580_roi, setup_vepu580_roi_buf, mpp_buffer_get,
          mpp_buffer_group_get_internal, hd, hc, hb, hg, hs, hbo, hgo] at k3 k4 k5 <;>
        simp [setup_vepu580_roi, setup_vepu580_roi_buf, mpp_buffer_get,
          mpp_buffer_group_get_internal, mpp_buffer_get_fd, h1, h2, h3, h4, h5, k1, k2, k3, k4,
          k5, hd, hc, hb, hg, hs, hbo, hgo]
    · simp only [setup_vepu580_roi, h2, k2, hd, if_neg hc]

theorem ext_line_congr (regs : HalVepu580RegSet) (ctx ctx1 : HalH264eVepu580Ctx)
    (h1 : ctx1.ext_line_buf = ctx.ext_line_buf)
    (h2 : ctx1.ext_line_buf_size = ctx.ext_line_buf_size) :
    setup_vepu580_ext_line_buf regs ctx1 = setup_vepu580_ext_line_buf regs ctx := by
  simp only [setup_vepu580_ext_line_buf, h1, h2]

theorem gen_regs_ok_ctx (env : HalEnv) (ctx : HalH264eVepu580Ctx) (task : HalEncTask)
    (hp : ¬ (setup_vepu580_prep env (setup_vepu580_normal zero_regs) ctx.cfg.prep).1 ≠ 0)
    (r : Int × HalH264eVepu580Ctx × List HalCall)
    (hr : hal_h264e_vepu580_gen_regs env ctx task = some r) :
    ∃ regs1 regs2 : HalVepu580RegSet,
      r.2.1 =
        { (setup_vepu580_roi env regs1
            { ctx with
              slice :=
                (setup_vepu580_codec
                  (setup_vepu580_prep env (setup_vepu580_normal zero_regs) ctx.cfg.prep).2
                  ctx.sps ctx.pps ctx.slice).2 }).2.1 with
          cfg := { ctx.cfg with split := { ctx.cfg.split with change := 0 } }
          regs_set := regs2
          frame_cnt := s32 (ctx.frame_cnt + 1) } := by
  have h : (env.vepu541_set_fmt ctx.cfg.prep.format).1 = 0 := by
    rw [prep_ret] at hp
    exact not_not.mp hp
  have hd := gen_regs_some_ne_zero env ctx task h r hr
  revert r
  simp only [hal_h264e_vepu580_gen_regs, if_neg hp, rc_base_some _ _ _ _ _ hd,
    Option.some.injEq, forall_eq']
  exact ⟨_, _, rfl⟩

theorem split_change_indep (regs : HalVepu580RegSet) (cfg : MppEncSliceSplit) (ch : Int) :
    (setup_vepu580_split regs { cfg with change := ch }).1 = (setup_vepu580_split regs cfg).1 := by
  rfl

theorem gen_regs_twice (env : HalEnv) (ctx : HalH264eVepu580Ctx) (task : HalEncTask)
    (r : Int × HalH264eVepu580Ctx × List HalCall)
    (hr : hal_h264e_vepu580_gen_regs env ctx task = some r) :
    (hal_h264e_vepu580_gen_regs env r.2.1 task).map (fun q => q.2.1.regs_set) =
      some r.2.1.regs_set := by
  by_cases hp : (setup_vepu580_prep env (setup_vepu580_normal zero_regs) ctx.cfg.prep).1 ≠ 0
  · have e : hal_h264e_vepu580_gen_regs env ctx task =
        some ((setup_vepu580_prep env (setup_vepu580_normal zero_regs) ctx.cfg.prep).1,
          { ctx with
            regs_set := (setup_vepu580_prep env (setup_vepu580_normal zero_regs) ctx.cfg.prep).2 },
          []) := by
      simp only [hal_h264e_vepu580_gen_regs, if_pos hp]
    rw [e] at hr
    have hr2 := Option.some.inj hr
    subst hr2
    simp only [hal_h264e_vepu580_gen_regs, if_pos hp, Option.map_some']
  · obtain ⟨r1, r2, e⟩ := gen_regs_ok_ctx env ctx task hp r hr
    have hfirst : (hal_h264e_vepu580_gen_regs env ctx task).map (fun q => q.2.1.regs_set) =
        some r.2.1.regs_set := by
      rw [hr]
      rfl
    rw [← hfirst]
    have hf := roi_ctx_frame env r1
      { ctx with
        slice :=
          (setup_vepu580_codec
            (setup_vepu580_prep env (setup_vepu580_normal zero_regs) ctx.cfg.prep).2
            ctx.sps ctx.pps ctx.slice).2 }
    refine gen_regs_congr env ctx _ task ?_ ?_ ?_ ?_ ?_ ?_ ?_ ?_ ?_ ?_ ?_
    · rw [e]
    · rw [e]
    · intro regs
      rw [e]
      exact split_change_indep regs ctx.cfg.split 0
    · rw [e]
      exact hf.2.1
    · rw [e]
      exact hf.2.2.1
    · intro regs
      rw [e]
      have hs := hf.2.2.2.1
      simp only [] at hs ⊢
      rw [hs]
      exact codec_idem regs _ ctx.sps ctx.pps ctx.slice
    · rw [e]
      exact hf.2.2.2.2.1
    · rw [e]
      exact hf.2.2.2.2.2.1
    · rw [e]
      exact hf.2.2.2.2.2.2.1
    · intro regs sl
      refine roi_second env regs r1
        { ctx with
          slice :=
            (setup_vepu580_codec
              (setup_vepu580_prep env (setup_vepu580_normal zero_regs) ctx.cfg.prep).2
              ctx.sps ctx.pps ctx.slice).2 }
        { ctx with slice := sl } _ rfl rfl rfl rfl rfl ?_ ?_ ?_ ?_ ?_
      · rw [e]
        exact hf.2.1
      · rw [e]
        exact hf.2.2.2.2.2.2.2.2.2
      · rw [e]
      · rw [e]
      · rw [e]
    · intro regs regs1 sl
      have ha := roi_ctx_frame env regs1 { ctx with slice := sl }
      have hb := roi_ctx_frame env regs1
        { r.2.1 with slice := sl }
      refine congrArg Prod.fst (ext_line_congr regs _ _ ?_ ?_)
      · rw [hb.2.2.2.2.2.2.2.1, ha.2.2.2.2.2.2.2.1]
        show r.2.1.ext_line_buf = ctx.ext_line_buf
        rw [e]
        exact hf.2.2.2.2.2.2.2.1
      · rw [hb.2.2.2.2.2.2.2.2.1, ha.2.2.2.2.2.2.2.2.1]
        show r.2.1.ext_line_buf_size =
          ctx.ext_line_buf_size
        rw [e]
        exact hf.2.2.2.2.2.2.2.2.1

theorem roi_congr (env : HalEnv) (regs : HalVepu580RegSet) (ctx ctx1 : HalH264eVepu580Ctx)
    (h1 : ctx1.sps = ctx.sps) (h2 : ctx1.roi_data = ctx.roi_data)
    (h3 : ctx1.roi_grp = ctx.roi_grp) (h4 : ctx1.roi_buf = ctx.roi_buf)
    (h5 : ctx1.roi_buf_size = ctx.roi_buf_size) :
    (setup_vepu580_roi env regs ctx1).1 = (setup_vepu580_roi env regs ctx).1 := by
  rcases hd : ctx.roi_data with _ | roi
  · simp only [setup_vepu580_roi, h2, hd]
  · by_cases hc : roi.number ≠ 0 ∧ roi.regions ≠ none
    · rcases hb : ctx.roi_buf with _ | b <;> rcases hg : ctx.roi_grp with _ | g <;>
        by_cases hs : env.vepu541_get_roi_buf_size (u32 (s32 (ctx.sps.pic_width_in_mbs * 16)))
          (u32 (s32 (ctx.sps.pic_height_in_mbs * 16))) = ctx.roi_buf_size <;>
        rcases hbo : env.alloc.buffer_get_ok <;> rcases hgo : env.alloc.group_get_ok <;>
        simp [setup_vepu580_roi, setup_vepu580_roi_buf, mpp_buffer_get,
          mpp_buffer_group_get_internal, mpp_buffer_get_fd, h1, h2, h3, h4, h5, hd, hc, hb, hg,
          hs, hbo, hgo]
    · simp only [setup_vepu580_roi, h2, hd, if_neg hc]

theorem gen_regs_congr_fields (env : HalEnv) (ctxA ctxB : HalH264eVepu580Ctx)
    (task : HalEncTask)
    (hprep : ctxB.cfg.prep = ctxA.cfg.prep) (hhw : ctxB.cfg.hw = ctxA.cfg.hw)
    (hsplit : ∀ regs, (setup_vepu580_split regs ctxB.cfg.split).1 =
      (setup_vepu580_split regs ctxA.cfg.split).1)
    (hsps : ctxB.sps = ctxA.sps) (hpps : ctxB.pps = ctxA.pps)
    (hcodec : ∀ regs, setup_vepu580_codec regs ctxA.sps ctxA.pps ctxB.slice =
      setup_vepu580_codec regs ctxA.sps ctxA.pps ctxA.slice)
    (hfrms : ctxB.frms = ctxA.frms)
    (hhdr : ctxB.pixel_buf_fbc_hdr_size = ctxA.pixel_buf_fbc_hdr_size)
    (hosd : ctxB.osd_cfg = ctxA.osd_cfg)
    (hrd : ctxB.roi_data = ctxA.roi_data) (hrg : ctxB.roi_grp = ctxA.roi_grp)
    (hrb : ctxB.roi_buf = ctxA.roi_buf) (hrs : ctxB.roi_buf_size = ctxA.roi_buf_size)
    (heb : ctxB.ext_line_buf = ctxA.ext_line_buf)
    (hes : ctxB.ext_line_buf_size = ctxA.ext_line_buf_size) :
    (hal_h264e_vepu580_gen_regs env ctxB task).map (fun r => r.2.1.regs_set) =
      (hal_h264e_vepu580_gen_regs env ctxA task).map (fun r => r.2.1.regs_set) := by
  refine gen_regs_congr env ctxA ctxB task hprep hhw hsplit hsps hpps hcodec hfrms hhdr hosd
    ?_ ?_
  · intro regs sl
    exact roi_congr env regs { ctxA with slice := sl } { ctxB with slice := sl } hsps hrd hrg
      hrb hrs
  · intro regs regs1 sl
    have ha := roi_ctx_frame env regs1 { ctxA with slice := sl }
    have hb := roi_ctx_frame env regs1 { ctxB with slice := sl }
    refine congrArg Prod.fst (ext_line_congr regs _ _ ?_ ?_)
    · rw [hb.2.2.2.2.2.2.2.1, ha.2.2.2.2.2.2.2.1]
      exact heb
    · rw [hb.2.2.2.2.2.2.2.2.1, ha.2.2.2.2.2.2.2.2.1]
      exact hes

theorem gen_regs_ret_map (env : HalEnv) (ctx : HalH264eVepu580Ctx) (task : HalEncTask) :
    (hal_h264e_vepu580_gen_regs env ctx task).map (fun r => r.1) =
      if (env.vepu541_set_fmt ctx.cfg.prep.format).1 ≠ 0 then
        some (env.vepu541_set_fmt ctx.cfg.prep.format).1
      else if s32 (ctx.sps.pic_width_in_mbs * ctx.sps.pic_height_in_mbs) = 0 then none
      else some MPP_OK := by
  by_cases h : (env.vepu541_set_fmt ctx.cfg.prep.format).1 = 0
  · by_cases hd : s32 (ctx.sps.pic_width_in_mbs * ctx.sps.pic_height_in_mbs) = 0
    · rw [gen_regs_none env ctx task h hd, if_neg (by simp [h]), if_pos hd]
      rfl
    · obtain ⟨r, hr, hok, _⟩ := gen_regs_ok env ctx task h hd
      rw [hr, if_neg (by simp [h]), if_neg hd, Option.map_some', hok]
  · rw [gen_regs_fail env ctx task h, if_pos h]
    rfl

theorem gen_regs_ctx_frame (env : HalEnv) (ctx : HalH264eVepu580Ctx) (task : HalEncTask)
    (r : Int × HalH264eVepu580Ctx × List HalCall)
    (hr : hal_h264e_vepu580_gen_regs env ctx task = some r) :
    r.2.1.cfg.prep = ctx.cfg.prep ∧ r.2.1.sps = ctx.sps := by
  by_cases hp : (setup_vepu580_prep env (setup_vepu580_normal zero_regs) ctx.cfg.prep).1 ≠ 0
  · have e : hal_h264e_vepu580_gen_regs env ctx task =
        some ((setup_vepu580_prep env (setup_vepu580_normal zero_regs) ctx.cfg.prep).1,
          { ctx with
            regs_set := (setup_vepu580_prep env (setup_vepu580_normal zero_regs) ctx.cfg.prep).2 },
          []) := by
      simp only [hal_h264e_vepu580_gen_regs, if_pos hp]
    rw [e] at hr
    have hr2 := Option.some.inj hr
    subst hr2
    exact ⟨rfl, rfl⟩
  · obtain ⟨r1, r2, e⟩ := gen_regs_ok_ctx env ctx task hp r hr
    have hf := roi_ctx_frame env r1
      { ctx with
        slice :=
          (setup_vepu580_codec
            (setup_vepu580_prep env (setup_vepu580_normal zero_regs) ctx.cfg.prep).2
            ctx.sps ctx.pps ctx.slice).2 }
    rw [e]
    exact ⟨rfl, hf.2.1⟩

/-- C29: the register image produced by `hal_h264e_vepu580_gen_regs` (and its
return code) does not depend on the previous content of `regs_set`: replacing
`regs_set` by any image gives the same image and the same return code (and no
result exactly when there was none).  It does not depend on the positions of
the read cursors of the reorder and marking queues either, which are rewound
before they are read.  Hence a second synthesis, run on the context left by the
first with the same task and the same collaborators, has a result again, with
the same image and the same return code.  The function has a result exactly
when the format is not supported or the macroblock count by which
`setup_vepu580_rc_base` divides is not 0. -/
theorem gen_regs_image_independent (env : HalEnv) (ctx : HalH264eVepu580Ctx)
    (task : HalEncTask) :
    (∀ regs : HalVepu580RegSet,
      (hal_h264e_vepu580_gen_regs env { ctx with regs_set := regs } task).map
          (fun r => r.2.1.regs_set) =
        (hal_h264e_vepu580_gen_regs env ctx task).map (fun r => r.2.1.regs_set) ∧
      (hal_h264e_vepu580_gen_regs env { ctx with regs_set := regs } task).map (fun r => r.1) =
        (hal_h264e_vepu580_gen_regs env ctx task).map (fun r => r.1)) ∧
    (∀ a b : Nat,
      (hal_h264e_vepu580_gen_regs env
        { ctx with
          slice :=
            { ctx.slice with
              reorder := { ctx.slice.reorder with rd_cnt := a }
              marking := { ctx.slice.marking with rd_cnt := b } } }
        task).map (fun r => r.2.1.regs_set) =
        (hal_h264e_vepu580_gen_regs env ctx task).map (fun r => r.2.1.regs_set)) ∧
    (∀ r, hal_h264e_vepu580_gen_regs env ctx task = some r →
      (hal_h264e_vepu580_gen_regs env r.2.1 task).map (fun q => q.2.1.regs_set) =
        some r.2.1.regs_set ∧
      (hal_h264e_vepu580_gen_regs env r.2.1 task).map (fun q => q.1) = some r.1) ∧
    ((∃ r, hal_h264e_vepu580_gen_regs env ctx task = some r) ↔
      ((env.vepu541_set_fmt ctx.cfg.prep.format).1 ≠ 0 ∨
        s32 (ctx.sps.pic_width_in_mbs * ctx.sps.pic_height_in_mbs) ≠ 0)) := by
  refine ⟨?_, ?_, ?_, ?_⟩
  · intro regs
    refine ⟨?_, ?_⟩
    · exact gen_regs_congr_fields env ctx { ctx with regs_set := regs } task rfl rfl
        (fun _ => rfl) rfl rfl (fun _ => rfl) rfl rfl rfl rfl rfl rfl rfl rfl rfl
    · rw [gen_regs_ret_map, gen_regs_ret_map]
  · intro a b
    exact gen_regs_congr_fields env ctx _ task rfl rfl (fun _ => rfl) rfl rfl
      (fun regs => codec_cursor_indep regs ctx.sps ctx.pps ctx.slice a b) rfl rfl rfl rfl rfl
      rfl rfl rfl rfl
  · intro r hr
    refine ⟨gen_regs_twice env ctx task r hr, ?_⟩
    obtain ⟨e1, e2⟩ := gen_regs_ctx_frame env ctx task r hr
    have h1 : (hal_h264e_vepu580_gen_regs env ctx task).map (fun q => q.1) = some r.1 := by
      rw [hr]
      rfl
    rw [← h1, gen_regs_ret_map, gen_regs_ret_map, e1, e2]
  · constructor
    · rintro ⟨r, hr⟩
      by_cases h : (env.vepu541_set_fmt ctx.cfg.prep.format).1 = 0
      · exact Or.inr (gen_regs_some_ne_zero env ctx task h r hr)
      · exact Or.inl h
    · intro h
      by_cases hf : (env.vepu541_set_fmt ctx.cfg.prep.format).1 = 0
      · rcases h with h | h
        · exact absurd hf h
        · obtain ⟨r, hr, _⟩ := gen_regs_ok env ctx task hf h
          exact ⟨r, hr⟩
      · exact ⟨_, gen_regs_fail env ctx task hf⟩

/-- Witness of C29: for the sample frame with one reorder and two marking
operations, the image is the same from a context whose `regs_set` holds the
image of another frame with the cursors at the start, the synthesis has a
result, and a second synthesis on the context it leaves gives the same image. -/
theorem gen_regs_image_independent_sample :
    (hal_h264e_vepu580_gen_regs sample_env
      { sample_ctx 3840 6 { change := 1, split_mode := 2, split_arg := 30 } with
        slice := sample_slice 0 [sample_rplmo 0] [sample_mmco 1, sample_mmco 2]
        regs_set := setup_vepu580_normal zero_regs }
      (sample_task 6 4000000)).map (fun r => r.2.1.regs_set) =
    (hal_h264e_vepu580_gen_regs sample_env
      { sample_ctx 3840 6 { change := 1, split_mode := 2, split_arg := 30 } with
        slice := sample_slice 0 [sample_rplmo 0] [sample_mmco 1, sample_mmco 2] }
      (sample_task 6 4000000)).map (fun r => r.2.1.regs_set) ∧
    (∃ r, hal_h264e_vepu580_gen_regs sample_env
        { sample_ctx 3840 6 { change := 1, split_mode := 2, split_arg := 30 } with
          slice := sample_slice 0 [sample_rplmo 0] [sample_mmco 1, sample_mmco 2] }
        (sample_task 6 4000000) = some r ∧
      (hal_h264e_vepu580_gen_regs sample_env r.2.1 (sample_task 6 4000000)).map
        (fun q => q.2.1.regs_set) = some r.2.1.regs_set) ∧
    (hal_h264e_vepu580_gen_regs sample_env
      { sample_ctx 3840 6 { change := 1, split_mode := 2, split_arg := 30 } with
        slice := sample_slice 0 [sample_rplmo 0] [sample_mmco 1, sample_mmco 2] }
      (sample_task 6 4000000)).map
        (fun r => r.2.1.regs_set.reg_base.synt_refm0.mmco_type1) = some 2 := by
  refine ⟨((gen_regs_image_independent sample_env
      { sample_ctx 3840 6 { change := 1, split_mode := 2, split_arg := 30 } with
        slice := sample_slice 0 [sample_rplmo 0] [sample_mmco 1, sample_mmco 2] }
      (sample_task 6 4000000)).1 (setup_vepu580_normal zero_regs)).1, ?_, by decide⟩
  obtain ⟨r, hr⟩ := (gen_regs_image_independent sample_env
      { sample_ctx 3840 6 { change := 1, split_mode := 2, split_arg := 30 } with
        slice := sample_slice 0 [sample_rplmo 0] [sample_mmco 1, sample_mmco 2] }
      (sample_task 6 4000000)).2.2.2.2 (Or.inr (by decide))
  exact ⟨r, hr, ((gen_regs_image_independent sample_env
      { sample_ctx 3840 6 { change := 1, split_mode := 2, split_arg := 30 } with
        slice := sample_slice 0 [sample_rplmo 0] [sample_mmco 1, sample_mmco 2] }
      (sample_task 6 4000000)).2.2.1 r hr).1⟩

/-! ## Auxiliary line buffer wiring -/

theorem rc_raw_in_range (b w h : Int) (hb : 0 ≤ b) (hb16 : b * 16 < 2147483648)
    (hw0 : 0 < w) (hh0 : 0 < h) (hp : w * h < 2147483648) :
    s32 (cdiv (s32 (b * 16)) (s32 (w * h))) = b * 16 / (w * h) ∧ 0 ≤ b * 16 / (w * h) := by
  have hpos : 0 < w * h := Int.mul_pos hw0 hh0
  have hq : 0 ≤ b * 16 / (w * h) := Int.ediv_nonneg (by omega) (by omega)
  have hq1 : b * 16 / (w * h) ≤ b * 16 := Int.ediv_le_self _ (by omega)
  rw [s32_of_range _ (by omega) hb16, s32_of_range _ (by omega) hp,
    cdiv_of_nonneg _ _ (by omega) (by omega), s32_of_range _ (by omega) (by omega)]
  exact ⟨rfl, hq⟩

/-- C34: for a bit target `bit_target >= 0` with `bit_target * 16` below 2^31
and positive macroblock dimensions (their product below 2^31), with
`raw = (bit_target * 16) / (mb_w * mb_h)`, `setup_vepu580_rc_base` has a result,
in which `ctu_ebit = raw` when `raw < 0x100000` and `ctu_ebit = 0x50000` when
`raw >= 0x100000`; in both cases `ctu_ebit < 0x100000`. -/
theorem rc_ctu_ebit_clamp (regs : HalVepu580RegSet) (sps : H264eSps) (slice : H264eSlice)
    (hw : MppEncHwCfg) (rc_task : EncRcTask)
    (hb : 0 ≤ rc_task.info.bit_target) (hb16 : rc_task.info.bit_target * 16 < 2147483648)
    (hw0 : 0 < sps.pic_width_in_mbs) (hh0 : 0 < sps.pic_height_in_mbs)
    (hp : sps.pic_width_in_mbs * sps.pic_height_in_mbs < 2147483648) :
    ∃ r, setup_vepu580_rc_base regs sps slice hw rc_task = some r ∧
      (rc_task.info.bit_target * 16 / (sps.pic_width_in_mbs * sps.pic_height_in_mbs)
          < 0x100000 →
        r.reg_base.rc_tgt.ctu_ebit =
          rc_task.info.bit_target * 16 / (sps.pic_width_in_mbs * sps.pic_height_in_mbs)) ∧
      (rc_task.info.bit_target * 16 / (sps.pic_width_in_mbs * sps.pic_height_in_mbs)
          ≥ 0x100000 →
        r.reg_base.rc_tgt.ctu_ebit = 0x50000) ∧
      r.reg_base.rc_tgt.ctu_ebit < 0x100000 := by
  refine ⟨_, rc_base_some regs sps slice hw rc_task (rc_divisor_ne_zero _ _ hw0 hh0 hp), ?_⟩
  rw [rc_stores_ctu_ebit, (rc_raw_in_range _ _ _ hb hb16 hw0 hh0 hp).1]
  unfold CTU_EBIT_LIMIT CTU_EBIT_SUBST
  refine ⟨?_, ?_, ?_⟩
  · intro h
    rw [if_neg (by omega)]
  · intro h
    rw [if_pos h]
  · split_ifs <;> omega

/-- Witness of C34: with 8x8 macroblocks a bit target of 4,194,303 gives the
unclamped 1,048,575 = 0x100000 - 1, and a bit target of 4,194,304 (raw value
0x100000) gives 0x50000. -/
theorem rc_ctu_ebit_clamp_samples :
    (∃ r, setup_vepu580_rc_base zero_regs
        { sample_sps with pic_width_in_mbs := 8, pic_height_in_mbs := 8 }
        (sample_slice 0 [] []) { qp_delta_row_i := 0, qp_delta_row := 1 }
        (sample_task 6 4194303).rc_task = some r ∧
      r.reg_base.rc_tgt.ctu_ebit = 1048575) ∧
    (∃ r, setup_vepu580_rc_base zero_regs
        { sample_sps with pic_width_in_mbs := 8, pic_height_in_mbs := 8 }
        (sample_slice 0 [] []) { qp_delta_row_i := 0, qp_delta_row := 1 }
        (sample_task 6 4194304).rc_task = some r ∧
      r.reg_base.rc_tgt.ctu_ebit = 0x50000) :=
  ⟨(rc_ctu_ebit_clamp zero_regs
      { sample_sps with pic_width_in_mbs := 8, pic_height_in_mbs := 8 }
      (sample_slice 0 [] []) { qp_delta_row_i := 0, qp_delta_row := 1 }
      (sample_task 6 4194303).rc_task (by decide) (by decide) (by decide) (by decide)
      (by decide)).imp (fun _ h => ⟨h.1, (h.2.1 (by decide)).trans (by decide)⟩),
    (rc_ctu_ebit_clamp zero_regs
      { sample_sps with pic_width_in_mbs := 8, pic_height_in_mbs := 8 }
      (sample_slice 0 [] []) { qp_delta_row_i := 0, qp_delta_row := 1 }
      (sample_task 6 4194304).rc_task (by decide) (by decide) (by decide) (by decide)
      (by decide)).imp (fun _ h => ⟨h.1, h.2.2.1 (by decide)⟩)⟩

/-- Counterexample to C37: with 8x8 macroblocks the bit targets
4,194,303 <= 4,194,304 (both times 16 below 2^31) give `ctu_ebit` 1,048,575 and
0x50000 = 327,680: the larger budget gets the smaller value. -/
theorem rc_ctu_ebit_not_monotone :
    ((0 : Int) ≤ 4194303 ∧ (4194303 : Int) ≤ 4194304 ∧ (4194304 : Int) * 16 < 2147483648 ∧
      (0 : Int) < 8) ∧
    (setup_vepu580_rc_base zero_regs
      { sample_sps with pic_width_in_mbs := 8, pic_height_in_mbs := 8 }
      (sample_slice 0 [] []) { qp_delta_row_i := 0, qp_delta_row := 1 }
      (sample_task 6 4194303).rc_task).map (fun r => r.reg_base.rc_tgt.ctu_ebit) =
      some 1048575 ∧
    (setup_vepu580_rc_base zero_regs
      { sample_sps with pic_width_in_mbs := 8, pic_height_in_mbs := 8 }
      (sample_slice 0 [] []) { qp_delta_row_i := 0, qp_delta_row := 1 }
      (sample_task 6 4194304).rc_task).map (fun r => r.reg_base.rc_tgt.ctu_ebit) =
      some 327680 ∧
    ¬ ((1048575 : Int) ≤ 327680) := by
  decide

/-- C37 (amended): for fixed positive macroblock dimensions (product below 2^31)
and bit targets `0 <= b1 <= b2` with `b2 * 16` below 2^31,
`setup_vepu580_rc_base` has a result for both budgets, and the `ctu_ebit` value
written is monotone as long as the scaled target of the larger budget,
`b2 * 16 / (mb_w * mb_h)`, is below 0x100000; when the scaled target of the
smaller budget is already at or above 0x100000 both values are 0x50000; and
when the threshold lies between the two scaled targets the smaller budget gets
its scaled target and the larger one gets 0x50000. -/
theorem rc_ctu_ebit_monotone_below_limit (regs : HalVepu580RegSet) (sps : H264eSps)
    (slice : H264eSlice) (hw : MppEncHwCfg) (t1 t2 : EncRcTask)
    (hb1 : 0 ≤ t1.info.bit_target) (hle : t1.info.bit_target ≤ t2.info.bit_target)
    (hb16 : t2.info.bit_target * 16 < 2147483648)
    (hw0 : 0 < sps.pic_width_in_mbs) (hh0 : 0 < sps.pic_height_in_mbs)
    (hp : sps.pic_width_in_mbs * sps.pic_height_in_mbs < 2147483648) :
    ∃ r1 r2, setup_vepu580_rc_base regs sps slice hw t1 = some r1 ∧
      setup_vepu580_rc_base regs sps slice hw t2 = some r2 ∧
      (t2.info.bit_target * 16 / (sps.pic_width_in_mbs * sps.pic_height_in_mbs) < 0x100000 →
        r1.reg_base.rc_tgt.ctu_ebit ≤ r2.reg_base.rc_tgt.ctu_ebit) ∧
      (0x100000 ≤ t1.info.bit_target * 16 / (sps.pic_width_in_mbs * sps.pic_height_in_mbs) →
        r1.reg_base.rc_tgt.ctu_ebit = 0x50000 ∧ r2.reg_base.rc_tgt.ctu_ebit = 0x50000) ∧
      (t1.info.bit_target * 16 / (sps.pic_width_in_mbs * sps.pic_height_in_mbs) < 0x100000 →
        0x100000 ≤ t2.info.bit_target * 16 / (sps.pic_width_in_mbs * sps.pic_height_in_mbs) →
        r1.reg_base.rc_tgt.ctu_ebit =
          t1.info.bit_target * 16 / (sps.pic_width_in_mbs * sps.pic_height_in_mbs) ∧
        r2.reg_base.rc_tgt.ctu_ebit = 0x50000) := by
  have hpos : 0 < sps.pic_width_in_mbs * sps.pic_height_in_mbs := Int.mul_pos hw0 hh0
  have hmono : t1.info.bit_target * 16 / (sps.pic_width_in_mbs * sps.pic_height_in_mbs) ≤
      t2.info.bit_target * 16 / (sps.pic_width_in_mbs * sps.pic_height_in_mbs) :=
    Int.ediv_le_ediv hpos (by omega)
  have hd := rc_divisor_ne_zero _ _ hw0 hh0 hp
  refine ⟨_, _, rc_base_some regs sps slice hw t1 hd, rc_base_some regs sps slice hw t2 hd, ?_⟩
  rw [rc_stores_ctu_ebit, rc_stores_ctu_ebit,
    (rc_raw_in_range _ _ _ hb1 (by omega) hw0 hh0 hp).1,
    (rc_raw_in_range _ _ _ (by omega) hb16 hw0 hh0 hp).1]
  unfold CTU_EBIT_LIMIT CTU_EBIT_SUBST
  refine ⟨?_, ?_, ?_⟩
  · intro h
    rw [if_neg (by omega), if_neg (by omega)]
    exact hmono
  · intro h
    rw [if_pos (by omega), if_pos (by omega)]
    exact ⟨rfl, rfl⟩
  · intro h1 h2
    rw [if_neg (by omega), if_pos (by omega)]
    exact ⟨rfl, rfl⟩

/-- Witness of C37 (amended): with 120x68 macroblocks the bit targets 2,000,000
and 4,000,000 (scaled target of the larger one 7843, below 0x100000) both have
a result, with `ctu_ebit` values in the same order. -/
theorem rc_ctu_ebit_monotone_sample :
    ∃ r1 r2, setup_vepu580_rc_base zero_regs sample_sps (sample_slice 0 [] [])
        { qp_delta_row_i := 0, qp_delta_row := 1 } (sample_task 6 2000000).rc_task = some r1 ∧
      setup_vepu580_rc_base zero_regs sample_sps (sample_slice 0 [] [])
        { qp_delta_row_i := 0, qp_delta_row := 1 } (sample_task 6 4000000).rc_task = some r2 ∧
      r1.reg_base.rc_tgt.ctu_ebit ≤ r2.reg_base.rc_tgt.ctu_ebit :=
  (rc_ctu_ebit_monotone_below_limit zero_regs sample_sps (sample_slice 0 [] [])
    { qp_delta_row_i := 0, qp_delta_row := 1 } (sample_task 6 2000000).rc_task
    (sample_task 6 4000000).rc_task (by decide) (by decide) (by decide) (by decide)
    (by decide) (by decide)).imp
    (fun _ h => h.imp (fun _ k => ⟨k.1, k.2.1, k.2.2.1 (by decide)⟩))
/-! ## Picture geometry and motion-search extents -/

theorem prep_geometry (env : HalEnv) (regs : HalVepu580RegSet) (prep : MppEncPrepCfg)
    (h : (env.vepu541_set_fmt prep.format).1 = 0) :
    (setup_vepu580_prep env regs prep).2.reg_base.enc_rsl.pic_wd8_m1 =
      s32 (cdiv (MPP_ALIGN prep.width 16) 8 - 1) ∧
    (setup_vepu580_prep env regs prep).2.reg_base.src_fill.pic_wfill = prep.width % 16 ∧
    (setup_vepu580_prep env regs prep).2.reg_base.enc_rsl.pic_hd8_m1 =
      s32 (cdiv (MPP_ALIGN prep.height 16) 8 - 1) ∧
    (setup_vepu580_prep env regs prep).2.reg_base.src_fill.pic_hfill = prep.height % 16 := by
  unfold setup_vepu580_prep
  simp only []
  rw [if_neg (by simp [h])]
  split_ifs <;> exact ⟨rfl, rfl, rfl, rfl⟩

theorem align16_d8_m1 (w : Int) (h1 : 1 ≤ w) (h2 : w ≤ 2147483632) :
    s32 (cdiv (MPP_ALIGN w 16) 8 - 1) = (w + 15) / 16 * 2 - 1 := by
  unfold MPP_ALIGN
  have e : w + 16 - 1 = w + 15 := by omega
  have e1 : s32 (w + 15) = w + 15 := s32_of_range _ (by omega) (by omega)
  rw [e, e1, cdiv_of_nonneg _ _ (by omega) (by omega), s32_of_range _ (by omega) (by omega)]
  omega

/-- C39 (defect in the code): when the format is supported, `setup_vepu580_prep`
writes `pic_wfill = width mod 16` and `pic_hfill = height mod 16` (the low four
bits of the dimension), not the padding added by the rounding.  For a dimension
`d` with `1 <= d <= 2^31 - 16` the value `(pic_xd8_m1 + 1) * 8` is the smallest
multiple of 16 that is at least `d`, and the fill field written equals the
padding `(pic_xd8_m1 + 1) * 8 - d` exactly when `d mod 16` is 0 or 8. -/
theorem prep_fill_low_bits (env : HalEnv) (regs : HalVepu580RegSet) (prep : MppEncPrepCfg)
    (h : (env.vepu541_set_fmt prep.format).1 = 0) :
    (setup_vepu580_prep env regs prep).2.reg_base.src_fill.pic_wfill = prep.width % 16 ∧
    (setup_vepu580_prep env regs prep).2.reg_base.src_fill.pic_hfill = prep.height % 16 ∧
    (1 ≤ prep.width → prep.width ≤ 2147483632 →
      ((setup_vepu580_prep env regs prep).2.reg_base.enc_rsl.pic_wd8_m1 + 1) * 8 % 16 = 0 ∧
      prep.width ≤ ((setup_vepu580_prep env regs prep).2.reg_base.enc_rsl.pic_wd8_m1 + 1) * 8 ∧
      ((setup_vepu580_prep env regs prep).2.reg_base.enc_rsl.pic_wd8_m1 + 1) * 8 <
        prep.width + 16 ∧
      ((setup_vepu580_prep env regs prep).2.reg_base.src_fill.pic_wfill =
          ((setup_vepu580_prep env regs prep).2.reg_base.enc_rsl.pic_wd8_m1 + 1) * 8 -
            prep.width ↔
        prep.width % 16 = 0 ∨ prep.width % 16 = 8)) ∧
    (1 ≤ prep.height → prep.height ≤ 2147483632 →
      ((setup_vepu580_prep env regs prep).2.reg_base.enc_rsl.pic_hd8_m1 + 1) * 8 % 16 = 0 ∧
      prep.height ≤ ((setup_vepu580_prep env regs prep).2.reg_base.enc_rsl.pic_hd8_m1 + 1) * 8 ∧
      ((setup_vepu580_prep env regs prep).2.reg_base.enc_rsl.pic_hd8_m1 + 1) * 8 <
        prep.height + 16 ∧
      ((setup_vepu580_prep env regs prep).2.reg_base.src_fill.pic_hfill =
          ((setup_vepu580_prep env regs prep).2.reg_base.enc_rsl.pic_hd8_m1 + 1) * 8 -
            prep.height ↔
        prep.height % 16 = 0 ∨ prep.height % 16 = 8)) := by
  obtain ⟨hw, hwf, hh, hhf⟩ := prep_geometry env regs prep h
  rw [hw, hwf, hh, hhf]
  refine ⟨rfl, rfl, ?_, ?_⟩
  · intro h1 h2
    rw [align16_d8_m1 _ h1 h2]
    omega
  · intro h1 h2
    rw [align16_d8_m1 _ h1 h2]
    omega

/-- Failing input of C39: for a 1924x1080 picture in a supported format the
width is rounded up to 1936 = (241 + 1) * 8, a padding of 12 columns, while
`pic_wfill` is written as 4; the height 1080 is rounded to 1088 and
`pic_hfill = 8` equals the padding there. -/
theorem prep_fill_1924 :
    (setup_vepu580_prep sample_env zero_regs
      { change := 0, width := 1924, height := 1080, format := 6, hor_stride := 0,
        mirroring := 0, rotation := 0 }).2.reg_base.enc_rsl.pic_wd8_m1 = 241 ∧
    (setup_vepu580_prep sample_env zero_regs
      { change := 0, width := 1924, height := 1080, format := 6, hor_stride := 0,
        mirroring := 0, rotation := 0 }).2.reg_base.src_fill.pic_wfill = 4 ∧
    (241 + 1) * 8 - (1924 : Int) = 12 ∧
    (setup_vepu580_prep sample_env zero_regs
      { change := 0, width := 1924, height := 1080, format := 6, hor_stride := 0,
        mirroring := 0, rotation := 0 }).2.reg_base.enc_rsl.pic_hd8_m1 = 135 ∧
    (setup_vepu580_prep sample_env zero_regs
      { change := 0, width := 1924, height := 1080, format := 6, hor_stride := 0,
        mirroring := 0, rotation := 0 }).2.reg_base.src_fill.pic_hfill = 8 :=
  ⟨by decide,
    (prep_fill_low_bits sample_env zero_regs
      { change := 0, width := 1924, height := 1080, format := 6, hor_stride := 0,
        mirroring := 0, rotation := 0 } (by decide)).1.trans (by decide),
    by decide, by decide, by decide⟩

theorem calc_cime_me_rnge (regs : HalVepu580RegSet) (sps : H264eSps) :
    (calc_cime_parameter regs sps).reg_base.me_rnge = regs.reg_base.me_rnge ∧
    (calc_cime_parameter regs sps).reg_base.gmv = regs.reg_base.gmv := ⟨rfl, rfl⟩

theorem me_srch_raw (regs : HalVepu580RegSet) (sps : H264eSps) (slice : H264eSlice) :
    (setup_vepu580_me regs sps slice).reg_base.me_rnge.cme_srch_h =
      cdiv (if cdiv 44 4 * 2 > cdiv (s32 (sps.pic_width_in_mbs * 2 + 1)) 2 then
          s32 (cdiv (cdiv (s32 (sps.pic_width_in_mbs * 2 + 1)) 2) 2 * 4)
        else 44) 4 ∧
    (setup_vepu580_me regs sps slice).reg_base.me_rnge.cme_srch_v =
      cdiv (if cdiv (if sps.level_idc = H264_LEVEL_1_0 ∨ sps.level_idc = H264_LEVEL_1_b
              then 12 else 28) 4 >
            s32 (cdiv (MPP_ALIGN (s32 (sps.pic_height_in_mbs * 16)) 64) 128 * 4) then
          s32 (cdiv (MPP_ALIGN (s32 (sps.pic_height_in_mbs * 16)) 64) 128 * 16)
        else (if sps.level_idc = H264_LEVEL_1_0 ∨ sps.level_idc = H264_LEVEL_1_b
              then 12 else 28)) 4 ∧
    (setup_vepu580_me regs sps slice).reg_base.gmv = regs.reg_base.gmv := by
  unfold setup_vepu580_me
  have k1 : ¬ ((176 : Int) < 44 * 4) := by decide
  have k2 : ¬ ((112 : Int) < 12 * 4) := by decide
  have k3 : ¬ ((112 : Int) < 28 * 4) := by decide
  simp only [calc_cime_me_rnge]
  by_cases hl : sps.level_idc = H264_LEVEL_1_0 ∨ sps.level_idc = H264_LEVEL_1_b
  · simp only [hl, if_true, k1, k2, if_false]
    split_ifs <;> exact ⟨rfl, rfl, rfl⟩
  · simp only [hl, if_false, k1, k3, ite_self]
    split_ifs <;> exact ⟨rfl, rfl, rfl⟩

theorem me_srch_h_eq (regs : HalVepu580RegSet) (sps : H264eSps) (slice : H264eSlice)
    (hw0 : 0 ≤ sps.pic_width_in_mbs) (hw1 : sps.pic_width_in_mbs ≤ 1073741823) :
    (setup_vepu580_me regs sps slice).reg_base.me_rnge.cme_srch_h =
      if 11 * 2 > sps.pic_width_in_mbs then sps.pic_width_in_mbs / 2 else 11 := by
  obtain ⟨eh, _, _⟩ := me_srch_raw regs sps slice
  have c1 : cdiv (44 : Int) 4 = 11 := by decide
  have a1 : s32 (sps.pic_width_in_mbs * 2 + 1) = sps.pic_width_in_mbs * 2 + 1 :=
    s32_of_range _ (by omega) (by omega)
  have a2 : cdiv (sps.pic_width_in_mbs * 2 + 1) 2 = sps.pic_width_in_mbs := by
    rw [cdiv_of_nonneg _ _ (by omega) (by omega)]; omega
  have a3 : cdiv sps.pic_width_in_mbs 2 = sps.pic_width_in_mbs / 2 :=
    cdiv_of_nonneg _ _ hw0 (by omega)
  have a4 : s32 (sps.pic_width_in_mbs / 2 * 4) = sps.pic_width_in_mbs / 2 * 4 :=
    s32_of_range _ (by omega) (by omega)
  have a5 : cdiv (sps.pic_width_in_mbs / 2 * 4) 4 = sps.pic_width_in_mbs / 2 := by
    rw [cdiv_of_nonneg _ _ (by omega) (by omega)]; omega
  rw [c1, a1, a2, a3, a4] at eh
  rw [eh]
  split_ifs
  · exact a5
  · exact c1

theorem me_srch_v_eq (regs : HalVepu580RegSet) (sps : H264eSps) (slice : H264eSlice)
    (hh0 : 0 ≤ sps.pic_height_in_mbs) (hh1 : sps.pic_height_in_mbs ≤ 134217724) :
    (setup_vepu580_me regs sps slice).reg_base.me_rnge.cme_srch_v =
      if (if sps.level_idc = H264_LEVEL_1_0 ∨ sps.level_idc = H264_LEVEL_1_b then (3 : Int)
            else 7) > (sps.pic_height_in_mbs * 16 + 63) / 64 * 64 / 128 * 4 then
        (sps.pic_height_in_mbs * 16 + 63) / 64 * 64 / 128 * 4
      else (if sps.level_idc = H264_LEVEL_1_0 ∨ sps.level_idc = H264_LEVEL_1_b then 3
        else 7) := by
  obtain ⟨_, ev, _⟩ := me_srch_raw regs sps slice
  have c2 : cdiv (12 : Int) 4 = 3 := by decide
  have c3 : cdiv (28 : Int) 4 = 7 := by decide
  have b1 : s32 (sps.pic_height_in_mbs * 16) = sps.pic_height_in_mbs * 16 :=
    s32_of_range _ (by omega) (by omega)
  have b2 : MPP_ALIGN (sps.pic_height_in_mbs * 16) 64 =
      (sps.pic_height_in_mbs * 16 + 63) / 64 * 64 := by
    unfold MPP_ALIGN
    have e : sps.pic_height_in_mbs * 16 + 64 - 1 = sps.pic_height_in_mbs * 16 + 63 := by omega
    rw [e, s32_of_range _ (by omega) (by omega)]
  have b3 : cdiv ((sps.pic_height_in_mbs * 16 + 63) / 64 * 64) 128 =
      (sps.pic_height_in_mbs * 16 + 63) / 64 * 64 / 128 :=
    cdiv_of_nonneg _ _ (by omega) (by omega)
  have b4 : s32 ((sps.pic_height_in_mbs * 16 + 63) / 64 * 64 / 128 * 4) =
      (sps.pic_height_in_mbs * 16 + 63) / 64 * 64 / 128 * 4 :=
    s32_of_range _ (by omega) (by omega)
  have b5 : s32 ((sps.pic_height_in_mbs * 16 + 63) / 64 * 64 / 128 * 16) =
      (sps.pic_height_in_mbs * 16 + 63) / 64 * 64 / 128 * 16 :=
    s32_of_range _ (by omega) (by omega)
  have b6 : cdiv ((sps.pic_height_in_mbs * 16 + 63) / 64 * 64 / 128 * 16) 4 =
      (sps.pic_height_in_mbs * 16 + 63) / 64 * 64 / 128 * 4 := by
    rw [cdiv_of_nonneg _ _ (by omega) (by omega)]; omega
  rw [b1, b2, b3, b4, b5] at ev
  rw [ev]
  by_cases hl : sps.level_idc = H264_LEVEL_1_0 ∨ sps.level_idc = H264_LEVEL_1_b
  · simp only [hl, if_true, c2]
    split_ifs
    · exact b6
    · rfl
  · simp only [hl, if_false, c3]
    split_ifs
    · exact b6
    · rfl

theorem me_srch_h_range (regs : HalVepu580RegSet) (sps : H264eSps) (slice : H264eSlice)
    (hw0 : 0 ≤ sps.pic_width_in_mbs) (hw1 : sps.pic_width_in_mbs ≤ 1073741823) :
    0 ≤ (setup_vepu580_me regs sps slice).reg_base.me_rnge.cme_srch_h ∧
    (setup_vepu580_me regs sps slice).reg_base.me_rnge.cme_srch_h ≤ 11 := by
  rw [me_srch_h_eq regs sps slice hw0 hw1]
  constructor <;> split_ifs <;> omega

theorem me_srch_v_range (regs : HalVepu580RegSet) (sps : H264eSps) (slice : H264eSlice)
    (hh0 : 0 ≤ sps.pic_height_in_mbs) (hh1 : sps.pic_height_in_mbs ≤ 134217724) :
    0 ≤ (setup_vepu580_me regs sps slice).reg_base.me_rnge.cme_srch_v ∧
    (setup_vepu580_me regs sps slice).reg_base.me_rnge.cme_srch_v ≤ 7 := by
  rw [me_srch_v_eq regs sps slice hh0 hh1]
  have hA : 0 ≤ (sps.pic_height_in_mbs * 16 + 63) / 64 * 64 / 128 * 4 := by omega
  by_cases hl : sps.level_idc = H264_LEVEL_1_0 ∨ sps.level_idc = H264_LEVEL_1_b
  · simp only [hl, if_true]
    constructor <;> split_ifs <;> omega
  · simp only [hl, if_false]
    constructor <;> split_ifs <;> omega

/-- C31: for every `level_idc` and every non-negative `pic_width_in_mbs` (mb_w)
and `pic_height_in_mbs` (mb_h) in the range where the `RK_S32` arithmetic does
not overflow, `setup_vepu580_me` writes `cme_srch_h = min(11, mb_w / 2)` and
`cme_srch_v = min(L, A)` with L = 3 for level 1.0 and level 1b, L = 7 for every
other level, and A = ((mb_h * 16 rounded up to a multiple of 64) / 128) * 4.
Hence `cme_srch_h <= 11`, `cme_srch_v <= 7`, `2 * cme_srch_h <= mb_w` and
`cme_srch_v <= A`, and both extents are non-negative. -/
theorem me_search_extents (regs : HalVepu580RegSet) (sps : H264eSps) (slice : H264eSlice)
    (hw0 : 0 ≤ sps.pic_width_in_mbs) (hw1 : sps.pic_width_in_mbs ≤ 1073741823)
    (hh0 : 0 ≤ sps.pic_height_in_mbs) (hh1 : sps.pic_height_in_mbs ≤ 134217724) :
    (setup_vepu580_me regs sps slice).reg_base.me_rnge.cme_srch_h =
      min 11 (sps.pic_width_in_mbs / 2) ∧
    (setup_vepu580_me regs sps slice).reg_base.me_rnge.cme_srch_v =
      min (if sps.level_idc = H264_LEVEL_1_0 ∨ sps.level_idc = H264_LEVEL_1_b then 3 else 7)
        ((sps.pic_height_in_mbs * 16 + 63) / 64 * 64 / 128 * 4) ∧
    (setup_vepu580_me regs sps slice).reg_base.me_rnge.cme_srch_h ≤ 11 ∧
    (setup_vepu580_me regs sps slice).reg_base.me_rnge.cme_srch_v ≤ 7 ∧
    2 * (setup_vepu580_me regs sps slice).reg_base.me_rnge.cme_srch_h ≤ sps.pic_width_in_mbs ∧
    (setup_vepu580_me regs sps slice).reg_base.me_rnge.cme_srch_v ≤
      (sps.pic_height_in_mbs * 16 + 63) / 64 * 64 / 128 * 4 ∧
    0 ≤ (setup_vepu580_me regs sps slice).reg_base.me_rnge.cme_srch_h ∧
    0 ≤ (setup_vepu580_me regs sps slice).reg_base.me_rnge.cme_srch_v := by
  rw [me_srch_h_eq regs sps slice hw0 hw1, me_srch_v_eq regs sps slice hh0 hh1]
  have hA : 0 ≤ (sps.pic_height_in_mbs * 16 + 63) / 64 * 64 / 128 * 4 := by omega
  by_cases hl : sps.level_idc = H264_LEVEL_1_0 ∨ sps.level_idc = H264_LEVEL_1_b
  · simp only [hl, if_true]
    refine ⟨?_, ?_, ?_, ?_, ?_, ?_, ?_, ?_⟩ <;> split_ifs <;> omega
  · simp only [hl, if_false]
    refine ⟨?_, ?_, ?_, ?_, ?_, ?_, ?_, ?_⟩ <;> split_ifs <;> omega

/-- Witness of C31: 120x68 macroblocks at level 4.0 give `cme_srch_h = 11` and
`cme_srch_v = 7`; 16x1 macroblocks at level 1.0 give `cme_srch_h = 8` and
`cme_srch_v = 0`. -/
theorem me_search_extents_samples :
    ((setup_vepu580_me zero_regs sample_sps (sample_slice 0 [] [])).reg_base.me_rnge.cme_srch_h
        = 11 ∧
      (setup_vepu580_me zero_regs sample_sps (sample_slice 0 [] [])).reg_base.me_rnge.cme_srch_v
        = 7) ∧
    ((setup_vepu580_me zero_regs
        { sample_sps with level_idc := 10, pic_width_in_mbs := 16, pic_height_in_mbs := 1 }
        (sample_slice 0 [] [])).reg_base.me_rnge.cme_srch_h = 8 ∧
      (setup_vepu580_me zero_regs
        { sample_sps with level_idc := 10, pic_width_in_mbs := 16, pic_height_in_mbs := 1 }
        (sample_slice 0 [] [])).reg_base.me_rnge.cme_srch_v = 0) :=
  ⟨⟨(me_search_extents zero_regs sample_sps (sample_slice 0 [] []) (by decide) (by decide)
        (by decide) (by decide)).1.trans (by decide),
      (me_search_extents zero_regs sample_sps (sample_slice 0 [] []) (by decide) (by decide)
        (by decide) (by decide)).2.1.trans (by decide)⟩,
    ⟨(me_search_extents zero_regs
        { sample_sps with level_idc := 10, pic_width_in_mbs := 16, pic_height_in_mbs := 1 }
        (sample_slice 0 [] []) (by decide) (by decide) (by decide) (by decide)).1.trans
        (by decide),
      (me_search_extents zero_regs
        { sample_sps with level_idc := 10, pic_width_in_mbs := 16, pic_height_in_mbs := 1 }
        (sample_slice 0 [] []) (by decide) (by decide) (by decide) (by decide)).2.1.trans
        (by decide)⟩⟩

/-! ## Zero divisors -/

theorem ret_task_none_iff (ctx : HalH264eVepu580Ctx) (task : HalEncTask) :
    hal_h264e_vepu580_ret_task ctx task = none ↔
      u32 (u32 ctx.sps.pic_width_in_mbs * u32 ctx.sps.pic_height_in_mbs) = 0 := by
  constructor
  · intro h
    by_contra hne
    rw [ret_task_some ctx task hne] at h
    exact Option.noConfusion h
  · exact ret_task_none ctx task

theorem ret_task_guards (ctx : HalH264eVepu580Ctx) (task : HalEncTask)
    (hmbs : u32 (u32 ctx.sps.pic_width_in_mbs * u32 ctx.sps.pic_height_in_mbs) ≠ 0) :
    ∃ r, hal_h264e_vepu580_ret_task ctx task = some r ∧ r.1 = MPP_OK ∧
      (ctx.regs_set.reg_st.st_bnum_b16.num_b16 = 0 → r.2.2.rc_task.info.madi = 0) ∧
      (ctx.regs_set.reg_st.st_bnum_cme.num_ctu = 0 → r.2.2.rc_task.info.madp = 0) := by
  refine ⟨_, ret_task_some ctx task hmbs, rfl, ?_, ?_⟩
  · intro h
    exact if_pos h
  · intro h
    exact if_pos h

theorem u32_mbs_ne_zero (w h : Int) (hw0 : 0 < w) (hh0 : 0 < h) (hp : w * h < 2147483648) :
    u32 (u32 w * u32 h) ≠ 0 := by
  have hpos : 0 < w * h := Int.mul_pos hw0 hh0
  have hwl : w ≤ w * h := le_mul_of_one_le_right (by omega) (by omega)
  have hhl : h ≤ w * h := le_mul_of_one_le_left (by omega) (by omega)
  rw [u32_of_range w (by omega) (by omega), u32_of_range h (by omega) (by omega),
    u32_of_range _ (by omega) (by omega)]
  omega

/-- Counterexample to C38: for `pic_width_in_mbs = pic_height_in_mbs = 65536`,
both positive, the macroblock count is 65536 * 65536 = 2^32, which is 0 in 32
bits: the divisions of `hal_h264e_vepu580_ret_task` by the `RK_U32` count and
the division of `setup_vepu580_rc_base` by the `RK_S32` count have a zero
divisor, and neither function has a result. -/
theorem ret_task_zero_divisor :
    ((0 : Int) < 65536) ∧
    u32 (u32 65536 * u32 65536) = 0 ∧
    hal_h264e_vepu580_ret_task
      { sample_run_ctx (sample_status 40800 5100) with
        sps := { sample_sps with pic_width_in_mbs := 65536, pic_height_in_mbs := 65536 } }
      sample_run_task = none ∧
    s32 (65536 * 65536) = 0 ∧
    setup_vepu580_rc_base zero_regs
      { sample_sps with pic_width_in_mbs := 65536, pic_height_in_mbs := 65536 }
      (sample_slice 0 [] []) { qp_delta_row_i := 0, qp_delta_row := 1 }
      (sample_task 6 4000000).rc_task = none := by
  decide

/-- C38 (amended): under the precondition `pic_width_in_mbs > 0`,
`pic_height_in_mbs > 0` and `pic_width_in_mbs * pic_height_in_mbs < 2^31` (the
product wraps neither as `RK_S32` nor as `RK_U32`), no integer division in
`setup_vepu580_rc_base` or `hal_h264e_vepu580_ret_task` has a zero divisor:
the macroblock count is not 0 as `RK_S32` nor as `RK_U32`, both functions have
a result, for every status block, and
`hal_h264e_vepu580_ret_task` returns `MPP_OK` with `madi = 0` when
`num_b16 = 0` and `madp = 0` when `num_ctu = 0`.  Without the precondition,
`hal_h264e_vepu580_ret_task` has no result exactly when the `RK_U32` product of
the macroblock dimensions is 0 (so a zero `num_b16` or `num_ctu` is never a
divisor: the MADI and MADP divisions are guarded), and
`setup_vepu580_rc_base` has no result exactly when the `RK_S32` product of the
macroblock dimensions is 0. -/
theorem no_zero_divisor (regs : HalVepu580RegSet) (slice : H264eSlice) (hwcfg : MppEncHwCfg)
    (ctx : HalH264eVepu580Ctx) (task : HalEncTask) :
    (0 < ctx.sps.pic_width_in_mbs → 0 < ctx.sps.pic_height_in_mbs →
      ctx.sps.pic_width_in_mbs * ctx.sps.pic_height_in_mbs < 2147483648 →
      s32 (ctx.sps.pic_width_in_mbs * ctx.sps.pic_height_in_mbs) ≠ 0 ∧
      u32 (u32 ctx.sps.pic_width_in_mbs * u32 ctx.sps.pic_height_in_mbs) ≠ 0 ∧
      (∃ r, setup_vepu580_rc_base regs ctx.sps slice hwcfg task.rc_task = some r) ∧
      (∃ r, hal_h264e_vepu580_ret_task ctx task = some r ∧ r.1 = MPP_OK ∧
        (ctx.regs_set.reg_st.st_bnum_b16.num_b16 = 0 → r.2.2.rc_task.info.madi = 0) ∧
        (ctx.regs_set.reg_st.st_bnum_cme.num_ctu = 0 → r.2.2.rc_task.info.madp = 0))) ∧
    (hal_h264e_vepu580_ret_task ctx task = none ↔
      u32 (u32 ctx.sps.pic_width_in_mbs * u32 ctx.sps.pic_height_in_mbs) = 0) ∧
    (setup_vepu580_rc_base regs ctx.sps slice hwcfg task.rc_task = none ↔
      s32 (ctx.sps.pic_width_in_mbs * ctx.sps.pic_height_in_mbs) = 0) := by
  refine ⟨?_, ret_task_none_iff ctx task, rc_base_none_iff regs ctx.sps slice hwcfg _⟩
  intro hw0 hh0 hp
  exact ⟨rc_divisor_ne_zero _ _ hw0 hh0 hp, u32_mbs_ne_zero _ _ hw0 hh0 hp,
    ⟨_, rc_base_some regs ctx.sps slice hwcfg task.rc_task
      (rc_divisor_ne_zero _ _ hw0 hh0 hp)⟩,
    ret_task_guards ctx task (u32_mbs_ne_zero _ _ hw0 hh0 hp)⟩

/-- Witness of C38 (amended): for the sample context (120x68 macroblocks) with
a status block whose `num_b16` and `num_ctu` are 0 both functions have a
result, and the result of `hal_h264e_vepu580_ret_task` is `MPP_OK` with
`madi = 0` and `madp = 0`. -/
theorem no_zero_divisor_sample :
    (∃ r, setup_vepu580_rc_base zero_regs
      (sample_run_ctx { sample_status 40800 5100 with
        st_bnum_cme := { num_ctu := 0 }, st_bnum_b16 := { num_b16 := 0 } }).sps
      (sample_slice 0 [] []) { qp_delta_row_i := 0, qp_delta_row := 1 }
      sample_run_task.rc_task = some r) ∧
    (∃ r, hal_h264e_vepu580_ret_task
      (sample_run_ctx { sample_status 40800 5100 with
        st_bnum_cme := { num_ctu := 0 }, st_bnum_b16 := { num_b16 := 0 } })
      sample_run_task = some r ∧ r.1 = MPP_OK ∧ r.2.2.rc_task.info.madi = 0 ∧
        r.2.2.rc_task.info.madp = 0) :=
  ⟨((no_zero_divisor zero_regs (sample_slice 0 [] [])
      { qp_delta_row_i := 0, qp_delta_row := 1 }
      (sample_run_ctx { sample_status 40800 5100 with
        st_bnum_cme := { num_ctu := 0 }, st_bnum_b16 := { num_b16 := 0 } })
      sample_run_task).1 (by decide) (by decide) (by decide)).2.2.1,
    ((no_zero_divisor zero_regs (sample_slice 0 [] [])
      { qp_delta_row_i := 0, qp_delta_row := 1 }
      (sample_run_ctx { sample_status 40800 5100 with
        st_bnum_cme := { num_ctu := 0 }, st_bnum_b16 := { num_b16 := 0 } })
      sample_run_task).1 (by decide) (by decide) (by decide)).2.2.2.imp
      (fun _ h => ⟨h.1, h.2.1, h.2.2.1 (by decide), h.2.2.2 (by decide)⟩)⟩
/-! ## Line-buffer invariant over sequences of `setup_hal_bufs` -/

theorem ext_line_inv_step (env : MppBufferEnv) (aw : Int) (ctx : HalH264eVepu580Ctx)
    (hgo : env.group_get_ok = true)
    (hinv : ∀ b, ctx.ext_line_buf = some b →
      ctx.ext_line_buf_grp ≠ none ∧ b.size = ctx.ext_line_buf_size) :
    ∀ b, (setup_hal_bufs_ext_line env aw ctx).1.ext_line_buf = some b →
      (setup_hal_bufs_ext_line env aw ctx).1.ext_line_buf_grp ≠ none ∧
      b.size = (setup_hal_bufs_ext_line env aw ctx).1.ext_line_buf_size := by
  intro b hb
  by_cases hw : aw > SZ_4K
  · revert hb
    unfold setup_hal_bufs_ext_line
    rw [if_pos hw]
    rcases hg : ctx.ext_line_buf_grp with _ | g <;> rcases hbuf : ctx.ext_line_buf with _ | b0
    · by_cases hbo : env.buffer_get_ok = true <;>
        simp [hg, hbuf, hgo, hbo, mpp_buffer_get, mpp_buffer_group_get_internal]
      intro hb
      rw [← hb]
    · exact absurd hg (hinv b0 hbuf).1
    · by_cases hne : MPP_ALIGN (s32 (s32 (cdiv (s32 (aw - SZ_4K)) 64 * 30) * 16)) 256 =
          ctx.ext_line_buf_size <;>
        by_cases hbo : env.buffer_get_ok = true <;>
        simp [hg, hbuf, hgo, hbo, hne, mpp_buffer_get, mpp_buffer_group_get_internal] <;>
        intro hb <;> rw [← hb]
    · have hsz := (hinv b0 hbuf).2
      by_cases hne : MPP_ALIGN (s32 (s32 (cdiv (s32 (aw - SZ_4K)) 64 * 30) * 16)) 256 =
          ctx.ext_line_buf_size <;>
        by_cases hbo : env.buffer_get_ok = true <;>
        simp [hg, hbuf, hgo, hbo, hne, mpp_buffer_get, mpp_buffer_group_get_internal] <;>
        intro hb <;> rw [← hb]
      all_goals omega
  · rw [(ext_line_small env aw ctx (by omega)).1] at hb
    exact Option.noConfusion hb

theorem setup_hal_bufs_inv_step (env : MppBufferEnv) (ctx : HalH264eVepu580Ctx)
    (hgo : env.group_get_ok = true)
    (hinv : ∀ b, ctx.ext_line_buf = some b →
      ctx.ext_line_buf_grp ≠ none ∧ b.size = ctx.ext_line_buf_size) :
    ∀ b, (setup_hal_bufs env ctx).1.ext_line_buf = some b →
      (setup_hal_bufs env ctx).1.ext_line_buf_grp ≠ none ∧
      b.size = (setup_hal_bufs env ctx).1.ext_line_buf_size := by
  obtain ⟨e1, e2, e3⟩ := setup_hal_bufs_ext_fields env ctx
  rw [e1, e2, e3]
  exact ext_line_inv_step env _ ctx hgo hinv

theorem setup_hal_bufs_seq_inv (steps : List (MppBufferEnv × MppEncCfgSet))
    (ctx : HalH264eVepu580Ctx)
    (hok : ∀ s ∈ steps, s.1.group_get_ok = true)
    (hinv : ∀ b, ctx.ext_line_buf = some b →
      ctx.ext_line_buf_grp ≠ none ∧ b.size = ctx.ext_line_buf_size) :
    ∀ b, (setup_hal_bufs_seq steps ctx).ext_line_buf = some b →
      (setup_hal_bufs_seq steps ctx).ext_line_buf_grp ≠ none ∧
      b.size = (setup_hal_bufs_seq steps ctx).ext_line_buf_size := by
  induction steps generalizing ctx with
  | nil => exact hinv
  | cons s steps ih =>
    obtain ⟨env, cfg⟩ := s
    simp only [setup_hal_bufs_seq]
    refine ih _ (fun s hs => hok s (List.mem_cons_of_mem _ hs)) ?_
    exact setup_hal_bufs_inv_step env { ctx with cfg := cfg }
      (hok (env, cfg) (List.mem_cons_self _ _)) hinv

/-- C36: over every sequence of `setup_hal_bufs` calls starting from a
zero-initialised context, with the allocation of the line-buffer group
succeeding in every call, the context keeps this invariant: when a line buffer
is held, a line-buffer group is held and the size of the buffer is the currently
recorded `ext_line_buf_size`.  After a last call with aligned width at most
4096 neither buffer nor group is held and the recorded size is 0; after a last
call with aligned width above 4096 whose buffer allocation succeeds a buffer is
held, and its size and the recorded size are the size computed from that
width. -/
theorem setup_hal_bufs_seq_line_buf_invariant (steps : List (MppBufferEnv × MppEncCfgSet))
    (cfg0 : MppEncCfgSet) (hok : ∀ s ∈ steps, s.1.group_get_ok = true) :
    (∀ b, (setup_hal_bufs_seq steps (zero_ctx cfg0)).ext_line_buf = some b →
      (setup_hal_bufs_seq steps (zero_ctx cfg0)).ext_line_buf_grp ≠ none ∧
      b.size = (setup_hal_bufs_seq steps (zero_ctx cfg0)).ext_line_buf_size) ∧
    (∀ (pre : List (MppBufferEnv × MppEncCfgSet)) (env : MppBufferEnv) (cfg : MppEncCfgSet),
      steps = pre ++ [(env, cfg)] →
      (MPP_ALIGN cfg.prep.width 64 ≤ SZ_4K →
        (setup_hal_bufs_seq steps (zero_ctx cfg0)).ext_line_buf = none ∧
        (setup_hal_bufs_seq steps (zero_ctx cfg0)).ext_line_buf_grp = none ∧
        (setup_hal_bufs_seq steps (zero_ctx cfg0)).ext_line_buf_size = 0) ∧
      (MPP_ALIGN cfg.prep.width 64 > SZ_4K → env.buffer_get_ok = true →
        ∃ b, (setup_hal_bufs_seq steps (zero_ctx cfg0)).ext_line_buf = some b ∧
          b.size = computed_ext_line_buf_size (MPP_ALIGN cfg.prep.width 64) ∧
          (setup_hal_bufs_seq steps (zero_ctx cfg0)).ext_line_buf_size =
            computed_ext_line_buf_size (MPP_ALIGN cfg.prep.width 64))) := by
  have hz : ∀ b, (zero_ctx cfg0).ext_line_buf = some b →
      (zero_ctx cfg0).ext_line_buf_grp ≠ none ∧ b.size = (zero_ctx cfg0).ext_line_buf_size := by
    intro b hb
    exact Option.noConfusion hb
  refine ⟨setup_hal_bufs_seq_inv steps _ hok hz, ?_⟩
  intro pre env cfg hsteps
  have hinv := setup_hal_bufs_seq_inv steps _ hok hz
  have hgo : env.group_get_ok = true := hok (env, cfg) (by rw [hsteps]; simp)
  have hlast : setup_hal_bufs_seq steps (zero_ctx cfg0) =
      (setup_hal_bufs env { setup_hal_bufs_seq pre (zero_ctx cfg0) with cfg := cfg }).1 := by
    rw [hsteps, setup_hal_bufs_seq_append]
    rfl
  obtain ⟨e1, e2, e3⟩ := setup_hal_bufs_ext_fields env
    { setup_hal_bufs_seq pre (zero_ctx cfg0) with cfg := cfg }
  constructor
  · intro hsmall
    rw [hlast, e1, e2, e3]
    exact ext_line_small env _ _ hsmall
  · intro hlarge hbo
    have hl := ext_line_large env _
      { setup_hal_bufs_seq pre (zero_ctx cfg0) with cfg := cfg } hlarge
    have hsome := (hl.2 hgo hbo).1
    rw [← e1, ← hlast] at hsome
    have hsize := hl.1
    rw [← e3, ← hlast] at hsize
    obtain ⟨b, hb⟩ := Option.isSome_iff_exists.1 hsome
    refine ⟨b, hb, ?_, hsize⟩
    rw [(hinv b hb).2, hsize]

/-- Witness of C36: from a zeroed context, calls for widths 7680, 8192 and then
7680 again (allocations succeeding) leave a line buffer of 26880 bytes, the size
recorded in `ext_line_buf_size`, with its group held. -/
theorem setup_hal_bufs_seq_line_buf_sample :
    ((setup_hal_bufs_seq
        [(alloc_ok, mk_cfg 7680 4320 none), (alloc_ok, mk_cfg 8192 4320 none),
          (alloc_ok, mk_cfg 7680 4320 none)] (zero_ctx (mk_cfg 1920 1080 none))).ext_line_buf
        = some { size := 26880, fd := alloc_ok.buffer_fd } ∧
      (setup_hal_bufs_seq
        [(alloc_ok, mk_cfg 7680 4320 none), (alloc_ok, mk_cfg 8192 4320 none),
          (alloc_ok, mk_cfg 7680 4320 none)] (zero_ctx (mk_cfg 1920 1080 none))).ext_line_buf_size
        = 26880) ∧
    ((setup_hal_bufs_seq
        [(alloc_ok, mk_cfg 7680 4320 none), (alloc_ok, mk_cfg 8192 4320 none),
          (alloc_ok, mk_cfg 7680 4320 none)]
        (zero_ctx (mk_cfg 1920 1080 none))).ext_line_buf_grp ≠ none ∧
      (26880 : Int) =
        (setup_hal_bufs_seq
          [(alloc_ok, mk_cfg 7680 4320 none), (alloc_ok, mk_cfg 8192 4320 none),
            (alloc_ok, mk_cfg 7680 4320 none)]
          (zero_ctx (mk_cfg 1920 1080 none))).ext_line_buf_size) :=
  ⟨by decide,
    (setup_hal_bufs_seq_line_buf_invariant
      [(alloc_ok, mk_cfg 7680 4320 none), (alloc_ok, mk_cfg 8192 4320 none),
        (alloc_ok, mk_cfg 7680 4320 none)] (mk_cfg 1920 1080 none) (by decide)).1
      { size := 26880, fd := alloc_ok.buffer_fd } (by decide)⟩

/-! ## Motion-search cache sizing -/

theorem calc_cime_fields (regs : HalVepu580RegSet) (sps : H264eSps) :
    (calc_cime_parameter regs sps).reg_base.me_cach.cme_linebuf_w =
      (calc_cime_locals regs sps).linebuf_w ∧
    (calc_cime_parameter regs sps).reg_base.me_cach.cme_rama_h =
      (calc_cime_locals regs sps).cime_cacha_h ∧
    (calc_cime_parameter regs sps).reg_base.me_cach.cme_rama_max =
      u32 (u32 ((calc_cime_locals regs sps).cime_cacha_h - 1) / 1 *
        (calc_cime_locals regs sps).linebuf_w + (calc_cime_locals regs sps).cur_srch_16_w) :=
  ⟨rfl, rfl, rfl⟩

theorem cacha_loop_exit (fuel : Nat) (M mx w c h r : Int) (h0 : 0 ≤ h)
    (hm : mx < 4294967296) (hf : mx - h ≤ fuel) :
    ¬ ((cime_cacha_loop fuel M 1 mx w c h r).1 < mx ∧
      M > cime_cacha_footprint (cime_cacha_loop fuel M 1 mx w c h r).1 1 w
        (cime_cacha_loop fuel M 1 mx w c h r).2 c) := by
  induction fuel generalizing h r with
  | zero =>
    simp only [cime_cacha_loop]
    intro hc
    have := hc.1
    simp only [Nat.cast_zero] at hf
    omega
  | succ n ih =>
    unfold cime_cacha_loop
    by_cases hc : h < mx ∧ M > cime_cacha_footprint h 1 w r c
    · rw [if_pos hc]
      have e : u32 (h + 1) = h + 1 := u32_of_range _ (by omega) (by omega)
      rw [e]
      refine ih _ _ (by omega) ?_
      push_cast at hf
      omega
    · rw [if_neg hc]
      exact hc

theorem cacha_loop_fuel (fuel k : Nat) (M mx w c h r : Int) (h0 : 0 ≤ h)
    (hm : mx < 4294967296) (hf : mx - h ≤ fuel) :
    cime_cacha_loop (fuel + k) M 1 mx w c h r = cime_cacha_loop fuel M 1 mx w c h r := by
  induction fuel generalizing h r with
  | zero =>
    simp only [Nat.cast_zero] at hf
    cases k with
    | zero => rfl
    | succ k =>
      simp only [Nat.zero_add, cime_cacha_loop]
      rw [if_neg (by omega)]
  | succ n ih =>
    have e : n + 1 + k = (n + k) + 1 := by omega
    rw [e]
    unfold cime_cacha_loop
    by_cases hc : h < mx ∧ M > cime_cacha_footprint h 1 w r c
    · rw [if_pos hc, if_pos hc]
      have e : u32 (h + 1) = h + 1 := u32_of_range _ (by omega) (by omega)
      rw [e]
      refine ih _ _ (by omega) ?_
      push_cast at hf
      omega
    · rw [if_neg hc, if_neg hc]

theorem cacha_footprint_in_range (w c h r : Int) (hh1 : 1 ≤ h) (hh2 : h ≤ 16)
    (hw0 : 0 ≤ w) (hw1 : w ≤ 33554432) (hc0 : 0 ≤ c) (hc1 : c ≤ 7) (hr0 : 0 ≤ r)
    (hr2 : r ≤ 15) :
    cime_cacha_footprint h 1 w r c = (h - 1) * w * 4 + r * 4 * c ∧
    0 ≤ (h - 1) * w ∧ 0 ≤ r * 4 * c ∧ r * 4 * c ≤ 420 := by
  have p0 : 0 ≤ (h - 1) * w := mul_nonneg (by omega) hw0
  have p1 : (h - 1) * w ≤ 15 * 33554432 :=
    mul_le_mul (by omega) hw1 hw0 (by norm_num)
  have q0 : 0 ≤ r * 4 * c := mul_nonneg (by omega) hc0
  have q1 : r * 4 * c ≤ 60 * 7 := mul_le_mul (by omega) hc1 hc0 (by norm_num)
  refine ⟨?_, p0, q0, by omega⟩
  unfold cime_cacha_footprint
  exact u32_of_range _ (by omega) (by omega)

theorem cacha_loop_inv (fuel : Nat) (mx w c h r : Int)
    (hh1 : 1 ≤ h) (hhm : h ≤ mx) (hmx : mx ≤ 15) (hw0 : 0 ≤ w) (hw1 : w ≤ 33554432)
    (hc0 : 0 ≤ c) (hc1 : c ≤ 7) (hr1 : 1 ≤ r) (hr2 : r ≤ 15)
    (hJ : 2 ≤ h → (h - 2) * w * 4 + r * 4 * c < 2464) :
    h ≤ (cime_cacha_loop fuel 2464 1 mx w c h r).1 ∧
    (cime_cacha_loop fuel 2464 1 mx w c h r).1 ≤ mx ∧
    1 ≤ (cime_cacha_loop fuel 2464 1 mx w c h r).2 ∧
    (cime_cacha_loop fuel 2464 1 mx w c h r).2 ≤ r ∧
    (2 ≤ (cime_cacha_loop fuel 2464 1 mx w c h r).1 →
      ((cime_cacha_loop fuel 2464 1 mx w c h r).1 - 2) * w * 4 +
        (cime_cacha_loop fuel 2464 1 mx w c h r).2 * 4 * c < 2464) := by
  induction fuel generalizing h r with
  | zero =>
    simp only [cime_cacha_loop]
    exact ⟨le_refl _, hhm, hr1, le_refl _, hJ⟩
  | succ n ih =>
    unfold cime_cacha_loop
    by_cases hc : h < mx ∧ 2464 > cime_cacha_footprint h 1 w r c
    · rw [if_pos hc]
      obtain ⟨hlt, hfp⟩ := hc
      rw [(cacha_footprint_in_range w c h r hh1 (by omega) hw0 hw1 hc0 hc1 (by omega) hr2).1]
        at hfp
      have e : u32 (h + 1) = h + 1 := u32_of_range _ (by omega) (by omega)
      have e2 : u32 (2 * 1) = 2 := by decide
      rw [e, e2]
      have e3 : h + 1 - 2 = h - 1 := by omega
      by_cases hr : r > 2
      · rw [if_pos hr, u32_of_range (r - 1) (by omega) (by omega)]
        have hmono : (r - 1) * 4 * c ≤ r * 4 * c :=
          mul_le_mul_of_nonneg_right (by omega) hc0
        obtain ⟨i1, i2, i3, i4, i5⟩ := ih (h + 1) (r - 1) (by omega) (by omega) (by omega)
          (by omega) (by intro _; rw [e3]; omega)
        exact ⟨by omega, i2, i3, by omega, i5⟩
      · rw [if_neg hr]
        have hmono : (1 : Int) * 4 * c ≤ r * 4 * c :=
          mul_le_mul_of_nonneg_right (by omega) hc0
        obtain ⟨i1, i2, i3, i4, i5⟩ := ih (h + 1) 1 (by omega) (by omega) (by omega)
          (by omega) (by intro _; rw [e3]; omega)
        exact ⟨by omega, i2, i3, by omega, i5⟩
    · rw [if_neg hc]
      exact ⟨le_refl _, hhm, hr1, le_refl _, hJ⟩

theorem cime_linebuf_w_gmv0 (sh p : Int) (h0 : 0 ≤ sh) (h1 : sh ≤ 11) (hp0 : 1 ≤ p)
    (hp1 : p ≤ 33554431) :
    cime_linebuf_w 0 (s32 (sh * 4)) p = p := by
  have hs : s32 (sh * 4) = sh * 4 := s32_of_range _ (by omega) (by omega)
  have hsta : (if s32 (0 - sh * 4) < 0 then cdiv (s32 (0 - sh * 4 - 15)) 16
      else cdiv (s32 (0 - sh * 4)) 16) ≤ 0 := by
    interval_cases sh <;> decide
  have hend : ¬ (s32 (0 + sh * 4) < 0) ∧ 0 ≤ cdiv (s32 (0 + sh * 4 + 15)) 16 ∧
      cdiv (s32 (0 + sh * 4 + 15)) 16 ≤ 3 := by
    interval_cases sh <;> decide
  unfold cime_linebuf_w
  simp only []
  rw [hs, if_neg hend.1]
  have hp : s32 (p - 1) = p - 1 := s32_of_range _ (by omega) (by omega)
  have he : s32 (p - 1 + cdiv (s32 (0 + sh * 4 + 15)) 16) =
      p - 1 + cdiv (s32 (0 + sh * 4 + 15)) 16 := s32_of_range _ (by omega) (by omega)
  rw [hp, he]
  have c1 : mpp_clip (if s32 (0 - sh * 4) < 0 then cdiv (s32 (0 - sh * 4 - 15)) 16
      else cdiv (s32 (0 - sh * 4)) 16) 0 (p - 1) = 0 := by
    unfold mpp_clip
    split_ifs <;> omega
  have c2 : mpp_clip (p - 1 + cdiv (s32 (0 + sh * 4 + 15)) 16) 0 (p - 1) = p - 1 := by
    unfold mpp_clip
    split_ifs <;> omega
  rw [c1, c2]
  have e : p - 1 - 0 + 1 = p := by omega
  rw [e, s32_of_range _ (by omega) (by omega), if_pos (by omega),
    cdiv_of_nonneg _ _ (by omega) (by omega)]
  omega

theorem cime_cur_srch_gmv0 (s : Int) (h0 : 0 ≤ s) (h1 : s ≤ 11) :
    1 ≤ cime_cur_srch_16_w 0 (s32 (s * 4)) ∧ cime_cur_srch_16_w 0 (s32 (s * 4)) ≤ 7 ∧
    cime_cur_srch_4_h 0 (s32 (s * 4)) = 2 * s + 1 := by
  interval_cases s <;> decide

theorem cacha_final (w c mx lh lr h2 r2 H : Int)
    (hl1 : 1 ≤ lh) (hl2 : lh ≤ mx) (hmx : mx ≤ 15) (hw0 : 0 ≤ w) (hw1 : w ≤ 33554431)
    (hc0 : 0 ≤ c) (hc1 : c ≤ 7) (hr1 : 1 ≤ lr) (hr2 : lr ≤ 15)
    (hJ : 2 ≤ lh → (lh - 2) * w * 4 + lr * 4 * c < 2464)
    (eh2 : h2 = if mx = 1 then u32 (lh + 1) else lh)
    (er2 : r2 = if mx = 1 then 0 else lr)
    (eH : H = if 2464 < cime_cacha_footprint h2 1 w r2 c then u32 (h2 - 1) else h2) :
    (H - 1) * w * 4 + r2 * 4 * c ≤ 2464 ∧ 1 ≤ H ∧ (1 < mx → H ≤ mx) ∧
    (mx = 1 → w ≤ 616 → H = 2) ∧ (mx = 1 → 616 < w → H = 1) ∧ 0 ≤ r2 ∧ r2 ≤ 15 := by
  by_cases hm : mx = 1
  · have hlh : lh = 1 := by omega
    rw [if_pos hm] at eh2 er2
    rw [hlh] at eh2
    have e2 : h2 = 2 := by rw [eh2]; decide
    subst e2
    subst er2
    have hf : cime_cacha_footprint 2 1 w 0 c = w * 4 := by
      rw [(cacha_footprint_in_range w c 2 0 (by omega) (by omega) hw0 (by omega) hc0 hc1
        (by omega) (by omega)).1]
      ring
    rw [hf] at eH
    by_cases hbig : 2464 < w * 4
    · rw [if_pos hbig] at eH
      have e1 : H = 1 := by rw [eH]; decide
      subst e1
      refine ⟨by simp, by omega, by omega, by omega, fun _ _ => rfl, by omega, by omega⟩
    · rw [if_neg hbig] at eH
      subst eH
      refine ⟨?_, by omega, by omega, fun _ _ => rfl, by omega, by omega, by omega⟩
      have e : ((2 : Int) - 1) * w * 4 + 0 * 4 * c = w * 4 := by ring
      rw [e]
      omega
  · rw [if_neg hm] at eh2 er2
    subst eh2
    subst er2
    obtain ⟨hf, p0, q0, q1⟩ := cacha_footprint_in_range w c h2 r2 hl1 (by omega) hw0
      (by omega) hc0 hc1 (by omega) hr2
    rw [hf] at eH
    by_cases hbig : 2464 < (h2 - 1) * w * 4 + r2 * 4 * c
    · rw [if_pos hbig] at eH
      have hne : h2 ≠ 1 := by
        intro h1
        rw [h1] at hbig
        have e : ((1 : Int) - 1) * w * 4 + r2 * 4 * c = r2 * 4 * c := by ring
        rw [e] at hbig
        omega
      have e1 : H = h2 - 1 := by rw [eH]; exact u32_of_range _ (by omega) (by omega)
      subst e1
      have e3 : h2 - 1 - 1 = h2 - 2 := by omega
      rw [e3]
      have hj := hJ (by omega)
      refine ⟨by omega, by omega, by omega, by omega, by omega, by omega, by omega⟩
    · rw [if_neg hbig] at eH
      subst eH
      refine ⟨by omega, by omega, by omega, by omega, by omega, by omega, by omega⟩

theorem cime_locals_reachable (regs : HalVepu580RegSet) (sps : H264eSps)
    (hgx : regs.reg_base.gmv.gmv_x = 0) (hgy : regs.reg_base.gmv.gmv_y = 0)
    (hs0 : 0 ≤ regs.reg_base.me_rnge.cme_srch_h) (hs1 : regs.reg_base.me_rnge.cme_srch_h ≤ 11)
    (hv0 : 0 ≤ regs.reg_base.me_rnge.cme_srch_v) (hv1 : regs.reg_base.me_rnge.cme_srch_v ≤ 7)
    (hw0 : 0 ≤ sps.pic_width_in_mbs) (hw1 : sps.pic_width_in_mbs ≤ 268435447) :
    (calc_cime_locals regs sps).linebuf_w = ((sps.pic_width_in_mbs + 1) * 8 + 63) / 64 ∧
    (calc_cime_locals regs sps).cur_srch_4_h = 2 * regs.reg_base.me_rnge.cme_srch_v + 1 ∧
    1 ≤ (calc_cime_locals regs sps).cur_srch_16_w ∧
    (calc_cime_locals regs sps).cur_srch_16_w ≤ 7 ∧
    ((calc_cime_locals regs sps).cime_cacha_h - 1) * (calc_cime_locals regs sps).linebuf_w * 4 +
      (calc_cime_locals regs sps).ramb_h * 4 * (calc_cime_locals regs sps).cur_srch_16_w
        ≤ 2464 ∧
    1 ≤ (calc_cime_locals regs sps).cime_cacha_h ∧
    (1 < (calc_cime_locals regs sps).cur_srch_4_h →
      (calc_cime_locals regs sps).cime_cacha_h ≤ (calc_cime_locals regs sps).cur_srch_4_h) ∧
    ((calc_cime_locals regs sps).cur_srch_4_h = 1 →
      (calc_cime_locals regs sps).linebuf_w ≤ 616 →
      (calc_cime_locals regs sps).cime_cacha_h = 2) ∧
    ((calc_cime_locals regs sps).cur_srch_4_h = 1 →
      616 < (calc_cime_locals regs sps).linebuf_w →
      (calc_cime_locals regs sps).cime_cacha_h = 1) ∧
    0 ≤ (calc_cime_locals regs sps).ramb_h ∧ (calc_cime_locals regs sps).ramb_h ≤ 15 := by
  obtain ⟨w, hw⟩ : ∃ w, w = ((sps.pic_width_in_mbs + 1) * 8 + 63) / 64 := ⟨_, rfl⟩
  have hwa : 1 ≤ w := by omega
  have hwb : w ≤ 33554431 := by omega
  have hpic : cdiv (s32 ((sps.pic_width_in_mbs + 1) * 8 + 63)) 64 = w := by
    rw [s32_of_range _ (by omega) (by omega), cdiv_of_nonneg _ _ (by omega) (by omega), hw]
  have hlb := cime_linebuf_w_gmv0 regs.reg_base.me_rnge.cme_srch_h w hs0 hs1 hwa hwb
  obtain ⟨c0a, c0b, _⟩ := cime_cur_srch_gmv0 regs.reg_base.me_rnge.cme_srch_h hs0 hs1
  obtain ⟨_, _, hc4⟩ := cime_cur_srch_gmv0 regs.reg_base.me_rnge.cme_srch_v hv0 (by omega)
  obtain ⟨c0, hc0⟩ : ∃ c0, c0 = cime_cur_srch_16_w 0 (s32 (regs.reg_base.me_rnge.cme_srch_h * 4)) :=
    ⟨_, rfl⟩
  rw [← hc0] at c0a c0b
  obtain ⟨mx, hmx⟩ : ∃ mx, mx = 2 * regs.reg_base.me_rnge.cme_srch_v + 1 := ⟨_, rfl⟩
  rw [← hmx] at hc4
  have huw : u32 w = w := u32_of_range _ (by omega) (by omega)
  obtain ⟨c, hc⟩ : ∃ c, c = if w < c0 then w else c0 := ⟨_, rfl⟩
  have hca : 1 ≤ c := by rw [hc]; split_ifs <;> omega
  have hcb : c ≤ 7 := by rw [hc]; split_ifs <;> omega
  have hloc : calc_cime_locals regs sps =
      { linebuf_w := w
        cur_srch_16_w := c
        cur_srch_4_h := mx
        cime_cacha_h :=
          if 2464 < cime_cacha_footprint
              (if mx = 1 then u32 ((cime_cacha_loop mx.toNat 2464 1 mx w c 1 mx).1 + 1)
                else (cime_cacha_loop mx.toNat 2464 1 mx w c 1 mx).1) 1 w
              (if mx = 1 then 0 else (cime_cacha_loop mx.toNat 2464 1 mx w c 1 mx).2) c then
            u32 ((if mx = 1 then u32 ((cime_cacha_loop mx.toNat 2464 1 mx w c 1 mx).1 + 1)
                else (cime_cacha_loop mx.toNat 2464 1 mx w c 1 mx).1) - 1)
          else (if mx = 1 then u32 ((cime_cacha_loop mx.toNat 2464 1 mx w c 1 mx).1 + 1)
                else (cime_cacha_loop mx.toNat 2464 1 mx w c 1 mx).1)
        ramb_h := if mx = 1 then 0 else (cime_cacha_loop mx.toNat 2464 1 mx w c 1 mx).2 } := by
    unfold calc_cime_locals
    simp only [hgx, hgy, hpic, hlb, ← hc0, hc4, huw, ← hc]
  obtain ⟨i1, i2, i3, i4, i5⟩ := cacha_loop_inv mx.toNat mx w c 1 mx (le_refl _) (by omega)
    (by omega) (by omega) (by omega) (by omega) hcb (by omega) (by omega) (by omega)
  have hfin := cacha_final w c mx (cime_cacha_loop mx.toNat 2464 1 mx w c 1 mx).1
    (cime_cacha_loop mx.toNat 2464 1 mx w c 1 mx).2 _ _ _ i1 i2 (by omega) (by omega) hwb
    (by omega) hcb i3 (by omega) i5 rfl rfl rfl
  rw [hloc]
  simp only []
  obtain ⟨f1, f2, f3, f4, f5, f6, f7⟩ := hfin
  exact ⟨hw, hmx, hca, hcb, f1, f2, f3, f4, f5, f6, f7⟩

theorem calc_cime_locals_congr (r1 r2 : HalVepu580RegSet) (sps : H264eSps)
    (hg : r1.reg_base.gmv = r2.reg_base.gmv)
    (hm : r1.reg_base.me_rnge = r2.reg_base.me_rnge) :
    calc_cime_locals r1 sps = calc_cime_locals r2 sps := by
  unfold calc_cime_locals
  rw [hg, hm]

theorem calc_cime_locals_idem (regs : HalVepu580RegSet) (sps : H264eSps) :
    calc_cime_locals (calc_cime_parameter regs sps) sps = calc_cime_locals regs sps :=
  calc_cime_locals_congr _ _ sps (calc_cime_me_rnge regs sps).2 (calc_cime_me_rnge regs sps).1

theorem me_cime_fields (regs : HalVepu580RegSet) (sps : H264eSps) (slice : H264eSlice) :
    (setup_vepu580_me regs sps slice).reg_base.me_cach.cme_linebuf_w =
      (calc_cime_locals (setup_vepu580_me regs sps slice) sps).linebuf_w ∧
    (setup_vepu580_me regs sps slice).reg_base.me_cach.cme_rama_h =
      (calc_cime_locals (setup_vepu580_me regs sps slice) sps).cime_cacha_h ∧
    (setup_vepu580_me regs sps slice).reg_base.me_cach.cme_rama_max =
      u32 (u32 ((calc_cime_locals (setup_vepu580_me regs sps slice) sps).cime_cacha_h - 1) / 1 *
        (calc_cime_locals (setup_vepu580_me regs sps slice) sps).linebuf_w +
        (calc_cime_locals (setup_vepu580_me regs sps slice) sps).cur_srch_16_w) := by
  unfold setup_vepu580_me
  simp only []
  rw [calc_cime_locals_idem]
  exact calc_cime_fields _ sps

theorem cacha_loop_bounds (fuel : Nat) (M mx w c h r : Int) (h0 : 0 ≤ h)
    (hm : mx < 4294967296) :
    h ≤ (cime_cacha_loop fuel M 1 mx w c h r).1 ∧
    (cime_cacha_loop fuel M 1 mx w c h r).1 ≤ max mx h ∧
    (cime_cacha_loop fuel M 1 mx w c h r).1 - h ≤ fuel := by
  induction fuel generalizing h r with
  | zero =>
    simp only [cime_cacha_loop]
    exact ⟨le_refl _, le_max_right _ _, by simp⟩
  | succ n ih =>
    unfold cime_cacha_loop
    by_cases hc : h < mx ∧ M > cime_cacha_footprint h 1 w r c
    · rw [if_pos hc]
      have e : u32 (h + 1) = h + 1 := u32_of_range _ (by omega) (by omega)
      rw [e]
      obtain ⟨i1, i2, i3⟩ := ih (h + 1)
        (if r > u32 (2 * 1) then u32 (r - 1) else 1) (by omega)
      refine ⟨by omega, ?_, ?_⟩
      · have hlt := hc.1
        rw [max_eq_left (by omega)] at i2 ⊢
        exact i2
      · omega
    · rw [if_neg hc]
      exact ⟨le_refl _, le_max_right _ _, by omega⟩

/-! ## Motion-search cache sizing: claims -/

theorem cime_locals_linebuf (regs : HalVepu580RegSet) (sps : H264eSps)
    (hgx : regs.reg_base.gmv.gmv_x = 0)
    (hs0 : 0 ≤ regs.reg_base.me_rnge.cme_srch_h) (hs1 : regs.reg_base.me_rnge.cme_srch_h ≤ 11)
    (hw0 : 0 ≤ sps.pic_width_in_mbs) (hw1 : sps.pic_width_in_mbs ≤ 268435447) :
    (calc_cime_locals regs sps).linebuf_w = ((sps.pic_width_in_mbs + 1) * 8 + 63) / 64 := by
  have hpic : cdiv (s32 ((sps.pic_width_in_mbs + 1) * 8 + 63)) 64 =
      ((sps.pic_width_in_mbs + 1) * 8 + 63) / 64 := by
    rw [s32_of_range _ (by omega) (by omega), cdiv_of_nonneg _ _ (by omega) (by omega)]
  have hlb := cime_linebuf_w_gmv0 regs.reg_base.me_rnge.cme_srch_h
    (((sps.pic_width_in_mbs + 1) * 8 + 63) / 64) hs0 hs1 (by omega) (by omega)
  unfold calc_cime_locals
  simp only [hgx, hpic, hlb]

theorem me_cime_reachable (regs : HalVepu580RegSet) (sps : H264eSps) (slice : H264eSlice)
    (hgx : regs.reg_base.gmv.gmv_x = 0) (hgy : regs.reg_base.gmv.gmv_y = 0)
    (hw0 : 0 ≤ sps.pic_width_in_mbs) (hw1 : sps.pic_width_in_mbs ≤ 268435447)
    (hh0 : 0 ≤ sps.pic_height_in_mbs) (hh1 : sps.pic_height_in_mbs ≤ 134217724) :
    (calc_cime_locals (setup_vepu580_me regs sps slice) sps).linebuf_w =
      ((sps.pic_width_in_mbs + 1) * 8 + 63) / 64 ∧
    (calc_cime_locals (setup_vepu580_me regs sps slice) sps).cur_srch_4_h =
      2 * (setup_vepu580_me regs sps slice).reg_base.me_rnge.cme_srch_v + 1 ∧
    1 ≤ (calc_cime_locals (setup_vepu580_me regs sps slice) sps).cur_srch_16_w ∧
    (calc_cime_locals (setup_vepu580_me regs sps slice) sps).cur_srch_16_w ≤ 7 ∧
    ((calc_cime_locals (setup_vepu580_me regs sps slice) sps).cime_cacha_h - 1) *
        (calc_cime_locals (setup_vepu580_me regs sps slice) sps).linebuf_w * 4 +
      (calc_cime_locals (setup_vepu580_me regs sps slice) sps).ramb_h * 4 *
        (calc_cime_locals (setup_vepu580_me regs sps slice) sps).cur_srch_16_w ≤ 2464 ∧
    1 ≤ (calc_cime_locals (setup_vepu580_me regs sps slice) sps).cime_cacha_h ∧
    (1 < (calc_cime_locals (setup_vepu580_me regs sps slice) sps).cur_srch_4_h →
      (calc_cime_locals (setup_vepu580_me regs sps slice) sps).cime_cacha_h ≤
        (calc_cime_locals (setup_vepu580_me regs sps slice) sps).cur_srch_4_h) ∧
    ((calc_cime_locals (setup_vepu580_me regs sps slice) sps).cur_srch_4_h = 1 →
      (calc_cime_locals (setup_vepu580_me regs sps slice) sps).linebuf_w ≤ 616 →
      (calc_cime_locals (setup_vepu580_me regs sps slice) sps).cime_cacha_h = 2) ∧
    ((calc_cime_locals (setup_vepu580_me regs sps slice) sps).cur_srch_4_h = 1 →
      616 < (calc_cime_locals (setup_vepu580_me regs sps slice) sps).linebuf_w →
      (calc_cime_locals (setup_vepu580_me regs sps slice) sps).cime_cacha_h = 1) ∧
    0 ≤ (calc_cime_locals (setup_vepu580_me regs sps slice) sps).ramb_h ∧
    (calc_cime_locals (setup_vepu580_me regs sps slice) sps).ramb_h ≤ 15 := by
  have hg := (me_srch_raw regs sps slice).2.2
  obtain ⟨e7, e3⟩ := me_srch_h_range regs sps slice hw0 (by omega)
  obtain ⟨e8, e4⟩ := me_srch_v_range regs sps slice hh0 hh1
  exact cime_locals_reachable (setup_vepu580_me regs sps slice) sps (by rw [hg]; exact hgx)
    (by rw [hg]; exact hgy) e7 e3 e8 e4 hw0 hw1

/-- C32: for every register image with global motion vector 0 and every
non-negative macroblock width and height (in the range where the `RK_S32`
arithmetic does not overflow), the image produced by `setup_vepu580_me` has
`cme_linebuf_w >= 1` and its search-cache height fits the cache budget: with
h = `cme_rama_h`, w = `cme_linebuf_w` and the final values of the locals
`ramb_h` and `cur_srch_16_w` of `calc_cime_parameter`,
(h - 1) * w * 4 + ramb_h * 4 * cur_srch_16_w <= 2464.  The registers
`cme_rama_h` and `cme_linebuf_w` are the locals `cime_cacha_h` and `linebuf_w`,
`cme_rama_max = (h - 1) * w + cur_srch_16_w`, `cur_srch_16_w` is between 1 and
7, and the locals computed from an image that `calc_cime_parameter` has written
are those of the run that wrote it (it changes neither the motion vector nor
the search extents). -/
theorem me_cache_within_budget (regs : HalVepu580RegSet) (sps : H264eSps) (slice : H264eSlice)
    (hgx : regs.reg_base.gmv.gmv_x = 0) (hgy : regs.reg_base.gmv.gmv_y = 0)
    (hw0 : 0 ≤ sps.pic_width_in_mbs) (hw1 : sps.pic_width_in_mbs ≤ 268435447)
    (hh0 : 0 ≤ sps.pic_height_in_mbs) (hh1 : sps.pic_height_in_mbs ≤ 134217724) :
    1 ≤ (setup_vepu580_me regs sps slice).reg_base.me_cach.cme_linebuf_w ∧
    (setup_vepu580_me regs sps slice).reg_base.me_cach.cme_linebuf_w =
      (calc_cime_locals (setup_vepu580_me regs sps slice) sps).linebuf_w ∧
    (setup_vepu580_me regs sps slice).reg_base.me_cach.cme_rama_h =
      (calc_cime_locals (setup_vepu580_me regs sps slice) sps).cime_cacha_h ∧
    ((setup_vepu580_me regs sps slice).reg_base.me_cach.cme_rama_h - 1) *
        (setup_vepu580_me regs sps slice).reg_base.me_cach.cme_linebuf_w * 4 +
      (calc_cime_locals (setup_vepu580_me regs sps slice) sps).ramb_h * 4 *
        (calc_cime_locals (setup_vepu580_me regs sps slice) sps).cur_srch_16_w ≤ 2464 ∧
    (setup_vepu580_me regs sps slice).reg_base.me_cach.cme_rama_max =
      ((setup_vepu580_me regs sps slice).reg_base.me_cach.cme_rama_h - 1) *
        (setup_vepu580_me regs sps slice).reg_base.me_cach.cme_linebuf_w +
      (calc_cime_locals (setup_vepu580_me regs sps slice) sps).cur_srch_16_w ∧
    1 ≤ (calc_cime_locals (setup_vepu580_me regs sps slice) sps).cur_srch_16_w ∧
    (calc_cime_locals (setup_vepu580_me regs sps slice) sps).cur_srch_16_w ≤ 7 ∧
    (∀ r : HalVepu580RegSet,
      calc_cime_locals (calc_cime_parameter r sps) sps = calc_cime_locals r sps) := by
  obtain ⟨f1, f2, f3⟩ := me_cime_fields regs sps slice
  obtain ⟨r1, r2, r3, r4, r5, r6, r7, r8, r9, r10, r11⟩ :=
    me_cime_reachable regs sps slice hgx hgy hw0 hw1 hh0 hh1
  obtain ⟨hsv0, hsv⟩ := me_srch_v_range regs sps slice hh0 hh1
  rw [f1, f2, f3]
  refine ⟨by omega, rfl, rfl, r5, ?_, r3, r4, fun r => calc_cime_locals_idem r sps⟩
  obtain ⟨H, hH⟩ : ∃ H, H = (calc_cime_locals (setup_vepu580_me regs sps slice) sps).cime_cacha_h :=
    ⟨_, rfl⟩
  obtain ⟨w, hw⟩ : ∃ w, w = (calc_cime_locals (setup_vepu580_me regs sps slice) sps).linebuf_w :=
    ⟨_, rfl⟩
  rw [← hH] at r5 r6 r7 r8 r9 ⊢
  rw [← hw] at r1 r5 r8 r9 ⊢
  have hHle : H ≤ 15 := by
    by_cases h1 : 1 < (calc_cime_locals (setup_vepu580_me regs sps slice) sps).cur_srch_4_h
    · have := r7 h1
      omega
    · have h4 : (calc_cime_locals (setup_vepu580_me regs sps slice) sps).cur_srch_4_h = 1 := by
        omega
      by_cases hw6 : w ≤ 616
      · rw [r8 h4 hw6]; decide
      · rw [r9 h4 (by omega)]; decide
  have hwa : 0 ≤ w := by omega
  have hwb : w ≤ 33554431 := by omega
  have p0 : 0 ≤ (H - 1) * w := mul_nonneg (by omega) hwa
  have p1 : (H - 1) * w ≤ 14 * 33554431 := mul_le_mul (by omega) hwb hwa (by norm_num)
  rw [u32_of_range (H - 1) (by omega) (by omega), Int.ediv_one,
    u32_of_range _ (by omega) (by omega)]

/-- Witness of C32: 120x68 macroblocks at level 4.0 (the 1920x1080 scenario)
give `cme_srch_h = 11`, `cme_srch_v = 7`, `cme_linebuf_w = 16`,
`cur_srch_16_w = 7`, `cme_rama_h = 15`, `cme_rama_max = 231` and final
`ramb_h = 1`, a footprint of 14 * 16 * 4 + 1 * 4 * 7 = 924 <= 2464. -/
theorem me_cache_within_budget_1080p :
    ((setup_vepu580_me zero_regs sample_sps (sample_slice 0 [] [])).reg_base.me_rnge.cme_srch_h
        = 11 ∧
      (setup_vepu580_me zero_regs sample_sps (sample_slice 0 [] [])).reg_base.me_rnge.cme_srch_v
        = 7 ∧
      (setup_vepu580_me zero_regs sample_sps
        (sample_slice 0 [] [])).reg_base.me_cach.cme_linebuf_w = 16 ∧
      (setup_vepu580_me zero_regs sample_sps
        (sample_slice 0 [] [])).reg_base.me_cach.cme_rama_h = 15 ∧
      (setup_vepu580_me zero_regs sample_sps
        (sample_slice 0 [] [])).reg_base.me_cach.cme_rama_max = 231 ∧
      (calc_cime_locals (setup_vepu580_me zero_regs sample_sps (sample_slice 0 [] []))
        sample_sps).cur_srch_16_w = 7 ∧
      (calc_cime_locals (setup_vepu580_me zero_regs sample_sps (sample_slice 0 [] []))
        sample_sps).ramb_h = 1 ∧
      ((15 : Int) - 1) * 16 * 4 + 1 * 4 * 7 = 924) ∧
    ((setup_vepu580_me zero_regs sample_sps (sample_slice 0 [] [])).reg_base.me_cach.cme_rama_h
          - 1) *
        (setup_vepu580_me zero_regs sample_sps
          (sample_slice 0 [] [])).reg_base.me_cach.cme_linebuf_w * 4 +
      (calc_cime_locals (setup_vepu580_me zero_regs sample_sps (sample_slice 0 [] []))
        sample_sps).ramb_h * 4 *
        (calc_cime_locals (setup_vepu580_me zero_regs sample_sps (sample_slice 0 [] []))
          sample_sps).cur_srch_16_w ≤ 2464 :=
  ⟨by decide,
    (me_cache_within_budget zero_regs sample_sps (sample_slice 0 [] []) (by decide) (by decide)
      (by decide) (by decide) (by decide) (by decide)).2.2.2.1⟩

/-- C33 (defect in the code): with global motion vector 0, for every
`pic_width_in_mbs = mb_w >= 0` (up to 268435447, where the `RK_S32` arithmetic
does not overflow) `setup_vepu580_me` writes
`cme_linebuf_w = ((mb_w + 1) * 8 + 63) / 64`: the width in 64-pixel columns is
computed from 8 pixels per macroblock, not 16.  For `mb_w >= 9` the line buffer
is narrower than the picture, `cme_linebuf_w * 64 < 16 * mb_w`, and the value
equals `ceil(16 * mb_w / 64)` only for `mb_w` in {1, 2, 3, 4, 8}. -/
theorem me_linebuf_w_eight_per_mb (regs : HalVepu580RegSet) (sps : H264eSps)
    (slice : H264eSlice) (hgx : regs.reg_base.gmv.gmv_x = 0)
    (hw0 : 0 ≤ sps.pic_width_in_mbs) (hw1 : sps.pic_width_in_mbs ≤ 268435447) :
    (setup_vepu580_me regs sps slice).reg_base.me_cach.cme_linebuf_w =
      ((sps.pic_width_in_mbs + 1) * 8 + 63) / 64 ∧
    (9 ≤ sps.pic_width_in_mbs →
      (setup_vepu580_me regs sps slice).reg_base.me_cach.cme_linebuf_w * 64 <
        16 * sps.pic_width_in_mbs) ∧
    ((setup_vepu580_me regs sps slice).reg_base.me_cach.cme_linebuf_w =
        (16 * sps.pic_width_in_mbs + 63) / 64 ↔
      (1 ≤ sps.pic_width_in_mbs ∧ sps.pic_width_in_mbs ≤ 4) ∨ sps.pic_width_in_mbs = 8) := by
  have hg := (me_srch_raw regs sps slice).2.2
  obtain ⟨s0, s1⟩ := me_srch_h_range regs sps slice hw0 (by omega)
  have hl := cime_locals_linebuf (setup_vepu580_me regs sps slice) sps (by rw [hg]; exact hgx)
    s0 s1 hw0 hw1
  rw [(me_cime_fields regs sps slice).1, hl]
  refine ⟨rfl, ?_, ?_⟩
  · intro h9
    omega
  · omega

/-- Failing input of C33: the 1920x1080 scenario (120x68 macroblocks).  The
image produced by `hal_h264e_vepu580_gen_regs` has `cme_linebuf_w = 16`, that is
1024 pixels for a picture 1920 pixels wide, where `ceil(16 * 120 / 64) = 30`. -/
theorem me_linebuf_w_1080p :
    ((hal_h264e_vepu580_gen_regs sample_env
        (sample_ctx 1920 6 { change := 0, split_mode := 0, split_arg := 0 })
        (sample_task 6 4000000)).map
          (fun r => (r.1, r.2.1.regs_set.reg_base.me_cach.cme_linebuf_w,
            r.2.1.regs_set.reg_base.gmv.gmv_x)) = some (0, 16, 0) ∧
      (16 * (120 : Int) + 63) / 64 = 30 ∧ (16 : Int) * 64 < 16 * 120) ∧
    (setup_vepu580_me zero_regs sample_sps (sample_slice 0 [] [])).reg_base.me_cach.cme_linebuf_w
      = 16 :=
  ⟨by decide,
    (me_linebuf_w_eight_per_mb zero_regs sample_sps (sample_slice 0 [] []) (by decide)
      (by decide) (by decide)).1.trans (by decide)⟩

theorem cacha_loop_step (fuel : Nat) (M mx w c h r : Int) (h0 : 0 ≤ h)
    (hm : mx < 4294967296) (hlt : h < mx) (hfp : M > cime_cacha_footprint h 1 w r c) :
    cime_cacha_loop (fuel + 1) M 1 mx w c h r =
      cime_cacha_loop fuel M 1 mx w c (h + 1) (if r > 2 then u32 (r - 1) else 1) := by
  have e : u32 (h + 1) = h + 1 := u32_of_range _ (by omega) (by omega)
  have e2 : u32 (2 * 1) = 2 := by decide
  rw [cime_cacha_loop, if_pos ⟨hlt, hfp⟩, e, e2]

/-- C35: the cache-height loop of `calc_cime_parameter` terminates for every
input.  For all values of the budget, the required height `mx = cur_srch_4_h`
(an `RK_U32`), the line-buffer width, `cur_srch_16_w` and `ramb_h`, started at
height 1: an iteration whose condition holds continues from height + 1 (exactly
one more); with `mx - 1` iterations allowed the loop has left by its condition,
any further allowance gives the same result, and the height reached is at least
1 and at most 1 + (mx - 1).  For register images with global motion vector 0
and non-negative macroblock dimensions (in the non-overflow range) the image
produced by `setup_vepu580_me` has `cur_srch_4_h = 2 * cme_srch_v + 1`,
`cme_rama_h >= 1`, `cme_rama_h <= cur_srch_4_h` when `cur_srch_4_h > 1`, and,
when `cur_srch_4_h = 1`, `cme_rama_h = 2` for `cme_linebuf_w <= 616` and
`cme_rama_h = 1` for a wider line buffer. -/
theorem cime_cacha_loop_terminates (regs : HalVepu580RegSet) (sps : H264eSps)
    (slice : H264eSlice) :
    (∀ (fuel : Nat) (M mx w c h r : Int), 0 ≤ h → mx < 4294967296 → h < mx →
      M > cime_cacha_footprint h 1 w r c →
      cime_cacha_loop (fuel + 1) M 1 mx w c h r =
        cime_cacha_loop fuel M 1 mx w c (h + 1) (if r > 2 then u32 (r - 1) else 1)) ∧
    (∀ (M mx w c r : Int) (k : Nat), mx < 4294967296 →
      cime_cacha_loop ((mx - 1).toNat + k) M 1 mx w c 1 r =
        cime_cacha_loop (mx - 1).toNat M 1 mx w c 1 r ∧
      ¬ ((cime_cacha_loop (mx - 1).toNat M 1 mx w c 1 r).1 < mx ∧
        M > cime_cacha_footprint (cime_cacha_loop (mx - 1).toNat M 1 mx w c 1 r).1 1 w
          (cime_cacha_loop (mx - 1).toNat M 1 mx w c 1 r).2 c) ∧
      1 ≤ (cime_cacha_loop (mx - 1).toNat M 1 mx w c 1 r).1 ∧
      (cime_cacha_loop (mx - 1).toNat M 1 mx w c 1 r).1 - 1 ≤ (mx - 1).toNat) ∧
    (regs.reg_base.gmv.gmv_x = 0 → regs.reg_base.gmv.gmv_y = 0 →
      0 ≤ sps.pic_width_in_mbs → sps.pic_width_in_mbs ≤ 268435447 →
      0 ≤ sps.pic_height_in_mbs → sps.pic_height_in_mbs ≤ 134217724 →
      (calc_cime_locals (setup_vepu580_me regs sps slice) sps).cur_srch_4_h =
        2 * (setup_vepu580_me regs sps slice).reg_base.me_rnge.cme_srch_v + 1 ∧
      1 ≤ (setup_vepu580_me regs sps slice).reg_base.me_cach.cme_rama_h ∧
      (1 < (calc_cime_locals (setup_vepu580_me regs sps slice) sps).cur_srch_4_h →
        (setup_vepu580_me regs sps slice).reg_base.me_cach.cme_rama_h ≤
          (calc_cime_locals (setup_vepu580_me regs sps slice) sps).cur_srch_4_h) ∧
      ((calc_cime_locals (setup_vepu580_me regs sps slice) sps).cur_srch_4_h = 1 →
        (setup_vepu580_me regs sps slice).reg_base.me_cach.cme_linebuf_w ≤ 616 →
        (setup_vepu580_me regs sps slice).reg_base.me_cach.cme_rama_h = 2) ∧
      ((calc_cime_locals (setup_vepu580_me regs sps slice) sps).cur_srch_4_h = 1 →
        616 < (setup_vepu580_me regs sps slice).reg_base.me_cach.cme_linebuf_w →
        (setup_vepu580_me regs sps slice).reg_base.me_cach.cme_rama_h = 1)) := by
  refine ⟨cacha_loop_step, ?_, ?_⟩
  · intro M mx w c r k hm
    have hf : mx - 1 ≤ ((mx - 1).toNat : Int) := Int.self_le_toNat _
    obtain ⟨b1, _, b3⟩ := cacha_loop_bounds (mx - 1).toNat M mx w c 1 r (by omega) hm
    exact ⟨cacha_loop_fuel _ k M mx w c 1 r (by omega) hm hf,
      cacha_loop_exit _ M mx w c 1 r (by omega) hm hf, b1, b3⟩
  · intro hgx hgy hw0 hw1 hh0 hh1
    obtain ⟨f1, f2, _⟩ := me_cime_fields regs sps slice
    obtain ⟨_, r2, _, _, _, r6, r7, r8, r9, _, _⟩ :=
      me_cime_reachable regs sps slice hgx hgy hw0 hw1 hh0 hh1
    rw [f1, f2]
    exact ⟨r2, r6, r7, r8, r9⟩

/-- Witness of C35: 120x68 macroblocks at level 4.0 give `cur_srch_4_h = 15` and
`cme_rama_h = 15`, reached after 14 iterations; 16x1 macroblocks at level 1.0
give `cme_srch_v = 0`, `cur_srch_4_h = 1` (no iteration), `cme_linebuf_w = 3`
and `cme_rama_h = 2`. -/
theorem cime_cacha_loop_samples :
    ((setup_vepu580_me zero_regs sample_sps (sample_slice 0 [] [])).reg_base.me_cach.cme_rama_h
        = 15 ∧
      (calc_cime_locals (setup_vepu580_me zero_regs sample_sps (sample_slice 0 [] []))
        sample_sps).cur_srch_4_h = 15 ∧
      cime_cacha_loop 14 2464 1 15 16 7 1 15 = (15, 1) ∧
      (calc_cime_locals (setup_vepu580_me zero_regs
        { sample_sps with level_idc := 10, pic_width_in_mbs := 16, pic_height_in_mbs := 1 }
        (sample_slice 0 [] []))
        { sample_sps with level_idc := 10, pic_width_in_mbs := 16, pic_height_in_mbs := 1 }
        ).cur_srch_4_h = 1 ∧
      (setup_vepu580_me zero_regs
        { sample_sps with level_idc := 10, pic_width_in_mbs := 16, pic_height_in_mbs := 1 }
        (sample_slice 0 [] [])).reg_base.me_cach.cme_linebuf_w = 3) ∧
    (setup_vepu580_me zero_regs
      { sample_sps with level_idc := 10, pic_width_in_mbs := 16, pic_height_in_mbs := 1 }
      (sample_slice 0 [] [])).reg_base.me_cach.cme_rama_h = 2 :=
  ⟨by decide,
    ((cime_cacha_loop_terminates zero_regs
      { sample_sps with level_idc := 10, pic_width_in_mbs := 16, pic_height_in_mbs := 1 }
      (sample_slice 0 [] [])).2.2 (by decide) (by decide) (by decide) (by decide) (by decide)
      (by decide)).2.2.2.1 (by decide) (by decide)⟩


end Vepu580
